import Mathlib

/-!
# iproute2: flower classifier (tc/f_flower.c)

A shallow embedding of the masked-value parsing and printing code of
`tc/f_flower.c`.  C strings are `String`s, bytes are natural numbers below 256,
machine words are natural numbers reduced modulo `2^w` where the C code
truncates.  The host byte order is a parameter `le` (`true` on a little-endian
host).
-/

namespace Flower

/-! ## Byte order -/

/-- The two bytes of a 16-bit value, most significant first. -/
def be16_bytes (x : Nat) : List Nat := [x / 256 % 256, x % 256]

/-- The four bytes of a 32-bit value, most significant first. -/
def be32_bytes (x : Nat) : List Nat :=
  [x / 2 ^ 24 % 256, x / 2 ^ 16 % 256, x / 2 ^ 8 % 256, x % 256]

/-- The eight bytes of a 64-bit value, most significant first. -/
def be64_bytes (x : Nat) : List Nat :=
  [x / 2 ^ 56 % 256, x / 2 ^ 48 % 256, x / 2 ^ 40 % 256, x / 2 ^ 32 % 256,
   x / 2 ^ 24 % 256, x / 2 ^ 16 % 256, x / 2 ^ 8 % 256, x % 256]

/-- The value whose bytes, most significant first, are `bs`. -/
def of_be_bytes (bs : List Nat) : Nat := bs.foldl (fun acc b => acc * 256 + b) 0

/-- How a `__u16` lies in memory on the host. -/
def u16_mem (le : Bool) (x : Nat) : List Nat :=
  if le then (be16_bytes x).reverse else be16_bytes x

/-- How a `__u32` lies in memory on the host. -/
def u32_mem (le : Bool) (x : Nat) : List Nat :=
  if le then (be32_bytes x).reverse else be32_bytes x

/-- How a `uint64_t` lies in memory on the host. -/
def u64_mem (le : Bool) (x : Nat) : List Nat :=
  if le then (be64_bytes x).reverse else be64_bytes x

/-- Embeds `htons`: byte swap on a little-endian host, identity on a big-endian one. -/
def htons (le : Bool) (x : Nat) : Nat :=
  if le then of_be_bytes (be16_bytes x).reverse else x % 2 ^ 16

/-- Embeds `htonl`: byte swap on a little-endian host, identity on a big-endian one. -/
def htonl (le : Bool) (x : Nat) : Nat :=
  if le then of_be_bytes (be32_bytes x).reverse else x % 2 ^ 32

/-- Embeds `htonll`: byte swap on a little-endian host, identity on a big-endian one. -/
def htonll (le : Bool) (x : Nat) : Nat :=
  if le then of_be_bytes (be64_bytes x).reverse else x % 2 ^ 64

/-- Embeds `ntohs` is the same permutation as `htons`. -/
def ntohs (le : Bool) (x : Nat) : Nat := htons le x

/-! ## Bits of a byte string, most significant bit first -/

/-- The eight bits of a byte, bit 7 first: `((b >> j) & 0x1)` for `j = 7 .. 0`. -/
def byte_bits (b : Nat) : List Bool :=
  [b.testBit 7, b.testBit 6, b.testBit 5, b.testBit 4,
   b.testBit 3, b.testBit 2, b.testBit 1, b.testBit 0]

/-- A byte string read as a big-endian bit string. -/
def bits_msb : List Nat → List Bool
  | [] => []
  | b :: bs => byte_bits b ++ bits_msb bs

/-! ## `__mask_bits` (f_flower.c:1370) -/

/-- Loop state of `__mask_bits`: the locals `bits` and `hole`. -/
structure MaskScan where
  bits : Nat
  hole : Bool
  deriving DecidableEq, Repr

/-- The body of the inner loop of `__mask_bits` for one bit; `none` is the
early `return -1`. -/
def mask_bits_step (s : MaskScan) (bit : Bool) : Option MaskScan :=
  if bit then
    if s.hole then none else some { s with bits := s.bits + 1 }
  else if s.bits ≠ 0 then some { s with hole := true }
  else none

/-- The inner loop `for (j = 7; j >= 0; j--)` over the bits of `*addr`; `j + 1`
bits are still to be scanned. -/
def mask_bits_inner (b : Nat) : Nat → MaskScan → Option MaskScan
  | 0, s => some s
  | j + 1, s =>
    match mask_bits_step s (b.testBit j) with
    | none => none
    | some s1 => mask_bits_inner b j s1

/-- The outer loop `for (i = 0; i < len; i++, addr++)`. -/
def mask_bits_outer : List Nat → MaskScan → Option MaskScan
  | [], s => some s
  | b :: bs, s =>
    match mask_bits_inner b 8 s with
    | none => none
    | some s1 => mask_bits_outer bs s1

/-- Embeds `__mask_bits(addr, len)`: the number of leading one-bits of a mask that is a
clean prefix, `-1` otherwise. The byte string `addr` has `len` bytes. -/
def __mask_bits (addr : List Nat) : Int :=
  match mask_bits_outer addr { bits := 0, hole := false } with
  | none => -1
  | some s => (s.bits : Int)

/-! ## Mask construction of `__flower_parse_ip_addr` (f_flower.c:290-303) -/

/-- The loop `for (i = 0; i < addr.bytelen / 4; i++)` over the 32-bit words of
`addr.data`, threading the local `bits`. -/
def ip_mask_loop (le : Bool) : Nat → List Nat → List Nat
  | _, [] => []
  | bits, w :: ws =>
    if bits = 0 then
      0 :: ip_mask_loop le bits ws
    else if bits / 32 ≥ 1 then
      w :: ip_mask_loop le (bits - 32) ws
    else
      htonl le ((w <<< (32 - bits)) % 2 ^ 32) :: ip_mask_loop le 0 ws

/-- The `bytelen` mask bytes handed to `addattr_l`: `memset(addr.data, 0xff,
bytelen)`, then the word loop, then the first `bytelen` bytes of `addr.data`. -/
def ip_prefix_mask (le : Bool) (bytelen bitlen : Nat) : List Nat :=
  let words := ip_mask_loop le bitlen (List.replicate (bytelen / 4) 0xffffffff)
  ((words.map (u32_mem le)).flatten ++ List.replicate (bytelen % 4) 0xff).take bytelen

/-- The bit-level reading of `__mask_bits`: the loop body folded over a bit
string. -/
def mask_scan : List Bool → MaskScan → Option MaskScan
  | [], s => some s
  | b :: bs, s =>
    match mask_bits_step s b with
    | none => none
    | some s1 => mask_scan bs s1

/-! ## Constants of the kernel interface

The numeric constants below come from the kernel headers the file includes
(`linux/if_ether.h`, `linux/in.h`, `linux/mpls.h`, `linux/pkt_sched.h`);
attribute identifiers are kept symbolic. -/

/-- Attribute identifiers used by `f_flower.c` (`TCA_OPTIONS` and the
`TCA_FLOWER_*` enumeration of `linux/pkt_cls.h`), kept symbolic. -/
inductive AttrId where
  | TCA_OPTIONS
  | TCA_FLOWER_UNSPEC
  | TCA_FLOWER_CLASSID
  | TCA_FLOWER_INDEV
  | TCA_FLOWER_ACT
  | TCA_FLOWER_FLAGS
  | TCA_FLOWER_KEY_ETH_DST
  | TCA_FLOWER_KEY_ETH_DST_MASK
  | TCA_FLOWER_KEY_ETH_SRC
  | TCA_FLOWER_KEY_ETH_SRC_MASK
  | TCA_FLOWER_KEY_ETH_TYPE
  | TCA_FLOWER_KEY_IP_PROTO
  | TCA_FLOWER_KEY_IPV4_SRC
  | TCA_FLOWER_KEY_IPV4_SRC_MASK
  | TCA_FLOWER_KEY_IPV4_DST
  | TCA_FLOWER_KEY_IPV4_DST_MASK
  | TCA_FLOWER_KEY_IPV6_SRC
  | TCA_FLOWER_KEY_IPV6_SRC_MASK
  | TCA_FLOWER_KEY_IPV6_DST
  | TCA_FLOWER_KEY_IPV6_DST_MASK
  | TCA_FLOWER_KEY_TCP_SRC
  | TCA_FLOWER_KEY_TCP_DST
  | TCA_FLOWER_KEY_UDP_SRC
  | TCA_FLOWER_KEY_UDP_DST
  | TCA_FLOWER_KEY_SCTP_SRC
  | TCA_FLOWER_KEY_SCTP_DST
  | TCA_FLOWER_KEY_PORT_SRC_MIN
  | TCA_FLOWER_KEY_PORT_SRC_MAX
  | TCA_FLOWER_KEY_PORT_DST_MIN
  | TCA_FLOWER_KEY_PORT_DST_MAX
  | TCA_FLOWER_KEY_VLAN_ID
  | TCA_FLOWER_KEY_VLAN_PRIO
  | TCA_FLOWER_KEY_VLAN_ETH_TYPE
  | TCA_FLOWER_KEY_CVLAN_ID
  | TCA_FLOWER_KEY_CVLAN_PRIO
  | TCA_FLOWER_KEY_CVLAN_ETH_TYPE
  | TCA_FLOWER_KEY_MPLS_LABEL
  | TCA_FLOWER_KEY_MPLS_TC
  | TCA_FLOWER_KEY_MPLS_BOS
  | TCA_FLOWER_KEY_MPLS_TTL
  | TCA_FLOWER_KEY_IP_TOS
  | TCA_FLOWER_KEY_IP_TOS_MASK
  | TCA_FLOWER_KEY_IP_TTL
  | TCA_FLOWER_KEY_IP_TTL_MASK
  | TCA_FLOWER_KEY_TCP_FLAGS
  | TCA_FLOWER_KEY_TCP_FLAGS_MASK
  | TCA_FLOWER_KEY_ICMPV4_TYPE
  | TCA_FLOWER_KEY_ICMPV4_TYPE_MASK
  | TCA_FLOWER_KEY_ICMPV4_CODE
  | TCA_FLOWER_KEY_ICMPV4_CODE_MASK
  | TCA_FLOWER_KEY_ICMPV6_TYPE
  | TCA_FLOWER_KEY_ICMPV6_TYPE_MASK
  | TCA_FLOWER_KEY_ICMPV6_CODE
  | TCA_FLOWER_KEY_ICMPV6_CODE_MASK
  | TCA_FLOWER_KEY_ARP_SIP
  | TCA_FLOWER_KEY_ARP_SIP_MASK
  | TCA_FLOWER_KEY_ARP_TIP
  | TCA_FLOWER_KEY_ARP_TIP_MASK
  | TCA_FLOWER_KEY_ARP_OP
  | TCA_FLOWER_KEY_ARP_OP_MASK
  | TCA_FLOWER_KEY_ARP_SHA
  | TCA_FLOWER_KEY_ARP_SHA_MASK
  | TCA_FLOWER_KEY_ARP_THA
  | TCA_FLOWER_KEY_ARP_THA_MASK
  | TCA_FLOWER_KEY_ENC_KEY_ID
  | TCA_FLOWER_KEY_ENC_IPV4_SRC
  | TCA_FLOWER_KEY_ENC_IPV4_SRC_MASK
  | TCA_FLOWER_KEY_ENC_IPV4_DST
  | TCA_FLOWER_KEY_ENC_IPV4_DST_MASK
  | TCA_FLOWER_KEY_ENC_IPV6_SRC
  | TCA_FLOWER_KEY_ENC_IPV6_SRC_MASK
  | TCA_FLOWER_KEY_ENC_IPV6_DST
  | TCA_FLOWER_KEY_ENC_IPV6_DST_MASK
  | TCA_FLOWER_KEY_ENC_UDP_DST_PORT
  | TCA_FLOWER_KEY_ENC_IP_TOS
  | TCA_FLOWER_KEY_ENC_IP_TOS_MASK
  | TCA_FLOWER_KEY_ENC_IP_TTL
  | TCA_FLOWER_KEY_ENC_IP_TTL_MASK
  | TCA_FLOWER_KEY_ENC_OPTS
  | TCA_FLOWER_KEY_ENC_OPTS_MASK
  | TCA_FLOWER_KEY_ENC_OPTS_GENEVE
  | TCA_FLOWER_KEY_ENC_OPT_GENEVE_CLASS
  | TCA_FLOWER_KEY_ENC_OPT_GENEVE_TYPE
  | TCA_FLOWER_KEY_ENC_OPT_GENEVE_DATA
  | TCA_FLOWER_KEY_FLAGS
  | TCA_FLOWER_KEY_FLAGS_MASK
  | TCA_FLOWER_IN_HW_COUNT
  deriving DecidableEq, Repr

def ETH_ALEN : Nat := 6
def ETH_P_ALL : Nat := 0x0003
def ETH_P_IP : Nat := 0x0800
def ETH_P_ARP : Nat := 0x0806
def ETH_P_RARP : Nat := 0x8035
def ETH_P_8021Q : Nat := 0x8100
def ETH_P_IPV6 : Nat := 0x86DD
def ETH_P_8021AD : Nat := 0x88A8
def ETH_P_MPLS_UC : Nat := 0x8847
def ETH_P_MPLS_MC : Nat := 0x8848

def IPPROTO_ICMP : Nat := 1
def IPPROTO_TCP : Nat := 6
def IPPROTO_UDP : Nat := 17
def IPPROTO_ICMPV6 : Nat := 58
def IPPROTO_SCTP : Nat := 132

def AF_UNSPEC : Nat := 0
def AF_INET : Nat := 2
def AF_INET6 : Nat := 10

def ARPOP_REQUEST : Nat := 1
def ARPOP_REPLY : Nat := 2

def MPLS_LS_LABEL_MASK : Nat := 0xFFFFF000
def MPLS_LS_LABEL_SHIFT : Nat := 12
def MPLS_LS_TC_MASK : Nat := 0x00000E00
def MPLS_LS_TC_SHIFT : Nat := 9
def MPLS_LS_S_MASK : Nat := 0x00000100
def MPLS_LS_S_SHIFT : Nat := 8
def MPLS_LS_TTL_MASK : Nat := 0x000000FF
def MPLS_LS_TTL_SHIFT : Nat := 0

def TCA_CLS_FLAGS_SKIP_HW : Nat := 1
def TCA_CLS_FLAGS_SKIP_SW : Nat := 2
def TCA_CLS_FLAGS_IN_HW : Nat := 4
def TCA_CLS_FLAGS_NOT_IN_HW : Nat := 8
def TCA_CLS_FLAGS_VERBOSE : Nat := 16

def TCA_FLOWER_KEY_FLAGS_IS_FRAGMENT : Nat := 1
def TCA_FLOWER_KEY_FLAGS_FRAG_IS_FIRST : Nat := 2

def TC_QOPT_MAX_QUEUE : Nat := 16
def TC_H_MIN_PRIORITY : Nat := 0xFFE0
def XATTR_SIZE_MAX : Nat := 65536
def UINT8_MAX : Nat := 255

/-- Embeds `TC_H_MAJ(h)`: the upper 16 bits of a 32-bit handle, in place. -/
def TC_H_MAJ (h : Nat) : Nat := h % 2 ^ 32 / 2 ^ 16 * 2 ^ 16

/-- Embeds `TC_H_MIN(h)`: the lower 16 bits of a handle. -/
def TC_H_MIN (h : Nat) : Nat := h % 2 ^ 16

/-- Embeds `TC_H_MAKE(maj, min)`. -/
def TC_H_MAKE (maj min : Nat) : Nat := TC_H_MAJ maj + TC_H_MIN min

/-- Embeds `x & ~m` on 32-bit operands. -/
def and_not32 (x m : Nat) : Nat := (x % 2 ^ 32) &&& ((2 ^ 32 - 1) ^^^ (m % 2 ^ 32))

/-! ## Netlink message under construction -/

/-- One attribute record: its length field (header plus unpadded payload), its
identifier and its payload bytes. -/
structure rtattr where
  rta_len : Nat
  rta_type : AttrId
  data : List Nat
  deriving DecidableEq, Repr

/-- The request being built: `nlmsg_len`, the fields of the `tcmsg` body that
`flower_parse_opt` reads or writes, and the attribute records appended so far
in order. -/
structure nlmsghdr where
  nlmsg_len : Nat
  tcm_handle : Nat
  tcm_parent : Nat
  tcm_info : Nat
  attrs : List rtattr
  deriving DecidableEq, Repr

/-- Embeds `NLMSG_ALIGN` / `RTA_ALIGN`: round up to the 4-byte alignment unit. -/
def NLMSG_ALIGN (len : Nat) : Nat := (len + 3) / 4 * 4

/-- Embeds `RTA_LENGTH(len)`: aligned 4-byte attribute header plus payload. -/
def RTA_LENGTH (len : Nat) : Nat := 4 + len

/-- Modelled from the spec: `addattr_l` of lib/libnetlink.c is not part of the
sources at hand. Following the wire format (4-byte aligned `len, type, payload,
padding` records whose length field measures header plus unpadded payload) and
the codec contract (appending fails when the remaining capacity is
insufficient), it appends one record at the aligned end of the message and
returns 0, or returns -1 and leaves the message alone when the record does not
fit in `maxlen`. -/
def addattr_l (n : nlmsghdr) (maxlen : Nat) (type : AttrId) (data : List Nat) :
    Int × nlmsghdr :=
  let len := RTA_LENGTH data.length
  if NLMSG_ALIGN n.nlmsg_len + NLMSG_ALIGN len > maxlen then (-1, n)
  else (0, { n with
    nlmsg_len := NLMSG_ALIGN n.nlmsg_len + NLMSG_ALIGN len
    attrs := n.attrs ++ [{ rta_len := len, rta_type := type, data := data }] })

/-- Modelled from the spec: `addattr8` (scalar record of one byte). -/
def addattr8 (n : nlmsghdr) (maxlen : Nat) (type : AttrId) (data : Nat) : Int × nlmsghdr :=
  addattr_l n maxlen type [data % 256]

/-- Modelled from the spec: `addattr16` (the two bytes of a `__u16` as they lie
in host memory). -/
def addattr16 (le : Bool) (n : nlmsghdr) (maxlen : Nat) (type : AttrId) (data : Nat) :
    Int × nlmsghdr :=
  addattr_l n maxlen type (u16_mem le data)

/-- Modelled from the spec: `addattr32` (the four bytes of a `__u32` as they lie
in host memory). -/
def addattr32 (le : Bool) (n : nlmsghdr) (maxlen : Nat) (type : AttrId) (data : Nat) :
    Int × nlmsghdr :=
  addattr_l n maxlen type (u32_mem le data)

/-! ## Outcomes and external helpers -/

/-- How a parsing function can end other than by returning 0: `err` is
`return -1` (the caller gives up the request), `exit` is a call of `exit()`
through `invarg`, `incomplete_command` or `get_prefix`, and `undefined` marks an
operation whose behaviour the C language leaves undefined. -/
inductive Fail where
  | err
  | exit
  | undefined
  deriving DecidableEq, Repr

deriving instance DecidableEq for Except

/-- An address with prefix length as `get_prefix` returns it. -/
structure inet_prefix where
  family : Nat
  bytelen : Nat
  bitlen : Nat
  data : List Nat
  deriving DecidableEq, Repr

/-- The helpers from outside `f_flower.c` that the parsing code calls, and the
two platform parameters. A helper that reports failure by a non-zero return is
an `Option`; the value it stores is truncated to the width of the C variable at
the place of use. -/
structure Ext where
  /-- Whether the host is little-endian. -/
  le : Bool
  /-- Buffer size passed to every `addattr` call. -/
  MAX_MSG : Nat
  /-- Embeds `matches(cmd, pattern) == 0`. -/
  matches_cmd : String → String → Bool
  get_u8 : String → Nat → Option Nat
  get_u16 : String → Nat → Option Nat
  get_u32 : String → Nat → Option Nat
  get_unsigned : String → Nat → Option Nat
  get_be16 : String → Nat → Option Nat
  get_be32 : String → Nat → Option Nat
  /-- Embeds `ll_addr_a2n(buf, len, str)`: the bytes written to the start of `buf`. -/
  ll_addr_a2n : String → Nat → Option (List Nat)
  ll_proto_a2n : String → Option Nat
  /-- Embeds `get_prefix(&addr, str, family)`; it leaves the process on a bad prefix. -/
  get_prefix : String → Nat → Except Fail inet_prefix
  get_tc_classid : String → Option Nat
  /-- Embeds `strtoul(str, &end, base)`: the value and the unparsed rest. -/
  strtoul : String → Nat → Nat × String
  /-- Embeds `check_ifname(str) != 0`. -/
  check_ifname_bad : String → Bool
  /-- Embeds `hex2mem(str, buf, count)`: the bytes written, `none` for a negative return. -/
  hex2mem : String → Nat → Option (List Nat)
  /-- Embeds `parse_action(&argc, &argv, tca_id, n)`: how many arguments it consumed, and
  the message; `none` for a non-zero return. -/
  parse_action : List String → AttrId → nlmsghdr → Option (Nat × nlmsghdr)
  /-- Contents of an uninitialised local buffer of the given size. -/
  stack : Nat → List Nat

/-- Scanning a character array for the first `c`: the characters before it, and
those after it when `c` occurs. -/
def cut_chars (c : Char) : List Char → List Char × Option (List Char)
  | [] => ([], none)
  | x :: xs =>
    if x = c then ([], some xs)
    else ((cut_chars c xs).1.cons x, (cut_chars c xs).2)

/-- Embeds `strchr(str, c)` and the cut `*p = 0` made there: the text before the first
`c`, and the text after it when `c` occurs. -/
def cut_at (c : Char) (str : String) : String × Option String :=
  (String.mk (cut_chars c str.data).1, (cut_chars c str.data).2.map String.mk)

/-- Splits a character array at every `c`. -/
def split_chars (c : Char) : List Char → List (List Char)
  | [] => [[]]
  | x :: xs =>
    match split_chars c xs with
    | [] => [[]]
    | f :: fs => if x = c then [] :: f :: fs else (x :: f) :: fs

/-- Writing `new` over the start of a buffer `buf`, the buffer keeping its size. -/
def overlay (buf new : List Nat) : List Nat :=
  (new ++ buf.drop new.length).take buf.length

/-- A local `char addr[ETH_ALEN]` before it is written. -/
def eth_buf (E : Ext) : List Nat :=
  ((E.stack ETH_ALEN).map (fun b => b % 256) ++ List.replicate ETH_ALEN 0).take ETH_ALEN

/-! ## Masked-value parsers -/

/-- The mask of `LLADDR/BITS` in `flower_parse_eth_addr` (f_flower.c:116-123):
`mask = htonll(0xffffffffffffULL << (16 + 48 - bits)); memcpy(addr, &mask,
ETH_ALEN)`. The shift count `16 + 48 - bits` is computed in `unsigned`; a count
of 64 or more on the 64-bit operand is undefined in C (`none`). -/
def eth_prefix_mask (le : Bool) (bits : Nat) : Option (List Nat) :=
  let count := (16 + 48 + 2 ^ 32 - bits % 2 ^ 32) % 2 ^ 32
  if count ≥ 64 then none
  else
    let mask := htonll le ((0xffffffffffff <<< count) % 2 ^ 64)
    some ((u64_mem le mask).take ETH_ALEN)

/-- Embeds `flower_parse_eth_addr` (f_flower.c:95). -/
def flower_parse_eth_addr (E : Ext) (str : String) (addr_type mask_type : AttrId)
    (n : nlmsghdr) : Except Fail nlmsghdr :=
  let (s, slash) := cut_at '/' str
  match E.ll_addr_a2n s ETH_ALEN with
  | none => .error .err
  | some a =>
    let addr := overlay (eth_buf E) a
    let n1 := (addattr_l n E.MAX_MSG addr_type addr).2
    match slash with
    | some m =>
      match E.get_unsigned m 10 with
      | some bits =>
        match eth_prefix_mask E.le bits with
        | none => .error .undefined
        | some mask => .ok (addattr_l n1 E.MAX_MSG mask_type (overlay addr mask)).2
      | none =>
        match E.ll_addr_a2n m ETH_ALEN with
        | none => .error .err
        | some a2 => .ok (addattr_l n1 E.MAX_MSG mask_type (overlay addr a2)).2
    | none =>
      .ok (addattr_l n1 E.MAX_MSG mask_type (List.replicate ETH_ALEN 0xff)).2

/-- Embeds `flower_parse_u8` (f_flower.c:352). The callbacks `value_from_name` and
`value_validate` may be `NULL` (`none`). -/
def flower_parse_u8 (E : Ext) (str : String) (value_type mask_type : AttrId)
    (value_from_name : Option (String → Option Nat))
    (value_validate : Option (Nat → Bool)) (n : nlmsghdr) : Except Fail nlmsghdr :=
  let (s, slash) := cut_at '/' str
  let named : Option Nat :=
    match value_from_name with
    | some f => f s
    | none => none
  let parsed : Option Nat :=
    match named with
    | some v => some v
    | none => E.get_u8 s 10
  match parsed with
  | none => .error .err
  | some v =>
    let value := v % 256
    let valid : Bool :=
      match value_validate with
      | some f => f value
      | none => true
    if !valid then .error .err
    else
      let mask? : Option Nat :=
        match slash with
        | some m => (E.get_u8 m 10).map (fun x => x % 256)
        | none => some UINT8_MAX
      match mask? with
      | none => .error .err
      | some mask =>
        let n1 := (addattr8 n E.MAX_MSG value_type value).2
        .ok (addattr8 n1 E.MAX_MSG mask_type mask).2

/-- Embeds `TCP_FLAGS_MAX_MASK` (f_flower.c:583). -/
def TCP_FLAGS_MAX_MASK : Nat := 0xfff

/-- Embeds `flower_parse_tcp_flags` (f_flower.c:585). -/
def flower_parse_tcp_flags (E : Ext) (str : String) (flags_type mask_type : AttrId)
    (n : nlmsghdr) : Except Fail nlmsghdr :=
  let (s, slash) := cut_at '/' str
  match E.get_u16 s 16 with
  | none => .error .err
  | some v =>
    let flags := v % 2 ^ 16
    if and_not32 flags TCP_FLAGS_MAX_MASK ≠ 0 then .error .err
    else
      let n1 := (addattr16 E.le n E.MAX_MSG flags_type (htons E.le flags)).2
      match slash with
      | some m =>
        match E.get_u16 m 16 with
        | none => .error .err
        | some v2 =>
          let flags2 := v2 % 2 ^ 16
          if and_not32 flags2 TCP_FLAGS_MAX_MASK ≠ 0 then .error .err
          else .ok (addattr16 E.le n1 E.MAX_MSG mask_type (htons E.le flags2)).2
      | none =>
        .ok (addattr16 E.le n1 E.MAX_MSG mask_type (htons E.le TCP_FLAGS_MAX_MASK)).2

/-- Embeds `flower_parse_ip_tos_ttl` (f_flower.c:619). -/
def flower_parse_ip_tos_ttl (E : Ext) (str : String) (key_type mask_type : AttrId)
    (n : nlmsghdr) : Except Fail nlmsghdr :=
  let (s, slash) := cut_at '/' str
  let parsed : Option Nat :=
    match E.get_u8 s 10 with
    | some v => some v
    | none => E.get_u8 s 16
  match parsed with
  | none => .error .err
  | some v =>
    let n1 := (addattr8 n E.MAX_MSG key_type (v % 256)).2
    match slash with
    | some m =>
      match E.get_u8 m 16 with
      | none => .error .err
      | some v2 => .ok (addattr8 n1 E.MAX_MSG mask_type (v2 % 256)).2
    | none => .ok (addattr8 n1 E.MAX_MSG mask_type 0xff).2

/-! ## Gated field parsers -/

/-- Embeds `eth_type_vlan` (f_flower.c:143). -/
def eth_type_vlan (le : Bool) (ethertype : Nat) : Bool :=
  ethertype == htons le ETH_P_8021Q || ethertype == htons le ETH_P_8021AD

/-- Embeds `flower_parse_vlan_eth_type` (f_flower.c:149): the new `*p_vlan_eth_type` and
the message. A name that `ll_proto_a2n` rejects ends in `invarg`. -/
def flower_parse_vlan_eth_type (E : Ext) (str : String) (eth_type : Nat) (type : AttrId)
    (n : nlmsghdr) : Except Fail (Nat × nlmsghdr) :=
  if !eth_type_vlan E.le eth_type then .error .err
  else
    match E.ll_proto_a2n str with
    | none => .error .exit
    | some p =>
      let vlan_eth_type := p % 2 ^ 16
      .ok (vlan_eth_type, (addattr16 E.le n E.MAX_MSG type vlan_eth_type).2)

/-- The table `flags_str` (f_flower.c:174) for the only flag kind,
`FLOWER_IP_FLAGS`. -/
def flags_str : List (Nat × String) :=
  [(TCA_FLOWER_KEY_FLAGS_IS_FRAGMENT, "frag"), (TCA_FLOWER_KEY_FLAGS_FRAG_IS_FIRST, "firstfrag")]

/-- The tokens `strtok(str, "/")` yields: the non-empty pieces between slashes. -/
def strtok_slash (str : String) : List String :=
  ((split_chars '/' str.data).filter (fun t => !t.isEmpty)).map String.mk

/-- The body of the `while (token)` loop of `flower_parse_matching_flags` for one
token. -/
def matching_flag_token (token : String) (mtf mtf_mask : Nat) : Option (Nat × Nat) :=
  let no : Bool := "no".data.isPrefixOf token.data
  let name : String := if no then String.mk (token.data.drop 2) else token
  match flags_str.find? (fun e => e.2 == name) with
  | none => none
  | some (flag, _) =>
    let mtf1 := if no then and_not32 mtf flag else (mtf ||| flag) % 2 ^ 32
    some (mtf1, (mtf_mask ||| flag) % 2 ^ 32)

/-- Embeds `flower_parse_matching_flags` (f_flower.c:179) for `FLOWER_IP_FLAGS`: the new
`*mtf` and `*mtf_mask`, `none` for `return -1`. -/
def flower_parse_matching_flags (str : String) (mtf mtf_mask : Nat) : Option (Nat × Nat) :=
  (strtok_slash str).foldl
    (fun acc token => acc.bind fun (m, k) => matching_flag_token token m k)
    (some (mtf, mtf_mask))

/-- Embeds `flower_parse_ip_proto` (f_flower.c:223): the new `*p_ip_proto` and the
message. -/
def flower_parse_ip_proto (E : Ext) (str : String) (eth_type : Nat) (type : AttrId)
    (n : nlmsghdr) : Except Fail (Nat × nlmsghdr) :=
  if eth_type ≠ htons E.le ETH_P_IP ∧ eth_type ≠ htons E.le ETH_P_IPV6 then .error .err
  else
    let proto : Except Fail Nat :=
      if E.matches_cmd str "tcp" then .ok IPPROTO_TCP
      else if E.matches_cmd str "udp" then .ok IPPROTO_UDP
      else if E.matches_cmd str "sctp" then .ok IPPROTO_SCTP
      else if E.matches_cmd str "icmp" then
        if eth_type ≠ htons E.le ETH_P_IP then .error .err else .ok IPPROTO_ICMP
      else if E.matches_cmd str "icmpv6" then
        if eth_type ≠ htons E.le ETH_P_IPV6 then .error .err else .ok IPPROTO_ICMPV6
      else
        match E.get_u8 str 16 with
        | none => .error .err
        | some v => .ok (v % 256)
    match proto with
    | .error e => .error e
    | .ok ip_proto => .ok (ip_proto, (addattr8 n E.MAX_MSG type ip_proto).2)

/-- Embeds `__flower_parse_ip_addr` (f_flower.c:265). -/
def __flower_parse_ip_addr (E : Ext) (str : String) (family : Nat)
    (addr4_type mask4_type addr6_type mask6_type : AttrId) (n : nlmsghdr) :
    Except Fail nlmsghdr :=
  match E.get_prefix str family with
  | .error e => .error e
  | .ok addr =>
    if family ≠ 0 ∧ addr.family ≠ family then .error .err
    else
      let bytes := (addr.data ++ List.replicate addr.bytelen 0).take addr.bytelen
      let n1 := (addattr_l n E.MAX_MSG
        (if addr.family = AF_INET then addr4_type else addr6_type) bytes).2
      .ok (addattr_l n1 E.MAX_MSG
        (if addr.family = AF_INET then mask4_type else mask6_type)
        (ip_prefix_mask E.le addr.bytelen addr.bitlen)).2

/-- Embeds `flower_parse_ip_addr` (f_flower.c:313). -/
def flower_parse_ip_addr (E : Ext) (str : String) (eth_type : Nat)
    (addr4_type mask4_type addr6_type mask6_type : AttrId) (n : nlmsghdr) :
    Except Fail nlmsghdr :=
  if eth_type = htons E.le ETH_P_IP then
    __flower_parse_ip_addr E str AF_INET addr4_type mask4_type addr6_type mask6_type n
  else if eth_type = htons E.le ETH_P_IPV6 then
    __flower_parse_ip_addr E str AF_INET6 addr4_type mask4_type addr6_type mask6_type n
  else if eth_type = 0 then
    __flower_parse_ip_addr E str AF_UNSPEC addr4_type mask4_type addr6_type mask6_type n
  else .error .err

/-- Embeds `flower_eth_type_arp` (f_flower.c:336). -/
def flower_eth_type_arp (le : Bool) (eth_type : Nat) : Bool :=
  eth_type == htons le ETH_P_ARP || eth_type == htons le ETH_P_RARP

/-- Embeds `flower_parse_arp_ip_addr` (f_flower.c:341). -/
def flower_parse_arp_ip_addr (E : Ext) (str : String) (eth_type : Nat)
    (addr_type mask_type : AttrId) (n : nlmsghdr) : Except Fail nlmsghdr :=
  if !flower_eth_type_arp E.le eth_type then .error .err
  else __flower_parse_ip_addr E str AF_INET addr_type mask_type
    .TCA_FLOWER_UNSPEC .TCA_FLOWER_UNSPEC n

/-- Embeds `flower_arp_op_from_name` (f_flower.c:407). -/
def flower_arp_op_from_name (name : String) : Option Nat :=
  if name = "request" then some ARPOP_REQUEST
  else if name = "reply" then some ARPOP_REPLY
  else none

/-- Embeds `flow_arp_op_validate` (f_flower.c:419). -/
def flow_arp_op_validate (op : Nat) : Bool :=
  op == 0 || op == ARPOP_REQUEST || op == ARPOP_REPLY

/-- Embeds `flower_parse_arp_op` (f_flower.c:424). -/
def flower_parse_arp_op (E : Ext) (str : String) (eth_type : Nat)
    (op_type mask_type : AttrId) (n : nlmsghdr) : Except Fail nlmsghdr :=
  if !flower_eth_type_arp E.le eth_type then .error .err
  else flower_parse_u8 E str op_type mask_type (some flower_arp_op_from_name)
    (some flow_arp_op_validate) n

/-- The two fields of `enum flower_icmp_field`. -/
inductive flower_icmp_field where
  | FLOWER_ICMP_FIELD_TYPE
  | FLOWER_ICMP_FIELD_CODE
  deriving DecidableEq, Repr

/-- The two members of `enum flower_endpoint`. -/
inductive flower_endpoint where
  | FLOWER_ENDPOINT_SRC
  | FLOWER_ENDPOINT_DST
  deriving DecidableEq, Repr

/-- Embeds `flower_icmp_attr_type` (f_flower.c:435); `none` is the return value -1. -/
def flower_icmp_attr_type (le : Bool) (eth_type ip_proto : Nat) (field : flower_icmp_field) :
    Option AttrId :=
  if eth_type = htons le ETH_P_IP ∧ ip_proto = IPPROTO_ICMP then
    some (if field = .FLOWER_ICMP_FIELD_CODE then .TCA_FLOWER_KEY_ICMPV4_CODE
      else .TCA_FLOWER_KEY_ICMPV4_TYPE)
  else if eth_type = htons le ETH_P_IPV6 ∧ ip_proto = IPPROTO_ICMPV6 then
    some (if field = .FLOWER_ICMP_FIELD_CODE then .TCA_FLOWER_KEY_ICMPV6_CODE
      else .TCA_FLOWER_KEY_ICMPV6_TYPE)
  else none

/-- Embeds `flower_icmp_attr_mask_type` (f_flower.c:450); `none` is the return value -1. -/
def flower_icmp_attr_mask_type (le : Bool) (eth_type ip_proto : Nat)
    (field : flower_icmp_field) : Option AttrId :=
  if eth_type = htons le ETH_P_IP ∧ ip_proto = IPPROTO_ICMP then
    some (if field = .FLOWER_ICMP_FIELD_CODE then .TCA_FLOWER_KEY_ICMPV4_CODE_MASK
      else .TCA_FLOWER_KEY_ICMPV4_TYPE_MASK)
  else if eth_type = htons le ETH_P_IPV6 ∧ ip_proto = IPPROTO_ICMPV6 then
    some (if field = .FLOWER_ICMP_FIELD_CODE then .TCA_FLOWER_KEY_ICMPV6_CODE_MASK
      else .TCA_FLOWER_KEY_ICMPV6_TYPE_MASK)
  else none

/-- Embeds `flower_parse_icmp` (f_flower.c:465). -/
def flower_parse_icmp (E : Ext) (str : String) (eth_type ip_proto : Nat)
    (field : flower_icmp_field) (n : nlmsghdr) : Except Fail nlmsghdr :=
  match flower_icmp_attr_type E.le eth_type ip_proto field,
      flower_icmp_attr_mask_type E.le eth_type ip_proto field with
  | some value_type, some mask_type => flower_parse_u8 E str value_type mask_type none none n
  | _, _ => .error .err

/-- Embeds `flower_port_attr_type` (f_flower.c:478); `none` is the return value -1. -/
def flower_port_attr_type (ip_proto : Nat) (endpoint : flower_endpoint) : Option AttrId :=
  if ip_proto = IPPROTO_TCP then
    some (if endpoint = .FLOWER_ENDPOINT_SRC then .TCA_FLOWER_KEY_TCP_SRC
      else .TCA_FLOWER_KEY_TCP_DST)
  else if ip_proto = IPPROTO_UDP then
    some (if endpoint = .FLOWER_ENDPOINT_SRC then .TCA_FLOWER_KEY_UDP_SRC
      else .TCA_FLOWER_KEY_UDP_DST)
  else if ip_proto = IPPROTO_SCTP then
    some (if endpoint = .FLOWER_ENDPOINT_SRC then .TCA_FLOWER_KEY_SCTP_SRC
      else .TCA_FLOWER_KEY_SCTP_DST)
  else none

/-- Embeds `flower_port_range_attr_type` (f_flower.c:498): the MIN and MAX ids, `none`
for the return value -1. -/
def flower_port_range_attr_type (ip_proto : Nat) (type : flower_endpoint) :
    Option (AttrId × AttrId) :=
  if ip_proto = IPPROTO_TCP ∨ ip_proto = IPPROTO_UDP ∨ ip_proto = IPPROTO_SCTP then
    if type = .FLOWER_ENDPOINT_SRC then
      some (.TCA_FLOWER_KEY_PORT_SRC_MIN, .TCA_FLOWER_KEY_PORT_SRC_MAX)
    else some (.TCA_FLOWER_KEY_PORT_DST_MIN, .TCA_FLOWER_KEY_PORT_DST_MAX)
  else none

/-- Embeds `parse_range` (f_flower.c:518): the new `*min` and `*max` (both `__be16`),
given their values on entry. -/
def parse_range (E : Ext) (str : String) (_min max : Nat) : Option (Nat × Nat) :=
  match cut_at '-' str with
  | (s, some rest) =>
    match E.get_be16 s 10 with
    | none => none
    | some lo =>
      match E.get_be16 rest 10 with
      | none => none
      | some hi => some (lo % 2 ^ 16, hi % 2 ^ 16)
  | (s, none) =>
    match E.get_be16 s 10 with
    | none => none
    | some lo => some (lo % 2 ^ 16, max)

/-- Embeds `flower_parse_port` (f_flower.c:542). The test `max <= min` compares the two
`__be16` values as they are. -/
def flower_parse_port (E : Ext) (str : String) (ip_proto : Nat) (endpoint : flower_endpoint)
    (n : nlmsghdr) : Except Fail nlmsghdr :=
  match parse_range E str 0 0 with
  | none => .error .err
  | some (min, max) =>
    if min ≠ 0 ∧ max ≠ 0 then
      if max ≤ min then .error .err
      else
        match flower_port_range_attr_type ip_proto endpoint with
        | none => .error .err
        | some (min_port_type, max_port_type) =>
          let n1 := (addattr16 E.le n E.MAX_MSG min_port_type min).2
          .ok (addattr16 E.le n1 E.MAX_MSG max_port_type max).2
    else if min ≠ 0 ∧ max = 0 then
      match flower_port_attr_type ip_proto endpoint with
      | none => .error .err
      | some type => .ok (addattr16 E.le n E.MAX_MSG type min).2
    else .error .err

/-- Embeds `flower_parse_key_id` (f_flower.c:654). -/
def flower_parse_key_id (E : Ext) (str : String) (type : AttrId) (n : nlmsghdr) :
    Except Fail nlmsghdr :=
  match E.get_be32 str 10 with
  | none => .error .err
  | some key_id => .ok (addattr32 E.le n E.MAX_MSG type (key_id % 2 ^ 32)).2

/-- Embeds `flower_parse_enc_port` (f_flower.c:666). -/
def flower_parse_enc_port (E : Ext) (str : String) (type : AttrId) (n : nlmsghdr) :
    Except Fail nlmsghdr :=
  match E.get_be16 str 10 with
  | none => .error .err
  | some port => .ok (addattr16 E.le n E.MAX_MSG type (port % 2 ^ 16)).2

/-! ## Encapsulation options (`geneve_opts`) -/

/-- Setting the length field of the record at position `idx`. -/
def set_rta_len : List rtattr → Nat → Nat → List rtattr
  | [], _, _ => []
  | a :: as, 0, len => { a with rta_len := len } :: as
  | a :: as, idx + 1, len => a :: set_rta_len as idx len

/-- Modelled from the spec: `addattr_nest` of lib/libnetlink.c writes a record
with a placeholder length and returns a handle to it, here the position of the
record and its byte offset. -/
def addattr_nest (n : nlmsghdr) (maxlen : Nat) (type : AttrId) : (Nat × Nat) × nlmsghdr :=
  ((n.attrs.length, NLMSG_ALIGN n.nlmsg_len), (addattr_l n maxlen type []).2)

/-- Modelled from the spec: `addattr_nest_end` patches the placeholder with the
byte span written since the nest began. -/
def addattr_nest_end (n : nlmsghdr) (nest : Nat × Nat) : nlmsghdr :=
  { n with attrs := set_rta_len n.attrs nest.1 ((NLMSG_ALIGN n.nlmsg_len - nest.2) % 2 ^ 16) }

/-- The `switch (i)` of `flower_parse_geneve_opts` for field number `i` holding
`token`. -/
def geneve_field (E : Ext) (i : Nat) (token : String) (n : nlmsghdr) : Except Fail nlmsghdr :=
  if i = 1 then
    if token.data.length = 0 then .ok n
    else
      match E.get_be16 token 16 with
      | none => .error .err
      | some opt_class =>
        .ok (addattr16 E.le n E.MAX_MSG .TCA_FLOWER_KEY_ENC_OPT_GENEVE_CLASS
          (opt_class % 2 ^ 16)).2
  else if i = 2 then
    if token.data.length = 0 then .ok n
    else
      match E.get_u8 token 16 with
      | none => .error .err
      | some opt_type =>
        .ok (addattr8 n E.MAX_MSG .TCA_FLOWER_KEY_ENC_OPT_GENEVE_TYPE opt_type).2
  else if i = 3 then
    let token_len := token.data.length
    if token_len = 0 then .ok n
    else
      match E.hex2mem token (token_len / 2) with
      | none => .error .err
      | some opts =>
        .ok (addattr_l n E.MAX_MSG .TCA_FLOWER_KEY_ENC_OPT_GENEVE_DATA
          ((opts ++ List.replicate (token_len / 2) 0).take (token_len / 2))).2
  else .error .err

/-- The `while (token)` loop of `flower_parse_geneve_opts` over the
colon-separated fields, `i` counting from 1. -/
def geneve_fields (E : Ext) : Nat → List String → nlmsghdr → Except Fail nlmsghdr
  | _, [], n => .ok n
  | i, token :: rest, n =>
    match geneve_field E i token n with
    | .error e => .error e
    | .ok n1 => geneve_fields E (i + 1) rest n1

/-- Embeds `flower_parse_geneve_opts` (f_flower.c:680). -/
def flower_parse_geneve_opts (E : Ext) (str : String) (n : nlmsghdr) : Except Fail nlmsghdr :=
  let (nest, n0) := addattr_nest n E.MAX_MSG .TCA_FLOWER_KEY_ENC_OPTS_GENEVE
  match geneve_fields E 1 ((split_chars ':' str.data).map String.mk) n0 with
  | .error e => .error e
  | .ok n1 => .ok (addattr_nest_end n1 nest)

/-- The loop of `flower_parse_enc_opt_part` over the comma-separated options. -/
def enc_opt_parts (E : Ext) : List String → nlmsghdr → Except Fail nlmsghdr
  | [], n => .ok n
  | token :: rest, n =>
    match flower_parse_geneve_opts E token n with
    | .error e => .error e
    | .ok n1 => enc_opt_parts E rest n1

/-- Embeds `flower_parse_enc_opt_part` (f_flower.c:750). -/
def flower_parse_enc_opt_part (E : Ext) (str : String) (n : nlmsghdr) : Except Fail nlmsghdr :=
  enc_opt_parts E ((split_chars ',' str.data).map String.mk) n

/-- The loop `while ((key = strchr(key, ':')))` of `flower_check_enc_opt_key`,
read one character at a time: `key` is the text not yet scanned. At a colon,
`strlen(key)` is one more than what follows it. The result is the final
`key_len` and `col_cnt`, `none` for the `return -1` inside the loop. -/
def check_enc_opt_key_loop : List Char → Nat → Nat → Option (Nat × Nat)
  | [], key_len, col_cnt => some (key_len, col_cnt)
  | c :: rest, key_len, col_cnt =>
    if c = ':' then
      if rest.length + 1 = key_len then none
      else check_enc_opt_key_loop rest rest.length (col_cnt + 1)
    else check_enc_opt_key_loop rest key_len col_cnt

/-- Embeds `flower_check_enc_opt_key` (f_flower.c:767): `true` when it returns 0. -/
def flower_check_enc_opt_key (key : String) : Bool :=
  match check_enc_opt_key_loop key.data key.data.length 0 with
  | none => false
  | some (key_len, col_cnt) => !(col_cnt ≠ 2 || key_len = 0)

/-- The text after the last `c`, or the whole text when `c` does not occur. -/
def after_last (c : Char) (l : List Char) : List Char :=
  (l.reverse.takeWhile (fun x => x != c)).reverse

/-- The `while (token)` loop of `flower_parse_enc_opts`, building the `key` and
`mask` texts (each option followed by a comma). A write past the end of either
`XATTR_SIZE_MAX`-byte buffer is undefined. -/
def enc_opts_loop : List String → List Char → List Char → Except Fail (List Char × List Char)
  | [], key, mask => .ok (key, mask)
  | tok :: rest, key, mask =>
    let (token, slash) := cut_at '/' tok
    if key.length + token.data.length > XATTR_SIZE_MAX ∨ !flower_check_enc_opt_key token then
      .error .err
    else if key.length + token.data.length + 1 > XATTR_SIZE_MAX then .error .undefined
    else
      let key1 := key ++ token.data ++ [',']
      match slash with
      | none =>
        if mask.length + token.data.length > XATTR_SIZE_MAX then .error .err
        else
          let data_len := (after_last ':' token.data).length + 1
          if mask.length + 8 + data_len > XATTR_SIZE_MAX then .error .undefined
          else
            enc_opts_loop rest key1
              (mask ++ "ffff:ff:".data ++ List.replicate (data_len - 1) 'f' ++ [','])
      | some m =>
        if mask.length + m.data.length > XATTR_SIZE_MAX then .error .err
        else if mask.length + m.data.length + 1 > XATTR_SIZE_MAX then .error .undefined
        else enc_opts_loop rest key1 (mask ++ m.data ++ [','])

/-- Embeds `flower_parse_enc_opts` (f_flower.c:787). -/
def flower_parse_enc_opts (E : Ext) (str : String) (n : nlmsghdr) : Except Fail nlmsghdr :=
  match enc_opts_loop ((split_chars ',' str.data).map String.mk) [] [] with
  | .error e => .error e
  | .ok (key, mask) =>
    let (nest, n0) := addattr_nest n E.MAX_MSG .TCA_FLOWER_KEY_ENC_OPTS
    match flower_parse_enc_opt_part E (String.mk key.dropLast) n0 with
    | .error e => .error e
    | .ok n1 =>
      let n2 := addattr_nest_end n1 nest
      let (nest2, n3) := addattr_nest n2 E.MAX_MSG .TCA_FLOWER_KEY_ENC_OPTS_MASK
      match flower_parse_enc_opt_part E (String.mk mask.dropLast) n3 with
      | .error e => .error e
      | .ok n4 => .ok (addattr_nest_end n4 nest2)

/-! ## `flower_parse_opt` (f_flower.c:853) -/

/-- The branches of the `if … else if` chain in the argument loop of
`flower_parse_opt`, in source order. -/
inductive Keyword where
  | kw_classid
  | kw_hw_tc
  | kw_ip_flags
  | kw_verbose
  | kw_skip_hw
  | kw_skip_sw
  | kw_indev
  | kw_vlan_id
  | kw_vlan_prio
  | kw_vlan_ethtype
  | kw_cvlan_id
  | kw_cvlan_prio
  | kw_cvlan_ethtype
  | kw_mpls_label
  | kw_mpls_tc
  | kw_mpls_bos
  | kw_mpls_ttl
  | kw_dst_mac
  | kw_src_mac
  | kw_ip_proto
  | kw_ip_tos
  | kw_ip_ttl
  | kw_dst_ip
  | kw_src_ip
  | kw_dst_port
  | kw_src_port
  | kw_tcp_flags
  | kw_type
  | kw_code
  | kw_arp_tip
  | kw_arp_sip
  | kw_arp_op
  | kw_arp_tha
  | kw_arp_sha
  | kw_enc_dst_ip
  | kw_enc_src_ip
  | kw_enc_key_id
  | kw_enc_dst_port
  | kw_enc_tos
  | kw_enc_ttl
  | kw_geneve_opts
  | kw_action
  | kw_help
  | kw_unknown
  deriving DecidableEq, Repr

/-- Which branch of the chain an argument selects: the first keyword that
`matches` accepts, then the literal `help`, else the final `else`. -/
def flower_keyword (E : Ext) (arg : String) : Keyword :=
  if E.matches_cmd arg "classid" || E.matches_cmd arg "flowid" then .kw_classid
  else if E.matches_cmd arg "hw_tc" then .kw_hw_tc
  else if E.matches_cmd arg "ip_flags" then .kw_ip_flags
  else if E.matches_cmd arg "verbose" then .kw_verbose
  else if E.matches_cmd arg "skip_hw" then .kw_skip_hw
  else if E.matches_cmd arg "skip_sw" then .kw_skip_sw
  else if E.matches_cmd arg "indev" then .kw_indev
  else if E.matches_cmd arg "vlan_id" then .kw_vlan_id
  else if E.matches_cmd arg "vlan_prio" then .kw_vlan_prio
  else if E.matches_cmd arg "vlan_ethtype" then .kw_vlan_ethtype
  else if E.matches_cmd arg "cvlan_id" then .kw_cvlan_id
  else if E.matches_cmd arg "cvlan_prio" then .kw_cvlan_prio
  else if E.matches_cmd arg "cvlan_ethtype" then .kw_cvlan_ethtype
  else if E.matches_cmd arg "mpls_label" then .kw_mpls_label
  else if E.matches_cmd arg "mpls_tc" then .kw_mpls_tc
  else if E.matches_cmd arg "mpls_bos" then .kw_mpls_bos
  else if E.matches_cmd arg "mpls_ttl" then .kw_mpls_ttl
  else if E.matches_cmd arg "dst_mac" then .kw_dst_mac
  else if E.matches_cmd arg "src_mac" then .kw_src_mac
  else if E.matches_cmd arg "ip_proto" then .kw_ip_proto
  else if E.matches_cmd arg "ip_tos" then .kw_ip_tos
  else if E.matches_cmd arg "ip_ttl" then .kw_ip_ttl
  else if E.matches_cmd arg "dst_ip" then .kw_dst_ip
  else if E.matches_cmd arg "src_ip" then .kw_src_ip
  else if E.matches_cmd arg "dst_port" then .kw_dst_port
  else if E.matches_cmd arg "src_port" then .kw_src_port
  else if E.matches_cmd arg "tcp_flags" then .kw_tcp_flags
  else if E.matches_cmd arg "type" then .kw_type
  else if E.matches_cmd arg "code" then .kw_code
  else if E.matches_cmd arg "arp_tip" then .kw_arp_tip
  else if E.matches_cmd arg "arp_sip" then .kw_arp_sip
  else if E.matches_cmd arg "arp_op" then .kw_arp_op
  else if E.matches_cmd arg "arp_tha" then .kw_arp_tha
  else if E.matches_cmd arg "arp_sha" then .kw_arp_sha
  else if E.matches_cmd arg "enc_dst_ip" then .kw_enc_dst_ip
  else if E.matches_cmd arg "enc_src_ip" then .kw_enc_src_ip
  else if E.matches_cmd arg "enc_key_id" then .kw_enc_key_id
  else if E.matches_cmd arg "enc_dst_port" then .kw_enc_dst_port
  else if E.matches_cmd arg "enc_tos" then .kw_enc_tos
  else if E.matches_cmd arg "enc_ttl" then .kw_enc_ttl
  else if E.matches_cmd arg "geneve_opts" then .kw_geneve_opts
  else if E.matches_cmd arg "action" then .kw_action
  else if arg = "help" then .kw_help
  else .kw_unknown

/-- The locals of `flower_parse_opt` that the loop updates, with the message. -/
structure ParseState where
  n : nlmsghdr
  vlan_ethtype : Nat
  cvlan_ethtype : Nat
  ip_proto : Nat
  flags : Nat
  mtf : Nat
  mtf_mask : Nat
  deriving DecidableEq, Repr

/-- Putting the message of a successful sub-parser back into the state. -/
def with_msg (st : ParseState) (r : Except Fail nlmsghdr) : Except Fail ParseState :=
  match r with
  | .error e => .error e
  | .ok n => .ok { st with n := n }

/-- The ethertype in effect for `ip_proto`, `dst_ip` and `src_ip`:
`cvlan_ethtype ? cvlan_ethtype : vlan_ethtype ? vlan_ethtype : eth_type`. -/
def inner_eth_type (st : ParseState) (eth_type : Nat) : Nat :=
  if st.cvlan_ethtype ≠ 0 then st.cvlan_ethtype
  else if st.vlan_ethtype ≠ 0 then st.vlan_ethtype
  else eth_type

/-- The ethertype in effect for the `arp_*` fields:
`vlan_ethtype ? vlan_ethtype : eth_type`. -/
def arp_eth_type (st : ParseState) (eth_type : Nat) : Nat :=
  if st.vlan_ethtype ≠ 0 then st.vlan_ethtype else eth_type

/-- A `vlan_id`/`cvlan_id` branch after its gate: `get_u16`, the test
`vid & ~0xfff`, `addattr16`. -/
def parse_vid (E : Ext) (st : ParseState) (arg : String) (type : AttrId) :
    Except Fail ParseState :=
  match E.get_u16 arg 10 with
  | none => .error .err
  | some v =>
    let vid := v % 2 ^ 16
    if and_not32 vid 0xfff ≠ 0 then .error .err
    else .ok { st with n := (addattr16 E.le st.n E.MAX_MSG type vid).2 }

/-- A branch that reads a `__u8` in base 10, rejects it when `value & ~limit` is
non-zero, and appends it with `addattr8`. -/
def parse_small_u8 (E : Ext) (st : ParseState) (arg : String) (limit : Nat) (type : AttrId) :
    Except Fail ParseState :=
  match E.get_u8 arg 10 with
  | none => .error .err
  | some v =>
    let value := v % 256
    if and_not32 value limit ≠ 0 then .error .err
    else .ok { st with n := (addattr8 st.n E.MAX_MSG type value).2 }

/-- The test `eth_type != htons(ETH_P_MPLS_UC) && eth_type != htons(ETH_P_MPLS_MC)`
that opens every `mpls_*` branch. -/
def not_mpls (le : Bool) (eth_type : Nat) : Bool :=
  eth_type != htons le ETH_P_MPLS_UC && eth_type != htons le ETH_P_MPLS_MC

/-- The bytes of a C string with its terminating NUL, as `addattrstrz` copies
them. -/
def strz_bytes (str : String) : List Nat := str.data.map (fun c => c.toNat % 256) ++ [0]

/-- The body of a branch that has taken its value `arg` with `NEXT_ARG()`. -/
def flower_parse_value (E : Ext) (eth_type : Nat) (kw : Keyword) (st : ParseState)
    (arg : String) : Except Fail ParseState :=
  match kw with
  | .kw_classid =>
    match E.get_tc_classid arg with
    | none => .error .err
    | some handle =>
      .ok { st with n := (addattr_l st.n E.MAX_MSG .TCA_FLOWER_CLASSID
        (u32_mem E.le (handle % 2 ^ 32))).2 }
  | .kw_hw_tc =>
    let (val, rest) := E.strtoul arg 0
    let tc := val % 2 ^ 32
    if rest.data.length ≠ 0 then .error .err
    else if tc ≥ TC_QOPT_MAX_QUEUE then .error .err
    else
      let handle := TC_H_MAKE (TC_H_MAJ st.n.tcm_parent) (TC_H_MIN (tc + TC_H_MIN_PRIORITY))
      .ok { st with n := (addattr_l st.n E.MAX_MSG .TCA_FLOWER_CLASSID
        (u32_mem E.le handle)).2 }
  | .kw_ip_flags =>
    match flower_parse_matching_flags arg st.mtf st.mtf_mask with
    | none => .error .err
    | some (mtf, mtf_mask) => .ok { st with mtf := mtf, mtf_mask := mtf_mask }
  | .kw_indev =>
    if E.check_ifname_bad arg then .error .exit
    else .ok { st with n := (addattr_l st.n E.MAX_MSG .TCA_FLOWER_INDEV (strz_bytes arg)).2 }
  | .kw_vlan_id =>
    if !eth_type_vlan E.le eth_type then .error .err
    else parse_vid E st arg .TCA_FLOWER_KEY_VLAN_ID
  | .kw_vlan_prio =>
    if !eth_type_vlan E.le eth_type then .error .err
    else parse_small_u8 E st arg 0x7 AttrId.TCA_FLOWER_KEY_VLAN_PRIO
  | .kw_vlan_ethtype =>
    match flower_parse_vlan_eth_type E arg eth_type .TCA_FLOWER_KEY_VLAN_ETH_TYPE st.n with
    | .error e => .error e
    | .ok (t, n) => .ok { st with n := n, vlan_ethtype := t }
  | .kw_cvlan_id =>
    if !eth_type_vlan E.le st.vlan_ethtype then .error .err
    else parse_vid E st arg .TCA_FLOWER_KEY_CVLAN_ID
  | .kw_cvlan_prio =>
    if !eth_type_vlan E.le st.vlan_ethtype then .error .err
    else parse_small_u8 E st arg 0x7 AttrId.TCA_FLOWER_KEY_CVLAN_PRIO
  | .kw_cvlan_ethtype =>
    match flower_parse_vlan_eth_type E arg st.vlan_ethtype .TCA_FLOWER_KEY_CVLAN_ETH_TYPE
      st.n with
    | .error e => .error e
    | .ok (t, n) => .ok { st with n := n, cvlan_ethtype := t }
  | .kw_mpls_label =>
    if not_mpls E.le eth_type then .error .err
    else
      match E.get_u32 arg 10 with
      | none => .error .err
      | some v =>
        let label := v % 2 ^ 32
        if and_not32 label (MPLS_LS_LABEL_MASK >>> MPLS_LS_LABEL_SHIFT) ≠ 0 then .error .err
        else .ok { st with n := (addattr32 E.le st.n E.MAX_MSG .TCA_FLOWER_KEY_MPLS_LABEL
          label).2 }
  | .kw_mpls_tc =>
    if not_mpls E.le eth_type then .error .err
    else parse_small_u8 E st arg (MPLS_LS_TC_MASK >>> MPLS_LS_TC_SHIFT) .TCA_FLOWER_KEY_MPLS_TC
  | .kw_mpls_bos =>
    if not_mpls E.le eth_type then .error .err
    else parse_small_u8 E st arg (MPLS_LS_S_MASK >>> MPLS_LS_S_SHIFT) .TCA_FLOWER_KEY_MPLS_BOS
  | .kw_mpls_ttl =>
    if not_mpls E.le eth_type then .error .err
    else parse_small_u8 E st arg (MPLS_LS_TTL_MASK >>> MPLS_LS_TTL_SHIFT)
      .TCA_FLOWER_KEY_MPLS_TTL
  | .kw_dst_mac =>
    with_msg st (flower_parse_eth_addr E arg .TCA_FLOWER_KEY_ETH_DST
      .TCA_FLOWER_KEY_ETH_DST_MASK st.n)
  | .kw_src_mac =>
    with_msg st (flower_parse_eth_addr E arg .TCA_FLOWER_KEY_ETH_SRC
      .TCA_FLOWER_KEY_ETH_SRC_MASK st.n)
  | .kw_ip_proto =>
    match flower_parse_ip_proto E arg (inner_eth_type st eth_type) .TCA_FLOWER_KEY_IP_PROTO
      st.n with
    | .error e => .error e
    | .ok (p, n) => .ok { st with n := n, ip_proto := p }
  | .kw_ip_tos =>
    with_msg st (flower_parse_ip_tos_ttl E arg .TCA_FLOWER_KEY_IP_TOS
      .TCA_FLOWER_KEY_IP_TOS_MASK st.n)
  | .kw_ip_ttl =>
    with_msg st (flower_parse_ip_tos_ttl E arg .TCA_FLOWER_KEY_IP_TTL
      .TCA_FLOWER_KEY_IP_TTL_MASK st.n)
  | .kw_dst_ip =>
    with_msg st (flower_parse_ip_addr E arg (inner_eth_type st eth_type)
      .TCA_FLOWER_KEY_IPV4_DST .TCA_FLOWER_KEY_IPV4_DST_MASK
      .TCA_FLOWER_KEY_IPV6_DST .TCA_FLOWER_KEY_IPV6_DST_MASK st.n)
  | .kw_src_ip =>
    with_msg st (flower_parse_ip_addr E arg (inner_eth_type st eth_type)
      .TCA_FLOWER_KEY_IPV4_SRC .TCA_FLOWER_KEY_IPV4_SRC_MASK
      .TCA_FLOWER_KEY_IPV6_SRC .TCA_FLOWER_KEY_IPV6_SRC_MASK st.n)
  | .kw_dst_port =>
    with_msg st (flower_parse_port E arg st.ip_proto .FLOWER_ENDPOINT_DST st.n)
  | .kw_src_port =>
    with_msg st (flower_parse_port E arg st.ip_proto .FLOWER_ENDPOINT_SRC st.n)
  | .kw_tcp_flags =>
    with_msg st (flower_parse_tcp_flags E arg .TCA_FLOWER_KEY_TCP_FLAGS
      .TCA_FLOWER_KEY_TCP_FLAGS_MASK st.n)
  | .kw_type =>
    with_msg st (flower_parse_icmp E arg eth_type st.ip_proto .FLOWER_ICMP_FIELD_TYPE st.n)
  | .kw_code =>
    with_msg st (flower_parse_icmp E arg eth_type st.ip_proto .FLOWER_ICMP_FIELD_CODE st.n)
  | .kw_arp_tip =>
    with_msg st (flower_parse_arp_ip_addr E arg (arp_eth_type st eth_type)
      .TCA_FLOWER_KEY_ARP_TIP .TCA_FLOWER_KEY_ARP_TIP_MASK st.n)
  | .kw_arp_sip =>
    with_msg st (flower_parse_arp_ip_addr E arg (arp_eth_type st eth_type)
      .TCA_FLOWER_KEY_ARP_SIP .TCA_FLOWER_KEY_ARP_SIP_MASK st.n)
  | .kw_arp_op =>
    with_msg st (flower_parse_arp_op E arg (arp_eth_type st eth_type)
      .TCA_FLOWER_KEY_ARP_OP .TCA_FLOWER_KEY_ARP_OP_MASK st.n)
  | .kw_arp_tha =>
    with_msg st (flower_parse_eth_addr E arg .TCA_FLOWER_KEY_ARP_THA
      .TCA_FLOWER_KEY_ARP_THA_MASK st.n)
  | .kw_arp_sha =>
    with_msg st (flower_parse_eth_addr E arg .TCA_FLOWER_KEY_ARP_SHA
      .TCA_FLOWER_KEY_ARP_SHA_MASK st.n)
  | .kw_enc_dst_ip =>
    with_msg st (flower_parse_ip_addr E arg 0
      .TCA_FLOWER_KEY_ENC_IPV4_DST .TCA_FLOWER_KEY_ENC_IPV4_DST_MASK
      .TCA_FLOWER_KEY_ENC_IPV6_DST .TCA_FLOWER_KEY_ENC_IPV6_DST_MASK st.n)
  | .kw_enc_src_ip =>
    with_msg st (flower_parse_ip_addr E arg 0
      .TCA_FLOWER_KEY_ENC_IPV4_SRC .TCA_FLOWER_KEY_ENC_IPV4_SRC_MASK
      .TCA_FLOWER_KEY_ENC_IPV6_SRC .TCA_FLOWER_KEY_ENC_IPV6_SRC_MASK st.n)
  | .kw_enc_key_id =>
    with_msg st (flower_parse_key_id E arg .TCA_FLOWER_KEY_ENC_KEY_ID st.n)
  | .kw_enc_dst_port =>
    with_msg st (flower_parse_enc_port E arg .TCA_FLOWER_KEY_ENC_UDP_DST_PORT st.n)
  | .kw_enc_tos =>
    with_msg st (flower_parse_ip_tos_ttl E arg .TCA_FLOWER_KEY_ENC_IP_TOS
      .TCA_FLOWER_KEY_ENC_IP_TOS_MASK st.n)
  | .kw_enc_ttl =>
    with_msg st (flower_parse_ip_tos_ttl E arg .TCA_FLOWER_KEY_ENC_IP_TTL
      .TCA_FLOWER_KEY_ENC_IP_TTL_MASK st.n)
  | .kw_geneve_opts => with_msg st (flower_parse_enc_opts E arg st.n)
  | _ => .error .err

/-- One pass through the body of `while (argc > 0)`: `arg` is `*argv`, `rest`
what follows it. The result is the new state and the arguments still to be
read. `NEXT_ARG()` on an empty `rest` ends in `incomplete_command` (`exit`). -/
def flower_parse_arg (E : Ext) (eth_type : Nat) (st : ParseState) (arg : String)
    (rest : List String) : Except Fail (ParseState × List String) :=
  match flower_keyword E arg with
  | .kw_verbose =>
    .ok ({ st with flags := (st.flags ||| TCA_CLS_FLAGS_VERBOSE) % 2 ^ 32 }, rest)
  | .kw_skip_hw =>
    .ok ({ st with flags := (st.flags ||| TCA_CLS_FLAGS_SKIP_HW) % 2 ^ 32 }, rest)
  | .kw_skip_sw =>
    .ok ({ st with flags := (st.flags ||| TCA_CLS_FLAGS_SKIP_SW) % 2 ^ 32 }, rest)
  | .kw_help => .error .err
  | .kw_unknown => .error .err
  | .kw_action =>
    match rest with
    | [] => .error .exit
    | v :: rest1 =>
      match E.parse_action (v :: rest1) .TCA_FLOWER_ACT st.n with
      | none => .error .err
      | some (used, n) => .ok ({ st with n := n }, (v :: rest1).drop used)
  | kw =>
    match rest with
    | [] => .error .exit
    | v :: rest1 =>
      match flower_parse_value E eth_type kw st v with
      | .error e => .error e
      | .ok st1 => .ok (st1, rest1)

/-- The loop `while (argc > 0)`. Every pass consumes at least one argument, so
`fuel` equal to the number of arguments is never used up. -/
def flower_parse_args (E : Ext) (eth_type : Nat) :
    Nat → ParseState → List String → Except Fail ParseState
  | _, st, [] => .ok st
  | 0, _, _ :: _ => .error .undefined
  | fuel + 1, st, arg :: rest =>
    match flower_parse_arg E eth_type st arg rest with
    | .error e => .error e
    | .ok (st1, rest1) => flower_parse_args E eth_type fuel st1 rest1

/-- The first `k` passes of the loop: the state and the arguments left, when
none of them returned. -/
def flower_parse_steps (E : Ext) (eth_type : Nat) :
    Nat → ParseState → List String → Except Fail (ParseState × List String)
  | 0, st, argv => .ok (st, argv)
  | _ + 1, st, [] => .ok (st, [])
  | k + 1, st, arg :: rest =>
    match flower_parse_arg E eth_type st arg rest with
    | .error e => .error e
    | .ok (st1, rest1) => flower_parse_steps E eth_type k st1 rest1

/-- The code after the label `parse_done`; `tail` is the position and byte
offset of the `TCA_OPTIONS` record. -/
def flower_parse_done (E : Ext) (eth_type : Nat) (tail : Nat × Nat) (st : ParseState) :
    Except Fail nlmsghdr :=
  match addattr32 E.le st.n E.MAX_MSG .TCA_FLOWER_FLAGS st.flags with
  | (ret, n1) =>
    if ret ≠ 0 then .error .err
    else
      let keyflags : Except Fail nlmsghdr :=
        if st.mtf_mask ≠ 0 then
          match addattr32 E.le n1 E.MAX_MSG .TCA_FLOWER_KEY_FLAGS (htonl E.le st.mtf) with
          | (ret2, n2) =>
            if ret2 ≠ 0 then .error .err
            else
              match addattr32 E.le n2 E.MAX_MSG .TCA_FLOWER_KEY_FLAGS_MASK
                (htonl E.le st.mtf_mask) with
              | (ret3, n3) => if ret3 ≠ 0 then .error .err else .ok n3
        else .ok n1
      match keyflags with
      | .error e => .error e
      | .ok n4 =>
        let ethtype : Except Fail nlmsghdr :=
          if eth_type ≠ htons E.le ETH_P_ALL then
            match addattr16 E.le n4 E.MAX_MSG .TCA_FLOWER_KEY_ETH_TYPE eth_type with
            | (ret5, n5) => if ret5 ≠ 0 then .error .err else .ok n5
          else .ok n4
        match ethtype with
        | .error e => .error e
        | .ok n6 =>
          .ok { n6 with attrs := set_rta_len n6.attrs tail.1 ((n6.nlmsg_len - tail.2) % 2 ^ 16) }

/-- The locals of `flower_parse_opt` on entry to the loop. -/
def initial_state (n : nlmsghdr) : ParseState :=
  { n := n, vlan_ethtype := 0, cvlan_ethtype := 0, ip_proto := 0xff,
    flags := 0, mtf := 0, mtf_mask := 0 }

/-- The message on entry to the loop: `tcm_handle` set from `handle` when one is
given, and the empty `TCA_OPTIONS` record appended. -/
def flower_parse_begin (E : Ext) (handle : Option String) (n : nlmsghdr) :
    Except Fail nlmsghdr :=
  let n0 : Except Fail nlmsghdr :=
    match handle with
    | none => .ok n
    | some h =>
      match E.get_u32 h 0 with
      | none => .error .err
      | some v => .ok { n with tcm_handle := v % 2 ^ 32 }
  match n0 with
  | .error e => .error e
  | .ok n1 => .ok (addattr_l n1 E.MAX_MSG .TCA_OPTIONS []).2

/-- Embeds `flower_parse_opt` (f_flower.c:853): `handle` is `none` when `NULL`, `argv`
the arguments, `n` the request; the filter protocol `eth_type` is the low half
of `tcm_info`. -/
def flower_parse_opt (E : Ext) (handle : Option String) (argv : List String) (n : nlmsghdr) :
    Except Fail nlmsghdr :=
  let eth_type := TC_H_MIN n.tcm_info
  let tail := (n.attrs.length, NLMSG_ALIGN n.nlmsg_len)
  match flower_parse_begin E handle n with
  | .error e => .error e
  | .ok n1 =>
    match flower_parse_args E eth_type argv.length (initial_state n1) argv with
    | .error e => .error e
    | .ok st => flower_parse_done E eth_type tail st

/-! ## Printing an address with its mask -/

/-- Embeds `flower_print_ip_addr` (f_flower.c:1535): the text `out` handed to
`print_string`, or `none` when the function returns without printing. An
attribute pointer is `none` when `NULL`, else the payload. The formatter
`rt_addr_n2a_rta` comes from outside the file. -/
def flower_print_ip_addr (rt_addr_n2a_rta : Nat → List Nat → String) (le : Bool)
    (eth_type : Nat) (addr4_attr mask4_attr addr6_attr mask6_attr : Option (List Nat)) :
    Option String :=
  let sel : Option (Nat × Option (List Nat) × Option (List Nat) × Nat) :=
    if eth_type = htons le ETH_P_IP then some (AF_INET, addr4_attr, mask4_attr, 4)
    else if eth_type = htons le ETH_P_IPV6 then some (AF_INET6, addr6_attr, mask6_attr, 16)
    else none
  match sel with
  | none => none
  | some (family, addr_attr, mask_attr, len) =>
    match addr_attr, mask_attr with
    | some addr, some mask =>
      if addr.length ≠ len then none
      else if mask.length ≠ len then none
      else
        let out := rt_addr_n2a_rta family addr
        let bits := __mask_bits mask
        if bits < 0 then some (out ++ "/" ++ rt_addr_n2a_rta family mask)
        else if bits.toNat < len * 8 then some (out ++ "/" ++ toString bits.toNat)
        else some out
    | _, _ => none

/-! ## The output interface and the attribute readers

The printing functions of the repository write through `json_print.h`
(`print_string`, `print_uint`, `open_json_object`, ...), which is not part of
the sources at hand. A printing function is embedded as the calls it makes to
that interface, in order, with their arguments. -/

/-- The `enum output_type` of `json_print.h`. -/
inductive output_type where
  | PRINT_FP
  | PRINT_JSON
  | PRINT_ANY
  deriving DecidableEq, Repr

/-- The `enum color_attr` values the printing functions pass on;
`ifa_family_color(family)` is kept symbolic. -/
inductive color_attr where
  | COLOR_IFNAME
  | COLOR_MAC
  | ifa_family_color (family : Nat)
  deriving DecidableEq, Repr

/-- One call of the output interface with its arguments in source order; a
`NULL` key, format or text is `none`. `fprintf` is a direct write of `text` to
the named stream, `tc_print_action` the call of that function on an attribute
payload. -/
inductive print_call where
  | print_string (t : output_type) (key fmt : Option String) (value : Option String)
  | print_color_string (t : output_type) (color : color_attr) (key fmt : Option String)
      (value : Option String)
  | print_uint (t : output_type) (key fmt : Option String) (value : Nat)
  | print_hu (t : output_type) (key fmt : Option String) (value : Nat)
  | print_bool (t : output_type) (key fmt : Option String) (value : Bool)
  | open_json_object (name : Option String)
  | close_json_object
  | open_json_array (t : output_type) (name : Option String)
  | close_json_array (t : output_type) (name : Option String)
  | print_headers (label : String)
  | fprintf (stream : String) (text : String)
  | fflush
  | tc_print_action (attr : List Nat)
  deriving DecidableEq, Repr

/-- The key under which a call of the output interface files its value: the
`key` argument of a `print_*` function, the name of a JSON object or array. -/
def print_call.key : print_call → Option String
  | .print_string _ key _ _ => key
  | .print_color_string _ _ key _ _ => key
  | .print_uint _ key _ _ => key
  | .print_hu _ key _ _ => key
  | .print_bool _ key _ _ => key
  | .open_json_object name => name
  | .open_json_array _ name => name
  | .close_json_array _ name => name
  | _ => none

/-- Embeds `ntohl` is the same permutation as `htonl`. -/
def ntohl (le : Bool) (x : Nat) : Nat := htonl le x

/-- The value of a scalar whose bytes lie in host memory as `bs`. -/
def of_mem (le : Bool) (bs : List Nat) : Nat :=
  if le then of_be_bytes bs.reverse else of_be_bytes bs

/-- The first `k` bytes at the start of an attribute payload; a payload shorter
than `k` is completed with zero bytes (the alignment padding of the wire
format). -/
def rta_field (k : Nat) (data : List Nat) : List Nat :=
  ((data.map fun b => b % 256) ++ List.replicate k 0).take k

/-- Modelled from the spec: `rta_getattr_u8` of include/libnetlink.h is not part
of the sources at hand; following the codec contract (scalar attributes of a
declared width, host or network order) it reads the first byte of the payload. -/
def rta_getattr_u8 (data : List Nat) : Nat := of_be_bytes (rta_field 1 data)

/-- Modelled from the spec: `rta_getattr_u16` reads a host-order `__u16` from the
start of the payload. -/
def rta_getattr_u16 (le : Bool) (data : List Nat) : Nat := of_mem le (rta_field 2 data)

/-- Modelled from the spec: `rta_getattr_be16` is `ntohs(rta_getattr_u16(rta))`. -/
def rta_getattr_be16 (le : Bool) (data : List Nat) : Nat := ntohs le (rta_getattr_u16 le data)

/-- Modelled from the spec: `rta_getattr_u32` reads a host-order `__u32` from the
start of the payload. -/
def rta_getattr_u32 (le : Bool) (data : List Nat) : Nat := of_mem le (rta_field 4 data)

/-- Modelled from the spec: `rta_getattr_be32` is `ntohl(rta_getattr_u32(rta))`. -/
def rta_getattr_be32 (le : Bool) (data : List Nat) : Nat := ntohl le (rta_getattr_u32 le data)

/-- The hexadecimal digits of a number below `16 ^ fuel`, most significant
first, lower case; none for 0. -/
def hex_digits_of : Nat → Nat → List Char
  | 0, _ => []
  | fuel + 1, x =>
    if x = 0 then []
    else hex_digits_of fuel (x / 16) ++
      [if x % 16 < 10 then Char.ofNat (48 + x % 16) else Char.ofNat (87 + x % 16)]

/-- Embeds the conversions `%x`, `%02x`, `%04x` and `%08x` of `sprintf` on an
`unsigned int`: lower-case hexadecimal, padded with zeros to `width`. -/
def sprintf_x (width : Nat) (x : Nat) : String :=
  let ds := if x % 2 ^ 32 = 0 then ['0'] else hex_digits_of 8 (x % 2 ^ 32)
  String.mk (List.replicate (width - ds.length) '0' ++ ds)

/-! ## A concrete set of helpers for running examples -/

/-- The value of a digit character in bases up to 16. -/
def digit_val (c : Char) : Option Nat :=
  if '0' ≤ c ∧ c ≤ '9' then some (c.toNat - 48)
  else if 'a' ≤ c ∧ c ≤ 'f' then some (c.toNat - 87)
  else if 'A' ≤ c ∧ c ≤ 'F' then some (c.toNat - 55)
  else none

/-- Reads a non-empty string of digits in the given base. -/
def read_nat (base : Nat) (s : String) : Option Nat :=
  if s.data = [] then none
  else s.data.foldl
    (fun acc c => acc.bind fun a => (digit_val c).bind fun d =>
      if d < base then some (a * base + d) else none) (some 0)

/-- Reads an unsigned number of `w` bits. -/
def read_uint (w : Nat) (s : String) (base : Nat) : Option Nat :=
  (read_nat (if base = 0 then 10 else base) s).bind fun v =>
    if v < 2 ^ w then some v else none

/-- Reads colon-separated hexadecimal bytes, at most `len` of them. -/
def read_lladdr (s : String) (len : Nat) : Option (List Nat) :=
  let fields := (split_chars ':' s.data).map fun f => read_uint 8 (String.mk f) 16
  if fields.length ≤ len ∧ fields.all Option.isSome then some (fields.filterMap id)
  else none

/-- Reads a dotted IPv4 address with an optional `/N`, `N` at most 32; the
prefix length is 32 when none is given. -/
def read_prefix4 (s : String) (family : Nat) : Except Fail inet_prefix :=
  let (a, plen) := cut_at '/' s
  let fields := (split_chars '.' a.data).map fun f => read_uint 8 (String.mk f) 10
  let bits : Option Nat :=
    match plen with
    | none => some 32
    | some t => (read_nat 10 t).bind fun v => if v ≤ 32 then some v else none
  if family ≠ AF_UNSPEC ∧ family ≠ AF_INET then .error .exit
  else if fields.length = 4 ∧ fields.all Option.isSome then
    match bits with
    | some b => .ok { family := AF_INET, bytelen := 4, bitlen := b, data := fields.filterMap id }
    | none => .error .exit
  else .error .exit

/-- Dotted or colon-separated rendering of address bytes. -/
def show_addr (family : Nat) (bs : List Nat) : String :=
  if family = AF_INET then ".".intercalate (bs.map toString)
  else ":".intercalate (bs.map toString)

/-- A concrete instantiation of the external helpers for examples: numbers are
read digit by digit in the requested base and range-checked, `matches` accepts
any prefix of the keyword, link-layer addresses are colon-separated
hexadecimal bytes, protocol names are `ipv4`, `ipv6`, `802.1Q` and `802.1ad`,
prefixes are dotted IPv4 addresses with an optional length. Helpers that the
examples do not exercise fail. -/
def demoExt (le : Bool) : Ext where
  le := le
  MAX_MSG := 16384
  matches_cmd := fun cmd pattern => cmd.data.isPrefixOf pattern.data
  get_u8 := read_uint 8
  get_u16 := read_uint 16
  get_u32 := read_uint 32
  get_unsigned := read_uint 32
  get_be16 := fun s b => (read_uint 16 s b).map (htons le)
  get_be32 := fun s b => (read_uint 32 s b).map (htonl le)
  ll_addr_a2n := read_lladdr
  ll_proto_a2n := fun s =>
    if s = "ipv4" then some (htons le ETH_P_IP)
    else if s = "ipv6" then some (htons le ETH_P_IPV6)
    else if s = "802.1Q" then some (htons le ETH_P_8021Q)
    else if s = "802.1ad" then some (htons le ETH_P_8021AD)
    else none
  get_prefix := read_prefix4
  get_tc_classid := fun _ => none
  strtoul := fun s _ => (0, s)
  check_ifname_bad := fun _ => true
  hex2mem := fun _ _ => none
  parse_action := fun _ _ _ => none
  stack := fun k => List.replicate k 0

/-- An empty request: header and `tcmsg` body only (16 + 20 bytes), with the
filter protocol in the low half of `tcm_info`. -/
def empty_msg (eth_type : Nat) : nlmsghdr :=
  { nlmsg_len := 36, tcm_handle := 0, tcm_parent := 0, tcm_info := eth_type, attrs := [] }

end Flower

/-! # The bridge forwarding database commands (bridge/fdb.c) -/

namespace Fdb

open Flower (Fail inet_prefix NLMSG_ALIGN RTA_LENGTH u16_mem u32_mem htons ntohs ETH_ALEN)

/-! ## Constants of the kernel interface

The numeric constants below come from the kernel headers the file includes
(`linux/neighbour.h`, `linux/rtnetlink.h`, `linux/netlink.h`, `sys/socket.h`);
attribute identifiers are kept symbolic. -/

def NUD_REACHABLE : Nat := 0x02
def NUD_STALE : Nat := 0x04
def NUD_NOARP : Nat := 0x40
def NUD_PERMANENT : Nat := 0x80

def NTF_USE : Nat := 0x01
def NTF_SELF : Nat := 0x02
def NTF_MASTER : Nat := 0x04
def NTF_EXT_LEARNED : Nat := 0x10
def NTF_STICKY : Nat := 0x40
def NTF_ROUTER : Nat := 0x80

def PF_BRIDGE : Nat := 7
def AF_BRIDGE : Nat := 7
def RTM_GETNEIGH : Nat := 30
def NLM_F_REQUEST : Nat := 0x01

/-- Neighbour attribute identifiers (`NDA_*` of `linux/neighbour.h`), kept
symbolic. -/
inductive NdaId where
  | NDA_UNSPEC
  | NDA_DST
  | NDA_LLADDR
  | NDA_CACHEINFO
  | NDA_PROBES
  | NDA_VLAN
  | NDA_PORT
  | NDA_VNI
  | NDA_IFINDEX
  | NDA_MASTER
  | NDA_LINK_NETNSID
  | NDA_SRC_VNI
  | NDA_PROTOCOL
  | NDA_NH_ID
  | NDA_FDB_EXT_ATTRS
  | NDA_FLAGS_EXT
  | NDA_NDM_STATE_MASK
  | NDA_NDM_FLAGS_MASK
  deriving DecidableEq, Repr

/-! ## The request under construction -/

/-- One attribute record: its length field (header plus unpadded payload), its
identifier and its payload bytes. -/
structure rtattr where
  rta_len : Nat
  rta_type : NdaId
  data : List Nat
  deriving DecidableEq, Repr

/-- The local `req` of `fdb_modify` and `fdb_get`: the fields of its `nlmsghdr`
and `ndmsg` that the functions set, and the attribute records appended to its
buffer so far in order. -/
structure req where
  nlmsg_len : Nat
  nlmsg_flags : Nat
  nlmsg_type : Nat
  ndm_family : Nat
  ndm_ifindex : Nat
  ndm_state : Nat
  ndm_flags : Nat
  attrs : List rtattr
  deriving DecidableEq, Repr

/-- Embeds `NLMSG_LENGTH(len)`: the 16-byte message header plus the body. -/
def NLMSG_LENGTH (len : Nat) : Nat := 16 + len

/-- Size of `struct ndmsg`. -/
def sizeof_ndmsg : Nat := 12

/-- Modelled from the spec: `addattr_l` of lib/libnetlink.c is not part of the
sources at hand. Following the wire format (4-byte aligned `len, type, payload,
padding` records whose length field measures header plus unpadded payload) and
the codec contract (appending fails when the remaining capacity is
insufficient), it appends one record at the aligned end of the message and
returns 0, or returns -1 and leaves the message alone when the record does not
fit in `maxlen`. -/
def addattr_l (n : req) (maxlen : Nat) (type : NdaId) (data : List Nat) : Int × req :=
  let len := RTA_LENGTH data.length
  if NLMSG_ALIGN n.nlmsg_len + NLMSG_ALIGN len > maxlen then (-1, n)
  else (0, { n with
    nlmsg_len := NLMSG_ALIGN n.nlmsg_len + NLMSG_ALIGN len
    attrs := n.attrs ++ [{ rta_len := len, rta_type := type, data := data }] })

/-- Modelled from the spec: `addattr16` (the two bytes of a `__u16` as they lie
in host memory). -/
def addattr16 (le : Bool) (n : req) (maxlen : Nat) (type : NdaId) (data : Nat) : Int × req :=
  addattr_l n maxlen type (u16_mem le data)

/-- Modelled from the spec: `addattr32` (the four bytes of a `__u32` as they lie
in host memory). -/
def addattr32 (le : Bool) (n : req) (maxlen : Nat) (type : NdaId) (data : Nat) : Int × req :=
  addattr_l n maxlen type (u32_mem le data)

/-! ## External helpers -/

/-- The helpers from outside `fdb.c` that `fdb_modify` and `fdb_get` call, and
the platform parameters. A helper that reports failure by a non-zero return, or
that leaves the process on failure, is an `Option`; the value it stores is
truncated to the width of the C variable at the place of use. -/
structure Ext where
  /-- Whether the host is little-endian. -/
  le : Bool
  /-- Whether `unsigned long` has 64 bits (32 otherwise). -/
  lp64 : Bool
  /-- The global `preferred_family`. -/
  preferred_family : Nat
  /-- Embeds `matches(cmd, pattern) == 0`. -/
  matches_cmd : String → String → Bool
  /-- Embeds `get_addr(&dst, str, family)`; `none` when it leaves the process. -/
  get_addr : String → Nat → Option inet_prefix
  get_u32 : String → Nat → Option Nat
  /-- Embeds `strtoul(str, &end, base)`: the value and the unparsed rest. -/
  strtoul : String → Nat → Nat × String
  /-- Embeds `getservbyname(name, proto)`: the `s_port` of the entry found. -/
  getservbyname : String → String → Option Nat
  /-- Embeds `ll_name_to_index(name)`; 0 when there is no such device. -/
  ll_name_to_index : String → Nat
  atoi : String → Int
  /-- Embeds `sscanf(addr, "%hhx:%hhx:%hhx:%hhx:%hhx:%hhx", abuf, ..., abuf+5)`:
  the six bytes stored when the call returns 6, `none` for any other return. -/
  sscanf_lladdr : String → Option (List Nat)
  /-- Embeds `get_unsigned(&val, arg, base)`: the value stored when it returns
  0, `none` when it returns -1. -/
  get_unsigned : String → Nat → Option Nat := fun _ _ => none

/-- The largest `unsigned long`, which is also the value of `~0` once converted
to `unsigned long`. -/
def ULONG_MAX (E : Ext) : Nat := if E.lp64 then 2 ^ 64 - 1 else 2 ^ 32 - 1

/-- The conversion of an `int` to `short` (two's complement, 16 bits). -/
def to_short (x : Int) : Int :=
  if x % 65536 ≥ 32768 then x % 65536 - 65536 else x % 65536

/-- The local `abuf` after a successful `sscanf`. -/
def abuf (bs : List Nat) : List Nat :=
  (bs.map (fun b => b % 256) ++ List.replicate ETH_ALEN 0).take ETH_ALEN

/-! ## The argument loop -/

/-- A loop `while (argc > 0) { ...; argc--; argv++; }` whose body is `pass`:
`pass st arg rest` gives the locals after the body has run on the argument
`arg` followed by `rest`, and the arguments left for the next turn. The fuel
bounds the number of turns. -/
def arg_loop {σ : Type} (pass : σ → String → List String → Except Fail (σ × List String)) :
    Nat → σ → List String → Except Fail σ
  | _, st, [] => .ok st
  | 0, _, _ :: _ => .error .undefined
  | fuel + 1, st, arg :: rest =>
    match pass st arg rest with
    | .error e => .error e
    | .ok (st1, rest1) => arg_loop pass fuel st1 rest1

/-- The first `k` turns of such a loop: the locals and the arguments left, when
none of the turns left the function. -/
def arg_steps {σ : Type} (pass : σ → String → List String → Except Fail (σ × List String)) :
    Nat → σ → List String → Except Fail (σ × List String)
  | 0, st, argv => .ok (st, argv)
  | _ + 1, st, [] => .ok (st, [])
  | k + 1, st, arg :: rest =>
    match pass st arg rest with
    | .error e => .error e
    | .ok (st1, rest1) => arg_steps pass k st1 rest1

/-- The branches such a loop goes through, in order, `kw` telling which branch
an argument selects; the list stops with the turn that leaves the function. -/
def arg_trace {σ κ : Type} (kw : String → κ)
    (pass : σ → String → List String → Except Fail (σ × List String)) :
    Nat → σ → List String → List κ
  | _, _, [] => []
  | 0, _, _ :: _ => []
  | fuel + 1, st, arg :: rest =>
    kw arg :: (match pass st arg rest with
      | .error _ => []
      | .ok (st1, rest1) => arg_trace kw pass fuel st1 rest1)

/-! ## `state_n2a` -/

/-- A hexadecimal digit, lower case. -/
def hex_digit (d : Nat) : Char :=
  if d < 10 then Char.ofNat (48 + d) else Char.ofNat (87 + d)

/-- The hexadecimal digits of a number, most significant first; none for 0. -/
def hex_digits : Nat → Nat → List Char
  | 0, _ => []
  | fuel + 1, x => if x = 0 then [] else hex_digits fuel (x / 16) ++ [hex_digit (x % 16)]

/-- Embeds the conversion `%#x` of `sprintf` on an `unsigned int`. -/
def sprintf_hex (s : Nat) : String :=
  if s % 2 ^ 32 = 0 then "0" else "0x" ++ String.mk (hex_digits 8 (s % 2 ^ 32))

/-- Embeds `state_n2a` (fdb.c:55); `json` is the answer of `is_json_context()`. -/
def state_n2a (json : Bool) (s : Nat) : String :=
  if s &&& NUD_PERMANENT ≠ 0 then "permanent"
  else if s &&& NUD_NOARP ≠ 0 then "static"
  else if s &&& NUD_STALE ≠ 0 then "stale"
  else if s &&& NUD_REACHABLE ≠ 0 then ""
  else if json then sprintf_hex s
  else "state=" ++ sprintf_hex s

/-- Embeds `state_a2n` (fdb.c:78): the value stored in `*s` when the function
returns 0, `none` when it returns -1. `~0` is the `unsigned int` with all 32
bits set. -/
def state_a2n (E : Ext) (arg : String) : Option Nat :=
  if E.matches_cmd arg "permanent" then some NUD_PERMANENT
  else if E.matches_cmd arg "static" ∨ E.matches_cmd arg "temp" then some NUD_NOARP
  else if E.matches_cmd arg "stale" then some NUD_STALE
  else if E.matches_cmd arg "reachable" ∨ E.matches_cmd arg "dynamic" then some NUD_REACHABLE
  else if arg = "all" then some (2 ^ 32 - 1)
  else E.get_unsigned arg 0

/-! ## `fdb_modify` -/

/-- The branch of the argument loops of `fdb_modify` and `fdb_get` that an
argument selects. -/
inductive Keyword where
  | kw_dev
  | kw_dst
  | kw_nhid
  | kw_port
  | kw_vni
  | kw_src_vni
  | kw_via
  | kw_self
  | kw_master
  | kw_router
  | kw_local
  | kw_temp
  | kw_dynamic
  | kw_vlan
  | kw_use
  | kw_extern_learn
  | kw_sticky
  | kw_brport
  | kw_br
  | kw_other
  deriving DecidableEq, Repr

/-- The `if ... else if` chain of the loop of `fdb_modify` (fdb.c:432-506), in
source order: `strcmp` for the first eight keywords, `matches` for the others;
`kw_local` is `local` or `permanent`, `kw_temp` is `temp` or `static`. -/
def fdb_modify_keyword (E : Ext) (arg : String) : Keyword :=
  if arg = "dev" then .kw_dev
  else if arg = "dst" then .kw_dst
  else if arg = "nhid" then .kw_nhid
  else if arg = "port" then .kw_port
  else if arg = "vni" then .kw_vni
  else if arg = "src_vni" then .kw_src_vni
  else if arg = "via" then .kw_via
  else if arg = "self" then .kw_self
  else if E.matches_cmd arg "master" then .kw_master
  else if E.matches_cmd arg "router" then .kw_router
  else if E.matches_cmd arg "local" ∨ E.matches_cmd arg "permanent" then .kw_local
  else if E.matches_cmd arg "temp" ∨ E.matches_cmd arg "static" then .kw_temp
  else if E.matches_cmd arg "dynamic" then .kw_dynamic
  else if E.matches_cmd arg "vlan" then .kw_vlan
  else if E.matches_cmd arg "use" then .kw_use
  else if E.matches_cmd arg "extern_learn" then .kw_extern_learn
  else if E.matches_cmd arg "sticky" then .kw_sticky
  else .kw_other

/-- The locals of `fdb_modify` that the loop writes; `dst` is `none` until
`get_addr` has filled it. -/
structure ModifyState where
  req : req
  addr : Option String
  d : Option String
  dst_ok : Bool
  dst : Option inet_prefix
  port : Nat
  vni : Nat
  src_vni : Nat
  via : Nat
  vid : Int
  nhid : Nat
  deriving DecidableEq, Repr

/-- The locals of `fdb_modify` on entry to the loop (fdb.c:407-429). -/
def fdb_modify_init (E : Ext) (cmd flags : Nat) : ModifyState :=
  { req := {
      nlmsg_len := NLMSG_LENGTH sizeof_ndmsg
      nlmsg_flags := (NLM_F_REQUEST ||| flags) % 2 ^ 16
      nlmsg_type := cmd % 2 ^ 16
      ndm_family := PF_BRIDGE
      ndm_ifindex := 0
      ndm_state := NUD_NOARP
      ndm_flags := 0
      attrs := [] }
    addr := none
    d := none
    dst_ok := false
    dst := none
    port := 0
    vni := ULONG_MAX E
    src_vni := ULONG_MAX E
    via := 0
    vid := -1
    nhid := 0 }

/-- Embeds `req.ndm.ndm_flags |= bit` on the `__u8` field. -/
def or_flags (st : ModifyState) (bit : Nat) : ModifyState :=
  { st with req := { st.req with ndm_flags := (st.req.ndm_flags ||| bit) % 2 ^ 8 } }

/-- Embeds `req.ndm.ndm_state |= bit` on the `__u16` field. -/
def or_state (st : ModifyState) (bit : Nat) : ModifyState :=
  { st with req := { st.req with ndm_state := (st.req.ndm_state ||| bit) % 2 ^ 16 } }

/-- Embeds `req.ndm.ndm_state &= ~bit` on the `__u16` field. -/
def clear_state (st : ModifyState) (bit : Nat) : ModifyState :=
  { st with req := { st.req with ndm_state := st.req.ndm_state &&& (0xffff ^^^ bit) } }

/-- Embeds a VNI argument (fdb.c:463-466, 470-473, 624-627): the value read by
`strtoul`, refused through `invarg` when text is left over, when it has a bit
above the 24th or when it is `ULONG_MAX`. -/
def parse_vni (E : Ext) (v : String) : Except Fail Nat :=
  let vni := (E.strtoul v 0).1 % (ULONG_MAX E + 1)
  if (E.strtoul v 0).2 ≠ "" ∨ vni >>> 24 ≠ 0 ∨ vni = ULONG_MAX E then .error .exit
  else .ok vni

/-- Embeds the final `else` branch of the loops of `fdb_modify` and `fdb_get`
(fdb.c:507-514, 641-648): an optional `to`, then the address; `addr` is the
address found so far. The result is the new `addr` and the arguments left. -/
def parse_to_addr (E : Ext) (addr : Option String) (arg : String) (rest : List String) :
    Except Fail (String × List String) :=
  let next : Option (String × List String) :=
    if arg = "to" then
      match rest with
      | [] => none
      | v :: post => some (v, post)
    else some (arg, rest)
  match next with
  | none => .error .exit
  | some (a, post) =>
    if E.matches_cmd a "help" then .error .exit
    else if addr.isSome then .error .exit
    else .ok (a, post)

/-- One pass of the loop of `fdb_modify` (fdb.c:431-517) on the argument `arg`
followed by `rest`: the locals after the pass and the arguments left for the
next pass. `NEXT_ARG`, `duparg2`, `invarg`, `usage` and a failing `get_addr`
leave the process. -/
def fdb_modify_arg (E : Ext) (st : ModifyState) (arg : String) (rest : List String) :
    Except Fail (ModifyState × List String) :=
  match fdb_modify_keyword E arg with
  | .kw_dev =>
    match rest with
    | [] => .error .exit
    | v :: post => .ok ({ st with d := some v }, post)
  | .kw_dst =>
    match rest with
    | [] => .error .exit
    | v :: post =>
      if st.dst_ok then .error .exit
      else
        match E.get_addr v E.preferred_family with
        | none => .error .exit
        | some a => .ok ({ st with dst := some a, dst_ok := true }, post)
  | .kw_nhid =>
    match rest with
    | [] => .error .exit
    | v :: post =>
      match E.get_u32 v 0 with
      | none => .error .exit
      | some x => .ok ({ st with nhid := x % 2 ^ 32 }, post)
  | .kw_port =>
    match rest with
    | [] => .error .exit
    | v :: post =>
      let port := (E.strtoul v 0).1 % (ULONG_MAX E + 1)
      if (E.strtoul v 0).2 ≠ "" then
        match E.getservbyname v "udp" with
        | none => .error .exit
        | some s_port => .ok ({ st with port := ntohs E.le (s_port % 2 ^ 16) }, post)
      else if port > 0xffff then .error .exit
      else .ok ({ st with port := port }, post)
  | .kw_vni =>
    match rest with
    | [] => .error .exit
    | v :: post =>
      match parse_vni E v with
      | .error e => .error e
      | .ok vni => .ok ({ st with vni := vni }, post)
  | .kw_src_vni =>
    match rest with
    | [] => .error .exit
    | v :: post =>
      match parse_vni E v with
      | .error e => .error e
      | .ok vni => .ok ({ st with src_vni := vni }, post)
  | .kw_via =>
    match rest with
    | [] => .error .exit
    | v :: post =>
      if E.ll_name_to_index v % 2 ^ 32 = 0 then .error .exit
      else .ok ({ st with via := E.ll_name_to_index v % 2 ^ 32 }, post)
  | .kw_self => .ok (or_flags st NTF_SELF, rest)
  | .kw_master => .ok (or_flags st NTF_MASTER, rest)
  | .kw_router => .ok (or_flags st NTF_ROUTER, rest)
  | .kw_local => .ok (or_state st NUD_PERMANENT, rest)
  | .kw_temp => .ok (or_state st NUD_REACHABLE, rest)
  | .kw_dynamic => .ok (clear_state (or_state st NUD_REACHABLE) NUD_NOARP, rest)
  | .kw_vlan =>
    if st.vid ≥ 0 then .error .exit
    else
      match rest with
      | [] => .error .exit
      | v :: post => .ok ({ st with vid := to_short (E.atoi v) }, post)
  | .kw_use => .ok (or_flags st NTF_USE, rest)
  | .kw_extern_learn => .ok (or_flags st NTF_EXT_LEARNED, rest)
  | .kw_sticky => .ok (or_flags st NTF_STICKY, rest)
  | _ =>
    match parse_to_addr E st.addr arg rest with
    | .error e => .error e
    | .ok (a, post) => .ok ({ st with addr := some a }, post)

/-- The loop `while (argc > 0)` of `fdb_modify`, with fuel (every pass consumes
an argument, so `argv.length` is enough). -/
def fdb_modify_args (E : Ext) : Nat → ModifyState → List String → Except Fail ModifyState :=
  arg_loop (fdb_modify_arg E)

/-- The first `k` passes of the loop of `fdb_modify`: the locals and the
arguments left, when none of them left the process. -/
def fdb_modify_steps (E : Ext) :
    Nat → ModifyState → List String → Except Fail (ModifyState × List String) :=
  arg_steps (fdb_modify_arg E)

/-- The branches the loop of `fdb_modify` goes through on `argv`, in order. -/
def fdb_modify_trace (E : Ext) (cmd flags : Nat) (argv : List String) : List Keyword :=
  arg_trace (fdb_modify_keyword E) (fdb_modify_arg E) argv.length (fdb_modify_init E cmd flags)
    argv

/-- Size of the local `req` of `fdb_modify`: header, `ndmsg` and `buf[256]`. -/
def sizeof_req : Nat := 16 + sizeof_ndmsg + 256

/-- The attribute records `fdb_modify` appends (fdb.c:546-576), in source
order; the return values of the `addattr` calls are not looked at. -/
def fdb_modify_attrs (E : Ext) (st : ModifyState) (mac : List Nat) (r0 : req) : req :=
  let r1 := (addattr_l r0 sizeof_req .NDA_LLADDR (abuf mac)).2
  let r2 :=
    if st.dst_ok then
      match st.dst with
      | some dst => (addattr_l r1 sizeof_req .NDA_DST (dst.data.take dst.bytelen)).2
      | none => r1
    else r1
  let r3 := if st.vid ≥ 0 then (addattr16 E.le r2 sizeof_req .NDA_VLAN st.vid.toNat).2 else r2
  let r4 := if st.nhid > 0 then (addattr32 E.le r3 sizeof_req .NDA_NH_ID st.nhid).2 else r3
  let r5 :=
    if st.port ≠ 0 then
      (addattr16 E.le r4 sizeof_req .NDA_PORT (htons E.le (st.port % 2 ^ 16))).2
    else r4
  let r6 :=
    if st.vni ≠ ULONG_MAX E then (addattr32 E.le r5 sizeof_req .NDA_VNI (st.vni % 2 ^ 32)).2
    else r5
  let r7 :=
    if st.src_vni ≠ ULONG_MAX E then
      (addattr32 E.le r6 sizeof_req .NDA_SRC_VNI (st.src_vni % 2 ^ 32)).2
    else r6
  if st.via ≠ 0 then (addattr32 E.le r7 sizeof_req .NDA_IFINDEX st.via).2 else r7

/-- The code of `fdb_modify` from the defaults for flags and state down to the
call of `rtnl_talk` (fdb.c:530-583), for the device `d` and the address text
`addr`: the request handed to `rtnl_talk`, or -1. -/
def fdb_modify_build (E : Ext) (st : ModifyState) (d addr : String) : Except Fail req :=
  let flags :=
    if st.req.ndm_flags &&& (NTF_SELF ||| NTF_MASTER) = 0 then
      (st.req.ndm_flags ||| NTF_SELF) % 2 ^ 8
    else st.req.ndm_flags
  let state :=
    if st.req.ndm_state &&& (NUD_PERMANENT ||| NUD_REACHABLE) = 0 then
      (st.req.ndm_state ||| NUD_PERMANENT) % 2 ^ 16
    else st.req.ndm_state
  match E.sscanf_lladdr addr with
  | none => .error .err
  | some mac =>
    let r := fdb_modify_attrs E st mac { st.req with ndm_flags := flags, ndm_state := state }
    if E.ll_name_to_index d % 2 ^ 32 = 0 then .error .err
    else .ok { r with ndm_ifindex := E.ll_name_to_index d % 2 ^ 32 }

/-- The code of `fdb_modify` after the loop (fdb.c:519-583): the two tests on
the locals, then the construction of the request. -/
def fdb_modify_finish (E : Ext) (st : ModifyState) : Except Fail req :=
  match st.d, st.addr with
  | some d, some addr =>
    if st.nhid ≠ 0 ∧ (st.dst_ok ∨ st.port ≠ 0 ∨ st.vni ≠ ULONG_MAX E) then .error .err
    else fdb_modify_build E st d addr
  | _, _ => .error .err

/-- Embeds `fdb_modify` (fdb.c:405) up to its call of `rtnl_talk`: the request
handed to `rtnl_talk`, or how the function ends without sending one (`err` is
`return -1`, `exit` a call of `exit()`). -/
def fdb_modify (E : Ext) (cmd flags : Nat) (argv : List String) : Except Fail req :=
  match fdb_modify_args E argv.length (fdb_modify_init E cmd flags) argv with
  | .error e => .error e
  | .ok st => fdb_modify_finish E st

/-! ## `fdb_get` -/

/-- The `if ... else if` chain of the loop of `fdb_get` (fdb.c:612-640), in
source order. -/
def fdb_get_keyword (E : Ext) (arg : String) : Keyword :=
  if arg = "brport" ∨ arg = "dev" then .kw_brport
  else if arg = "br" then .kw_br
  else if arg = "dev" then .kw_dev
  else if arg = "vni" then .kw_vni
  else if arg = "self" then .kw_self
  else if E.matches_cmd arg "master" then .kw_master
  else if E.matches_cmd arg "vlan" then .kw_vlan
  else if E.matches_cmd arg "dynamic" then .kw_dynamic
  else .kw_other

/-- The locals of `fdb_get` that the loop writes, and the global
`filter_dynamic`. -/
structure GetState where
  req : req
  d : Option String
  br : Option String
  vni : Nat
  addr : Option String
  vlan : Int
  filter_dynamic : Nat
  deriving DecidableEq, Repr

/-- The locals of `fdb_get` on entry to the loop (fdb.c:591-609). -/
def fdb_get_init (E : Ext) (filter_dynamic : Nat) : GetState :=
  { req := {
      nlmsg_len := NLMSG_LENGTH sizeof_ndmsg
      nlmsg_flags := NLM_F_REQUEST
      nlmsg_type := RTM_GETNEIGH
      ndm_family := AF_BRIDGE
      ndm_ifindex := 0
      ndm_state := 0
      ndm_flags := 0
      attrs := [] }
    d := none
    br := none
    vni := ULONG_MAX E
    addr := none
    vlan := -1
    filter_dynamic := filter_dynamic }

/-- One pass of the loop of `fdb_get` (fdb.c:611-651). -/
def fdb_get_arg (E : Ext) (st : GetState) (arg : String) (rest : List String) :
    Except Fail (GetState × List String) :=
  match fdb_get_keyword E arg with
  | .kw_brport =>
    match rest with
    | [] => .error .exit
    | v :: post => .ok ({ st with d := some v }, post)
  | .kw_br =>
    match rest with
    | [] => .error .exit
    | v :: post => .ok ({ st with br := some v }, post)
  | .kw_dev =>
    match rest with
    | [] => .error .exit
    | v :: post => .ok ({ st with d := some v }, post)
  | .kw_vni =>
    match rest with
    | [] => .error .exit
    | v :: post =>
      match parse_vni E v with
      | .error e => .error e
      | .ok vni => .ok ({ st with vni := vni }, post)
  | .kw_self =>
    .ok ({ st with req := { st.req with ndm_flags := (st.req.ndm_flags ||| NTF_SELF) % 2 ^ 8 } },
      rest)
  | .kw_master =>
    .ok ({ st with
      req := { st.req with ndm_flags := (st.req.ndm_flags ||| NTF_MASTER) % 2 ^ 8 } }, rest)
  | .kw_vlan =>
    if st.vlan ≥ 0 then .error .exit
    else
      match rest with
      | [] => .error .exit
      | v :: post => .ok ({ st with vlan := to_short (E.atoi v) }, post)
  | .kw_dynamic => .ok ({ st with filter_dynamic := 1 }, rest)
  | _ =>
    match parse_to_addr E st.addr arg rest with
    | .error e => .error e
    | .ok (a, post) => .ok ({ st with addr := some a }, post)

/-- The loop `while (argc > 0)` of `fdb_get`, with fuel. -/
def fdb_get_args (E : Ext) : Nat → GetState → List String → Except Fail GetState :=
  arg_loop (fdb_get_arg E)

/-- The first `k` passes of the loop of `fdb_get`. -/
def fdb_get_steps (E : Ext) :
    Nat → GetState → List String → Except Fail (GetState × List String) :=
  arg_steps (fdb_get_arg E)

/-- The branches the loop of `fdb_get` goes through on `argv`, in order. -/
def fdb_get_trace (E : Ext) (filter_dynamic : Nat) (argv : List String) : List Keyword :=
  arg_trace (fdb_get_keyword E) (fdb_get_arg E) argv.length (fdb_get_init E filter_dynamic) argv

/-- Size of the local `req` of `fdb_get`: header, `ndmsg` and `buf[1024]`. -/
def sizeof_get_req : Nat := 16 + sizeof_ndmsg + 1024

/-- The code of `fdb_get` after the loop down to the call of `rtnl_talk`
(fdb.c:653-692): the request handed to `rtnl_talk`, or -1. -/
def fdb_get_finish (E : Ext) (st : GetState) : Except Fail req :=
  if (st.d = none ∧ st.br = none) ∨ st.addr = none then .error .err
  else
    match st.addr.bind E.sscanf_lladdr with
    | none => .error .err
    | some mac =>
      let r1 := (addattr_l st.req sizeof_get_req .NDA_LLADDR (abuf mac)).2
      let r2 :=
        if st.vlan ≥ 0 then (addattr16 E.le r1 sizeof_get_req .NDA_VLAN st.vlan.toNat).2 else r1
      let r3 :=
        if st.vni ≠ ULONG_MAX E then
          (addattr32 E.le r2 sizeof_get_req .NDA_VNI (st.vni % 2 ^ 32)).2
        else r2
      let r4 : Except Fail req :=
        match st.d with
        | some d =>
          if E.ll_name_to_index d % 2 ^ 32 = 0 then .error .err
          else .ok { r3 with ndm_ifindex := E.ll_name_to_index d % 2 ^ 32 }
        | none => .ok r3
      match r4 with
      | .error e => .error e
      | .ok r5 =>
        match st.br with
        | some br =>
          if E.ll_name_to_index br % 2 ^ 32 = 0 then .error .err
          else .ok (addattr32 E.le r5 sizeof_get_req .NDA_MASTER
            (E.ll_name_to_index br % 2 ^ 32)).2
        | none => .ok r5

/-- Embeds `fdb_get` (fdb.c:589) up to its call of `rtnl_talk`; `filter_dynamic`
is the value of the global on entry. The result is the request handed to
`rtnl_talk` with the locals at that point, or how the function ends without
sending one. -/
def fdb_get (E : Ext) (filter_dynamic : Nat) (argv : List String) :
    Except Fail (req × GetState) :=
  match fdb_get_args E argv.length (fdb_get_init E filter_dynamic) argv with
  | .error e => .error e
  | .ok st =>
    match fdb_get_finish E st with
    | .error e => .error e
    | .ok r => .ok (r, st)

/-! ## `fdb_flush` -/

def RTM_NEWNEIGH : Nat := 28
def RTM_DELNEIGH : Nat := 29
def NLM_F_BULK : Nat := 0x200
def NLM_F_REPLACE : Nat := 0x100
def NLM_F_EXCL : Nat := 0x200
def NLM_F_CREATE : Nat := 0x400
def NLM_F_APPEND : Nat := 0x800
def NTF_OFFLOADED : Nat := 0x20
def NTF_EXT_LOCKED : Nat := 2

/-- Modelled from the spec: `addattr8` (one byte). -/
def addattr8 (n : req) (maxlen : Nat) (type : NdaId) (data : Nat) : Int × req :=
  addattr_l n maxlen type [data % 256]

/-- The branch of the argument loop of `fdb_flush` that an argument selects. -/
inductive FlushKeyword where
  | fl_dev
  | fl_master
  | fl_self
  | fl_permanent
  | fl_nopermanent
  | fl_static
  | fl_nostatic
  | fl_dynamic
  | fl_nodynamic
  | fl_added_by_user
  | fl_noadded_by_user
  | fl_extern_learn
  | fl_noextern_learn
  | fl_sticky
  | fl_nosticky
  | fl_offloaded
  | fl_nooffloaded
  | fl_brport
  | fl_vlan
  | fl_other
  deriving DecidableEq, Repr

/-- The `if ... else if` chain of the loop of `fdb_flush` (fdb.c:730-790), in
source order; every test is a `strcmp`. -/
def fdb_flush_keyword (arg : String) : FlushKeyword :=
  if arg = "dev" then .fl_dev
  else if arg = "master" then .fl_master
  else if arg = "self" then .fl_self
  else if arg = "permanent" then .fl_permanent
  else if arg = "nopermanent" then .fl_nopermanent
  else if arg = "static" then .fl_static
  else if arg = "nostatic" then .fl_nostatic
  else if arg = "dynamic" then .fl_dynamic
  else if arg = "nodynamic" then .fl_nodynamic
  else if arg = "added_by_user" then .fl_added_by_user
  else if arg = "noadded_by_user" then .fl_noadded_by_user
  else if arg = "extern_learn" then .fl_extern_learn
  else if arg = "noextern_learn" then .fl_noextern_learn
  else if arg = "sticky" then .fl_sticky
  else if arg = "nosticky" then .fl_nosticky
  else if arg = "offloaded" then .fl_offloaded
  else if arg = "nooffloaded" then .fl_nooffloaded
  else if arg = "brport" then .fl_brport
  else if arg = "vlan" then .fl_vlan
  else .fl_other

/-- The locals of `fdb_flush` that the loop writes: the four `unsigned short`
words, the `short vid`, and the two names. -/
structure FlushState where
  d : Option String
  port : Option String
  vid : Int
  ndm_flags : Nat
  ndm_state : Nat
  ndm_flags_mask : Nat
  ndm_state_mask : Nat
  deriving DecidableEq, Repr

/-- The locals of `fdb_flush` on entry to the loop (fdb.c:723-728). -/
def fdb_flush_init : FlushState :=
  { d := none
    port := none
    vid := -1
    ndm_flags := 0
    ndm_state := 0
    ndm_flags_mask := 0
    ndm_state_mask := 0 }

/-- Embeds `ndm_flags |= bit; ndm_flags_mask |= bit` on the `unsigned short`
locals. -/
def flush_set_flag (st : FlushState) (bit : Nat) : FlushState :=
  { st with
    ndm_flags := (st.ndm_flags ||| bit) % 2 ^ 16
    ndm_flags_mask := (st.ndm_flags_mask ||| bit) % 2 ^ 16 }

/-- Embeds `ndm_flags &= ~bit; ndm_flags_mask |= bit` on the `unsigned short`
locals. -/
def flush_clear_flag (st : FlushState) (bit : Nat) : FlushState :=
  { st with
    ndm_flags := st.ndm_flags &&& (0xffff ^^^ bit)
    ndm_flags_mask := (st.ndm_flags_mask ||| bit) % 2 ^ 16 }

/-- One pass of the loop of `fdb_flush` (fdb.c:730-793) on the argument `arg`
followed by `rest`: the locals after the pass and the arguments left for the
next pass. `NEXT_ARG` and `duparg2` leave the process. In the `dynamic` branch
the operand of `&=` is `~NUD_NOARP | NUD_PERMANENT`, where `~` applies to
`NUD_NOARP` alone. -/
def fdb_flush_arg (E : Ext) (st : FlushState) (arg : String) (rest : List String) :
    Except Fail (FlushState × List String) :=
  match fdb_flush_keyword arg with
  | .fl_dev =>
    match rest with
    | [] => .error .exit
    | v :: post => .ok ({ st with d := some v }, post)
  | .fl_master => .ok ({ st with ndm_flags := (st.ndm_flags ||| NTF_MASTER) % 2 ^ 16 }, rest)
  | .fl_self => .ok ({ st with ndm_flags := (st.ndm_flags ||| NTF_SELF) % 2 ^ 16 }, rest)
  | .fl_permanent =>
    .ok ({ st with
      ndm_state := (st.ndm_state ||| NUD_PERMANENT) % 2 ^ 16
      ndm_state_mask := (st.ndm_state_mask ||| NUD_PERMANENT) % 2 ^ 16 }, rest)
  | .fl_nopermanent =>
    .ok ({ st with
      ndm_state := st.ndm_state &&& (0xffff ^^^ NUD_PERMANENT)
      ndm_state_mask := (st.ndm_state_mask ||| NUD_PERMANENT) % 2 ^ 16 }, rest)
  | .fl_static =>
    .ok ({ st with
      ndm_state := (st.ndm_state ||| NUD_NOARP) % 2 ^ 16
      ndm_state_mask := (st.ndm_state_mask ||| (NUD_NOARP ||| NUD_PERMANENT)) % 2 ^ 16 }, rest)
  | .fl_nostatic =>
    .ok ({ st with
      ndm_state := st.ndm_state &&& (0xffff ^^^ NUD_NOARP)
      ndm_state_mask := (st.ndm_state_mask ||| NUD_NOARP) % 2 ^ 16 }, rest)
  | .fl_dynamic =>
    .ok ({ st with
      ndm_state := st.ndm_state &&& ((0xffff ^^^ NUD_NOARP) ||| NUD_PERMANENT)
      ndm_state_mask := (st.ndm_state_mask ||| (NUD_NOARP ||| NUD_PERMANENT)) % 2 ^ 16 }, rest)
  | .fl_nodynamic =>
    .ok ({ st with
      ndm_state := (st.ndm_state ||| NUD_NOARP) % 2 ^ 16
      ndm_state_mask := (st.ndm_state_mask ||| NUD_NOARP) % 2 ^ 16 }, rest)
  | .fl_added_by_user => .ok (flush_set_flag st NTF_USE, rest)
  | .fl_noadded_by_user => .ok (flush_clear_flag st NTF_USE, rest)
  | .fl_extern_learn => .ok (flush_set_flag st NTF_EXT_LEARNED, rest)
  | .fl_noextern_learn => .ok (flush_clear_flag st NTF_EXT_LEARNED, rest)
  | .fl_sticky => .ok (flush_set_flag st NTF_STICKY, rest)
  | .fl_nosticky => .ok (flush_clear_flag st NTF_STICKY, rest)
  | .fl_offloaded => .ok (flush_set_flag st NTF_OFFLOADED, rest)
  | .fl_nooffloaded => .ok (flush_clear_flag st NTF_OFFLOADED, rest)
  | .fl_brport =>
    if st.port.isSome then .error .exit
    else
      match rest with
      | [] => .error .exit
      | v :: post => .ok ({ st with port := some v }, post)
  | .fl_vlan =>
    if st.vid ≥ 0 then .error .exit
    else
      match rest with
      | [] => .error .exit
      | v :: post => .ok ({ st with vid := to_short (E.atoi v) }, post)
  | .fl_other =>
    if arg = "help" then
      match rest with
      | [] => .error .exit
      | _ :: post => .ok (st, post)
    else .ok (st, rest)

/-- The loop `while (argc > 0)` of `fdb_flush`, with fuel (every pass consumes
an argument, so `argv.length` is enough). -/
def fdb_flush_args (E : Ext) : Nat → FlushState → List String → Except Fail FlushState :=
  arg_loop (fdb_flush_arg E)

/-- The branches the loop of `fdb_flush` goes through on `argv`, in order. -/
def fdb_flush_trace (E : Ext) (argv : List String) : List FlushKeyword :=
  arg_trace fdb_flush_keyword (fdb_flush_arg E) argv.length fdb_flush_init argv

/-- The attribute records `fdb_flush` appends (fdb.c:817-831), in source
order, `port_ifidx` being the `short` of that name; the return values of the
`addattr` calls are not looked at. -/
def fdb_flush_attrs (E : Ext) (st : FlushState) (port_ifidx : Int) (r0 : req) : req :=
  let r1 :=
    if port_ifidx > -1 then (addattr32 E.le r0 sizeof_req .NDA_IFINDEX port_ifidx.toNat).2
    else r0
  let r2 :=
    if st.vid > -1 then (addattr16 E.le r1 sizeof_req .NDA_VLAN st.vid.toNat).2 else r1
  let r3 :=
    if st.ndm_flags_mask ≠ 0 then
      (addattr8 r2 sizeof_req .NDA_NDM_FLAGS_MASK st.ndm_flags_mask).2
    else r2
  if st.ndm_state_mask ≠ 0 then
    (addattr16 E.le r3 sizeof_req .NDA_NDM_STATE_MASK st.ndm_state_mask).2
  else r3

/-- The code of `fdb_flush` after the loop (fdb.c:795-831), down to the call of
`rtnl_talk`: the request handed to `rtnl_talk`, or -1. The local `req` has the
size of the one of `fdb_modify`. -/
def fdb_flush_finish (E : Ext) (st : FlushState) : Except Fail req :=
  match st.d with
  | none => .error .err
  | some d =>
    if E.ll_name_to_index d % 2 ^ 32 = 0 then .error .err
    else
      let port_ifidx : Int :=
        match st.port with
        | none => -1
        | some port => to_short (E.ll_name_to_index port)
      if st.port.isSome ∧ port_ifidx = 0 then .error .err
      else if st.vid ≥ 4096 then .error .err
      else
        let ndm_flags :=
          if st.ndm_flags &&& (NTF_SELF ||| NTF_MASTER) = 0 then
            (st.ndm_flags ||| NTF_SELF) % 2 ^ 16
          else st.ndm_flags
        .ok (fdb_flush_attrs E st port_ifidx {
          nlmsg_len := NLMSG_LENGTH sizeof_ndmsg
          nlmsg_flags := NLM_F_REQUEST ||| NLM_F_BULK
          nlmsg_type := RTM_DELNEIGH
          ndm_family := PF_BRIDGE
          ndm_ifindex := E.ll_name_to_index d % 2 ^ 32
          ndm_state := st.ndm_state
          ndm_flags := ndm_flags % 2 ^ 8
          attrs := [] })

/-- Embeds `fdb_flush` (fdb.c:711) up to its call of `rtnl_talk`: the request
handed to `rtnl_talk`, or how the function ends without sending one (`err` is
`return -1`, `exit` a call of `exit()`). -/
def fdb_flush (E : Ext) (argv : List String) : Except Fail req :=
  match fdb_flush_args E argv.length fdb_flush_init argv with
  | .error e => .error e
  | .ok st => fdb_flush_finish E st

/-! ## `do_fdb` -/

/-- How a call of `do_fdb` ends: with the call of one of the handlers, whose
result it returns, on the arguments after the verb; with the call of `usage()`,
which writes the usage text to `stderr` and calls `exit(-1)`; or with its own
`fprintf(stderr, ...)` of `text` followed by `exit(status)`. -/
inductive fdb_dispatch where
  | fdb_modify (cmd flags : Nat) (argv : List String)
  | fdb_get (argv : List String)
  | fdb_show (argv : List String)
  | fdb_flush (argv : List String)
  | usage
  | unknown (text : String) (status : Int)
  deriving DecidableEq, Repr

/-- Embeds `do_fdb` (fdb.c:845); the calls `ll_init_map(&rth)` and the
assignment `timestamp = 0` that precede the dispatch are left out. -/
def do_fdb (E : Ext) (argv : List String) : fdb_dispatch :=
  match argv with
  | [] => .fdb_show []
  | arg :: rest =>
    if E.matches_cmd arg "add" then
      .fdb_modify RTM_NEWNEIGH (NLM_F_CREATE ||| NLM_F_EXCL) rest
    else if E.matches_cmd arg "append" then
      .fdb_modify RTM_NEWNEIGH (NLM_F_CREATE ||| NLM_F_APPEND) rest
    else if E.matches_cmd arg "replace" then
      .fdb_modify RTM_NEWNEIGH (NLM_F_CREATE ||| NLM_F_REPLACE) rest
    else if E.matches_cmd arg "delete" then .fdb_modify RTM_DELNEIGH 0 rest
    else if E.matches_cmd arg "get" then .fdb_get rest
    else if E.matches_cmd arg "show" ∨ E.matches_cmd arg "lst" ∨ E.matches_cmd arg "list" then
      .fdb_show rest
    else if arg = "flush" then .fdb_flush rest
    else if E.matches_cmd arg "help" then .usage
    else .unknown ("Command \"" ++ arg ++ "\" is unknown, try \"bridge fdb help\".\n") (-1)

/-! ## `print_fdb` -/

/-- The conversion of a 32-bit word to `int` (two's complement). -/
def to_int (x : Nat) : Int :=
  if x % 2 ^ 32 ≥ 2 ^ 31 then (x % 2 ^ 32 : Nat) - 2 ^ 32 else (x % 2 ^ 32 : Nat)

/-- The records `parse_rtattr` visits: it walks the records while `RTA_OK`
holds (at least a header left, and a length field between the header size and
what is left), stepping by the aligned length. -/
def rta_scan : List rtattr → Int → List rtattr
  | [], _ => []
  | a :: rest, len =>
    if len ≥ 4 ∧ a.rta_len ≥ 4 ∧ (a.rta_len : Int) ≤ len then
      a :: rta_scan rest (len - NLMSG_ALIGN a.rta_len)
    else []

/-- Modelled from the spec: `parse_rtattr` of lib/libnetlink.c is not part of
the sources at hand. Following the data model (at most one attribute per
identifier, the first occurrence wins) and the codec contract (a linear scan of
the records until the buffer is exhausted), the table entry for an identifier
is the first visited record that carries it; every identifier of `NdaId` is
within `NDA_MAX`. -/
def parse_rtattr (attrs : List rtattr) (len : Int) (type : NdaId) : Option rtattr :=
  (rta_scan attrs len).find? fun a => a.rta_type = type

/-- The helpers from outside `fdb.c` that `print_fdb` calls, and the globals it
reads. -/
structure ShowExt where
  /-- Whether the host is little-endian. -/
  le : Bool
  /-- Embeds `is_json_context()`. -/
  is_json_context : Bool
  /-- The global `show_stats`. -/
  show_stats : Int
  /-- Embeds `get_user_hz()`. -/
  get_user_hz : Int
  filter_index : Nat
  filter_dynamic : Nat
  filter_master : Nat
  filter_state : Nat
  filter_vlan : Nat
  /-- Embeds `ll_index_to_type(ifindex)`. -/
  ll_index_to_type : Nat → Nat
  /-- Embeds `ll_index_to_name(ifindex)`. -/
  ll_index_to_name : Nat → String
  /-- Embeds `ll_addr_n2a(addr, alen, type, buf, blen)` on the bytes `addr`. -/
  ll_addr_n2a : List Nat → Nat → String
  /-- Embeds `format_host(family, len, addr)`. -/
  format_host : Nat → List Nat → String

/-- Embeds `fdb_print_flags` (fdb.c:96). -/
def fdb_print_flags (E : ShowExt) (flags ext_flags : Nat) : List Flower.print_call :=
  [.open_json_array .PRINT_JSON (some (if E.is_json_context then "flags" else ""))] ++
  (if flags &&& NTF_SELF ≠ 0 then [.print_string .PRINT_ANY none (some "%s ") (some "self")]
    else []) ++
  (if flags &&& NTF_ROUTER ≠ 0 then
    [.print_string .PRINT_ANY none (some "%s ") (some "router")] else []) ++
  (if flags &&& NTF_EXT_LEARNED ≠ 0 then
    [.print_string .PRINT_ANY none (some "%s ") (some "extern_learn")] else []) ++
  (if flags &&& NTF_OFFLOADED ≠ 0 then
    [.print_string .PRINT_ANY none (some "%s ") (some "offload")] else []) ++
  (if flags &&& NTF_MASTER ≠ 0 then
    [.print_string .PRINT_ANY none (some "%s ") (some "master")] else []) ++
  (if flags &&& NTF_STICKY ≠ 0 then
    [.print_string .PRINT_ANY none (some "%s ") (some "sticky")] else []) ++
  (if ext_flags &&& NTF_EXT_LOCKED ≠ 0 then
    [.print_string .PRINT_ANY none (some "%s ") (some "locked")] else []) ++
  [.close_json_array .PRINT_JSON none]

/-- Embeds `fdb_print_stats` (fdb.c:125) on the payload `ci` of a
`struct nda_cacheinfo` (four `__u32`: confirmed, used, updated, refcnt); `hz`
is the static of that name on entry. The divisions are unsigned; a zero
divisor is undefined. -/
def fdb_print_stats (E : ShowExt) (hz : Int) (ci : List Nat) :
    List Flower.print_call × Option Fail :=
  let hz1 : Nat := ((if hz = 0 then E.get_user_hz else hz) % 2 ^ 32).toNat
  let ndm_used := Flower.rta_getattr_u32 E.le (ci.drop 4)
  let ndm_updated := Flower.rta_getattr_u32 E.le (ci.drop 8)
  if hz1 = 0 then ([], some .undefined)
  else if E.is_json_context then
    ([.print_uint .PRINT_JSON (some "used") none (ndm_used / hz1),
      .print_uint .PRINT_JSON (some "updated") none (ndm_updated / hz1)], none)
  else
    ([.fprintf "fp" ("used " ++ toString (to_int (ndm_used / hz1)) ++ "/" ++
        toString (to_int (ndm_updated / hz1)) ++ " ")], none)

/-- The part of `print_fdb` from `print_headers` to the call of
`fdb_print_stats` (fdb.c:189-266), for the decoded table `tb` and the VLAN id
`vid`. -/
def print_fdb_fields (E : ShowExt) (n : req) (tb : NdaId → Option rtattr) (vid : Nat) :
    List Flower.print_call :=
  [.print_headers "[NEIGH]", .open_json_object none] ++
  (if n.nlmsg_type = RTM_DELNEIGH then
    [.print_bool .PRINT_ANY (some "deleted") (some "Deleted ") true] else []) ++
  (match tb .NDA_LLADDR with
    | some a =>
      [.print_color_string .PRINT_ANY .COLOR_MAC (some "mac") (some "%s ")
        (some (E.ll_addr_n2a a.data (E.ll_index_to_type n.ndm_ifindex)))]
    | none => []) ++
  (if E.filter_index = 0 ∧ n.ndm_ifindex ≠ 0 then
    [.print_string .PRINT_FP none (some "dev ") none,
     .print_color_string .PRINT_ANY .COLOR_IFNAME (some "ifname") (some "%s ")
       (some (E.ll_index_to_name n.ndm_ifindex))]
    else []) ++
  (match tb .NDA_DST with
    | some a =>
      let family := if a.data.length = 16 then Flower.AF_INET6 else Flower.AF_INET
      [.print_string .PRINT_FP none (some "dst ") none,
       .print_color_string .PRINT_ANY (.ifa_family_color family) (some "dst") (some "%s ")
         (some (E.format_host family a.data))]
    | none => []) ++
  (if vid ≠ 0 then [.print_uint .PRINT_ANY (some "vlan") (some "vlan %hu ") vid] else []) ++
  (match tb .NDA_PORT with
    | some a =>
      [.print_uint .PRINT_ANY (some "port") (some "port %u ")
        (Flower.rta_getattr_be16 E.le a.data)]
    | none => []) ++
  (match tb .NDA_VNI with
    | some a =>
      [.print_uint .PRINT_ANY (some "vni") (some "vni %u ") (Flower.rta_getattr_u32 E.le a.data)]
    | none => []) ++
  (match tb .NDA_SRC_VNI with
    | some a =>
      [.print_uint .PRINT_ANY (some "src_vni") (some "src_vni %u ")
        (Flower.rta_getattr_u32 E.le a.data)]
    | none => []) ++
  (match tb .NDA_IFINDEX with
    | some a =>
      if (tb .NDA_LINK_NETNSID).isSome then
        [.print_uint .PRINT_ANY (some "viaIfIndex") (some "via ifindex %u ")
          (Flower.rta_getattr_u32 E.le a.data)]
      else
        [.print_string .PRINT_ANY (some "viaIf") (some "via %s ")
          (some (E.ll_index_to_name (Flower.rta_getattr_u32 E.le a.data)))]
    | none => []) ++
  (match tb .NDA_NH_ID with
    | some a =>
      [.print_uint .PRINT_ANY (some "nhid") (some "nhid %u ")
        (Flower.rta_getattr_u32 E.le a.data)]
    | none => []) ++
  (match tb .NDA_LINK_NETNSID with
    | some a =>
      [.print_uint .PRINT_ANY (some "linkNetNsId") (some "link-netnsid %d ")
        (Flower.rta_getattr_u32 E.le a.data)]
    | none => [])

/-- The end of `print_fdb` after the call of `fdb_print_stats`
(fdb.c:268-279). -/
def print_fdb_tail (E : ShowExt) (n : req) (tb : NdaId → Option rtattr) (ext_flags : Nat) :
    List Flower.print_call :=
  fdb_print_flags E n.ndm_flags ext_flags ++
  (match tb .NDA_MASTER with
    | some a =>
      [.print_string .PRINT_ANY (some "master") (some "master %s ")
        (some (E.ll_index_to_name (Flower.rta_getattr_u32 E.le a.data)))]
    | none => []) ++
  [.print_string .PRINT_ANY (some "state") (some "%s\n")
     (some (state_n2a E.is_json_context n.ndm_state)),
   .close_json_object, .fflush]

/-- The local `vid` of `print_fdb` after the test of `tb[NDA_VLAN]`
(fdb.c:180-181); it starts as 0. -/
def print_fdb_vid (E : ShowExt) (tb : NdaId → Option rtattr) : Nat :=
  match tb .NDA_VLAN with
  | some a => Flower.rta_getattr_u16 E.le a.data
  | none => 0

/-- Embeds `print_fdb` (fdb.c:146) on the message `n`, whose `ndmsg` fields and
attribute records are those of `req`: the calls of the output interface it
makes, and its return value or `undefined`. `hz` is the static of
`fdb_print_stats` on entry. -/
def print_fdb (E : ShowExt) (hz : Int) (n : req) :
    List Flower.print_call × Except Fail Int :=
  if n.nlmsg_type ≠ RTM_NEWNEIGH ∧ n.nlmsg_type ≠ RTM_DELNEIGH then
    ([.fprintf "stderr" ("Not RTM_NEWNEIGH: " ++ Flower.sprintf_x 8 n.nlmsg_len ++ " " ++
        Flower.sprintf_x 8 n.nlmsg_type ++ " " ++ Flower.sprintf_x 8 n.nlmsg_flags ++ "\n")],
      .ok 0)
  else
    let len : Int := to_int (n.nlmsg_len + 2 ^ 32 - NLMSG_LENGTH sizeof_ndmsg)
    if len < 0 then
      ([.fprintf "stderr" ("BUG: wrong nlmsg len " ++ toString len ++ "\n")], .ok (-1))
    else if n.ndm_family ≠ AF_BRIDGE then ([], .ok 0)
    else if E.filter_index ≠ 0 ∧ E.filter_index ≠ n.ndm_ifindex then ([], .ok 0)
    else if E.filter_state ≠ 0 ∧ n.ndm_state &&& E.filter_state = 0 then ([], .ok 0)
    else
      let tb := parse_rtattr n.attrs len
      let ext_flags :=
        match tb .NDA_FLAGS_EXT with
        | some a => Flower.rta_getattr_u32 E.le a.data
        | none => 0
      let vid := print_fdb_vid E tb
      if E.filter_vlan ≠ 0 ∧ E.filter_vlan ≠ vid then ([], .ok 0)
      else if E.filter_dynamic ≠ 0 ∧ n.ndm_state &&& NUD_PERMANENT ≠ 0 then ([], .ok 0)
      else
        let stats : List Flower.print_call × Option Fail :=
          match tb .NDA_CACHEINFO with
          | some a => if E.show_stats ≠ 0 then fdb_print_stats E hz a.data else ([], none)
          | none => ([], none)
        match stats.2 with
        | some e => (print_fdb_fields E n tb vid ++ stats.1, .error e)
        | none =>
          (print_fdb_fields E n tb vid ++ stats.1 ++ print_fdb_tail E n tb ext_flags, .ok 0)

/-! ## The `sscanf` call that reads the link-layer address -/

/-- The characters `isspace` accepts in the C locale: the space and the
control characters 9 to 13. -/
def c_isspace (c : Char) : Bool :=
  c.toNat = 32 || c.toNat = 9 || c.toNat = 10 || c.toNat = 11 || c.toNat = 12 ||
    c.toNat = 13

/-- The conversion `%hhx` of the C library's `sscanf` on the input `cs` (the
library is not part of the sources at hand; this follows the C standard's
description of the directive and what glibc does at its edges): white space
is skipped, then come an optional sign, an optional `0x` or `0X`, and the
longest run of hexadecimal digits; the value is converted as by `strtoul`
(64 bits, saturating) and stored in an `unsigned char`. A lone `0x` counts as
the number 0. The result is the byte stored and the input left, `none` for a
matching failure. -/
def scan_hhx (cs : List Char) : Option (Nat × List Char) :=
  let cs1 := cs.dropWhile c_isspace
  let signed : Bool × List Char :=
    match cs1 with
    | '-' :: r => (true, r)
    | '+' :: r => (false, r)
    | _ => (false, cs1)
  let body : Bool × List Char :=
    match signed.2 with
    | '0' :: x :: r => if x = 'x' ∨ x = 'X' then (true, r) else (false, signed.2)
    | _ => (false, signed.2)
  let ds := body.2.takeWhile fun c => (Flower.digit_val c).isSome
  if ds = [] ∧ body.1 = false then none
  else
    let v := ds.foldl (fun acc c => acc * 16 + (Flower.digit_val c).getD 0) 0
    let w := if v ≥ 2 ^ 64 then 2 ^ 64 - 1 else if signed.1 then (2 ^ 64 - v) % 2 ^ 64 else v
    some (w % 256, body.2.drop ds.length)

/-- The directives of the format after the first: each `:` must be the next
character, then a `%hhx` is converted; `k` is how many are left. -/
def scan_more : Nat → List Char → Option (List Nat)
  | 0, _ => some []
  | k + 1, ':' :: cs =>
    match scan_hhx cs with
    | none => none
    | some (b, rest) => (scan_more k rest).map fun bs => b :: bs
  | _ + 1, _ => none

/-- The call `sscanf(addr, "%hhx:%hhx:%hhx:%hhx:%hhx:%hhx", abuf, ..., abuf+5)`
of `fdb_modify` and `fdb_get`: the six bytes stored when it returns 6, `none`
for any other return. What follows the sixth number in `addr` is not looked
at. -/
def sscanf_hhx6 (addr : String) : Option (List Nat) :=
  match scan_hhx addr.data with
  | none => none
  | some (b, rest) => (scan_more 5 rest).map fun bs => b :: bs

/-! ## A concrete set of helpers for running examples -/

/-- A concrete instantiation of the external helpers for examples: `matches`
accepts any prefix of the keyword, numbers are decimal, addresses are dotted
IPv4, the link-layer address is read as the C library's `sscanf` reads it, the
devices are `br0` (index 2) and `vxlan0` (index 3), and no service name is
known. -/
def demoExt (le : Bool) : Ext where
  le := le
  lp64 := true
  preferred_family := 0
  matches_cmd := fun cmd pattern => cmd.data.isPrefixOf pattern.data
  get_addr := fun s f =>
    match Flower.read_prefix4 s f with
    | .ok a => some a
    | .error _ => none
  get_u32 := Flower.read_uint 32
  strtoul := fun s _ =>
    match Flower.read_nat 10 s with
    | some v => (v, "")
    | none => (0, s)
  getservbyname := fun _ _ => none
  ll_name_to_index := fun s => if s = "br0" then 2 else if s = "vxlan0" then 3 else 0
  atoi := fun s => ((Flower.read_nat 10 s).getD 0 : Nat)
  sscanf_lladdr := sscanf_hhx6
  get_unsigned := Flower.read_uint 32

/-- A concrete instantiation of the helpers of `print_fdb` for examples, with
the four filters as given: text output without statistics, the devices are
`br0` (index 2) and `vxlan0` (index 3), addresses are rendered by
`show_addr`. -/
def demoShowExt (le : Bool) (filter_index filter_state filter_vlan filter_dynamic : Nat) :
    ShowExt where
  le := le
  is_json_context := false
  show_stats := 0
  get_user_hz := 100
  filter_index := filter_index
  filter_dynamic := filter_dynamic
  filter_master := 0
  filter_state := filter_state
  filter_vlan := filter_vlan
  ll_index_to_type := fun _ => 1
  ll_index_to_name := fun i => if i = 2 then "br0" else if i = 3 then "vxlan0" else "if?"
  ll_addr_n2a := fun bs _ => Flower.show_addr 0 bs
  format_host := Flower.show_addr

end Fdb

namespace Flower

/-! ## `flower_print_opt` (f_flower.c:1803) and its helpers

An attribute pointer is `none` when `NULL`, else the payload of the attribute;
`RTA_PAYLOAD` is the length of the payload. -/

/-- The helpers from outside `f_flower.c` that the printing side calls. -/
structure PrintExt where
  /-- Whether the host is little-endian. -/
  le : Bool
  /-- Embeds `is_json_context()`. -/
  is_json_context : Bool
  /-- The global `_SL_`. -/
  SL : String
  /-- Embeds `ll_addr_n2a(addr, ETH_ALEN, 0, buf, blen)` on the bytes `addr`. -/
  ll_addr_n2a : List Nat → String
  /-- Embeds `ll_proto_n2a(id, buf, len)`. -/
  ll_proto_n2a : Nat → String
  /-- Embeds `rt_addr_n2a_rta(family, attr)` on the payload of `attr`. -/
  rt_addr_n2a_rta : Nat → List Nat → String
  /-- Embeds `sprint_tc_classid(h, buf)`. -/
  sprint_tc_classid : Nat → String
  /-- Embeds `rta_getattr_str(attr)` on the payload of `attr`. -/
  rta_getattr_str : List Nat → String
  /-- Embeds `malloc(size) != NULL` for the `k`-th allocation (from 0) that a
  call of `flower_print_enc_opts` makes. -/
  malloc_ok : Nat → Nat → Bool
  /-- Embeds `parse_rtattr(tb, max, rta, len)` on the bytes at `rta`: for an
  identifier within `max`, the payload of the record that `tb` points to
  afterwards, `none` for a `NULL` entry. -/
  parse_rtattr : List Nat → Int → AttrId → Option (List Nat)
  /-- Embeds `hexstring_n2a(str, len, buf, blen)` on the `len` bytes `str`: the
  text in `buf` afterwards. -/
  hexstring_n2a : List Nat → Nat → String
  /-- Embeds `hex2mem(str, buf, count)`: the first `count` bytes of `buf`
  afterwards. -/
  hex2mem : String → Nat → List Nat

/-- Embeds `flower_print_eth_addr` (f_flower.c:1393). -/
def flower_print_eth_addr (E : PrintExt) (name : String)
    (addr_attr mask_attr : Option (List Nat)) : List print_call :=
  match addr_attr with
  | none => []
  | some addr =>
    if addr.length ≠ ETH_ALEN then []
    else
      let out := E.ll_addr_n2a addr
      let out1 :=
        match mask_attr with
        | some mask =>
          if mask.length = ETH_ALEN then
            let bits := __mask_bits mask
            if bits < 0 then out ++ "/" ++ E.ll_addr_n2a mask
            else if bits < ETH_ALEN * 8 then out ++ "/" ++ toString bits.toNat
            else out
          else out
        | none => out
      [.print_string .PRINT_ANY (some name) (some ("\n  " ++ name ++ " %s")) (some out1)]

/-- Embeds `flower_print_eth_type` (f_flower.c:1421): the calls, and the new
value of `*p_eth_type`. -/
def flower_print_eth_type (E : PrintExt) (eth_type0 : Nat)
    (eth_type_attr : Option (List Nat)) : List print_call × Nat :=
  match eth_type_attr with
  | none => ([], eth_type0)
  | some a =>
    let eth_type := rta_getattr_u16 E.le a
    let out :=
      if eth_type = htons E.le ETH_P_IP then "ipv4"
      else if eth_type = htons E.le ETH_P_IPV6 then "ipv6"
      else if eth_type = htons E.le ETH_P_ARP then "arp"
      else if eth_type = htons E.le ETH_P_RARP then "rarp"
      else sprintf_x 4 (ntohs E.le eth_type)
    ([.print_string .PRINT_ANY (some "eth_type") (some "\n  eth_type %s") (some out)], eth_type)

/-- Embeds `flower_print_ip_proto` (f_flower.c:1446): the calls, and the new
value of `*p_ip_proto`. -/
def flower_print_ip_proto (ip_proto0 : Nat) (ip_proto_attr : Option (List Nat)) :
    List print_call × Nat :=
  match ip_proto_attr with
  | none => ([], ip_proto0)
  | some a =>
    let ip_proto := rta_getattr_u8 a
    let out :=
      if ip_proto = IPPROTO_TCP then "tcp"
      else if ip_proto = IPPROTO_UDP then "udp"
      else if ip_proto = IPPROTO_SCTP then "sctp"
      else if ip_proto = IPPROTO_ICMP then "icmp"
      else if ip_proto = IPPROTO_ICMPV6 then "icmpv6"
      else sprintf_x 2 ip_proto
    ([.print_string .PRINT_ANY (some "ip_proto") (some "\n  ip_proto %s") (some out)], ip_proto)

/-- Embeds `flower_print_ip_attr` (f_flower.c:1473). -/
def flower_print_ip_attr (E : PrintExt) (name : String)
    (key_attr mask_attr : Option (List Nat)) : List print_call :=
  match key_attr with
  | none => []
  | some k =>
    let out := "0x" ++ sprintf_x 1 (rta_getattr_u8 k)
    let out1 :=
      match mask_attr with
      | some m => out ++ "/" ++ sprintf_x 1 (rta_getattr_u8 m)
      | none => out
    [.print_string .PRINT_FP none (some "%s  ") (some E.SL),
     .print_string .PRINT_ANY (some name) (some (name ++ " %s")) (some out1)]

/-- The loop of `flower_print_matching_flags` over the entries of `flags_str`,
all of the kind `FLOWER_IP_FLAGS`: the calls, and the final `count`. -/
def matching_flags_loop (name : String) (mtf mtf_mask : Nat) :
    List (Nat × String) → Nat → List print_call × Nat
  | [], count => ([], count)
  | (flag, str) :: rest, count =>
    if mtf_mask &&& flag ≠ 0 then
      let head : List print_call :=
        if count + 1 = 1 then
          [.print_string .PRINT_FP none (some "\n  %s ") (some name),
           .open_json_object (some name)]
        else [.print_string .PRINT_FP none (some "/") none]
      let body : List print_call :=
        [.print_bool .PRINT_JSON (some str) none (mtf &&& flag ≠ 0),
         if mtf &&& flag ≠ 0 then .print_string .PRINT_FP none (some "%s") (some str)
         else .print_string .PRINT_FP none (some "no%s") (some str)]
      (head ++ body ++ (matching_flags_loop name mtf mtf_mask rest (count + 1)).1,
        (matching_flags_loop name mtf mtf_mask rest (count + 1)).2)
    else matching_flags_loop name mtf mtf_mask rest count

/-- Embeds `flower_print_matching_flags` (f_flower.c:1494) for the kind
`FLOWER_IP_FLAGS`. The function tests `mask_attr` only: with a mask of four
bytes and no `attr`, `rta_getattr_u32(attr)` reads through a null pointer. -/
def flower_print_matching_flags (E : PrintExt) (name : String)
    (attr mask_attr : Option (List Nat)) : List print_call × Option Fail :=
  match mask_attr with
  | none => ([], none)
  | some m =>
    if m.length ≠ 4 then ([], none)
    else
      match attr with
      | none => ([], some .undefined)
      | some a =>
        let mtf := ntohl E.le (rta_getattr_u32 E.le a)
        let mtf_mask := ntohl E.le (rta_getattr_u32 E.le m)
        let r := matching_flags_loop name mtf mtf_mask flags_str 0
        (r.1 ++ (if r.2 ≠ 0 then [.close_json_object] else []), none)

/-- The call `print_string(PRINT_ANY, name, "\n  <name> %s", out)` that ends
`flower_print_ip_addr` (f_flower.c:1535), when the function gets there. -/
def flower_print_ip_addr_calls (E : PrintExt) (name : String) (eth_type : Nat)
    (addr4_attr mask4_attr addr6_attr mask6_attr : Option (List Nat)) : List print_call :=
  match flower_print_ip_addr E.rt_addr_n2a_rta E.le eth_type addr4_attr mask4_attr
      addr6_attr mask6_attr with
  | none => []
  | some out =>
    [.print_string .PRINT_ANY (some name) (some ("\n  " ++ name ++ " %s")) (some out)]

/-- Embeds `flower_print_ip4_addr` (f_flower.c:1578). -/
def flower_print_ip4_addr (E : PrintExt) (name : String)
    (addr_attr mask_attr : Option (List Nat)) : List print_call :=
  flower_print_ip_addr_calls E name (htons E.le ETH_P_IP) addr_attr mask_attr none none

/-- Embeds `flower_print_port` (f_flower.c:1585). -/
def flower_print_port (E : PrintExt) (name : String) (attr : Option (List Nat)) :
    List print_call :=
  match attr with
  | none => []
  | some a =>
    [.print_hu .PRINT_ANY (some name) (some ("\n  " ++ name ++ " %u")) (rta_getattr_be16 E.le a)]

/-- Embeds `flower_print_port_range` (f_flower.c:1596). -/
def flower_print_port_range (E : PrintExt) (name : String)
    (min_attr max_attr : Option (List Nat)) : List print_call :=
  match min_attr, max_attr with
  | some lo, some hi =>
    if E.is_json_context then
      [.open_json_object (some name),
       .print_hu .PRINT_JSON (some "start") none (rta_getattr_be16 E.le lo),
       .print_hu .PRINT_JSON (some "end") none (rta_getattr_be16 E.le hi),
       .close_json_object]
    else
      [.print_string .PRINT_ANY (some name) (some ("\n  " ++ name ++ " %s"))
        (some (toString (rta_getattr_be16 E.le lo) ++ "-" ++
          toString (rta_getattr_be16 E.le hi)))]
  | _, _ => []

/-- Embeds `flower_print_tcp_flags` (f_flower.c:1618). -/
def flower_print_tcp_flags (E : PrintExt) (name : String)
    (flags_attr mask_attr : Option (List Nat)) : List print_call :=
  match flags_attr with
  | none => []
  | some f =>
    let out := "0x" ++ sprintf_x 1 (rta_getattr_be16 E.le f)
    let out1 :=
      match mask_attr with
      | some m => out ++ "/" ++ sprintf_x 1 (rta_getattr_be16 E.le m)
      | none => out
    [.print_string .PRINT_FP none (some "%s  ") (some E.SL),
     .print_string .PRINT_ANY (some name) (some (name ++ " %s")) (some out1)]

/-- Embeds `flower_print_key_id` (f_flower.c:1638). -/
def flower_print_key_id (E : PrintExt) (name : String) (attr : Option (List Nat)) :
    List print_call :=
  match attr with
  | none => []
  | some a =>
    [.print_uint .PRINT_ANY (some name) (some ("\n  " ++ name ++ " %u"))
      (rta_getattr_be32 E.le a)]

/-- The loop `while (rem)` of `flower_print_geneve_opts` (f_flower.c:1660-1686)
on the payload of `attr`: `rem0` is the payload length (the size of the local
arrays), `size` the size of `strbuf`; the state is `offset`, `rem` and what has
been written to `strbuf` (`none` before the first write). Every entry of `tb`
is read without a test, so a missing one is a read through a null pointer, and
so is the next pass once fewer than 4 bytes are left: `parse_rtattr` then
visits no record. A write past the end of `strbuf` is undefined. Each pass
takes at least 20 bytes off `rem`, so the fuel `rem0 + 1` is not used up. The
result is the calls made and the final contents of `strbuf`. -/
def geneve_opts_loop (E : PrintExt) (payload : List Nat) (rem0 size : Nat) :
    Nat → Nat → Int → Option (List Char) → List print_call × Except Fail (Option (List Char))
  | 0, _, _, _ => ([], .error .undefined)
  | fuel + 1, offset, rem, strbuf =>
    if rem = 0 then ([], .ok strbuf)
    else
      let tb : AttrId → Option (List Nat) :=
        if rem < 4 then fun _ => none else E.parse_rtattr (payload.drop offset) rem
      match tb .TCA_FLOWER_KEY_ENC_OPT_GENEVE_CLASS, tb .TCA_FLOWER_KEY_ENC_OPT_GENEVE_TYPE,
          tb .TCA_FLOWER_KEY_ENC_OPT_GENEVE_DATA with
      | some c, some t, some d =>
        let opt_class := rta_getattr_be16 E.le c
        let type := rta_getattr_u8 t
        let data_len := d.length
        let data := E.hexstring_n2a d (rem0 * 2 + 1)
        let data_r := E.hex2mem data data_len
        let rem1 : Int := rem - (data_len + 20)
        let calls : List print_call :=
          [.open_json_object none,
           .print_uint .PRINT_JSON (some "class") none opt_class,
           .print_uint .PRINT_JSON (some "type") none type,
           .open_json_array .PRINT_JSON (some "data")] ++
          (List.range data_len).map (fun ii =>
            print_call.print_uint .PRINT_JSON none none (data_r.getD ii 0)) ++
          [.close_json_array .PRINT_JSON (some "data"), .close_json_object]
        let text : List Char :=
          (sprintf_x 4 opt_class ++ ":" ++ sprintf_x 2 type ++ ":" ++ data).data ++
            (if rem1 ≠ 0 then [','] else [])
        let written := strbuf.getD [] ++ text
        if written.length + 1 > size then (calls, .error .undefined)
        else
          ((calls ++ (geneve_opts_loop E payload rem0 size fuel (offset + data_len + 20) rem1
              (some written)).1),
            (geneve_opts_loop E payload rem0 size fuel (offset + data_len + 20) rem1
              (some written)).2)
      | _, _, _ => ([], .error .undefined)

/-- Embeds `flower_print_geneve_opts` (f_flower.c:1649) with a `strbuf` of
`size` bytes: the calls made and what `strbuf` holds afterwards (`none` when
nothing was written to it). `RTA_PAYLOAD(attr)` is read without a test of
`attr`. -/
def flower_print_geneve_opts (E : PrintExt) (name : String) (attr : Option (List Nat))
    (size : Nat) : List print_call × Except Fail (Option (List Char)) :=
  match attr with
  | none => ([], .error .undefined)
  | some a =>
    match (geneve_opts_loop E a a.length size (a.length + 1) 0 a.length none).2 with
    | .error e =>
      (.open_json_array .PRINT_JSON (some name) ::
        (geneve_opts_loop E a a.length size (a.length + 1) 0 a.length none).1, .error e)
    | .ok strbuf =>
      (.open_json_array .PRINT_JSON (some name) ::
        (geneve_opts_loop E a a.length size (a.length + 1) 0 a.length none).1 ++
        [.close_json_array .PRINT_JSON (some name)], .ok strbuf)

/-- The loop `while (key_token)` of `flower_print_geneve_parts` over the tokens
that `strsep` cuts at the commas of `key` and `mask`; `out` is what has been
written to the buffer of `size` bytes. With a key token and no mask token left,
`sprintf` is handed a null pointer for `%s`; a write past the end of the buffer
is undefined. -/
def geneve_parts_loop (size : Nat) :
    List (List Char) → List (List Char) → List Char → Option (List Char)
  | [], _, out => some out
  | _ :: _, [], _ => none
  | k :: ks, m :: ms, out =>
    if (out ++ k ++ ['/'] ++ m ++ [',']).length + 1 > size then none
    else geneve_parts_loop size ks ms (out ++ k ++ ['/'] ++ m ++ [','])

/-- Embeds `flower_print_geneve_parts` (f_flower.c:1690) on the payload of
`attr` and the strings `key` and `mask` (`none` for a buffer that was never
written, whose contents `strsep` would read). The last character written, a
comma, is replaced by the terminator. -/
def flower_print_geneve_parts (E : PrintExt) (name : String) (attr : List Nat)
    (key mask : Option (List Char)) : List print_call × Option Fail :=
  if !E.malloc_ok 2 (attr.length * 4 + 3) then ([], none)
  else
    match key, mask with
    | some k, some m =>
      match geneve_parts_loop (attr.length * 4 + 3) (split_chars ',' k) (split_chars ',' m)
          [] with
      | none => ([], some .undefined)
      | some out =>
        ([.print_string .PRINT_FP (some name) (some "\n  geneve_opt %s")
          (some (String.mk out.dropLast))], none)
    | _, _ => ([], some .undefined)

/-- Embeds `flower_print_enc_opts` (f_flower.c:1715): the calls made, and
`some` when the function does not return. `parse_rtattr_nested(tb, max, rta)`
is `parse_rtattr(tb, max, RTA_DATA(rta), RTA_PAYLOAD(rta))`, which reads the
length of `mask_attr` without a test; both string buffers have the size
computed from `attr`. -/
def flower_print_enc_opts (E : PrintExt) (name : String)
    (attr mask_attr : Option (List Nat)) : List print_call × Option Fail :=
  match attr with
  | none => ([], none)
  | some a =>
    if !E.malloc_ok 0 (a.length * 2 + 1) then ([], none)
    else if !E.malloc_ok 1 (a.length * 2 + 1) then ([], none)
    else
      let key := flower_print_geneve_opts E "geneve_opt_key"
        (E.parse_rtattr a a.length .TCA_FLOWER_KEY_ENC_OPTS_GENEVE) (a.length * 2 + 1)
      match key.2 with
      | .error e => (key.1, some e)
      | .ok key_str =>
        match mask_attr with
        | none => (key.1, some .undefined)
        | some m =>
          let msk := flower_print_geneve_opts E "geneve_opt_mask"
            (E.parse_rtattr m m.length .TCA_FLOWER_KEY_ENC_OPTS_GENEVE) (a.length * 2 + 1)
          match msk.2 with
          | .error e => (key.1 ++ msk.1, some e)
          | .ok msk_str =>
            (key.1 ++ msk.1 ++ (flower_print_geneve_parts E name a key_str msk_str).1,
              (flower_print_geneve_parts E name a key_str msk_str).2)

/-- Embeds `flower_print_masked_u8` (f_flower.c:1755); `value_to_str` is `none`
for a `NULL` function pointer, and gives `none` for a `NULL` string. -/
def flower_print_masked_u8 (name : String) (attr mask_attr : Option (List Nat))
    (value_to_str : Option (Nat → Option String)) : List print_call :=
  match attr with
  | none => []
  | some a =>
    let value := rta_getattr_u8 a
    let mask :=
      match mask_attr with
      | some m => rta_getattr_u8 m
      | none => UINT8_MAX
    let value_str : Option String :=
      match value_to_str with
      | some f => if mask = UINT8_MAX then f value else none
      | none => none
    let out :=
      match value_str with
      | some s => s
      | none => toString value
    let out1 := if mask ≠ UINT8_MAX then out ++ "/" ++ toString mask else out
    [.print_string .PRINT_ANY (some name) (some ("\n  " ++ name ++ " %s")) (some out1)]

/-- Embeds `flower_print_u8` (f_flower.c:1785). -/
def flower_print_u8 (name : String) (attr : Option (List Nat)) : List print_call :=
  flower_print_masked_u8 name attr none none

/-- Embeds `flower_print_u32` (f_flower.c:1790). -/
def flower_print_u32 (E : PrintExt) (name : String) (attr : Option (List Nat)) :
    List print_call :=
  match attr with
  | none => []
  | some a =>
    [.print_uint .PRINT_ANY (some name) (some ("\n  " ++ name ++ " %u")) (rta_getattr_u32 E.le a)]

/-- Embeds `flower_print_arp_op_to_name` (f_flower.c:395). -/
def flower_print_arp_op_to_name (op : Nat) : Option String :=
  if op = ARPOP_REQUEST then some "request"
  else if op = ARPOP_REPLY then some "reply"
  else none

/-- Embeds `flower_print_arp_op` (f_flower.c:1795). -/
def flower_print_arp_op (name : String) (op_attr mask_attr : Option (List Nat)) :
    List print_call :=
  flower_print_masked_u8 name op_attr mask_attr (some flower_print_arp_op_to_name)

/-- The start of `flower_print_opt` up to `open_json_object("keys")`
(f_flower.c:1818-1841): handle, class and input device. -/
def flower_print_head (E : PrintExt) (tb : AttrId → Option (List Nat)) (handle : Nat) :
    List print_call :=
  (if handle % 2 ^ 32 ≠ 0 then
    [.print_uint .PRINT_ANY (some "handle") (some "handle 0x%x ") (handle % 2 ^ 32)]
    else []) ++
  (match tb .TCA_FLOWER_CLASSID with
    | some a =>
      let h := rta_getattr_u32 E.le a
      if TC_H_MIN h < TC_H_MIN_PRIORITY ∨
          TC_H_MIN h > TC_H_MIN_PRIORITY + TC_QOPT_MAX_QUEUE - 1 then
        [.print_string .PRINT_ANY (some "classid") (some "classid %s ")
          (some (E.sprint_tc_classid h))]
      else
        [.print_uint .PRINT_ANY (some "hw_tc") (some "hw_tc %u ")
          (TC_H_MIN h - TC_H_MIN_PRIORITY)]
    | none => []) ++
  (match tb .TCA_FLOWER_INDEV with
    | some a =>
      [.print_string .PRINT_ANY (some "indev") (some "\n  indev %s")
        (some (E.rta_getattr_str a))]
    | none => []) ++
  [.open_json_object (some "keys")]

/-- The VLAN part of `flower_print_opt` (f_flower.c:1843-1885). -/
def flower_print_vlan (E : PrintExt) (tb : AttrId → Option (List Nat)) : List print_call :=
  (match tb .TCA_FLOWER_KEY_VLAN_ID with
    | some a =>
      [.print_uint .PRINT_ANY (some "vlan_id") (some "\n  vlan_id %u") (rta_getattr_u16 E.le a)]
    | none => []) ++
  (match tb  AttrId.TCA_FLOWER_KEY_VLAN_PRIO with
    | some a =>
      [.print_uint .PRINT_ANY (some "vlan_prio") (some "\n  vlan_prio %d") (rta_getattr_u8 a)]
    | none => []) ++
  (match tb .TCA_FLOWER_KEY_VLAN_ETH_TYPE with
    | some a =>
      [.print_string .PRINT_ANY (some "vlan_ethtype") (some "\n  vlan_ethtype %s")
        (some (E.ll_proto_n2a (rta_getattr_u16 E.le a)))]
    | none => []) ++
  (match tb .TCA_FLOWER_KEY_CVLAN_ID with
    | some a =>
      [.print_uint .PRINT_ANY (some "cvlan_id") (some "\n  cvlan_id %u")
        (rta_getattr_u16 E.le a)]
    | none => []) ++
  (match tb  AttrId.TCA_FLOWER_KEY_CVLAN_PRIO with
    | some a =>
      [.print_uint .PRINT_ANY (some "cvlan_prio") (some "\n  cvlan_prio %d") (rta_getattr_u8 a)]
    | none => []) ++
  (match tb .TCA_FLOWER_KEY_CVLAN_ETH_TYPE with
    | some a =>
      [.print_string .PRINT_ANY (some "cvlan_ethtype") (some "\n  cvlan_ethtype %s")
        (some (E.ll_proto_n2a (rta_getattr_u16 E.le a)))]
    | none => [])

/-- The link-layer and network-layer part of `flower_print_opt` after the
ethertype and the protocol have been printed (f_flower.c:1899-1921). -/
def flower_print_l3 (E : PrintExt) (tb : AttrId → Option (List Nat)) (eth_type : Nat) :
    List print_call :=
  flower_print_ip_attr E "ip_tos" (tb .TCA_FLOWER_KEY_IP_TOS) (tb .TCA_FLOWER_KEY_IP_TOS_MASK) ++
  flower_print_ip_attr E "ip_ttl" (tb .TCA_FLOWER_KEY_IP_TTL) (tb .TCA_FLOWER_KEY_IP_TTL_MASK) ++
  flower_print_u32 E "mpls_label" (tb .TCA_FLOWER_KEY_MPLS_LABEL) ++
  flower_print_u8 "mpls_tc" (tb .TCA_FLOWER_KEY_MPLS_TC) ++
  flower_print_u8 "mpls_bos" (tb .TCA_FLOWER_KEY_MPLS_BOS) ++
  flower_print_u8 "mpls_ttl" (tb .TCA_FLOWER_KEY_MPLS_TTL) ++
  flower_print_ip_addr_calls E "dst_ip" eth_type (tb .TCA_FLOWER_KEY_IPV4_DST)
    (tb .TCA_FLOWER_KEY_IPV4_DST_MASK) (tb .TCA_FLOWER_KEY_IPV6_DST)
    (tb .TCA_FLOWER_KEY_IPV6_DST_MASK) ++
  flower_print_ip_addr_calls E "src_ip" eth_type (tb .TCA_FLOWER_KEY_IPV4_SRC)
    (tb .TCA_FLOWER_KEY_IPV4_SRC_MASK) (tb .TCA_FLOWER_KEY_IPV6_SRC)
    (tb .TCA_FLOWER_KEY_IPV6_SRC_MASK)

/-- The port part of `flower_print_opt` (f_flower.c:1923-1939): the single
ports, then the ranges. -/
def flower_print_ports (E : PrintExt) (tb : AttrId → Option (List Nat)) (ip_proto : Nat) :
    List print_call :=
  (match flower_port_attr_type ip_proto .FLOWER_ENDPOINT_DST with
    | some nl_type => flower_print_port E "dst_port" (tb nl_type)
    | none => []) ++
  (match flower_port_attr_type ip_proto .FLOWER_ENDPOINT_SRC with
    | some nl_type => flower_print_port E "src_port" (tb nl_type)
    | none => []) ++
  (match flower_port_range_attr_type ip_proto .FLOWER_ENDPOINT_DST with
    | some (min_port_type, max_port_type) =>
      flower_print_port_range E "dst_port" (tb min_port_type) (tb max_port_type)
    | none => []) ++
  (match flower_port_range_attr_type ip_proto .FLOWER_ENDPOINT_SRC with
    | some (min_port_type, max_port_type) =>
      flower_print_port_range E "src_port" (tb min_port_type) (tb max_port_type)
    | none => [])

/-- The part of `flower_print_opt` from the TCP flags to the ARP fields
(f_flower.c:1941-1970). -/
def flower_print_l4 (E : PrintExt) (tb : AttrId → Option (List Nat))
    (eth_type ip_proto : Nat) : List print_call :=
  flower_print_tcp_flags E "tcp_flags" (tb .TCA_FLOWER_KEY_TCP_FLAGS)
    (tb .TCA_FLOWER_KEY_TCP_FLAGS_MASK) ++
  (match flower_icmp_attr_type E.le eth_type ip_proto .FLOWER_ICMP_FIELD_TYPE,
      flower_icmp_attr_mask_type E.le eth_type ip_proto .FLOWER_ICMP_FIELD_TYPE with
    | some nl_type, some nl_mask_type =>
      flower_print_masked_u8 "icmp_type" (tb nl_type) (tb nl_mask_type) none
    | _, _ => []) ++
  (match flower_icmp_attr_type E.le eth_type ip_proto .FLOWER_ICMP_FIELD_CODE,
      flower_icmp_attr_mask_type E.le eth_type ip_proto .FLOWER_ICMP_FIELD_CODE with
    | some nl_type, some nl_mask_type =>
      flower_print_masked_u8 "icmp_code" (tb nl_type) (tb nl_mask_type) none
    | _, _ => []) ++
  flower_print_ip4_addr E "arp_sip" (tb .TCA_FLOWER_KEY_ARP_SIP)
    (tb .TCA_FLOWER_KEY_ARP_SIP_MASK) ++
  flower_print_ip4_addr E "arp_tip" (tb .TCA_FLOWER_KEY_ARP_TIP)
    (tb .TCA_FLOWER_KEY_ARP_TIP_MASK) ++
  flower_print_arp_op "arp_op" (tb .TCA_FLOWER_KEY_ARP_OP) (tb .TCA_FLOWER_KEY_ARP_OP_MASK) ++
  flower_print_eth_addr E "arp_sha" (tb .TCA_FLOWER_KEY_ARP_SHA)
    (tb .TCA_FLOWER_KEY_ARP_SHA_MASK) ++
  flower_print_eth_addr E "arp_tha" (tb .TCA_FLOWER_KEY_ARP_THA)
    (tb .TCA_FLOWER_KEY_ARP_THA_MASK)

/-- The tunnel part of `flower_print_opt` before the encapsulation options
(f_flower.c:1972-1997). -/
def flower_print_enc (E : PrintExt) (tb : AttrId → Option (List Nat)) : List print_call :=
  flower_print_ip_addr_calls E "enc_dst_ip"
    (if (tb .TCA_FLOWER_KEY_ENC_IPV4_DST_MASK).isSome then htons E.le ETH_P_IP
      else htons E.le ETH_P_IPV6)
    (tb .TCA_FLOWER_KEY_ENC_IPV4_DST) (tb .TCA_FLOWER_KEY_ENC_IPV4_DST_MASK)
    (tb .TCA_FLOWER_KEY_ENC_IPV6_DST) (tb .TCA_FLOWER_KEY_ENC_IPV6_DST_MASK) ++
  flower_print_ip_addr_calls E "enc_src_ip"
    (if (tb .TCA_FLOWER_KEY_ENC_IPV4_SRC_MASK).isSome then htons E.le ETH_P_IP
      else htons E.le ETH_P_IPV6)
    (tb .TCA_FLOWER_KEY_ENC_IPV4_SRC) (tb .TCA_FLOWER_KEY_ENC_IPV4_SRC_MASK)
    (tb .TCA_FLOWER_KEY_ENC_IPV6_SRC) (tb .TCA_FLOWER_KEY_ENC_IPV6_SRC_MASK) ++
  flower_print_key_id E "enc_key_id" (tb .TCA_FLOWER_KEY_ENC_KEY_ID) ++
  flower_print_port E "enc_dst_port" (tb .TCA_FLOWER_KEY_ENC_UDP_DST_PORT) ++
  flower_print_ip_attr E "enc_tos" (tb .TCA_FLOWER_KEY_ENC_IP_TOS)
    (tb .TCA_FLOWER_KEY_ENC_IP_TOS_MASK) ++
  flower_print_ip_attr E "enc_ttl" (tb .TCA_FLOWER_KEY_ENC_IP_TTL)
    (tb .TCA_FLOWER_KEY_ENC_IP_TTL_MASK)

/-- The end of `flower_print_opt` after `close_json_object()`
(f_flower.c:2006-2030): the offload flags and the actions. -/
def flower_print_tail (E : PrintExt) (tb : AttrId → Option (List Nat)) : List print_call :=
  (match tb .TCA_FLOWER_FLAGS with
    | some a =>
      let flags := rta_getattr_u32 E.le a
      (if flags &&& TCA_CLS_FLAGS_SKIP_HW ≠ 0 then
        [.print_bool .PRINT_ANY (some "skip_hw") (some "\n  skip_hw") true] else []) ++
      (if flags &&& TCA_CLS_FLAGS_SKIP_SW ≠ 0 then
        [.print_bool .PRINT_ANY (some "skip_sw") (some "\n  skip_sw") true] else []) ++
      (if flags &&& TCA_CLS_FLAGS_IN_HW ≠ 0 then
        [.print_bool .PRINT_ANY (some "in_hw") (some "\n  in_hw") true] ++
        (match tb .TCA_FLOWER_IN_HW_COUNT with
          | some c =>
            [.print_uint .PRINT_ANY (some "in_hw_count") (some " in_hw_count %u")
              (rta_getattr_u32 E.le c)]
          | none => [])
      else if flags &&& TCA_CLS_FLAGS_NOT_IN_HW ≠ 0 then
        [.print_bool .PRINT_ANY (some "not_in_hw") (some "\n  not_in_hw") true]
      else [])
    | none => []) ++
  (match tb .TCA_FLOWER_ACT with
    | some a => [.tc_print_action a]
    | none => [])

/-- The calls `flower_print_opt` makes before it prints the encapsulation
options (f_flower.c:1818-1997), for the decoded table `tb`. The locals
`eth_type` and `ip_proto` start as 0 and 0xff. -/
def flower_print_keys (E : PrintExt) (tb : AttrId → Option (List Nat)) (handle : Nat) :
    List print_call :=
  let et := flower_print_eth_type E 0 (tb .TCA_FLOWER_KEY_ETH_TYPE)
  let ip := flower_print_ip_proto 0xff (tb .TCA_FLOWER_KEY_IP_PROTO)
  flower_print_head E tb handle ++
  flower_print_vlan E tb ++
  flower_print_eth_addr E "dst_mac" (tb .TCA_FLOWER_KEY_ETH_DST)
    (tb .TCA_FLOWER_KEY_ETH_DST_MASK) ++
  flower_print_eth_addr E "src_mac" (tb .TCA_FLOWER_KEY_ETH_SRC)
    (tb .TCA_FLOWER_KEY_ETH_SRC_MASK) ++
  et.1 ++ ip.1 ++
  flower_print_l3 E tb et.2 ++
  flower_print_ports E tb ip.2 ++
  flower_print_l4 E tb et.2 ip.2 ++
  flower_print_enc E tb

/-- Embeds `flower_print_opt` (f_flower.c:1803): `opt` is `none` for a `NULL`
pointer, else the table that `parse_rtattr_nested` decodes from it. The result
is the calls of the output interface made, in order, and the return value, or
`undefined` when one of the helpers does not return. -/
def flower_print_opt (E : PrintExt) (opt : Option (AttrId → Option (List Nat)))
    (handle : Nat) : List print_call × Except Fail Int :=
  match opt with
  | none => ([], .ok 0)
  | some tb =>
    let keys := flower_print_keys E tb handle
    let enc_opt := flower_print_enc_opts E "enc_opt" (tb .TCA_FLOWER_KEY_ENC_OPTS)
      (tb .TCA_FLOWER_KEY_ENC_OPTS_MASK)
    match enc_opt.2 with
    | some e => (keys ++ enc_opt.1, .error e)
    | none =>
      let ip_flags := flower_print_matching_flags E "ip_flags" (tb .TCA_FLOWER_KEY_FLAGS)
        (tb .TCA_FLOWER_KEY_FLAGS_MASK)
      match ip_flags.2 with
      | some e => (keys ++ enc_opt.1 ++ ip_flags.1, .error e)
      | none =>
        (keys ++ enc_opt.1 ++ ip_flags.1 ++ [.close_json_object] ++ flower_print_tail E tb,
          .ok 0)

/-- A concrete instantiation of the printing helpers for examples: addresses
are rendered by `show_addr`, protocol and class identifiers as decimal numbers,
the text output is not in JSON mode. -/
def demoPrintExt (le : Bool) : PrintExt where
  le := le
  is_json_context := false
  SL := "\n"
  ll_addr_n2a := show_addr 0
  ll_proto_n2a := fun p => toString p
  rt_addr_n2a_rta := show_addr
  sprint_tc_classid := fun h => toString h
  rta_getattr_str := fun bs => String.mk (bs.map Char.ofNat)
  malloc_ok := fun _ _ => true
  parse_rtattr := fun _ _ _ => none
  hexstring_n2a := fun bs _ => String.join (bs.map fun b => sprintf_x 2 b)
  hex2mem := fun _ k => List.replicate k 0

/-! ## The text of a plain run -/

/-- The template `fmt` with its first `%s` replaced by `value`. -/
def subst_s : List Char → List Char → List Char
  | '%' :: 's' :: rest, value => value ++ rest
  | c :: rest, value => c :: subst_s rest value
  | [], _ => []

/-- Modelled from the spec: the output interface (lib/json_print.c is not part
of the sources at hand) "accepts (key, human_text_template, value) triples and
either renders key-value JSON objects/arrays or formatted plain text". This is
the plain text of a `print_string` call outside a JSON context: a call typed
`PRINT_JSON` writes nothing, one typed `PRINT_FP` or `PRINT_ANY` writes its
template with `%s` replaced by the value. Calls that open or close a JSON
object and `print_bool` calls typed `PRINT_JSON` write nothing; the other calls
are not rendered here (`none`). -/
def fp_text : print_call → Option String
  | .print_string t _ fmt value =>
    if t = .PRINT_JSON then some ""
    else
      match fmt with
      | none => some ""
      | some f => some (String.mk (subst_s f.data (value.getD "").data))
  | .print_bool t _ _ _ => if t = .PRINT_JSON then some "" else none
  | .open_json_object _ => some ""
  | .close_json_object => some ""
  | _ => none

/-- The plain text of a list of calls, when each of them is rendered. -/
def fp_texts : List print_call → Option String
  | [] => some ""
  | c :: rest =>
    match fp_text c, fp_texts rest with
    | some a, some b => some (a ++ b)
    | _, _ => none

end Flower

/-! # The route protocol names (lib/rt_names.c) -/

namespace RtNames

open Flower (Fail)

/-- One result of `fread_id_name` (rt_names.c:39) on a database file: an
identifier with its name (return value 1), or the text of a line that does not
parse (return value -1). The end of the list is the return value 0. -/
inductive db_line where
  | entry (id : Int) (name : String)
  | corrupt (text : String)
  deriving DecidableEq, Repr

/-- The file system as the initialisers see it: what `fread_id_name` yields on
`CONFDIR/rt_protos` (`none` when `fopen` fails), and the entries of the
directory `CONFDIR/rt_protos.d` in `readdir` order, each with what
`fread_id_name` yields on it (`none` for the directory when `opendir` fails,
for a file when `fopen` fails). -/
structure Files where
  rt_protos : Option (List db_line)
  rt_protos_d : Option (List (String × Option (List db_line)))
  /-- What `fread_id_name` yields on `CONFDIR/rt_realms`. -/
  rt_realms : Option (List db_line) := none
  /-- What `fread_id_name` yields on `CONFDIR/rt_scopes`. -/
  rt_scopes : Option (List db_line) := none

/-- The external helpers of the lookups. -/
structure Ext where
  files : Files
  /-- The global `numeric`. -/
  numeric : Int
  /-- Embeds `strtoul(str, &end, base)`: the value and the unparsed rest. -/
  strtoul : String → Nat → Nat × String

/-- Writing `v` at index `i` of a table. -/
def tab_set (tab : List (Option String)) (i : Nat) (v : String) : List (Option String) :=
  tab.set i (some v)

/-- The loop of `rtnl_tab_initialize` over the results of `fread_id_name`. The
test is `id < 0 || id > size`, so `id == size` passes it and the store goes one
element past the table. -/
def tab_load (size : Int) : List db_line → List (Option String) →
    Except Fail (List (Option String))
  | [], tab => .ok tab
  | .corrupt _ :: _, tab => .ok tab
  | .entry id name :: rest, tab =>
    if id < 0 ∨ id > size then tab_load size rest tab
    else if id.toNat ≥ tab.length then .error .undefined
    else tab_load size rest (tab_set tab id.toNat name)

/-- Embeds `rtnl_tab_initialize` (rt_names.c:106) on the table `tab` declared
with `size` elements: the table afterwards. -/
def rtnl_tab_initialize (file : Option (List db_line)) (tab : List (Option String))
    (size : Int) : Except Fail (List (Option String)) :=
  match file with
  | none => .ok tab
  | some lines => tab_load size lines tab

/-- The initial contents of `rtnl_rtprot_tab` (rt_names.c:135), with the
values of the `RTPROT_*` constants of `linux/rtnetlink.h`. -/
def rtnl_rtprot_tab_init : List (Option String) :=
  (List.range 256).map fun i =>
    if i = 0 then some "unspec"
    else if i = 1 then some "redirect"
    else if i = 2 then some "kernel"
    else if i = 3 then some "boot"
    else if i = 4 then some "static"
    else if i = 8 then some "gated"
    else if i = 9 then some "ra"
    else if i = 10 then some "mrt"
    else if i = 11 then some "zebra"
    else if i = 12 then some "bird"
    else if i = 42 then some "babel"
    else if i = 13 then some "dnrouted"
    else if i = 14 then some "xorp"
    else if i = 15 then some "ntk"
    else if i = 16 then some "dhcp"
    else if i = 18 then some "keepalived"
    else if i = 186 then some "bgp"
    else if i = 187 then some "isis"
    else if i = 188 then some "ospf"
    else if i = 189 then some "rip"
    else if i = 192 then some "eigrp"
    else none

/-- Whether a directory entry of `rt_protos.d` is read: its name does not
start with a dot, is longer than five characters and ends in `.conf`. -/
def conf_name (d_name : String) : Bool :=
  !(d_name.data.head? = some '.') && !(d_name.data.length ≤ 5) &&
    (d_name.data.drop (d_name.data.length - 5) == ".conf".data)

/-- The loop of `rtnl_rtprot_initialize` over the directory entries. -/
def rtprot_load_dir : List (String × Option (List db_line)) → List (Option String) →
    Except Fail (List (Option String))
  | [], tab => .ok tab
  | (d_name, file) :: rest, tab =>
    if conf_name d_name then
      match rtnl_tab_initialize file tab 256 with
      | .error e => .error e
      | .ok tab1 => rtprot_load_dir rest tab1
    else rtprot_load_dir rest tab

/-- Embeds `rtnl_rtprot_initialize` (rt_names.c:162) on the table: the table
afterwards; `rtnl_rtprot_init` becomes 1. -/
def rtnl_rtprot_initialize (E : Ext) (tab : List (Option String)) :
    Except Fail (List (Option String)) :=
  match rtnl_tab_initialize E.files.rt_protos tab 256 with
  | .error e => .error e
  | .ok tab1 =>
    match E.files.rt_protos_d with
    | none => .ok tab1
    | some entries => rtprot_load_dir entries tab1

/-- The statics that `rtnl_rtprot_a2n` reads and writes: the table, the flag
`rtnl_rtprot_init`, and the function's own `cache` (the string it points to,
`none` for `NULL`) and `res`. -/
structure rtprot_state where
  rtnl_rtprot_tab : List (Option String)
  rtnl_rtprot_init : Bool
  cache : Option String
  res : Nat
  deriving DecidableEq, Repr

/-- The statics at program start. -/
def rtprot_state_init : rtprot_state :=
  { rtnl_rtprot_tab := rtnl_rtprot_tab_init
    rtnl_rtprot_init := false
    cache := none
    res := 0 }

/-- The loop `for (i = 0; i < 256; i++)` of `rtnl_rtprot_a2n`: the first index
from `i` on whose entry is `arg`. -/
def tab_find (arg : String) : List (Option String) → Nat → Option Nat
  | [], _ => none
  | e :: rest, i => if e = some arg then some i else tab_find arg rest (i + 1)

/-- Embeds `rtnl_rtprot_a2n` (rt_names.c:214): the return value, the value
stored in `*id` when one is stored, and the statics afterwards. `unsigned
long` has 64 bits. -/
def rtnl_rtprot_a2n (E : Ext) (s : rtprot_state) (arg : String) :
    Except Fail (Int × Option Nat × rtprot_state) :=
  if s.cache = some arg then .ok (0, some (s.res % 2 ^ 32), s)
  else
    let loaded : Except Fail rtprot_state :=
      if s.rtnl_rtprot_init then .ok s
      else
        match rtnl_rtprot_initialize E s.rtnl_rtprot_tab with
        | .error e => .error e
        | .ok tab => .ok { s with rtnl_rtprot_tab := tab, rtnl_rtprot_init := true }
    match loaded with
    | .error e => .error e
    | .ok s1 =>
      match tab_find arg (s1.rtnl_rtprot_tab.take 256) 0 with
      | some i => .ok (0, some i, { s1 with cache := some arg, res := i })
      | none =>
        let res := (E.strtoul arg 0).1 % 2 ^ 64
        let s2 := { s1 with res := res }
        if (E.strtoul arg 0).2.length = arg.length ∨ (E.strtoul arg 0).2 ≠ "" ∨ res > 255 then
          .ok (-1, none, s2)
        else .ok (0, some (res % 2 ^ 32), s2)

/-- A sequence of calls of `rtnl_rtprot_a2n`, one per argument: the return
value and the stored `*id` of each call, in order, and the statics at the end. -/
def rtnl_rtprot_a2n_calls (E : Ext) : rtprot_state → List String →
    Except Fail (List (Int × Option Nat) × rtprot_state)
  | s, [] => .ok ([], s)
  | s, arg :: rest =>
    match rtnl_rtprot_a2n E s arg with
    | .error e => .error e
    | .ok (ret, id, s1) =>
      match rtnl_rtprot_a2n_calls E s1 rest with
      | .error e => .error e
      | .ok (outs, s2) => .ok ((ret, id) :: outs, s2)

/-- A concrete instantiation for examples: no database file exists, and
`strtoul` reads a string of decimal digits. -/
def demoExt : Ext where
  files := { rt_protos := none, rt_protos_d := none }
  numeric := 0
  strtoul := fun s _ =>
    match Flower.read_nat 10 s with
    | some v => (v, "")
    | none => (0, s)

/-! ## `rtnl_rtprot_n2a` -/

/-- Embeds `snprintf(buf, len, ...)` for an output `text`: what `buf` holds
afterwards, read as a C string. With `len` 0 nothing is written; a negative
`int` converts to a `size_t` above the length of any text; otherwise at most
`len - 1` characters are stored before the terminator. -/
def snprintf (buf : String) (len : Int) (text : String) : String :=
  if len = 0 then buf
  else if len < 0 then text
  else String.mk (text.data.take (len.toNat - 1))

/-- The conversion `%u` applied to an `int`: the decimal digits of the value
read as `unsigned int`. -/
def fmt_u (id : Int) : String := toString (id % 2 ^ 32).toNat

/-- The conversion `%d` applied to an `int`. -/
def fmt_d (id : Int) : String := toString id

/-- Embeds `rtnl_rtprot_n2a` (rt_names.c:197): the string returned (an entry of
the table, or `buf` after `snprintf`) and the statics afterwards. -/
def rtnl_rtprot_n2a (E : Ext) (s : rtprot_state) (id : Int) (buf : String) (len : Int) :
    Except Fail (String × rtprot_state) :=
  if id < 0 ∨ id ≥ 256 ∨ E.numeric ≠ 0 then .ok (snprintf buf len (fmt_u id), s)
  else
    let loaded : Except Fail rtprot_state :=
      if (s.rtnl_rtprot_tab.getD id.toNat none).isNone ∧ s.rtnl_rtprot_init = false then
        match rtnl_rtprot_initialize E s.rtnl_rtprot_tab with
        | .error e => .error e
        | .ok tab => .ok { s with rtnl_rtprot_tab := tab, rtnl_rtprot_init := true }
      else .ok s
    match loaded with
    | .error e => .error e
    | .ok s1 =>
      match s1.rtnl_rtprot_tab.getD id.toNat none with
      | some name => .ok (name, s1)
      | none => .ok (snprintf buf len (fmt_u id), s1)

/-! ## `rtnl_rtscope_n2a`, the same lookup for scopes -/

/-- The initial contents of `rtnl_rtscope_tab` (rt_names.c:249), with the
values of the `RT_SCOPE_*` constants of `linux/rtnetlink.h`. -/
def rtnl_rtscope_tab_init : List (Option String) :=
  (List.range 256).map fun i =>
    if i = 0 then some "global"
    else if i = 255 then some "nowhere"
    else if i = 254 then some "host"
    else if i = 253 then some "link"
    else if i = 200 then some "site"
    else none

/-- Embeds `rtnl_rtscope_initialize` (rt_names.c:259) on the table: the table
afterwards; `rtnl_rtscope_init` becomes 1. -/
def rtnl_rtscope_initialize (E : Ext) (tab : List (Option String)) :
    Except Fail (List (Option String)) :=
  rtnl_tab_initialize E.files.rt_scopes tab 256

/-- The statics that `rtnl_rtscope_n2a` reads and writes. -/
structure rtscope_state where
  rtnl_rtscope_tab : List (Option String)
  rtnl_rtscope_init : Bool
  deriving DecidableEq, Repr

/-- The statics at program start. -/
def rtscope_state_init : rtscope_state :=
  { rtnl_rtscope_tab := rtnl_rtscope_tab_init
    rtnl_rtscope_init := false }

/-- Embeds `rtnl_rtscope_n2a` (rt_names.c:266): the string returned and the
statics afterwards. Its two `snprintf` calls use `%d`. -/
def rtnl_rtscope_n2a (E : Ext) (s : rtscope_state) (id : Int) (buf : String) (len : Int) :
    Except Fail (String × rtscope_state) :=
  if id < 0 ∨ id ≥ 256 ∨ E.numeric ≠ 0 then .ok (snprintf buf len (fmt_d id), s)
  else
    let loaded : Except Fail rtscope_state :=
      if (s.rtnl_rtscope_tab.getD id.toNat none).isNone ∧ s.rtnl_rtscope_init = false then
        match rtnl_rtscope_initialize E s.rtnl_rtscope_tab with
        | .error e => .error e
        | .ok tab => .ok { s with rtnl_rtscope_tab := tab, rtnl_rtscope_init := true }
      else .ok s
    match loaded with
    | .error e => .error e
    | .ok s1 =>
      match s1.rtnl_rtscope_tab.getD id.toNat none with
      | some name => .ok (name, s1)
      | none => .ok (snprintf buf len (fmt_d id), s1)

/-! ## `rtnl_rtrealm_a2n` -/

/-- The initial contents of `rtnl_rtrealm_tab` (rt_names.c:319). -/
def rtnl_rtrealm_tab_init : List (Option String) :=
  some "unknown" :: List.replicate 255 none

/-- Embeds `rtnl_rtrealm_initialize` (rt_names.c:325) on the table: the table
afterwards; `rtnl_rtrealm_init` becomes 1. -/
def rtnl_rtrealm_initialize (E : Ext) (tab : List (Option String)) :
    Except Fail (List (Option String)) :=
  rtnl_tab_initialize E.files.rt_realms tab 256

/-- The statics that `rtnl_rtrealm_a2n` reads and writes: the table, the flag
`rtnl_rtrealm_init`, and the function's own `cache` and `res`. -/
structure rtrealm_state where
  rtnl_rtrealm_tab : List (Option String)
  rtnl_rtrealm_init : Bool
  cache : Option String
  res : Nat
  deriving DecidableEq, Repr

/-- The statics at program start. -/
def rtrealm_state_init : rtrealm_state :=
  { rtnl_rtrealm_tab := rtnl_rtrealm_tab_init
    rtnl_rtrealm_init := false
    cache := none
    res := 0 }

/-- Embeds `rtnl_rtrealm_a2n` (rt_names.c:350): the return value, the value
stored in `*id` when one is stored, and the statics afterwards. -/
def rtnl_rtrealm_a2n (E : Ext) (s : rtrealm_state) (arg : String) :
    Except Fail (Int × Option Nat × rtrealm_state) :=
  if s.cache = some arg then .ok (0, some (s.res % 2 ^ 32), s)
  else
    let loaded : Except Fail rtrealm_state :=
      if s.rtnl_rtrealm_init then .ok s
      else
        match rtnl_rtrealm_initialize E s.rtnl_rtrealm_tab with
        | .error e => .error e
        | .ok tab => .ok { s with rtnl_rtrealm_tab := tab, rtnl_rtrealm_init := true }
    match loaded with
    | .error e => .error e
    | .ok s1 =>
      match tab_find arg (s1.rtnl_rtrealm_tab.take 256) 0 with
      | some i => .ok (0, some i, { s1 with cache := some arg, res := i })
      | none =>
        let res := (E.strtoul arg 0).1 % 2 ^ 64
        let s2 := { s1 with res := res }
        if (E.strtoul arg 0).2.length = arg.length ∨ (E.strtoul arg 0).2 ≠ "" ∨ res > 255 then
          .ok (-1, none, s2)
        else .ok (0, some (res % 2 ^ 32), s2)

end RtNames

/-! # `ip/rtm_map.c`: route types and realms -/

namespace RtmMap

open Flower (Fail)

/-- The external helpers of `rtm_map.c`: those of `rt_names.c` (with the global
`numeric` and `strtoul`), and two functions of lib/utils.c. -/
structure Ext where
  names : RtNames.Ext
  /-- Embeds `matches(cmd, pattern) == 0`. -/
  matches_cmd : String → String → Bool
  /-- Embeds `get_unsigned(&val, arg, base)`: the value stored when it returns
  0, `none` when it returns -1. -/
  get_unsigned : String → Nat → Option Nat

/-! The route types of `linux/rtnetlink.h`. -/

def RTN_UNSPEC : Nat := 0
def RTN_UNICAST : Nat := 1
def RTN_LOCAL : Nat := 2
def RTN_BROADCAST : Nat := 3
def RTN_ANYCAST : Nat := 4
def RTN_MULTICAST : Nat := 5
def RTN_BLACKHOLE : Nat := 6
def RTN_UNREACHABLE : Nat := 7
def RTN_PROHIBIT : Nat := 8
def RTN_THROW : Nat := 9
def RTN_NAT : Nat := 10
def RTN_XRESOLVE : Nat := 11

/-- Embeds `rtnl_rtntype_n2a` (rtm_map.c:19): the string returned. -/
def rtnl_rtntype_n2a (E : Ext) (id : Int) (buf : String) (len : Int) : String :=
  if E.names.numeric ≠ 0 then RtNames.snprintf buf len (RtNames.fmt_d id)
  else if id = RTN_UNSPEC then "none"
  else if id = RTN_UNICAST then "unicast"
  else if id = RTN_LOCAL then "local"
  else if id = RTN_BROADCAST then "broadcast"
  else if id = RTN_ANYCAST then "anycast"
  else if id = RTN_MULTICAST then "multicast"
  else if id = RTN_BLACKHOLE then "blackhole"
  else if id = RTN_UNREACHABLE then "unreachable"
  else if id = RTN_PROHIBIT then "prohibit"
  else if id = RTN_THROW then "throw"
  else if id = RTN_NAT then "nat"
  else if id = RTN_XRESOLVE then "xresolve"
  else RtNames.snprintf buf len (RtNames.fmt_d id)

/-- Embeds `rtnl_rtntype_a2n` (rtm_map.c:59): the value stored in `*id` when
the function returns 0, `none` when it returns -1. `unsigned long` has 64
bits. -/
def rtnl_rtntype_a2n (E : Ext) (arg : String) : Option Nat :=
  if arg = "local" then some RTN_LOCAL
  else if arg = "nat" then some RTN_NAT
  else if E.matches_cmd arg "broadcast" ∨ arg = "brd" then some RTN_BROADCAST
  else if E.matches_cmd arg "anycast" then some RTN_ANYCAST
  else if E.matches_cmd arg "multicast" then some RTN_MULTICAST
  else if E.matches_cmd arg "prohibit" then some RTN_PROHIBIT
  else if E.matches_cmd arg "unreachable" then some RTN_UNREACHABLE
  else if E.matches_cmd arg "blackhole" then some RTN_BLACKHOLE
  else if E.matches_cmd arg "xresolve" then some RTN_XRESOLVE
  else if E.matches_cmd arg "unicast" then some RTN_UNICAST
  else if arg = "throw" then some RTN_THROW
  else
    let res := (E.names.strtoul arg 0).1 % 2 ^ 64
    if (E.names.strtoul arg 0).2.length = arg.length ∨ (E.names.strtoul arg 0).2 ≠ "" ∨
        res > 255 then none
    else some res

/-! ## Realms -/

/-- Embeds `strchr(arg, c)` on the characters of a C string: the offset of the
first occurrence, `none` for `NULL`. -/
def strchr : List Char → Char → Option Nat
  | [], _ => none
  | x :: xs, c => if x = c then some 0 else (strchr xs c).map (· + 1)

/-- The characters of a buffer up to the first NUL. -/
def c_str_chars : List Char → List Char
  | [] => []
  | x :: xs => if x = Char.ofNat 0 then [] else x :: c_str_chars xs

/-- The C string that starts at offset `off` of a character buffer. -/
def c_str (buf : List Char) (off : Nat) : String := String.mk (c_str_chars (buf.drop off))

/-- What a call of `get_rt_realms` or `get_rt_realms_or_raw` leaves behind: the
return value, `*realms`, the characters of the argument buffer, and the statics
of `rtnl_rtrealm_a2n`. -/
structure realms_result where
  ret : Int
  realms : Nat
  arg : List Char
  statics : RtNames.rtrealm_state
  deriving DecidableEq, Repr

/-- The end of `get_rt_realms` (rtm_map.c:118-122): the C string at offset
`off` of the buffer is looked up unless it is empty, and the local `realm`
(0 at the start) is or-ed into `*realms`. -/
def get_rt_realms_tail (E : Ext) (s : RtNames.rtrealm_state) (realms : Nat)
    (buf : List Char) (off : Nat) : Except Fail realms_result :=
  if c_str buf off ≠ "" then
    match RtNames.rtnl_rtrealm_a2n E.names s (c_str buf off) with
    | .error e => .error e
    | .ok (ret, id, s1) =>
      if ret ≠ 0 then .ok { ret := -1, realms := realms, arg := buf, statics := s1 }
      else .ok { ret := 0, realms := (realms ||| id.getD 0) % 2 ^ 32, arg := buf, statics := s1 }
  else .ok { ret := 0, realms := realms, arg := buf, statics := s }

/-- Embeds `get_rt_realms` (rtm_map.c:96) on the argument buffer `arg`: the
slash found by `strchr` is overwritten with NUL for the first lookup and
written back before the function goes on or returns. -/
def get_rt_realms (E : Ext) (s : RtNames.rtrealm_state) (arg : List Char) :
    Except Fail realms_result :=
  match strchr arg '/' with
  | some p =>
    match RtNames.rtnl_rtrealm_a2n E.names s (c_str (arg.set p (Char.ofNat 0)) 0) with
    | .error e => .error e
    | .ok (ret, id, s1) =>
      if ret ≠ 0 then
        .ok { ret := -1, realms := 0, arg := (arg.set p (Char.ofNat 0)).set p '/', statics := s1 }
      else
        get_rt_realms_tail E s1 ((id.getD 0 <<< 16) % 2 ^ 32)
          ((arg.set p (Char.ofNat 0)).set p '/') (p + 1)
  | none => get_rt_realms_tail E s 0 arg 0

/-- Embeds `get_rt_realms_or_raw` (rtm_map.c:125). -/
def get_rt_realms_or_raw (E : Ext) (s : RtNames.rtrealm_state) (arg : List Char) :
    Except Fail realms_result :=
  match get_rt_realms E s arg with
  | .error e => .error e
  | .ok r =>
    if r.ret = 0 then .ok r
    else
      match E.get_unsigned (c_str r.arg 0) 0 with
      | some v => .ok { r with ret := 0, realms := v % 2 ^ 32 }
      | none => .ok { r with ret := -1 }

/-- A concrete instantiation for examples: `matches` accepts any non-empty
beginning of the keyword, numbers are decimal, and no database file exists. -/
def demoExt : Ext where
  names := RtNames.demoExt
  matches_cmd := fun cmd pattern => decide (cmd ≠ "") && cmd.data.isPrefixOf pattern.data
  get_unsigned := Flower.read_uint 32

end RtmMap

/-! # `ip/iplink_ipvlan.c`: the options of an ipvlan link -/

namespace Ipvlan

open Flower (Fail print_call NLMSG_ALIGN RTA_LENGTH u16_mem)

/-- The attribute identifiers of `linux/if_link.h` that `iplink_ipvlan.c`
uses. -/
inductive IflaId where
  | IFLA_IPVLAN_MODE
  | IFLA_IPVLAN_FLAGS
  deriving DecidableEq, Repr

/-! The modes and flags of `linux/if_link.h`. -/

def IPVLAN_MODE_L2 : Nat := 0
def IPVLAN_MODE_L3 : Nat := 1
def IPVLAN_MODE_L3S : Nat := 2
def IPVLAN_F_PRIVATE : Nat := 0x01
def IPVLAN_F_VEPA : Nat := 0x02

/-- One attribute record: its length field, its identifier and its payload
bytes. -/
structure rtattr where
  rta_len : Nat
  rta_type : IflaId
  data : List Nat
  deriving DecidableEq, Repr

/-- The request being built: `nlmsg_len` and the attribute records appended so
far, in order. -/
structure nlmsghdr where
  nlmsg_len : Nat
  attrs : List rtattr
  deriving DecidableEq, Repr

/-- Modelled from the spec: `addattr_l` of lib/libnetlink.c is not part of the
sources at hand. Following the wire format (4-byte aligned `len, type, payload,
padding` records whose length field measures header plus unpadded payload) and
the codec contract (appending fails when the remaining capacity is
insufficient), it appends one record at the aligned end of the message and
returns 0, or returns -1 and leaves the message alone when the record does not
fit in `maxlen`. -/
def addattr_l (n : nlmsghdr) (maxlen : Nat) (type : IflaId) (data : List Nat) :
    Int × nlmsghdr :=
  let len := RTA_LENGTH data.length
  if NLMSG_ALIGN n.nlmsg_len + NLMSG_ALIGN len > maxlen then (-1, n)
  else (0, { nlmsg_len := NLMSG_ALIGN n.nlmsg_len + NLMSG_ALIGN len
             attrs := n.attrs ++ [{ rta_len := len, rta_type := type, data := data }] })

/-- Modelled from the spec: `addattr16` (the two bytes of a `__u16` as they lie
in host memory). -/
def addattr16 (le : Bool) (n : nlmsghdr) (maxlen : Nat) (type : IflaId) (data : Nat) :
    Int × nlmsghdr :=
  addattr_l n maxlen type (u16_mem le data)

/-- The external helpers of `iplink_ipvlan.c`. -/
structure Ext where
  /-- Whether the host is little-endian. -/
  le : Bool
  /-- Embeds `matches(cmd, pattern) == 0`. -/
  matches_cmd : String → String → Bool

/-- The locals of `ipvlan_parse_opt` and the message. -/
structure ParseState where
  flags : Nat
  mflag_given : Bool
  n : nlmsghdr
  deriving DecidableEq, Repr

/-- The branch of the `if ... else if` chain of `ipvlan_parse_opt`
(iplink_ipvlan.c:36-71) that an argument takes; the three flag branches are
guarded by `!mflag_given`. -/
inductive Keyword where
  | kw_mode
  | kw_private
  | kw_vepa
  | kw_bridge
  | kw_help
  | kw_other
  deriving DecidableEq, Repr

/-- The tests of the chain, in source order. -/
def ipvlan_keyword (E : Ext) (mflag_given : Bool) (arg : String) : Keyword :=
  if E.matches_cmd arg "mode" then .kw_mode
  else if E.matches_cmd arg "private" ∧ mflag_given = false then .kw_private
  else if E.matches_cmd arg "vepa" ∧ mflag_given = false then .kw_vepa
  else if E.matches_cmd arg "bridge" ∧ mflag_given = false then .kw_bridge
  else if E.matches_cmd arg "help" then .kw_help
  else .kw_other

/-- One pass of the loop of `ipvlan_parse_opt` on the argument `arg` followed
by `rest`: the locals after the pass and the arguments left. `NEXT_ARG` leaves
the process when nothing follows; `err` is `return -1`. The return value of
`addattr16` is not looked at. -/
def ipvlan_parse_arg (E : Ext) (st : ParseState) (arg : String) (rest : List String) :
    Except Fail (ParseState × List String) :=
  match ipvlan_keyword E st.mflag_given arg with
  | .kw_mode =>
    match rest with
    | [] => .error .exit
    | v :: post =>
      if v = "l2" then
        .ok ({ st with n := (addattr16 E.le st.n 1024 .IFLA_IPVLAN_MODE IPVLAN_MODE_L2).2 }, post)
      else if v = "l3" then
        .ok ({ st with n := (addattr16 E.le st.n 1024 .IFLA_IPVLAN_MODE IPVLAN_MODE_L3).2 }, post)
      else if v = "l3s" then
        .ok ({ st with n := (addattr16 E.le st.n 1024 .IFLA_IPVLAN_MODE IPVLAN_MODE_L3S).2 }, post)
      else .error .err
  | .kw_private =>
    .ok ({ st with flags := (st.flags ||| IPVLAN_F_PRIVATE) % 2 ^ 16, mflag_given := true }, rest)
  | .kw_vepa =>
    .ok ({ st with flags := (st.flags ||| IPVLAN_F_VEPA) % 2 ^ 16, mflag_given := true }, rest)
  | .kw_bridge => .ok ({ st with mflag_given := true }, rest)
  | .kw_help => .error .err
  | .kw_other => .error .err

/-- Embeds `ipvlan_parse_opt` (iplink_ipvlan.c:29): the message when the
function returns 0, `err` when it returns -1. -/
def ipvlan_parse_opt (E : Ext) (argv : List String) (n : nlmsghdr) : Except Fail nlmsghdr :=
  match Fdb.arg_loop (ipvlan_parse_arg E) argv.length
      { flags := 0, mflag_given := false, n := n } argv with
  | .error e => .error e
  | .ok st => .ok (addattr16 E.le st.n 1024 .IFLA_IPVLAN_FLAGS st.flags).2

/-- Embeds `ipvlan_print_opt` (iplink_ipvlan.c:81) on the decoded table `tb`
(`none` for a null `tb`): the calls of the output interface. -/
def ipvlan_print_opt (E : Ext) (tb : Option (IflaId → Option (List Nat))) :
    List print_call :=
  match tb with
  | none => []
  | some tb =>
    (match tb .IFLA_IPVLAN_MODE with
      | some a =>
        if a.length = 2 then
          [.print_string .PRINT_ANY (some "mode") (some " mode %s ")
            (some (if Flower.rta_getattr_u16 E.le a = IPVLAN_MODE_L2 then "l2"
              else if Flower.rta_getattr_u16 E.le a = IPVLAN_MODE_L3 then "l3"
              else if Flower.rta_getattr_u16 E.le a = IPVLAN_MODE_L3S then "l3s"
              else "unknown"))]
        else []
      | none => []) ++
    (match tb .IFLA_IPVLAN_FLAGS with
      | some a =>
        if a.length = 2 then
          if Flower.rta_getattr_u16 E.le a &&& IPVLAN_F_PRIVATE ≠ 0 then
            [.print_bool .PRINT_ANY (some "private") (some "private ") true]
          else if Flower.rta_getattr_u16 E.le a &&& IPVLAN_F_VEPA ≠ 0 then
            [.print_bool .PRINT_ANY (some "vepa") (some "vepa ") true]
          else [.print_bool .PRINT_ANY (some "bridge") (some "bridge ") true]
        else []
      | none => [])

/-- A concrete instantiation for examples: `matches` accepts any non-empty
beginning of the keyword. -/
def demoExt (le : Bool) : Ext where
  le := le
  matches_cmd := fun cmd pattern => decide (cmd ≠ "") && cmd.data.isPrefixOf pattern.data

end Ipvlan

namespace Flower

/-! ## Lemmas on `__mask_bits` -/

theorem mask_scan_append (l1 l2 : List Bool) (s : MaskScan) :
    mask_scan (l1 ++ l2) s = (mask_scan l1 s).bind (mask_scan l2) := by
  induction l1 generalizing s with
  | nil => simp [mask_scan]
  | cons b bs ih =>
    simp only [List.cons_append, mask_scan]
    cases h : mask_bits_step s b with
    | none => simp
    | some s1 => simpa using ih s1

theorem mask_bits_inner_eq_scan (b : Nat) (s : MaskScan) :
    mask_bits_inner b 8 s = mask_scan (byte_bits b) s := by
  simp only [mask_bits_inner, byte_bits, mask_scan]

theorem mask_bits_outer_eq_scan (addr : List Nat) (s : MaskScan) :
    mask_bits_outer addr s = mask_scan (bits_msb addr) s := by
  induction addr generalizing s with
  | nil => simp [mask_bits_outer, bits_msb, mask_scan]
  | cons b bs ih =>
    simp only [mask_bits_outer, bits_msb, mask_scan_append, mask_bits_inner_eq_scan]
    cases h : mask_scan (byte_bits b) s with
    | none => simp
    | some s1 => simpa using ih s1

theorem mask_scan_ones (n bits : Nat) :
    mask_scan (List.replicate n true) { bits := bits, hole := false }
      = some { bits := bits + n, hole := false } := by
  induction n generalizing bits with
  | zero => simp [mask_scan]
  | succ n ih =>
    simp only [List.replicate_succ, mask_scan, mask_bits_step]
    simp only [if_true, Bool.false_eq_true, if_false]
    rw [ih]
    congr 2
    omega

theorem mask_scan_zeros (m : Nat) (s : MaskScan) (hb : s.bits ≠ 0) :
    ∃ h, mask_scan (List.replicate m false) s = some { bits := s.bits, hole := h } := by
  induction m generalizing s with
  | zero => exact ⟨s.hole, by simp [mask_scan]⟩
  | succ m ih =>
    simp only [List.replicate_succ, mask_scan, mask_bits_step]
    simp only [Bool.false_eq_true, if_false, hb, ne_eq, not_false_eq_true, if_true]
    exact ih { s with hole := true } hb

theorem mask_scan_hole (l : List Bool) (s : MaskScan) (hh : s.hole = true)
    (ht : true ∈ l) : mask_scan l s = none := by
  induction l generalizing s with
  | nil => simp at ht
  | cons b bs ih =>
    simp only [mask_scan, mask_bits_step]
    cases b with
    | true => simp [hh]
    | false =>
      have ht1 : true ∈ bs := by simpa using ht
      by_cases hb : s.bits = 0
      · simp [hb]
      · simp only [Bool.false_eq_true, if_false, hb, ne_eq, not_false_eq_true, if_true]
        exact ih _ rfl ht1

theorem mask_scan_gap (l : List Bool) (s : MaskScan) (i j : Nat) (hij : i < j)
    (hi : l[i]? = some false) (hj : l[j]? = some true) : mask_scan l s = none := by
  induction l generalizing s i j with
  | nil => simp at hi
  | cons b bs ih =>
    obtain ⟨j1, rfl⟩ : ∃ j1, j = j1 + 1 := ⟨j - 1, by omega⟩
    have hj1 : bs[j1]? = some true := by simpa using hj
    cases i with
    | zero =>
      have hb : b = false := by simpa using hi
      subst hb
      simp only [mask_scan, mask_bits_step]
      by_cases hz : s.bits = 0
      · simp [hz]
      · simp only [Bool.false_eq_true, if_false, hz, ne_eq, not_false_eq_true, if_true]
        exact mask_scan_hole bs _ rfl (List.getElem?_mem hj1)
    | succ i1 =>
      have hi1 : bs[i1]? = some false := by simpa using hi
      simp only [mask_scan]
      cases h : mask_bits_step s b with
      | none => rfl
      | some s1 => exact ih s1 i1 j1 (by omega) hi1 hj1

theorem mask_bits_eq_scan (addr : List Nat) :
    __mask_bits addr =
      match mask_scan (bits_msb addr) { bits := 0, hole := false } with
      | none => -1
      | some s => (s.bits : Int) := by
  simp only [__mask_bits, mask_bits_outer_eq_scan]

theorem mask_bits_of_gap (addr : List Nat) (i j : Nat) (hij : i < j)
    (hi : (bits_msb addr)[i]? = some false) (hj : (bits_msb addr)[j]? = some true) :
    __mask_bits addr = -1 := by
  rw [mask_bits_eq_scan, mask_scan_gap _ _ i j hij hi hj]

theorem mask_bits_of_prefix (addr : List Nat) (N m : Nat) (hN : 0 < N)
    (h : bits_msb addr = List.replicate N true ++ List.replicate m false) :
    __mask_bits addr = (N : Int) := by
  rw [mask_bits_eq_scan, h, mask_scan_append, mask_scan_ones]
  obtain ⟨hl, hz⟩ := mask_scan_zeros m { bits := 0 + N, hole := false } (by simp; omega)
  simp only [Option.some_bind, hz]
  simp

/-! ## Claims on masks -/

/-- C1 (as stated, refuted): for prefix length 0 on IPv4 the mask built by
`__flower_parse_ip_addr` is `0.0.0.0`, and `__mask_bits` answers `-1` on it, not
`0`. -/
theorem C1_counterexample_zero_length :
    ip_prefix_mask true 4 0 = [0, 0, 0, 0] ∧
    __mask_bits (ip_prefix_mask true 4 0) = -1 ∧
    __mask_bits (ip_prefix_mask true 4 0) ≠ ((0 : Nat) : Int) := by
  decide

set_option maxRecDepth 100000 in
/-- C1 (amended): for address width 32 or 128 (4 or 16 bytes), on either byte
order, the mask that `__flower_parse_ip_addr` builds for prefix length `N` with
`1 ≤ N ≤ W` is mapped back to `N` by `__mask_bits`; for `N = 0` the answer is
`-1`. -/
theorem C1_mask_round_trip (le : Bool) (bytelen N : Nat)
    (hlen : bytelen = 4 ∨ bytelen = 16) (hN : N ≤ 8 * bytelen) :
    __mask_bits (ip_prefix_mask le bytelen N) = if N = 0 then -1 else (N : Int) := by
  have h4 : ∀ le : Bool, ∀ N, N ≤ 32 →
      __mask_bits (ip_prefix_mask le 4 N) = if N = 0 then -1 else (N : Int) := by
    decide!
  have h16 : ∀ le : Bool, ∀ N, N ≤ 128 →
      __mask_bits (ip_prefix_mask le 16 N) = if N = 0 then -1 else (N : Int) := by
    decide!
  rcases hlen with rfl | rfl
  · exact h4 le N (by omega)
  · exact h16 le N (by omega)

/-- C1 witness: IPv6, prefix length 65, little-endian host. -/
theorem C1_mask_round_trip_witness :
    __mask_bits (ip_prefix_mask true 16 65) = if 65 = 0 then -1 else ((65 : Nat) : Int) :=
  C1_mask_round_trip true 16 65 (Or.inr rfl) (by decide)

set_option maxRecDepth 100000 in
/-- For 4 and 16 address bytes, on either byte order, the mask built for prefix
length `N` within the width has the byte length of the address and is, as a
big-endian bit string, `N` one-bits followed by zero-bits. -/
theorem ip_prefix_mask_bits (le : Bool) (bytelen N : Nat)
    (hlen : bytelen = 4 ∨ bytelen = 16) (hN : N ≤ 8 * bytelen) :
    (ip_prefix_mask le bytelen N).length = bytelen ∧
    bits_msb (ip_prefix_mask le bytelen N)
      = List.replicate N true ++ List.replicate (8 * bytelen - N) false := by
  have h4 : ∀ le : Bool, ∀ N, N ≤ 32 →
      (ip_prefix_mask le 4 N).length = 4 ∧
      bits_msb (ip_prefix_mask le 4 N)
        = List.replicate N true ++ List.replicate (8 * 4 - N) false := by
    decide!
  have h16 : ∀ le : Bool, ∀ N, N ≤ 128 →
      (ip_prefix_mask le 16 N).length = 16 ∧
      bits_msb (ip_prefix_mask le 16 N)
        = List.replicate N true ++ List.replicate (8 * 16 - N) false := by
    decide!
  rcases hlen with rfl | rfl
  · exact h4 le N (by omega)
  · exact h16 le N (by omega)

/-- C4 (as stated, refuted): the one-byte mask `0x00` is a run of `N = 0`
one-bits followed only by zeros, yet `__mask_bits` returns `-1`, not `0`. -/
theorem C4_zero_mask_not_prefix :
    bits_msb [0] = List.replicate 0 true ++ List.replicate 8 false ∧
    __mask_bits [0] = -1 ∧ __mask_bits [0] ≠ ((0 : Nat) : Int) := by
  decide

/-- C4 (amended): a byte string in which some zero bit is followed, scanning
most-significant bit first, by a one bit makes `__mask_bits` return `-1`; a
byte string that is `N ≥ 1` one-bits from the most significant bit followed
only by zeros makes it return `N`. -/
theorem C4_gap_detection (addr : List Nat) :
    ((∃ i j : Nat, i < j ∧ (bits_msb addr)[i]? = some false ∧ (bits_msb addr)[j]? = some true) →
      __mask_bits addr = -1) ∧
    (∀ N m, 0 < N → bits_msb addr = List.replicate N true ++ List.replicate m false →
      __mask_bits addr = (N : Int)) :=
  ⟨fun ⟨i, j, hij, hi, hj⟩ => mask_bits_of_gap addr i j hij hi hj,
   fun N m hN h => mask_bits_of_prefix addr N m hN h⟩

/-- C4 witness: `255.255.0.255` has a gap (bit 16 is zero, bit 24 is one), and
`255.255.255.0` is a run of 24 one-bits. -/
theorem C4_gap_detection_witness :
    __mask_bits [255, 255, 0, 255] = -1 ∧ __mask_bits [255, 255, 255, 0] = ((24 : Nat) : Int) :=
  ⟨(C4_gap_detection [255, 255, 0, 255]).1 ⟨16, 24, by decide, by decide, by decide⟩,
   (C4_gap_detection [255, 255, 255, 0]).2 24 8 (by decide) (by decide)⟩

/-! ## Lemmas on the message and on cutting strings -/

theorem NLMSG_ALIGN_add (a b : Nat) :
    NLMSG_ALIGN (NLMSG_ALIGN a + NLMSG_ALIGN b) = NLMSG_ALIGN a + NLMSG_ALIGN b := by
  unfold NLMSG_ALIGN
  omega

theorem addattr_l_room (n : nlmsghdr) (maxlen : Nat) (t : AttrId) (d : List Nat)
    (h : NLMSG_ALIGN n.nlmsg_len + NLMSG_ALIGN (4 + d.length) ≤ maxlen) :
    addattr_l n maxlen t d = (0, { n with
      nlmsg_len := NLMSG_ALIGN n.nlmsg_len + NLMSG_ALIGN (4 + d.length)
      attrs := n.attrs ++ [{ rta_len := 4 + d.length, rta_type := t, data := d }] }) := by
  unfold addattr_l RTA_LENGTH
  simp only [if_neg (Nat.not_lt.mpr h)]

/-- Two records appended one after the other when both fit. -/
theorem addattr_l_twice (n : nlmsghdr) (maxlen : Nat) (t1 t2 : AttrId) (d1 d2 : List Nat)
    (h : NLMSG_ALIGN n.nlmsg_len + NLMSG_ALIGN (4 + d1.length) + NLMSG_ALIGN (4 + d2.length)
      ≤ maxlen) :
    (addattr_l (addattr_l n maxlen t1 d1).2 maxlen t2 d2).2 = { n with
      nlmsg_len := NLMSG_ALIGN n.nlmsg_len + NLMSG_ALIGN (4 + d1.length)
        + NLMSG_ALIGN (4 + d2.length)
      attrs := n.attrs ++ [{ rta_len := 4 + d1.length, rta_type := t1, data := d1 },
        { rta_len := 4 + d2.length, rta_type := t2, data := d2 }] } := by
  rw [addattr_l_room n maxlen t1 d1 (by omega)]
  rw [addattr_l_room _ maxlen t2 d2 (by simp only [NLMSG_ALIGN_add]; omega)]
  simp [NLMSG_ALIGN_add]

theorem cut_chars_no_sep (c : Char) (l : List Char) (h : c ∉ l) :
    cut_chars c l = (l, none) := by
  induction l with
  | nil => rfl
  | cons x xs ih =>
    have hx : x ≠ c := fun e => h (by simp [e])
    have hxs : c ∉ xs := fun e => h (by simp [e])
    simp [cut_chars, hx, ih hxs]

theorem cut_chars_sep (c : Char) (l r : List Char) (h : c ∉ l) :
    cut_chars c (l ++ c :: r) = (l, some r) := by
  induction l with
  | nil => simp [cut_chars]
  | cons x xs ih =>
    have hx : x ≠ c := fun e => h (by simp [e])
    have hxs : c ∉ xs := fun e => h (by simp [e])
    simp [cut_chars, hx, ih hxs]

theorem cut_at_no_sep (c : Char) (str : String) (h : c ∉ str.data) :
    cut_at c str = (str, none) := by
  simp [cut_at, cut_chars_no_sep c str.data h]

theorem cut_at_sep (c : Char) (l r : String) (h : c ∉ l.data) :
    cut_at c (l ++ String.mk [c] ++ r) = (l, some r) := by
  have : (l ++ String.mk [c] ++ r).data = l.data ++ c :: r.data := by
    simp [String.data_append]
  simp [cut_at, this, cut_chars_sep c l.data r.data h]

theorem u16_mem_htons (le : Bool) (x : Nat) : u16_mem le (htons le x) = be16_bytes x := by
  cases le
  · simp only [u16_mem, htons, be16_bytes, Bool.false_eq_true, if_false]
    congr 1
    · omega
    · congr 1
      omega
  · simp only [u16_mem, htons, be16_bytes, if_true, List.reverse_cons, List.reverse_nil,
      List.nil_append, List.singleton_append, of_be_bytes, List.foldl_cons, List.foldl_nil,
      Nat.zero_mul, Nat.zero_add]
    have ha : x % 256 < 256 := Nat.mod_lt _ (by decide)
    have hb : x / 256 % 256 < 256 := Nat.mod_lt _ (by decide)
    generalize x % 256 = a at ha ⊢
    generalize x / 256 % 256 = b at hb ⊢
    congr 1
    · omega
    · congr 1
      omega

theorem overlay_length (buf new : List Nat) : (overlay buf new).length = buf.length := by
  simp only [overlay, List.length_take, List.length_append, List.length_drop]
  omega

theorem eth_buf_length (E : Ext) : (eth_buf E).length = 6 := by
  simp only [eth_buf, List.length_take, List.length_append, List.length_map,
    List.length_replicate, ETH_ALEN]
  omega

/-! ## Claims on masked-value parsing and printing -/

set_option maxRecDepth 100000 in
/-- For `1 ≤ B ≤ 48` the mask of `LLADDR/B` is six bytes whose big-endian bits
are `B` ones followed by `48 - B` zeros, on either byte order. -/
theorem eth_prefix_mask_bits (le : Bool) (B : Nat) (h1 : 1 ≤ B) (h2 : B ≤ 48) :
    (eth_prefix_mask le B).map (fun m => (m.length, bits_msb m))
      = some (6, List.replicate B true ++ List.replicate (48 - B) false) := by
  have h : ∀ le : Bool, ∀ B, B ≤ 48 → 1 ≤ B →
      (eth_prefix_mask le B).map (fun m => (m.length, bits_msb m))
        = some (6, List.replicate B true ++ List.replicate (48 - B) false) := by
    decide!
  exact h le B h2 h1

/-- C3 (the code misses the case `B = 0`): on `LLADDR/B` where `B` reads as the
number 0, `flower_parse_eth_addr` evaluates `0xffffffffffffULL << 64`, a shift by
the full width of the operand, which C leaves undefined; no all-zero mask is
produced by a defined computation. -/
theorem C3_eth_prefix_zero_undefined (E : Ext) (lladdr b : String) (a : List Nat)
    (addr_type mask_type : AttrId) (n : nlmsghdr)
    (hs : '/' ∉ lladdr.data) (ha : E.ll_addr_a2n lladdr ETH_ALEN = some a)
    (hb : E.get_unsigned b 10 = some 0) :
    flower_parse_eth_addr E (lladdr ++ "/" ++ b) addr_type mask_type n
      = .error .undefined := by
  have hc : cut_at '/' (lladdr ++ "/" ++ b) = (lladdr, some b) := cut_at_sep '/' lladdr b hs
  have hm : eth_prefix_mask E.le 0 = none := by cases E.le <;> decide
  simp only [flower_parse_eth_addr, hc, ha, hb, hm]

/-- C3 witness: `aa:bb:cc:dd:ee:ff/0` with the example helpers. -/
theorem C3_eth_prefix_zero_undefined_witness :
    flower_parse_eth_addr (demoExt true) ("aa:bb:cc:dd:ee:ff" ++ "/" ++ "0")
      .TCA_FLOWER_KEY_ETH_DST .TCA_FLOWER_KEY_ETH_DST_MASK (empty_msg 0)
      = .error .undefined :=
  C3_eth_prefix_zero_undefined (demoExt true) "aa:bb:cc:dd:ee:ff" "0"
    [0xaa, 0xbb, 0xcc, 0xdd, 0xee, 0xff] _ _ _ (by decide) (by decide) (by decide)

/-- C5: for a decoded IPv4 address and mask of four bytes each,
`flower_print_ip_addr` prints the address followed by `/N` when the mask is `N`
leading one-bits with `0 < N < 32`, followed by `/` and the literal mask when
the mask has a zero bit before a one bit, and followed by nothing when the mask
is all ones. -/
theorem C5_mask_rendering (fmt : Nat → List Nat → String) (le : Bool)
    (addr mask : List Nat) (a6 m6 : Option (List Nat))
    (ha : addr.length = 4) (hm : mask.length = 4) :
    (∀ N, 0 < N → N < 32 →
      bits_msb mask = List.replicate N true ++ List.replicate (32 - N) false →
      flower_print_ip_addr fmt le (htons le ETH_P_IP) (some addr) (some mask) a6 m6
        = some (fmt AF_INET addr ++ "/" ++ toString N)) ∧
    ((∃ i j : Nat, i < j ∧ (bits_msb mask)[i]? = some false ∧
        (bits_msb mask)[j]? = some true) →
      flower_print_ip_addr fmt le (htons le ETH_P_IP) (some addr) (some mask) a6 m6
        = some (fmt AF_INET addr ++ "/" ++ fmt AF_INET mask)) ∧
    (bits_msb mask = List.replicate 32 true →
      flower_print_ip_addr fmt le (htons le ETH_P_IP) (some addr) (some mask) a6 m6
        = some (fmt AF_INET addr)) := by
  refine ⟨?_, ?_, ?_⟩
  · intro N h0 h32 hbits
    have hb := mask_bits_of_prefix mask N (32 - N) h0 hbits
    simp only [flower_print_ip_addr, if_true, ha, hm, hb, ne_eq, not_true_eq_false, if_false]
    have h1 : ¬ ((N : Int) < 0) := by omega
    have h2 : N < 4 * 8 := by omega
    simp only [h1, h2, if_false, if_true, Int.toNat_ofNat]
  · rintro ⟨i, j, hij, hi, hj⟩
    have hb := mask_bits_of_gap mask i j hij hi hj
    simp only [flower_print_ip_addr, if_true, ha, hm, hb, ne_eq, not_true_eq_false, if_false]
    simp
  · intro hbits
    have hb := mask_bits_of_prefix mask 32 0 (by decide) (by simpa using hbits)
    simp only [flower_print_ip_addr, if_true, ha, hm, hb, ne_eq, not_true_eq_false, if_false]
    simp

/-- C5 witness: `255.255.255.0` prints `/24`, `255.255.0.255` prints the
literal mask, `255.255.255.255` prints nothing after the address. -/
theorem C5_mask_rendering_witness :
    flower_print_ip_addr show_addr true (htons true ETH_P_IP) (some [10, 0, 0, 0])
      (some [255, 255, 255, 0]) none none = some "10.0.0.0/24" ∧
    flower_print_ip_addr show_addr true (htons true ETH_P_IP) (some [10, 0, 0, 0])
      (some [255, 255, 0, 255]) none none = some "10.0.0.0/255.255.0.255" ∧
    flower_print_ip_addr show_addr true (htons true ETH_P_IP) (some [10, 0, 0, 0])
      (some [255, 255, 255, 255]) none none = some "10.0.0.0" :=
  ⟨(C5_mask_rendering show_addr true [10, 0, 0, 0] [255, 255, 255, 0] none none rfl rfl).1
      24 (by decide) (by decide) (by decide),
   (C5_mask_rendering show_addr true [10, 0, 0, 0] [255, 255, 0, 255] none none rfl rfl).2.1
      ⟨16, 24, by decide, by decide, by decide⟩,
   (C5_mask_rendering show_addr true [10, 0, 0, 0] [255, 255, 255, 255] none none rfl rfl).2.2
      (by decide)⟩

/-- C6: on an input without `/` whose value is accepted, and with room in the
message for the two records, `flower_parse_eth_addr` appends the address
record and directly after it a record with the given mask id and six `0xff`
bytes; `flower_parse_u8` and `flower_parse_ip_tos_ttl` append the value record
and directly after it a record with the given mask id and the byte `0xff`. An
input without `/` whose value is not accepted makes each of them return -1. -/
theorem C6_default_mask (E : Ext) (str : String) (value_type mask_type : AttrId)
    (n : nlmsghdr) (hs : '/' ∉ str.data) :
    (∀ a, E.ll_addr_a2n str ETH_ALEN = some a →
      NLMSG_ALIGN n.nlmsg_len + 24 ≤ E.MAX_MSG →
      flower_parse_eth_addr E str value_type mask_type n = .ok { n with
        nlmsg_len := NLMSG_ALIGN n.nlmsg_len + 24
        attrs := n.attrs ++
          [{ rta_len := 10, rta_type := value_type, data := overlay (eth_buf E) a },
           { rta_len := 10, rta_type := mask_type,
             data := [0xff, 0xff, 0xff, 0xff, 0xff, 0xff] }] }) ∧
    (∀ (value_from_name : Option (String → Option Nat))
        (value_validate : Option (Nat → Bool)) (v : Nat),
      ((∃ f, value_from_name = some f ∧ f str = some v) ∨
        ((∀ f, value_from_name = some f → f str = none) ∧ E.get_u8 str 10 = some v)) →
      (∀ g, value_validate = some g → g (v % 256) = true) →
      NLMSG_ALIGN n.nlmsg_len + 16 ≤ E.MAX_MSG →
      flower_parse_u8 E str value_type mask_type value_from_name value_validate n
        = .ok { n with
          nlmsg_len := NLMSG_ALIGN n.nlmsg_len + 16
          attrs := n.attrs ++
            [{ rta_len := 5, rta_type := value_type, data := [v % 256] },
             { rta_len := 5, rta_type := mask_type, data := [0xff] }] }) ∧
    (∀ v, (E.get_u8 str 10 = some v ∨ (E.get_u8 str 10 = none ∧ E.get_u8 str 16 = some v)) →
      NLMSG_ALIGN n.nlmsg_len + 16 ≤ E.MAX_MSG →
      flower_parse_ip_tos_ttl E str value_type mask_type n = .ok { n with
        nlmsg_len := NLMSG_ALIGN n.nlmsg_len + 16
        attrs := n.attrs ++
          [{ rta_len := 5, rta_type := value_type, data := [v % 256] },
           { rta_len := 5, rta_type := mask_type, data := [0xff] }] }) ∧
    (E.ll_addr_a2n str ETH_ALEN = none →
      flower_parse_eth_addr E str value_type mask_type n = .error .err) ∧
    (E.get_u8 str 10 = none →
      flower_parse_u8 E str value_type mask_type none none n = .error .err) ∧
    (E.get_u8 str 10 = none → E.get_u8 str 16 = none →
      flower_parse_ip_tos_ttl E str value_type mask_type n = .error .err) := by
  have hc := cut_at_no_sep '/' str hs
  refine ⟨?_, ?_, ?_, ?_, ?_, ?_⟩
  rotate_left 3
  · intro h
    simp only [flower_parse_eth_addr, hc, h]
  · intro h
    simp only [flower_parse_u8, hc, h]
  · intro h1 h2
    simp only [flower_parse_ip_tos_ttl, hc, h1, h2]
  · intro a ha hroom
    have hl : (overlay (eth_buf E) a).length = 6 := by rw [overlay_length, eth_buf_length]
    simp only [flower_parse_eth_addr, hc, ha]
    rw [addattr_l_twice]
    · simp [hl, ETH_ALEN, NLMSG_ALIGN]
    · simp only [hl, List.length_replicate, ETH_ALEN, NLMSG_ALIGN] at hroom ⊢
      omega
  · intro vfn vv v hv hvalid hroom
    have hval : ∀ vv : Option (Nat → Bool), (∀ g, vv = some g → g (v % 256) = true) →
        (match vv with
          | some f => f (v % 256)
          | none => true) = true := by
      intro vv h
      cases vv with
      | none => rfl
      | some g => exact h g rfl
    have hfin : (addattr_l (addattr_l n E.MAX_MSG value_type [v % 256 % 256]).2 E.MAX_MSG
        mask_type [255 % 256]).2 = { n with
          nlmsg_len := NLMSG_ALIGN n.nlmsg_len + 16
          attrs := n.attrs ++
            [{ rta_len := 5, rta_type := value_type, data := [v % 256] },
             { rta_len := 5, rta_type := mask_type, data := [0xff] }] } := by
      rw [addattr_l_twice]
      · simp [NLMSG_ALIGN]
      · simp only [List.length_singleton, NLMSG_ALIGN] at hroom ⊢
        omega
    rcases hv with ⟨f, rfl, hf⟩ | ⟨hnone, hg⟩
    · simp only [flower_parse_u8, hc, hf, hval vv hvalid, addattr8, UINT8_MAX, hfin]
      simp
    · cases vfn with
      | none =>
        simp only [flower_parse_u8, hc, hg, hval vv hvalid, addattr8, UINT8_MAX, hfin]
        simp
      | some f =>
        simp only [flower_parse_u8, hc, hnone f rfl, hg, hval vv hvalid, addattr8, UINT8_MAX,
          hfin]
        simp
  · intro v hv hroom
    have hfin : (addattr_l (addattr_l n E.MAX_MSG value_type [v % 256 % 256]).2 E.MAX_MSG
        mask_type [255 % 256]).2 = { n with
          nlmsg_len := NLMSG_ALIGN n.nlmsg_len + 16
          attrs := n.attrs ++
            [{ rta_len := 5, rta_type := value_type, data := [v % 256] },
             { rta_len := 5, rta_type := mask_type, data := [0xff] }] } := by
      rw [addattr_l_twice]
      · simp [NLMSG_ALIGN]
      · simp only [List.length_singleton, NLMSG_ALIGN] at hroom ⊢
        omega
    rcases hv with h | ⟨h1, h2⟩
    · simp only [flower_parse_ip_tos_ttl, hc, h, addattr8, hfin]
    · simp only [flower_parse_ip_tos_ttl, hc, h1, h2, addattr8, hfin]

/-- C6 witness: `aa:bb:cc:dd:ee:ff`, and the number `12` read as a `u8` and as
a tos/ttl value, with the example helpers on an empty request. -/
theorem C6_default_mask_witness :
    flower_parse_eth_addr (demoExt true) "aa:bb:cc:dd:ee:ff" .TCA_FLOWER_KEY_ETH_DST
      .TCA_FLOWER_KEY_ETH_DST_MASK (empty_msg 0) = .ok { empty_msg 0 with
        nlmsg_len := NLMSG_ALIGN (empty_msg 0).nlmsg_len + 24
        attrs := (empty_msg 0).attrs ++
          [{ rta_len := 10, rta_type := .TCA_FLOWER_KEY_ETH_DST,
             data := overlay (eth_buf (demoExt true)) [0xaa, 0xbb, 0xcc, 0xdd, 0xee, 0xff] },
           { rta_len := 10, rta_type := .TCA_FLOWER_KEY_ETH_DST_MASK,
             data := [0xff, 0xff, 0xff, 0xff, 0xff, 0xff] }] } :=
  (C6_default_mask (demoExt true) "aa:bb:cc:dd:ee:ff" .TCA_FLOWER_KEY_ETH_DST
    .TCA_FLOWER_KEY_ETH_DST_MASK (empty_msg 0) (by decide)).1
    [0xaa, 0xbb, 0xcc, 0xdd, 0xee, 0xff] (by decide) (by decide)

/-- C7 (as stated, refuted): `tcp_flags 12` without a mask gives a mask record
with the bytes `0f ff`, not `ff ff`. -/
theorem C7_tcp_flags_mask_not_ffff :
    flower_parse_tcp_flags (demoExt true) "12" .TCA_FLOWER_KEY_TCP_FLAGS
      .TCA_FLOWER_KEY_TCP_FLAGS_MASK (empty_msg 0) = .ok { empty_msg 0 with
        nlmsg_len := 52
        attrs := [{ rta_len := 6, rta_type := .TCA_FLOWER_KEY_TCP_FLAGS, data := [0x00, 0x12] },
          { rta_len := 6, rta_type := .TCA_FLOWER_KEY_TCP_FLAGS_MASK, data := [0x0f, 0xff] }] } ∧
    [0x0f, 0xff] ≠ [0xff, 0xff] := by
  decide

/-- C7 (amended): for a tcp_flags value given without `/mask` that reads as a
hexadecimal number within `TCP_FLAGS_MAX_MASK` (12 bits), and with room in the
message, `flower_parse_tcp_flags` appends the flags in network byte order and
directly after them the mask record with the bytes `0f ff`, that is all-ones
over the 12 flag bits. -/
theorem C7_tcp_flags_default_mask (E : Ext) (str : String) (flags_type mask_type : AttrId)
    (n : nlmsghdr) (v : Nat) (hs : '/' ∉ str.data) (hv : E.get_u16 str 16 = some v)
    (h12 : v % 2 ^ 16 < 2 ^ 12) (hroom : NLMSG_ALIGN n.nlmsg_len + 16 ≤ E.MAX_MSG) :
    flower_parse_tcp_flags E str flags_type mask_type n = .ok { n with
      nlmsg_len := NLMSG_ALIGN n.nlmsg_len + 16
      attrs := n.attrs ++
        [{ rta_len := 6, rta_type := flags_type, data := be16_bytes (v % 2 ^ 16) },
         { rta_len := 6, rta_type := mask_type, data := [0x0f, 0xff] }] } := by
  have hc := cut_at_no_sep '/' str hs
  have hfit : and_not32 (v % 2 ^ 16) TCP_FLAGS_MAX_MASK = 0 := by
    have h : ∀ w, w < 2 ^ 12 → and_not32 w TCP_FLAGS_MAX_MASK = 0 := by
      intro w hw
      apply Nat.eq_of_testBit_eq
      intro i
      simp only [and_not32, TCP_FLAGS_MAX_MASK, Nat.testBit_and, Nat.zero_testBit,
        Bool.and_eq_false_imp]
      intro hwi
      have hi : i < 12 := by
        by_contra hge
        have : w.testBit i = false :=
          Nat.testBit_lt_two_pow (lt_of_lt_of_le hw (Nat.pow_le_pow_right (by decide) (by omega)))
        rw [Nat.mod_eq_of_lt (lt_trans hw (by decide))] at hwi
        simp [this] at hwi
      interval_cases i <;> decide
    exact h _ h12
  simp only [flower_parse_tcp_flags, hc, hv, hfit, ne_eq, not_true_eq_false, if_false,
    addattr16, u16_mem_htons]
  rw [addattr_l_twice]
  · simp [be16_bytes, NLMSG_ALIGN, TCP_FLAGS_MAX_MASK]
  · simp only [be16_bytes, List.length_cons, List.length_nil, NLMSG_ALIGN] at hroom ⊢
    omega

/-- C7 witness: `tcp_flags 12` with the example helpers on an empty request. -/
theorem C7_tcp_flags_default_mask_witness :
    flower_parse_tcp_flags (demoExt false) "12" .TCA_FLOWER_KEY_TCP_FLAGS
      .TCA_FLOWER_KEY_TCP_FLAGS_MASK (empty_msg 0) = .ok { empty_msg 0 with
        nlmsg_len := NLMSG_ALIGN (empty_msg 0).nlmsg_len + 16
        attrs := (empty_msg 0).attrs ++
          [{ rta_len := 6, rta_type := .TCA_FLOWER_KEY_TCP_FLAGS,
             data := be16_bytes (0x12 % 2 ^ 16) },
           { rta_len := 6, rta_type := .TCA_FLOWER_KEY_TCP_FLAGS_MASK,
             data := [0x0f, 0xff] }] } :=
  C7_tcp_flags_default_mask (demoExt false) "12" .TCA_FLOWER_KEY_TCP_FLAGS
    .TCA_FLOWER_KEY_TCP_FLAGS_MASK (empty_msg 0) 0x12 (by decide) (by decide) (by decide)
    (by decide)

/-! ## Lemmas on the argument loop -/

theorem and_not32_low_mask (x k : Nat) (hx : x < 2 ^ 32) (hk : k ≤ 32) :
    and_not32 x (2 ^ k - 1) = 0 ↔ x < 2 ^ k := by
  have hm : (2 ^ k - 1) % 2 ^ 32 = 2 ^ k - 1 := by
    apply Nat.mod_eq_of_lt
    have : 2 ^ k ≤ 2 ^ 32 := Nat.pow_le_pow_right (by decide) hk
    have : 0 < 2 ^ k := Nat.two_pow_pos k
    omega
  have hbit : ∀ i, (and_not32 x (2 ^ k - 1)).testBit i
      = (x.testBit i && (decide (i < 32) ^^ decide (i < k))) := by
    intro i
    simp only [and_not32, hm, Nat.mod_eq_of_lt hx, Nat.testBit_and, Nat.testBit_xor,
      Nat.testBit_two_pow_sub_one]
  constructor
  · intro h0
    apply Nat.lt_pow_two_of_testBit
    intro i hi
    have hb := hbit i
    rw [h0, Nat.zero_testBit] at hb
    by_cases h32 : i < 32
    · have hki : ¬ i < k := by omega
      simpa [h32, hki] using hb.symm
    · exact Nat.testBit_lt_two_pow
        (lt_of_lt_of_le hx (Nat.pow_le_pow_right (by decide) (by omega)))
  · intro hlt
    apply Nat.eq_of_testBit_eq
    intro i
    rw [hbit, Nat.zero_testBit]
    by_cases hki : i < k
    · have h32 : i < 32 := by omega
      simp [hki, h32]
    · have : x.testBit i = false :=
        Nat.testBit_lt_two_pow
          (lt_of_lt_of_le hlt (Nat.pow_le_pow_right (by decide) (by omega)))
      simp [this]

theorem set_rta_len_append (l r : List rtattr) (a : rtattr) (len : Nat) :
    set_rta_len (l ++ a :: r) l.length len = l ++ { a with rta_len := len } :: r := by
  induction l with
  | nil => rfl
  | cons x xs ih => simp [set_rta_len, ih]

theorem flower_parse_arg_shrinks (E : Ext) (eth_type : Nat) (st st1 : ParseState)
    (arg : String) (rest rest1 : List String)
    (h : flower_parse_arg E eth_type st arg rest = .ok (st1, rest1)) :
    rest1.length ≤ rest.length := by
  unfold flower_parse_arg at h
  split at h
  · simp only [Except.ok.injEq, Prod.mk.injEq] at h
    rw [← h.2]
  · simp only [Except.ok.injEq, Prod.mk.injEq] at h
    rw [← h.2]
  · simp only [Except.ok.injEq, Prod.mk.injEq] at h
    rw [← h.2]
  · simp at h
  · simp at h
  · split at h
    · simp at h
    · split at h
      · simp at h
      · simp only [Except.ok.injEq, Prod.mk.injEq] at h
        rw [← h.2]
        simp only [List.length_drop]
        omega
  · split at h
    · simp at h
    · split at h
      · simp at h
      · simp only [Except.ok.injEq, Prod.mk.injEq] at h
        rw [← h.2]
        simp

/-- With enough fuel the loop does not depend on the fuel. -/
theorem flower_parse_args_fuel (E : Ext) (eth_type : Nat) (fuel : Nat) :
    ∀ (st : ParseState) (argv : List String), argv.length ≤ fuel →
      flower_parse_args E eth_type fuel st argv
        = flower_parse_args E eth_type argv.length st argv := by
  induction fuel using Nat.strong_induction_on with
  | _ fuel ih =>
    intro st argv hlen
    cases argv with
    | nil => cases fuel <;> simp [flower_parse_args]
    | cons arg rest =>
      cases fuel with
      | zero => simp at hlen
      | succ f =>
        simp only [flower_parse_args, List.length_cons]
        cases h : flower_parse_arg E eth_type st arg rest with
        | error e => rfl
        | ok r =>
          obtain ⟨st1, rest1⟩ := r
          have hs := flower_parse_arg_shrinks E eth_type st st1 arg rest rest1 h
          simp only [List.length_cons] at hlen
          simp only
          rw [ih f (by omega) st1 rest1 (by omega),
            ih rest.length (by omega) st1 rest1 hs]

/-- The loop run from the start equals the loop run from any point it reaches. -/
theorem flower_parse_args_of_steps (E : Ext) (eth_type : Nat) (k : Nat) :
    ∀ (st st1 : ParseState) (argv argv1 : List String),
      flower_parse_steps E eth_type k st argv = .ok (st1, argv1) →
      flower_parse_args E eth_type argv.length st argv
        = flower_parse_args E eth_type argv1.length st1 argv1 := by
  induction k with
  | zero =>
    intro st st1 argv argv1 h
    simp only [flower_parse_steps, Except.ok.injEq, Prod.mk.injEq] at h
    rw [h.1, h.2]
  | succ k ih =>
    intro st st1 argv argv1 h
    cases argv with
    | nil =>
      simp only [flower_parse_steps, Except.ok.injEq, Prod.mk.injEq] at h
      rw [h.1, ← h.2]
    | cons arg rest =>
      simp only [flower_parse_steps] at h
      simp only [flower_parse_args, List.length_cons]
      cases h1 : flower_parse_arg E eth_type st arg rest with
      | error e => simp [h1] at h
      | ok r =>
        obtain ⟨st2, rest2⟩ := r
        simp only [h1] at h
        have hs := flower_parse_arg_shrinks E eth_type st st2 arg rest rest2 h1
        simp only
        rw [flower_parse_args_fuel E eth_type rest.length st2 rest2 hs]
        exact ih st2 st1 rest2 argv1 h

/-- When the loop reaches an argument whose pass returns an error,
`flower_parse_opt` returns that error. -/
theorem flower_parse_opt_fails_at (E : Ext) (handle : Option String) (argv : List String)
    (n n1 : nlmsghdr) (k : Nat) (st : ParseState) (arg : String) (rest : List String)
    (e : Fail) (hbegin : flower_parse_begin E handle n = .ok n1)
    (hreach : flower_parse_steps E (TC_H_MIN n.tcm_info) k (initial_state n1) argv
      = .ok (st, arg :: rest))
    (hfail : flower_parse_arg E (TC_H_MIN n.tcm_info) st arg rest = .error e) :
    flower_parse_opt E handle argv n = .error e := by
  have h := flower_parse_args_of_steps E (TC_H_MIN n.tcm_info) k _ _ _ _ hreach
  simp only [flower_parse_opt, hbegin, h, flower_parse_args, List.length_cons, hfail]

theorem NLMSG_ALIGN_mod (a : Nat) : NLMSG_ALIGN a % 4 = 0 := by
  unfold NLMSG_ALIGN
  omega

/-- Appending a record to a message whose length is already aligned. -/
theorem addattr_l_aligned (n : nlmsghdr) (maxlen : Nat) (t : AttrId) (d : List Nat)
    (h4 : n.nlmsg_len % 4 = 0)
    (h : n.nlmsg_len + NLMSG_ALIGN (4 + d.length) ≤ maxlen) :
    addattr_l n maxlen t d = (0, { n with
      nlmsg_len := n.nlmsg_len + NLMSG_ALIGN (4 + d.length)
      attrs := n.attrs ++ [{ rta_len := 4 + d.length, rta_type := t, data := d }] }) := by
  have ha : NLMSG_ALIGN n.nlmsg_len = n.nlmsg_len := by
    unfold NLMSG_ALIGN
    omega
  rw [addattr_l_room n maxlen t d (by rw [ha]; exact h), ha]

theorem u16_mem_length (le : Bool) (x : Nat) : (u16_mem le x).length = 2 := by
  cases le <;> simp [u16_mem, be16_bytes]

theorem u32_mem_length (le : Bool) (x : Nat) : (u32_mem le x).length = 4 := by
  cases le <;> simp [u32_mem, be32_bytes]

theorem eth_type_vlan_ne_all (le : Bool) (eth_type : Nat)
    (h : eth_type_vlan le eth_type = true) : eth_type ≠ htons le ETH_P_ALL := by
  intro he
  subst he
  revert h
  cases le <;> decide

theorem eth_type_vlan_zero (le : Bool) : eth_type_vlan le 0 = false := by
  cases le <;> decide

theorem flower_parse_steps_succ (E : Ext) (eth_type : Nat) (k : Nat) :
    ∀ (st : ParseState) (argv : List String),
      flower_parse_steps E eth_type (k + 1) st argv =
        match flower_parse_steps E eth_type k st argv with
        | .error e => .error e
        | .ok (st1, []) => .ok (st1, [])
        | .ok (st1, a :: r) => flower_parse_arg E eth_type st1 a r := by
  induction k with
  | zero =>
    intro st argv
    cases argv with
    | nil => simp [flower_parse_steps]
    | cons a r =>
      simp only [flower_parse_steps]
      cases h : flower_parse_arg E eth_type st a r with
      | error e => rfl
      | ok x => rfl
  | succ k ih =>
    intro st argv
    cases argv with
    | nil => simp [flower_parse_steps]
    | cons a r =>
      rw [flower_parse_steps]
      cases h : flower_parse_arg E eth_type st a r with
      | error e => simp [flower_parse_steps, h]
      | ok x =>
        obtain ⟨st1, r1⟩ := x
        simp only [ih st1 r1]
        conv_rhs => rw [flower_parse_steps]
        simp only [h]

theorem with_msg_vlan_ethtype (st st1 : ParseState) (r : Except Fail nlmsghdr)
    (h : with_msg st r = .ok st1) : st1.vlan_ethtype = st.vlan_ethtype := by
  cases r with
  | error e => simp [with_msg] at h
  | ok n =>
    simp only [with_msg, Except.ok.injEq] at h
    rw [← h]

theorem parse_vid_vlan_ethtype (E : Ext) (st st1 : ParseState) (arg : String) (t : AttrId)
    (h : parse_vid E st arg t = .ok st1) : st1.vlan_ethtype = st.vlan_ethtype := by
  unfold parse_vid at h
  split at h
  · simp at h
  · dsimp only at h
    split at h
    · simp at h
    · simp only [Except.ok.injEq] at h
      rw [← h]

theorem parse_small_u8_vlan_ethtype (E : Ext) (st st1 : ParseState) (arg : String)
    (limit : Nat) (t : AttrId) (h : parse_small_u8 E st arg limit t = .ok st1) :
    st1.vlan_ethtype = st.vlan_ethtype := by
  unfold parse_small_u8 at h
  split at h
  · simp at h
  · dsimp only at h
    split at h
    · simp at h
    · simp only [Except.ok.injEq] at h
      rw [← h]

/-- Only the `vlan_ethtype` branch changes the local `vlan_ethtype`, and it
stores what `ll_proto_a2n` read. -/
theorem flower_parse_value_vlan_ethtype (E : Ext) (eth_type : Nat) (kw : Keyword)
    (st st1 : ParseState) (V : String)
    (h : flower_parse_value E eth_type kw st V = .ok st1) :
    st1.vlan_ethtype = st.vlan_ethtype ∨
      (kw = .kw_vlan_ethtype ∧ ∃ p, E.ll_proto_a2n V = some p ∧
        st1.vlan_ethtype = p % 2 ^ 16) := by
  cases kw
  case kw_vlan_ethtype =>
    right
    refine ⟨rfl, ?_⟩
    simp only [flower_parse_value, flower_parse_vlan_eth_type] at h
    split at h
    · simp at h
    · rename_i t n heq
      split at heq
      · simp at heq
      · split at heq
        · simp at heq
        · rename_i p hp
          simp only [Except.ok.injEq, Prod.mk.injEq] at heq
          simp only [Except.ok.injEq] at h
          exact ⟨p, hp, by rw [← h, ← heq.1]⟩
  all_goals left
  all_goals simp only [flower_parse_value] at h
  all_goals first
    | exact with_msg_vlan_ethtype _ _ _ h
    | (simp at h; done)
    | (split at h
       all_goals first
         | (simp at h; done)
         | exact parse_vid_vlan_ethtype _ _ _ _ _ h
         | exact parse_small_u8_vlan_ethtype _ _ _ _ _ _ h
         | (simp only [Except.ok.injEq] at h; rw [← h])
         | (split at h
            all_goals first
              | (simp at h; done)
              | (simp only [Except.ok.injEq] at h; rw [← h])
              | (split at h
                 all_goals first
                   | (simp at h; done)
                   | (simp only [Except.ok.injEq] at h; rw [← h]))))

theorem flower_parse_arg_vlan_ethtype (E : Ext) (eth_type : Nat) (st st1 : ParseState)
    (a : String) (rest rest1 : List String)
    (h : flower_parse_arg E eth_type st a rest = .ok (st1, rest1)) :
    st1.vlan_ethtype = st.vlan_ethtype ∨
      (flower_keyword E a = .kw_vlan_ethtype ∧ ∃ V r p, rest = V :: r ∧
        E.ll_proto_a2n V = some p ∧ st1.vlan_ethtype = p % 2 ^ 16) := by
  unfold flower_parse_arg at h
  split at h
  · simp only [Except.ok.injEq, Prod.mk.injEq] at h
    left
    rw [← h.1]
  · simp only [Except.ok.injEq, Prod.mk.injEq] at h
    left
    rw [← h.1]
  · simp only [Except.ok.injEq, Prod.mk.injEq] at h
    left
    rw [← h.1]
  · simp at h
  · simp at h
  · split at h
    · simp at h
    · split at h
      · simp at h
      · simp only [Except.ok.injEq, Prod.mk.injEq] at h
        left
        rw [← h.1]
  · split at h
    · simp at h
    · rename_i V r
      split at h
      · simp at h
      · rename_i st2 hv
        simp only [Except.ok.injEq, Prod.mk.injEq] at h
        rcases flower_parse_value_vlan_ethtype E eth_type _ st st2 V hv with h1 | ⟨hk, p, hp, h2⟩
        · left
          rw [← h.1, h1]
        · right
          exact ⟨hk, V, r, p, rfl, hp, by rw [← h.1, h2]⟩

/-- The local `vlan_ethtype` is either still its initial value or what an
earlier `vlan_ethtype` argument of the same list set it to. -/
theorem vlan_ethtype_provenance (E : Ext) (eth_type : Nat) (st0 : ParseState)
    (argv : List String) (k : Nat) :
    ∀ (st : ParseState) (rest : List String),
      flower_parse_steps E eth_type k st0 argv = .ok (st, rest) →
      st.vlan_ethtype = st0.vlan_ethtype ∨
        ∃ (j : Nat) (stj : ParseState) (a V : String) (r : List String) (p : Nat),
          j < k ∧ flower_parse_steps E eth_type j st0 argv = .ok (stj, a :: V :: r) ∧
          flower_keyword E a = .kw_vlan_ethtype ∧ E.ll_proto_a2n V = some p ∧
          st.vlan_ethtype = p % 2 ^ 16 := by
  induction k with
  | zero =>
    intro st rest h
    simp only [flower_parse_steps, Except.ok.injEq, Prod.mk.injEq] at h
    left
    rw [← h.1]
  | succ k ih =>
    intro st rest h
    rw [flower_parse_steps_succ] at h
    cases hk : flower_parse_steps E eth_type k st0 argv with
    | error e => simp [hk] at h
    | ok x =>
      obtain ⟨st1, r1⟩ := x
      have lift : (st1.vlan_ethtype = st0.vlan_ethtype ∨
          ∃ (j : Nat) (stj : ParseState) (a V : String) (r : List String) (p : Nat),
            j < k ∧ flower_parse_steps E eth_type j st0 argv = .ok (stj, a :: V :: r) ∧
            flower_keyword E a = .kw_vlan_ethtype ∧ E.ll_proto_a2n V = some p ∧
            st1.vlan_ethtype = p % 2 ^ 16) →
          st.vlan_ethtype = st1.vlan_ethtype →
          (st.vlan_ethtype = st0.vlan_ethtype ∨
          ∃ (j : Nat) (stj : ParseState) (a V : String) (r : List String) (p : Nat),
            j < k + 1 ∧ flower_parse_steps E eth_type j st0 argv = .ok (stj, a :: V :: r) ∧
            flower_keyword E a = .kw_vlan_ethtype ∧ E.ll_proto_a2n V = some p ∧
            st.vlan_ethtype = p % 2 ^ 16) := by
        intro hih heq
        rcases hih with h0 | ⟨j, stj, a, V, r, p, hj, hs, hkw, hp, hv⟩
        · left
          rw [heq, h0]
        · right
          exact ⟨j, stj, a, V, r, p, by omega, hs, hkw, hp, by rw [heq, hv]⟩
      cases r1 with
      | nil =>
        simp only [hk, Except.ok.injEq, Prod.mk.injEq] at h
        exact lift (ih st1 [] hk) (by rw [← h.1])
      | cons a r =>
        simp only [hk] at h
        rcases flower_parse_arg_vlan_ethtype E eth_type st1 st a r rest h with
          h1 | ⟨hkw, V, r2, p, hr, hp, hv⟩
        · exact lift (ih st1 (a :: r) hk) h1
        · right
          subst hr
          exact ⟨k, st1, a, V, r2, p, by omega, hk, hkw, hp, hv⟩

/-- A `__u8` branch with the limit `2^k - 1` accepts exactly the values below
`2^k`. -/
theorem parse_small_u8_eq (E : Ext) (st : ParseState) (arg : String) (k : Nat) (t : AttrId)
    (hk : k ≤ 32) :
    parse_small_u8 E st arg (2 ^ k - 1) t =
      match E.get_u8 arg 10 with
      | none => .error .err
      | some v =>
        if v % 256 < 2 ^ k then
          .ok { st with n := (addattr8 st.n E.MAX_MSG t (v % 256)).2 }
        else .error .err := by
  unfold parse_small_u8
  cases E.get_u8 arg 10 with
  | none => rfl
  | some v =>
    have h := and_not32_low_mask (v % 256) k (by omega) hk
    by_cases hlt : v % 256 < 2 ^ k
    · simp [hlt, h.mpr hlt]
    · have hne : and_not32 (v % 256) (2 ^ k - 1) ≠ 0 := fun h0 => hlt (h.mp h0)
      simp [hlt, hne]

/-! ## Claims on the gates of `flower_parse_opt` -/

/-- C8: (1) when the loop of `flower_parse_opt` reaches an argument that selects
the `vlan_id` or `vlan_prio` branch and the filter ethertype is neither 802.1Q
nor 802.1AD, `flower_parse_opt` returns -1; (2) under any ethertype a `vlan_id`
that reads as a number above 4095 and (3) a `vlan_prio` above 7 make it return
-1; (4) with a filter ethertype 802.1Q or 802.1AD, no handle and room in the
message, the argument list `vlan_id V` with `V` at most 4095 succeeds and the
request carries, inside `TCA_OPTIONS`, `TCA_FLOWER_KEY_VLAN_ID` with that value
as a host-order `u16`, then the flags and the ethertype. -/
theorem C8_vlan_gating (E : Ext) :
    (∀ (handle : Option String) (argv : List String) (n n1 : nlmsghdr) (k : Nat)
        (st : ParseState) (a V : String) (post : List String),
      flower_parse_begin E handle n = .ok n1 →
      flower_parse_steps E (TC_H_MIN n.tcm_info) k (initial_state n1) argv
        = .ok (st, a :: V :: post) →
      (flower_keyword E a = .kw_vlan_id ∨ flower_keyword E a = .kw_vlan_prio) →
      eth_type_vlan E.le (TC_H_MIN n.tcm_info) = false →
      flower_parse_opt E handle argv n = .error .err) ∧
    (∀ (handle : Option String) (argv : List String) (n n1 : nlmsghdr) (k : Nat)
        (st : ParseState) (a V : String) (post : List String) (v : Nat),
      flower_parse_begin E handle n = .ok n1 →
      flower_parse_steps E (TC_H_MIN n.tcm_info) k (initial_state n1) argv
        = .ok (st, a :: V :: post) →
      flower_keyword E a = .kw_vlan_id →
      E.get_u16 V 10 = some v → 4095 < v % 2 ^ 16 →
      flower_parse_opt E handle argv n = .error .err) ∧
    (∀ (handle : Option String) (argv : List String) (n n1 : nlmsghdr) (k : Nat)
        (st : ParseState) (a V : String) (post : List String) (v : Nat),
      flower_parse_begin E handle n = .ok n1 →
      flower_parse_steps E (TC_H_MIN n.tcm_info) k (initial_state n1) argv
        = .ok (st, a :: V :: post) →
      flower_keyword E a = .kw_vlan_prio →
      E.get_u8 V 10 = some v → 7 < v % 256 →
      flower_parse_opt E handle argv n = .error .err) ∧
    (∀ (a V : String) (v : Nat) (n : nlmsghdr),
      flower_keyword E a = .kw_vlan_id →
      E.get_u16 V 10 = some v → v % 2 ^ 16 ≤ 4095 →
      eth_type_vlan E.le (TC_H_MIN n.tcm_info) = true →
      NLMSG_ALIGN n.nlmsg_len + 28 ≤ E.MAX_MSG →
      flower_parse_opt E none [a, V] n = .ok { n with
        nlmsg_len := NLMSG_ALIGN n.nlmsg_len + 28
        attrs := n.attrs ++
          [{ rta_len := 28, rta_type := .TCA_OPTIONS, data := [] },
           { rta_len := 6, rta_type := .TCA_FLOWER_KEY_VLAN_ID,
             data := u16_mem E.le (v % 2 ^ 16) },
           { rta_len := 8, rta_type := .TCA_FLOWER_FLAGS, data := u32_mem E.le 0 },
           { rta_len := 6, rta_type := .TCA_FLOWER_KEY_ETH_TYPE,
             data := u16_mem E.le (TC_H_MIN n.tcm_info) }] }) := by
  refine ⟨?_, ?_, ?_, ?_⟩
  · intro handle argv n n1 k st a V post hbegin hreach hkw hvlan
    apply flower_parse_opt_fails_at E handle argv n n1 k st a (V :: post) .err hbegin hreach
    rcases hkw with hkw | hkw <;>
      simp [flower_parse_arg, hkw, flower_parse_value, hvlan]
  · intro handle argv n n1 k st a V post v hbegin hreach hkw hv hbig
    apply flower_parse_opt_fails_at E handle argv n n1 k st a (V :: post) .err hbegin hreach
    have hnz : and_not32 (v % 65536) 4095 ≠ 0 := by
      intro h0
      have := (and_not32_low_mask (v % 65536) 12 (by omega) (by decide)).mp h0
      omega
    cases hvl : eth_type_vlan E.le (TC_H_MIN n.tcm_info) <;>
      simp [flower_parse_arg, hkw, flower_parse_value, hvl, parse_vid, hv, hnz]
  · intro handle argv n n1 k st a V post v hbegin hreach hkw hv hbig
    apply flower_parse_opt_fails_at E handle argv n n1 k st a (V :: post) .err hbegin hreach
    have hnz : and_not32 (v % 256) 0x7 ≠ 0 := by
      intro h0
      have := (and_not32_low_mask (v % 256) 3 (by omega) (by decide)).mp h0
      omega
    cases hvl : eth_type_vlan E.le (TC_H_MIN n.tcm_info) <;>
      simp [flower_parse_arg, hkw, flower_parse_value, hvl, parse_small_u8, hv, hnz]
  · intro a V v n hkw hv hsmall hvlan hroom
    have hz : and_not32 (v % 2 ^ 16) 0xfff = 0 :=
      (and_not32_low_mask (v % 2 ^ 16) 12 (by omega) (by decide)).mpr (by omega)
    have hne := eth_type_vlan_ne_all E.le _ hvlan
    have hA := NLMSG_ALIGN_mod n.nlmsg_len
    have h1 := addattr_l_room n E.MAX_MSG .TCA_OPTIONS []
      (by simp only [List.length_nil, NLMSG_ALIGN] at hroom ⊢; omega)
    simp only [List.length_nil, Nat.add_zero, show NLMSG_ALIGN 4 = 4 from rfl] at h1
    simp only [flower_parse_opt, flower_parse_begin, h1, flower_parse_args, List.length_cons,
      flower_parse_arg, hkw, flower_parse_value, hvlan, Bool.not_true, Bool.false_eq_true,
      if_false, parse_vid, hv, hz, ne_eq, not_true_eq_false, initial_state, addattr16]
    rw [addattr_l_aligned _ E.MAX_MSG .TCA_FLOWER_KEY_VLAN_ID _ (by simp only; omega)
      (by simp only [u16_mem_length, show NLMSG_ALIGN (4 + 2) = 8 from rfl]; omega)]
    simp only [flower_parse_done, addattr32, u16_mem_length, u32_mem_length,
      show NLMSG_ALIGN (4 + 2) = 8 from rfl]
    rw [addattr_l_aligned _ E.MAX_MSG .TCA_FLOWER_FLAGS _ (by simp only; omega)
      (by simp only [u32_mem_length, show NLMSG_ALIGN (4 + 4) = 8 from rfl]; omega)]
    simp only [ne_eq, not_true_eq_false, if_false, hne, not_false_eq_true, if_true, addattr16,
      u32_mem_length, show NLMSG_ALIGN (4 + 4) = 8 from rfl]
    rw [addattr_l_aligned _ E.MAX_MSG .TCA_FLOWER_KEY_ETH_TYPE _ (by simp only; omega)
      (by simp only [u16_mem_length, show NLMSG_ALIGN (4 + 2) = 8 from rfl]; omega)]
    simp only [u16_mem_length, show NLMSG_ALIGN (4 + 2) = 8 from rfl, ne_eq, not_true_eq_false,
      if_false, List.append_assoc, List.singleton_append, List.cons_append, List.nil_append,
      set_rta_len_append]
    simp only [Except.ok.injEq, nlmsghdr.mk.injEq, true_and, List.append_cancel_left_eq,
      List.cons.injEq, rtattr.mk.injEq, and_true]
    omega

/-- C8 witness: after `skip_hw`, `vlan_id 5` fails under an IPv4 filter; and
`vlan_id 5` alone succeeds under an 802.1Q filter. -/
theorem C8_vlan_gating_witness :
    flower_parse_opt (demoExt true) none ["skip_hw", "vlan_id", "5", "ip_proto", "tcp"]
      (empty_msg (htons true ETH_P_IP)) = .error .err ∧
    flower_parse_opt (demoExt true) none ["vlan_id", "5"] (empty_msg (htons true ETH_P_8021Q))
      = .ok { empty_msg (htons true ETH_P_8021Q) with
        nlmsg_len := NLMSG_ALIGN (empty_msg (htons true ETH_P_8021Q)).nlmsg_len + 28
        attrs := (empty_msg (htons true ETH_P_8021Q)).attrs ++
          [{ rta_len := 28, rta_type := .TCA_OPTIONS, data := [] },
           { rta_len := 6, rta_type := .TCA_FLOWER_KEY_VLAN_ID,
             data := u16_mem (demoExt true).le (5 % 2 ^ 16) },
           { rta_len := 8, rta_type := .TCA_FLOWER_FLAGS, data := u32_mem (demoExt true).le 0 },
           { rta_len := 6, rta_type := .TCA_FLOWER_KEY_ETH_TYPE,
             data := u16_mem (demoExt true).le
               (TC_H_MIN (empty_msg (htons true ETH_P_8021Q)).tcm_info) }] } :=
  ⟨(C8_vlan_gating (demoExt true)).1 none ["skip_hw", "vlan_id", "5", "ip_proto", "tcp"]
      (empty_msg (htons true ETH_P_IP))
      (addattr_l (empty_msg (htons true ETH_P_IP)) 16384 .TCA_OPTIONS []).2 1
      { initial_state (addattr_l (empty_msg (htons true ETH_P_IP)) 16384 .TCA_OPTIONS []).2
        with flags := 1 }
      "vlan_id" "5" ["ip_proto", "tcp"] (by decide) (by decide) (Or.inl (by decide))
      (by decide),
   (C8_vlan_gating (demoExt true)).2.2.2 "vlan_id" "5" 5 (empty_msg (htons true ETH_P_8021Q))
      (by decide) (by decide) (by decide) (by decide) (by decide)⟩

/-- C9: (1) when the loop of `flower_parse_opt` reaches an argument that selects
the `cvlan_id`, `cvlan_prio` or `cvlan_ethtype` branch and no earlier
`vlan_ethtype` argument of the same list was read as 802.1Q or 802.1AD,
`flower_parse_opt` returns -1; (2) when it reaches a `vlan_ethtype` argument and
the filter ethertype is neither 802.1Q nor 802.1AD, it returns -1; (3) when the
`vlan_ethtype` in effect is 802.1Q or 802.1AD, a `cvlan_id` of at most 4095 is
accepted and appended as `TCA_FLOWER_KEY_CVLAN_ID`. -/
theorem C9_cvlan_gating (E : Ext) :
    (∀ (handle : Option String) (argv : List String) (n n1 : nlmsghdr) (k : Nat)
        (st : ParseState) (a V : String) (post : List String),
      flower_parse_begin E handle n = .ok n1 →
      flower_parse_steps E (TC_H_MIN n.tcm_info) k (initial_state n1) argv
        = .ok (st, a :: V :: post) →
      (flower_keyword E a = .kw_cvlan_id ∨ flower_keyword E a = .kw_cvlan_prio ∨
        flower_keyword E a = .kw_cvlan_ethtype) →
      (¬ ∃ (j : Nat) (stj : ParseState) (aj Vj : String) (r : List String) (p : Nat),
        j < k ∧
        flower_parse_steps E (TC_H_MIN n.tcm_info) j (initial_state n1) argv
          = .ok (stj, aj :: Vj :: r) ∧
        flower_keyword E aj = .kw_vlan_ethtype ∧ E.ll_proto_a2n Vj = some p ∧
        eth_type_vlan E.le (p % 2 ^ 16) = true) →
      flower_parse_opt E handle argv n = .error .err) ∧
    (∀ (handle : Option String) (argv : List String) (n n1 : nlmsghdr) (k : Nat)
        (st : ParseState) (a V : String) (post : List String),
      flower_parse_begin E handle n = .ok n1 →
      flower_parse_steps E (TC_H_MIN n.tcm_info) k (initial_state n1) argv
        = .ok (st, a :: V :: post) →
      flower_keyword E a = .kw_vlan_ethtype →
      eth_type_vlan E.le (TC_H_MIN n.tcm_info) = false →
      flower_parse_opt E handle argv n = .error .err) ∧
    (∀ (eth_type : Nat) (st : ParseState) (a V : String) (post : List String) (v : Nat),
      flower_keyword E a = .kw_cvlan_id →
      eth_type_vlan E.le st.vlan_ethtype = true →
      E.get_u16 V 10 = some v → v % 2 ^ 16 ≤ 4095 →
      flower_parse_arg E eth_type st a (V :: post) = .ok ({ st with
        n := (addattr16 E.le st.n E.MAX_MSG .TCA_FLOWER_KEY_CVLAN_ID (v % 2 ^ 16)).2 },
        post)) := by
  refine ⟨?_, ?_, ?_⟩
  · intro handle argv n n1 k st a V post hbegin hreach hkw hnone
    have hgate : eth_type_vlan E.le st.vlan_ethtype = false := by
      rcases vlan_ethtype_provenance E _ _ argv k st _ hreach with h0 | ⟨j, stj, aj, Vj, r, p,
        hj, hs, hk, hp, hv⟩
      · rw [h0]
        exact eth_type_vlan_zero E.le
      · cases hvl : eth_type_vlan E.le st.vlan_ethtype with
        | false => rfl
        | true =>
          exact absurd ⟨j, stj, aj, Vj, r, p, hj, hs, hk, hp, by rw [← hv]; exact hvl⟩ hnone
    apply flower_parse_opt_fails_at E handle argv n n1 k st a (V :: post) .err hbegin hreach
    rcases hkw with hkw | hkw | hkw <;>
      simp [flower_parse_arg, hkw, flower_parse_value, hgate, flower_parse_vlan_eth_type]
  · intro handle argv n n1 k st a V post hbegin hreach hkw hvlan
    apply flower_parse_opt_fails_at E handle argv n n1 k st a (V :: post) .err hbegin hreach
    simp [flower_parse_arg, hkw, flower_parse_value, hvlan, flower_parse_vlan_eth_type]
  · intro eth_type st a V post v hkw hvlan hv hsmall
    have hz : and_not32 (v % 65536) 4095 = 0 :=
      (and_not32_low_mask (v % 65536) 12 (by omega) (by decide)).mpr (by omega)
    simp [flower_parse_arg, hkw, flower_parse_value, hvlan, parse_vid, hv, hz]

/-- C9 witness: `cvlan_id 7` with no `vlan_ethtype` before it fails, even under
an 802.1AD filter; `vlan_ethtype 802.1Q` fails under an IPv4 filter. -/
theorem C9_cvlan_gating_witness :
    flower_parse_opt (demoExt true) none ["cvlan_id", "7"] (empty_msg (htons true ETH_P_8021AD))
      = .error .err ∧
    flower_parse_opt (demoExt true) none ["vlan_ethtype", "802.1Q"]
      (empty_msg (htons true ETH_P_IP)) = .error .err :=
  ⟨(C9_cvlan_gating (demoExt true)).1 none ["cvlan_id", "7"]
      (empty_msg (htons true ETH_P_8021AD))
      (addattr_l (empty_msg (htons true ETH_P_8021AD)) 16384 .TCA_OPTIONS []).2 0
      (initial_state (addattr_l (empty_msg (htons true ETH_P_8021AD)) 16384 .TCA_OPTIONS []).2)
      "cvlan_id" "7" [] (by decide) (by decide) (Or.inl (by decide))
      (fun ⟨_, _, _, _, _, _, hj, _⟩ => absurd hj (by omega)),
   (C9_cvlan_gating (demoExt true)).2.1 none ["vlan_ethtype", "802.1Q"]
      (empty_msg (htons true ETH_P_IP))
      (addattr_l (empty_msg (htons true ETH_P_IP)) 16384 .TCA_OPTIONS []).2 0
      (initial_state (addattr_l (empty_msg (htons true ETH_P_IP)) 16384 .TCA_OPTIONS []).2)
      "vlan_ethtype" "802.1Q" [] (by decide) (by decide) (by decide) (by decide)⟩

/-- C10: (1) when the loop of `flower_parse_opt` reaches an argument that
selects the `mpls_label`, `mpls_tc`, `mpls_bos` or `mpls_ttl` branch and the
filter ethertype is neither MPLS unicast nor MPLS multicast, `flower_parse_opt`
returns -1; (2) under an MPLS ethertype the pass over such an argument accepts
the value, appending it under its attribute id, exactly when it reads as a
number with label below `2^20`, tc below 8, bos below 2, ttl below 256 (any
value a `__u8` holds), and returns -1 otherwise. -/
theorem C10_mpls_gating (E : Ext) :
    (∀ (handle : Option String) (argv : List String) (n n1 : nlmsghdr) (k : Nat)
        (st : ParseState) (a V : String) (post : List String),
      flower_parse_begin E handle n = .ok n1 →
      flower_parse_steps E (TC_H_MIN n.tcm_info) k (initial_state n1) argv
        = .ok (st, a :: V :: post) →
      (flower_keyword E a = .kw_mpls_label ∨ flower_keyword E a = .kw_mpls_tc ∨
        flower_keyword E a = .kw_mpls_bos ∨ flower_keyword E a = .kw_mpls_ttl) →
      TC_H_MIN n.tcm_info ≠ htons E.le ETH_P_MPLS_UC →
      TC_H_MIN n.tcm_info ≠ htons E.le ETH_P_MPLS_MC →
      flower_parse_opt E handle argv n = .error .err) ∧
    (∀ (eth_type : Nat) (st : ParseState) (a V : String) (post : List String),
      (eth_type = htons E.le ETH_P_MPLS_UC ∨ eth_type = htons E.le ETH_P_MPLS_MC) →
      (flower_keyword E a = .kw_mpls_label →
        flower_parse_arg E eth_type st a (V :: post) =
          match E.get_u32 V 10 with
          | none => .error .err
          | some v =>
            if v % 2 ^ 32 < 2 ^ 20 then
              .ok ({ st with n := (addattr32 E.le st.n E.MAX_MSG .TCA_FLOWER_KEY_MPLS_LABEL
                (v % 2 ^ 32)).2 }, post)
            else .error .err) ∧
      (flower_keyword E a = .kw_mpls_tc →
        flower_parse_arg E eth_type st a (V :: post) =
          match E.get_u8 V 10 with
          | none => .error .err
          | some v =>
            if v % 256 < 8 then
              .ok ({ st with n := (addattr8 st.n E.MAX_MSG .TCA_FLOWER_KEY_MPLS_TC
                (v % 256)).2 }, post)
            else .error .err) ∧
      (flower_keyword E a = .kw_mpls_bos →
        flower_parse_arg E eth_type st a (V :: post) =
          match E.get_u8 V 10 with
          | none => .error .err
          | some v =>
            if v % 256 < 2 then
              .ok ({ st with n := (addattr8 st.n E.MAX_MSG .TCA_FLOWER_KEY_MPLS_BOS
                (v % 256)).2 }, post)
            else .error .err) ∧
      (flower_keyword E a = .kw_mpls_ttl →
        flower_parse_arg E eth_type st a (V :: post) =
          match E.get_u8 V 10 with
          | none => .error .err
          | some v =>
            .ok ({ st with n := (addattr8 st.n E.MAX_MSG .TCA_FLOWER_KEY_MPLS_TTL
              (v % 256)).2 }, post))) := by
  refine ⟨?_, ?_⟩
  · intro handle argv n n1 k st a V post hbegin hreach hkw huc hmc
    apply flower_parse_opt_fails_at E handle argv n n1 k st a (V :: post) .err hbegin hreach
    have hgate : not_mpls E.le (TC_H_MIN n.tcm_info) = true := by
      simp [not_mpls, huc, hmc]
    rcases hkw with hkw | hkw | hkw | hkw <;>
      simp [flower_parse_arg, hkw, flower_parse_value, hgate]
  · intro eth_type st a V post hmpls
    have hgate : not_mpls E.le eth_type = false := by
      rcases hmpls with h | h <;> simp [not_mpls, h]
    have htc := parse_small_u8_eq E st V 3 .TCA_FLOWER_KEY_MPLS_TC (by decide)
    have hbos := parse_small_u8_eq E st V 1 .TCA_FLOWER_KEY_MPLS_BOS (by decide)
    have httl := parse_small_u8_eq E st V 8 .TCA_FLOWER_KEY_MPLS_TTL (by decide)
    refine ⟨?_, ?_, ?_, ?_⟩
    · intro hkw
      simp only [flower_parse_arg, hkw, flower_parse_value, hgate, Bool.false_eq_true, if_false]
      cases hv : E.get_u32 V 10 with
      | none => rfl
      | some v =>
        have h : and_not32 (v % 4294967296) 1048575 = 0 ↔ v % 4294967296 < 1048576 :=
          and_not32_low_mask (v % 4294967296) 20 (Nat.mod_lt _ (by decide)) (by decide)
        have hm : MPLS_LS_LABEL_MASK >>> MPLS_LS_LABEL_SHIFT = 1048575 := by decide
        rw [hm]
        by_cases hlt : v % 4294967296 < 1048576
        · simp [hlt, h.mpr hlt]
        · have hne : and_not32 (v % 4294967296) 1048575 ≠ 0 := fun h0 => hlt (h.mp h0)
          simp [hne, hlt]
    · intro hkw
      have hm : MPLS_LS_TC_MASK >>> MPLS_LS_TC_SHIFT = 2 ^ 3 - 1 := by decide
      simp only [flower_parse_arg, hkw, flower_parse_value, hgate, Bool.false_eq_true, if_false,
        hm, htc]
      cases E.get_u8 V 10 with
      | none => rfl
      | some v => by_cases hlt : v % 256 < 8 <;> simp [hlt]
    · intro hkw
      have hm : MPLS_LS_S_MASK >>> MPLS_LS_S_SHIFT = 2 ^ 1 - 1 := by decide
      simp only [flower_parse_arg, hkw, flower_parse_value, hgate, Bool.false_eq_true, if_false,
        hm, hbos]
      cases E.get_u8 V 10 with
      | none => rfl
      | some v => by_cases hlt : v % 256 < 2 <;> simp [hlt]
    · intro hkw
      have hm : MPLS_LS_TTL_MASK >>> MPLS_LS_TTL_SHIFT = 2 ^ 8 - 1 := by decide
      simp only [flower_parse_arg, hkw, flower_parse_value, hgate, Bool.false_eq_true, if_false,
        hm, httl]
      cases E.get_u8 V 10 with
      | none => rfl
      | some v =>
        have hlt : v % 256 < 256 := Nat.mod_lt _ (by decide)
        simp [hlt]

/-- C10 witness: `mpls_ttl 25` fails under an IPv4 filter; under MPLS unicast
`mpls_label 1048575` is accepted and `mpls_label 1048576` is refused. -/
theorem C10_mpls_gating_witness :
    flower_parse_opt (demoExt true) none ["mpls_ttl", "25"] (empty_msg (htons true ETH_P_IP))
      = .error .err ∧
    flower_parse_arg (demoExt true) (htons true ETH_P_MPLS_UC)
      (initial_state (empty_msg (htons true ETH_P_MPLS_UC))) "mpls_label" ["1048575"] =
      (match (demoExt true).get_u32 "1048575" 10 with
        | none => .error .err
        | some v =>
          if v % 2 ^ 32 < 2 ^ 20 then
            .ok ({ initial_state (empty_msg (htons true ETH_P_MPLS_UC)) with
              n := (addattr32 (demoExt true).le
                (initial_state (empty_msg (htons true ETH_P_MPLS_UC))).n
                (demoExt true).MAX_MSG .TCA_FLOWER_KEY_MPLS_LABEL (v % 2 ^ 32)).2 }, [])
          else .error .err) ∧
    flower_parse_arg (demoExt true) (htons true ETH_P_MPLS_UC)
      (initial_state (empty_msg (htons true ETH_P_MPLS_UC))) "mpls_label" ["1048576"]
      = .error .err :=
  ⟨(C10_mpls_gating (demoExt true)).1 none ["mpls_ttl", "25"] (empty_msg (htons true ETH_P_IP))
      (addattr_l (empty_msg (htons true ETH_P_IP)) 16384 .TCA_OPTIONS []).2 0
      (initial_state (addattr_l (empty_msg (htons true ETH_P_IP)) 16384 .TCA_OPTIONS []).2)
      "mpls_ttl" "25" [] (by decide) (by decide) (Or.inr (Or.inr (Or.inr (by decide))))
      (by decide) (by decide),
   ((C10_mpls_gating (demoExt true)).2 (htons true ETH_P_MPLS_UC)
      (initial_state (empty_msg (htons true ETH_P_MPLS_UC))) "mpls_label" "1048575" []
      (Or.inl rfl)).1 (by decide),
   by decide⟩

/-! ## Claim on the mask record of `__flower_parse_ip_addr` -/

/-- C2: when `get_prefix` yields an IPv4 (4 bytes) or IPv6 (16 bytes) address of
the requested family with a prefix length `N` within the address width, and the
message has room, `__flower_parse_ip_addr` appends the address record and
directly after it the mask record; the mask has the byte length of the address
and is, read as a big-endian bit string, exactly `N` one-bits followed by
zero-bits. -/
theorem C2_prefix_expansion (E : Ext) (str : String) (family : Nat)
    (addr4_type mask4_type addr6_type mask6_type : AttrId) (n : nlmsghdr) (addr : inet_prefix)
    (hp : E.get_prefix str family = .ok addr)
    (hfam : family = 0 ∨ addr.family = family)
    (hlen : addr.bytelen = 4 ∨ addr.bytelen = 16)
    (hN : addr.bitlen ≤ 8 * addr.bytelen)
    (hroom : NLMSG_ALIGN n.nlmsg_len + 2 * (4 + addr.bytelen) ≤ E.MAX_MSG) :
    ∃ value mask : List Nat,
      __flower_parse_ip_addr E str family addr4_type mask4_type addr6_type mask6_type n
        = .ok { n with
          nlmsg_len := NLMSG_ALIGN n.nlmsg_len + 2 * (4 + addr.bytelen)
          attrs := n.attrs ++
            [{ rta_len := 4 + addr.bytelen,
               rta_type := if addr.family = AF_INET then addr4_type else addr6_type,
               data := value },
             { rta_len := 4 + addr.bytelen,
               rta_type := if addr.family = AF_INET then mask4_type else mask6_type,
               data := mask }] } ∧
      value.length = addr.bytelen ∧ mask.length = addr.bytelen ∧
      bits_msb mask = List.replicate addr.bitlen true
        ++ List.replicate (8 * addr.bytelen - addr.bitlen) false := by
  obtain ⟨hml, hmb⟩ := ip_prefix_mask_bits E.le addr.bytelen addr.bitlen hlen hN
  have hvl : ((addr.data ++ List.replicate addr.bytelen 0).take addr.bytelen).length
      = addr.bytelen := by
    simp only [List.length_take, List.length_append, List.length_replicate]
    omega
  refine ⟨(addr.data ++ List.replicate addr.bytelen 0).take addr.bytelen,
    ip_prefix_mask E.le addr.bytelen addr.bitlen, ?_, hvl, hml, hmb⟩
  have hgate : ¬ (family ≠ 0 ∧ addr.family ≠ family) := by
    rcases hfam with h | h
    · simp [h]
    · simp [h]
  simp only [__flower_parse_ip_addr, hp, hgate, if_false]
  rw [addattr_l_twice]
  · simp only [hvl, hml, Except.ok.injEq, nlmsghdr.mk.injEq, and_true, true_and]
    rcases hlen with h | h <;> simp only [h, NLMSG_ALIGN]
  · simp only [hvl, hml]
    rcases hlen with h | h <;> simp only [h, NLMSG_ALIGN] at hroom ⊢ <;> omega

/-- C2 witness: `10.0.0.0/24` on a little-endian host, into an empty request. -/
theorem C2_prefix_expansion_witness :
    ∃ value mask : List Nat,
      __flower_parse_ip_addr (demoExt true) "10.0.0.0/24" AF_INET
        .TCA_FLOWER_KEY_IPV4_DST .TCA_FLOWER_KEY_IPV4_DST_MASK
        .TCA_FLOWER_KEY_IPV6_DST .TCA_FLOWER_KEY_IPV6_DST_MASK (empty_msg 0)
        = .ok { empty_msg 0 with
          nlmsg_len := NLMSG_ALIGN (empty_msg 0).nlmsg_len + 2 * (4 + 4)
          attrs := (empty_msg 0).attrs ++
            [{ rta_len := 4 + 4, rta_type := .TCA_FLOWER_KEY_IPV4_DST, data := value },
             { rta_len := 4 + 4, rta_type := .TCA_FLOWER_KEY_IPV4_DST_MASK,
               data := mask }] } ∧
      value.length = 4 ∧ mask.length = 4 ∧
      bits_msb mask = List.replicate 24 true ++ List.replicate (8 * 4 - 24) false :=
  C2_prefix_expansion (demoExt true) "10.0.0.0/24" AF_INET
    .TCA_FLOWER_KEY_IPV4_DST .TCA_FLOWER_KEY_IPV4_DST_MASK
    .TCA_FLOWER_KEY_IPV6_DST .TCA_FLOWER_KEY_IPV6_DST_MASK (empty_msg 0)
    { family := AF_INET, bytelen := 4, bitlen := 24, data := [10, 0, 0, 0] }
    (by decide) (Or.inr rfl) (Or.inl rfl) (by decide) (by decide)

/-! ## Claims on `ip_proto`, ports, ARP and ICMP fields -/

/-- C11: (1) whenever `flower_parse_ip_proto` succeeds, the ethertype it was
given is IPv4 or IPv6, the protocol number it records fits a `u8`, and the
message is the one `addattr8` returns for that number under the given id,
which with room in the buffer has one more record holding that byte; (2) a
name that selects the `icmp` branch succeeds only for IPv4 and records
`IPPROTO_ICMP`, (3) a name that selects the `icmpv6` branch succeeds only for
IPv6 and records `IPPROTO_ICMPV6`; (4) the `ip_proto` branch of
`flower_parse_opt` calls it with `cvlan_ethtype` if that is set, else
`vlan_ethtype` if that is set, else the filter ethertype, and stores the number
as the current `ip_proto`. -/
theorem C11_ip_proto_gating (E : Ext) :
    (∀ (str : String) (eth_type : Nat) (type : AttrId) (n n1 : nlmsghdr) (p : Nat),
      flower_parse_ip_proto E str eth_type type n = .ok (p, n1) →
      (eth_type = htons E.le ETH_P_IP ∨ eth_type = htons E.le ETH_P_IPV6) ∧ p < 256 ∧
      n1 = (addattr8 n E.MAX_MSG type p).2 ∧
      (NLMSG_ALIGN n.nlmsg_len + 8 ≤ E.MAX_MSG →
        n1.attrs = n.attrs ++ [{ rta_len := 5, rta_type := type, data := [p] }])) ∧
    (∀ (str : String) (eth_type : Nat) (type : AttrId) (n n1 : nlmsghdr) (p : Nat),
      E.matches_cmd str "tcp" = false → E.matches_cmd str "udp" = false →
      E.matches_cmd str "sctp" = false → E.matches_cmd str "icmp" = true →
      flower_parse_ip_proto E str eth_type type n = .ok (p, n1) →
      eth_type = htons E.le ETH_P_IP ∧ p = IPPROTO_ICMP) ∧
    (∀ (str : String) (eth_type : Nat) (type : AttrId) (n n1 : nlmsghdr) (p : Nat),
      E.matches_cmd str "tcp" = false → E.matches_cmd str "udp" = false →
      E.matches_cmd str "sctp" = false → E.matches_cmd str "icmp" = false →
      E.matches_cmd str "icmpv6" = true →
      flower_parse_ip_proto E str eth_type type n = .ok (p, n1) →
      eth_type = htons E.le ETH_P_IPV6 ∧ p = IPPROTO_ICMPV6) ∧
    (∀ (eth_type : Nat) (st : ParseState) (a V : String) (post : List String),
      flower_keyword E a = .kw_ip_proto →
      flower_parse_arg E eth_type st a (V :: post) =
        match flower_parse_ip_proto E V
          (if st.cvlan_ethtype ≠ 0 then st.cvlan_ethtype
            else if st.vlan_ethtype ≠ 0 then st.vlan_ethtype else eth_type)
          .TCA_FLOWER_KEY_IP_PROTO st.n with
        | .error e => .error e
        | .ok (p, n) => .ok ({ st with n := n, ip_proto := p }, post)) := by
  refine ⟨?_, ?_, ?_, ?_⟩
  · intro str eth_type type n n1 p h
    unfold flower_parse_ip_proto at h
    split at h
    · simp at h
    · rename_i hgate
      have heth : eth_type = htons E.le ETH_P_IP ∨ eth_type = htons E.le ETH_P_IPV6 := by
        by_contra hc
        push_neg at hc
        exact hgate hc
      dsimp only at h
      split at h
      · simp at h
      · rename_i q hq
        simp only [Except.ok.injEq, Prod.mk.injEq] at h
        obtain ⟨hp, hn⟩ := h
        subst hp
        have hlt : q < 256 := by
          repeat' split at hq
          all_goals first
            | (simp at hq; done)
            | (simp only [Except.ok.injEq] at hq
               subst hq
               first
                 | decide
                 | exact Nat.mod_lt _ (by decide))
        refine ⟨heth, hlt, hn.symm, ?_⟩
        intro hroom
        rw [← hn, addattr8, addattr_l_room _ _ _ _
          (by simp only [List.length_singleton, NLMSG_ALIGN] at hroom ⊢; omega)]
        simp [Nat.mod_eq_of_lt hlt]
  · intro str eth_type type n n1 p h1 h2 h3 h4 h
    unfold flower_parse_ip_proto at h
    split at h
    · simp at h
    · simp only [h1, h2, h3, h4, Bool.false_eq_true, if_false, if_true] at h
      by_cases he : eth_type = htons E.le ETH_P_IP
      · simp only [he, ne_eq, not_true_eq_false, if_false, Except.ok.injEq, Prod.mk.injEq] at h
        exact ⟨he, h.1.symm⟩
      · simp [he] at h
  · intro str eth_type type n n1 p h1 h2 h3 h4 h5 h
    unfold flower_parse_ip_proto at h
    split at h
    · simp at h
    · simp only [h1, h2, h3, h4, h5, Bool.false_eq_true, if_false, if_true] at h
      by_cases he : eth_type = htons E.le ETH_P_IPV6
      · simp only [he, ne_eq, not_true_eq_false, if_false, Except.ok.injEq, Prod.mk.injEq] at h
        exact ⟨he, h.1.symm⟩
      · simp [he] at h
  · intro eth_type st a V post hkw
    simp only [flower_parse_arg, hkw, flower_parse_value, inner_eth_type]
    cases flower_parse_ip_proto E V _ AttrId.TCA_FLOWER_KEY_IP_PROTO st.n with
    | error e => rfl
    | ok x => rfl

/-- C11 witness: `tcp` under IPv4 on an empty request records protocol 6 and
appends it as one byte. -/
theorem C11_ip_proto_gating_witness :
    (htons true ETH_P_IP = htons (demoExt true).le ETH_P_IP ∨
      htons true ETH_P_IP = htons (demoExt true).le ETH_P_IPV6) ∧ 6 < 256 ∧
    (addattr8 (empty_msg 0) 16384 .TCA_FLOWER_KEY_IP_PROTO 6).2
      = (addattr8 (empty_msg 0) (demoExt true).MAX_MSG .TCA_FLOWER_KEY_IP_PROTO 6).2 ∧
    (NLMSG_ALIGN (empty_msg 0).nlmsg_len + 8 ≤ (demoExt true).MAX_MSG →
      (addattr8 (empty_msg 0) 16384 .TCA_FLOWER_KEY_IP_PROTO 6).2.attrs
        = (empty_msg 0).attrs ++
          [{ rta_len := 5, rta_type := .TCA_FLOWER_KEY_IP_PROTO, data := [6] }]) :=
  (C11_ip_proto_gating (demoExt true)).1 "tcp" (htons true ETH_P_IP) .TCA_FLOWER_KEY_IP_PROTO
    (empty_msg 0) (addattr8 (empty_msg 0) 16384 .TCA_FLOWER_KEY_IP_PROTO 6).2 6 (by decide)

/-- Appending a record to a message written out field by field, when its length
is aligned and the record fits. -/
theorem addattr_l_mk (len h p i : Nat) (rs : List rtattr) (maxlen : Nat) (t : AttrId)
    (d : List Nat) (h4 : len % 4 = 0) (hroom : len + NLMSG_ALIGN (4 + d.length) ≤ maxlen) :
    addattr_l { nlmsg_len := len, tcm_handle := h, tcm_parent := p, tcm_info := i, attrs := rs }
      maxlen t d = (0, {
        nlmsg_len := len + NLMSG_ALIGN (4 + d.length)
        tcm_handle := h
        tcm_parent := p
        tcm_info := i
        attrs := rs ++ [{ rta_len := 4 + d.length, rta_type := t, data := d }] }) :=
  addattr_l_aligned _ maxlen t d h4 hroom

theorem htons_lt (le : Bool) (x : Nat) : htons le x < 2 ^ 16 := by
  cases le
  · simp only [htons, Bool.false_eq_true, if_false]
    exact Nat.mod_lt _ (by decide)
  · simp only [htons, be16_bytes, if_true, List.reverse_cons, List.reverse_nil,
      List.nil_append, List.singleton_append, of_be_bytes, List.foldl_cons, List.foldl_nil,
      Nat.zero_mul, Nat.zero_add]
    omega

theorem htons_mod (le : Bool) (x : Nat) : htons le x % 2 ^ 16 = htons le x :=
  Nat.mod_eq_of_lt (htons_lt le x)

theorem ip_prefix_mask_4_24 (le : Bool) : ip_prefix_mask le 4 24 = [255, 255, 255, 0] := by
  cases le <;> decide

theorem htons_ip_ne (le : Bool) :
    htons le ETH_P_IP ≠ 0 ∧ htons le ETH_P_IP ≠ htons le ETH_P_ALL ∧
    htons le ETH_P_IP ≠ htons le ETH_P_IPV6 := by
  cases le <;> decide

theorem htons_80_443 (le : Bool) :
    htons le 80 % 2 ^ 16 ≠ 0 ∧ htons le 443 % 2 ^ 16 ≠ 0 ∧
    ¬ (htons le 443 % 2 ^ 16 ≤ htons le 80 % 2 ^ 16) := by
  cases le <;> decide

/-- Scenario 2 under an IPv4 filter: the list is accepted and the request
carries the address, its mask, the protocol and the port range. -/
theorem scenario2_ipv4 (E : Ext) (n : nlmsghdr)
    (hk1 : flower_keyword E "dst_ip" = .kw_dst_ip)
    (hk2 : flower_keyword E "ip_proto" = .kw_ip_proto)
    (hk3 : flower_keyword E "dst_port" = .kw_dst_port)
    (hp : E.get_prefix "10.0.0.0/24" AF_INET
      = .ok { family := AF_INET, bytelen := 4, bitlen := 24, data := [10, 0, 0, 0] })
    (hm : E.matches_cmd "tcp" "tcp" = true)
    (hb1 : E.get_be16 "80" 10 = some (htons E.le 80))
    (hb2 : E.get_be16 "443" 10 = some (htons E.le 443))
    (heth : TC_H_MIN n.tcm_info = htons E.le ETH_P_IP)
    (hroom : NLMSG_ALIGN n.nlmsg_len + 60 ≤ E.MAX_MSG) :
    flower_parse_opt E none ["dst_ip", "10.0.0.0/24", "ip_proto", "tcp", "dst_port", "80-443"] n
      = .ok { n with
        nlmsg_len := NLMSG_ALIGN n.nlmsg_len + 60
        attrs := n.attrs ++
          [{ rta_len := 60, rta_type := .TCA_OPTIONS, data := [] },
           { rta_len := 8, rta_type := .TCA_FLOWER_KEY_IPV4_DST, data := [10, 0, 0, 0] },
           { rta_len := 8, rta_type := .TCA_FLOWER_KEY_IPV4_DST_MASK,
             data := [255, 255, 255, 0] },
           { rta_len := 5, rta_type := .TCA_FLOWER_KEY_IP_PROTO, data := [6] },
           { rta_len := 6, rta_type := .TCA_FLOWER_KEY_PORT_DST_MIN, data := [0, 80] },
           { rta_len := 6, rta_type := .TCA_FLOWER_KEY_PORT_DST_MAX, data := [1, 187] },
           { rta_len := 8, rta_type := .TCA_FLOWER_FLAGS, data := u32_mem E.le 0 },
           { rta_len := 6, rta_type := .TCA_FLOWER_KEY_ETH_TYPE, data := [8, 0] }] } := by
  obtain ⟨len, th, tp, ti, rs⟩ := n
  simp only at heth hroom
  have hA := NLMSG_ALIGN_mod len
  have h0 := addattr_l_room ⟨len, th, tp, ti, rs⟩ E.MAX_MSG .TCA_OPTIONS []
    (by simp only [List.length_nil, NLMSG_ALIGN] at hroom ⊢; omega)
  simp only [List.length_nil, Nat.add_zero, show NLMSG_ALIGN 4 = 4 from rfl] at h0
  obtain ⟨A, hAe⟩ : ∃ A, NLMSG_ALIGN len = A := ⟨_, rfl⟩
  rw [hAe] at hA hroom h0
  obtain ⟨hne0, hneall, hne6⟩ := htons_ip_ne E.le
  obtain ⟨hmin, hmax, hcmp⟩ := htons_80_443 E.le
  have hcut : cut_at '-' "80-443" = ("80", some "443") := by decide
  have hv : List.take 4 ([10, 0, 0, 0] ++ List.replicate 4 0) = [10, 0, 0, 0] := by decide
  have hpr : IPPROTO_TCP % 256 = 6 := by decide
  have hrange : flower_port_range_attr_type IPPROTO_TCP .FLOWER_ENDPOINT_DST
      = some (.TCA_FLOWER_KEY_PORT_DST_MIN, .TCA_FLOWER_KEY_PORT_DST_MAX) := by decide
  have h80 : be16_bytes 80 = [0, 80] := by decide
  have h443 : be16_bytes 443 = [1, 187] := by decide
  have hip : be16_bytes ETH_P_IP = [8, 0] := by decide
  have hm16 : ∀ x, be16_bytes (htons E.le x % 2 ^ 16) = be16_bytes (htons E.le x) := by
    intro x
    simp only [be16_bytes]
    congr 1
    · omega
    · congr 1
      omega
  simp (disch := first | omega | (simp only [List.length_cons, List.length_nil, NLMSG_ALIGN,
      u16_mem_length, u32_mem_length]; omega)) only [flower_parse_opt, flower_parse_begin, h0,
    flower_parse_args,
    List.length_cons, List.length_nil, flower_parse_arg, hk1, hk2, hk3, flower_parse_value,
    initial_state, inner_eth_type, with_msg, flower_parse_ip_addr, heth, if_true,
    __flower_parse_ip_addr, hp, ne_eq, not_true_eq_false, false_and, and_false, if_false,
    addattr_l_mk, ip_prefix_mask_4_24, flower_parse_ip_proto, hv, hpr, hrange,
    hm, addattr8, flower_parse_port, parse_range, hcut, hb1, hb2, hmin, hmax, hcmp,
    not_false_eq_true, true_and, and_true, and_self, hAe, hneall,
    addattr16, u16_mem_htons, u16_mem_length, u32_mem_length,
    flower_parse_done, addattr32, hip, hm16, h80, h443]
  simp only [NLMSG_ALIGN, List.append_assoc, List.singleton_append, List.cons_append,
    List.nil_append, set_rta_len_append, Except.ok.injEq, nlmsghdr.mk.injEq,
    List.append_cancel_left_eq, List.cons.injEq, rtattr.mk.injEq, and_true, true_and,
    htons_mod, u16_mem_htons, h80, h443]
  omega

/-! ## Port ranges -/

theorem flower_port_range_attr_type_none (ip_proto : Nat) (ep : flower_endpoint)
    (h1 : ip_proto ≠ IPPROTO_TCP) (h2 : ip_proto ≠ IPPROTO_UDP) (h3 : ip_proto ≠ IPPROTO_SCTP) :
    flower_port_range_attr_type ip_proto ep = none := by
  simp [flower_port_range_attr_type, h1, h2, h3]

theorem flower_port_attr_type_none (ip_proto : Nat) (ep : flower_endpoint)
    (h1 : ip_proto ≠ IPPROTO_TCP) (h2 : ip_proto ≠ IPPROTO_UDP) (h3 : ip_proto ≠ IPPROTO_SCTP) :
    flower_port_attr_type ip_proto ep = none := by
  simp [flower_port_attr_type, h1, h2, h3]

/-- With an `ip_proto` other than TCP, UDP and SCTP every path through
`flower_parse_port` returns -1. -/
theorem flower_parse_port_gate (E : Ext) (str : String) (ip_proto : Nat) (ep : flower_endpoint)
    (n : nlmsghdr)
    (h1 : ip_proto ≠ IPPROTO_TCP) (h2 : ip_proto ≠ IPPROTO_UDP) (h3 : ip_proto ≠ IPPROTO_SCTP) :
    flower_parse_port E str ip_proto ep n = .error .err := by
  unfold flower_parse_port
  rw [flower_port_range_attr_type_none ip_proto ep h1 h2 h3,
    flower_port_attr_type_none ip_proto ep h1 h2 h3]
  split
  · rfl
  · split
    · split <;> rfl
    · split <;> rfl

/-- What `flower_parse_port` does on `LO-HI` when both ends read as non-zero
`__be16` values `a` and `b`: it compares `b` with `a` as stored. -/
theorem flower_parse_port_range (E : Ext) (lo hi : String) (a b ip_proto : Nat)
    (ep : flower_endpoint) (n : nlmsghdr) (hs : '-' ∉ lo.data)
    (h1 : E.get_be16 lo 10 = some a) (h2 : E.get_be16 hi 10 = some b)
    (ha : a % 2 ^ 16 ≠ 0) (hb : b % 2 ^ 16 ≠ 0) :
    flower_parse_port E (lo ++ "-" ++ hi) ip_proto ep n =
      if b % 2 ^ 16 ≤ a % 2 ^ 16 then .error .err
      else
        match flower_port_range_attr_type ip_proto ep with
        | none => .error .err
        | some (min_port_type, max_port_type) =>
          .ok (addattr16 E.le (addattr16 E.le n E.MAX_MSG min_port_type (a % 2 ^ 16)).2
            E.MAX_MSG max_port_type (b % 2 ^ 16)).2 := by
  have hc : cut_at '-' (lo ++ "-" ++ hi) = (lo, some hi) := cut_at_sep '-' lo hi hs
  simp only [flower_parse_port, parse_range, hc, h1, h2, ne_eq, ha, hb, not_false_eq_true,
    and_self, if_true]

/-- On a big-endian host, where `get_be16` stores the number itself, every range
`min-max` with `1 ≤ min < max ≤ 65535` is accepted for TCP, UDP and SCTP and
appended as the MIN and MAX records in network byte order. -/
theorem flower_parse_port_range_big_endian (E : Ext) (lo hi : String) (min max ip_proto : Nat)
    (ep : flower_endpoint) (n : nlmsghdr) (hle : E.le = false) (hs : '-' ∉ lo.data)
    (h1 : E.get_be16 lo 10 = some (htons E.le min))
    (h2 : E.get_be16 hi 10 = some (htons E.le max))
    (hmin : 1 ≤ min) (hlt : min < max) (hmax : max ≤ 65535)
    (hp : ip_proto = IPPROTO_TCP ∨ ip_proto = IPPROTO_UDP ∨ ip_proto = IPPROTO_SCTP)
    (hroom : NLMSG_ALIGN n.nlmsg_len + 16 ≤ E.MAX_MSG) :
    flower_parse_port E (lo ++ "-" ++ hi) ip_proto ep n = .ok { n with
      nlmsg_len := NLMSG_ALIGN n.nlmsg_len + 16
      attrs := n.attrs ++
        [{ rta_len := 6
           rta_type := if ep = .FLOWER_ENDPOINT_SRC then .TCA_FLOWER_KEY_PORT_SRC_MIN
             else .TCA_FLOWER_KEY_PORT_DST_MIN
           data := be16_bytes min },
         { rta_len := 6
           rta_type := if ep = .FLOWER_ENDPOINT_SRC then .TCA_FLOWER_KEY_PORT_SRC_MAX
             else .TCA_FLOWER_KEY_PORT_DST_MAX
           data := be16_bytes max }] } := by
  have hmn : htons E.le min = min := by
    rw [hle]
    simp only [htons, Bool.false_eq_true, if_false]
    omega
  have hmx : htons E.le max = max := by
    rw [hle]
    simp only [htons, Bool.false_eq_true, if_false]
    omega
  have hr : flower_port_range_attr_type ip_proto ep =
      some (if ep = .FLOWER_ENDPOINT_SRC then .TCA_FLOWER_KEY_PORT_SRC_MIN
          else .TCA_FLOWER_KEY_PORT_DST_MIN,
        if ep = .FLOWER_ENDPOINT_SRC then .TCA_FLOWER_KEY_PORT_SRC_MAX
          else .TCA_FLOWER_KEY_PORT_DST_MAX) := by
    unfold flower_port_range_attr_type
    rw [if_pos hp]
    cases ep <;> simp
  rw [flower_parse_port_range E lo hi _ _ ip_proto ep n hs h1 h2
    (by rw [htons_mod, hmn]; omega) (by rw [htons_mod, hmx]; omega)]
  have hcmp : ¬ (htons E.le max % 2 ^ 16 ≤ htons E.le min % 2 ^ 16) := by
    rw [htons_mod, htons_mod, hmn, hmx]
    omega
  simp only [hcmp, if_false, hr, addattr16]
  rw [addattr_l_twice]
  · have e1 : u16_mem E.le (htons E.le min % 2 ^ 16) = be16_bytes min := by
      rw [htons_mod, u16_mem_htons]
    have e2 : u16_mem E.le (htons E.le max % 2 ^ 16) = be16_bytes max := by
      rw [htons_mod, u16_mem_htons]
    simp only [e1, e2, be16_bytes, List.length_cons, List.length_nil, NLMSG_ALIGN]
  · simp only [u16_mem_length, NLMSG_ALIGN] at hroom ⊢
    omega

/-- C12 (the code misses ranges whose ends swap order when their bytes are
swapped): on a little-endian host `get_be16` stores 255 as `0xff00` and 256 as
`0x0001`, `flower_parse_port` compares these stored values, finds the maximum
not greater than the minimum and returns -1 on `255-256`, for every protocol
and endpoint. -/
theorem C12_port_range_byte_order (E : Ext) (ip_proto : Nat) (ep : flower_endpoint)
    (n : nlmsghdr) (hle : E.le = true)
    (h1 : E.get_be16 "255" 10 = some (htons E.le 255))
    (h2 : E.get_be16 "256" 10 = some (htons E.le 256)) :
    flower_parse_port E ("255" ++ "-" ++ "256") ip_proto ep n = .error .err := by
  rw [hle] at h1 h2
  rw [flower_parse_port_range E "255" "256" _ _ ip_proto ep n (by decide) h1 h2
    (by decide) (by decide)]
  have hcmp : htons true 256 % 2 ^ 16 ≤ htons true 255 % 2 ^ 16 := by decide
  simp only [hcmp, if_true]

/-- C12 witness: TCP `dst_port 255-256` with the example helpers on a
little-endian host. -/
theorem C12_port_range_byte_order_witness :
    flower_parse_port (demoExt true) ("255" ++ "-" ++ "256") IPPROTO_TCP .FLOWER_ENDPOINT_DST
      (empty_msg 0) = .error .err :=
  C12_port_range_byte_order (demoExt true) IPPROTO_TCP .FLOWER_ENDPOINT_DST (empty_msg 0)
    rfl (by decide) (by decide)

/-! ## Scenario 2 -/

theorem read_prefix4_family (s : String) (f : Nat) (addr : inet_prefix)
    (h : read_prefix4 s f = .ok addr) : addr.family = AF_INET := by
  unfold read_prefix4 at h
  split at h
  dsimp only at h
  split_ifs at h
  split at h
  · simp only [Except.ok.injEq] at h
    rw [← h]
  · simp at h

/-- Scenario 2 under a filter protocol other than IPv4 and 0: the pass on
`dst_ip` is refused, with -1 when the protocol is not IPv6 either. -/
theorem scenario2_dst_ip_refused (E : Ext) (n : nlmsghdr)
    (hk1 : flower_keyword E "dst_ip" = .kw_dst_ip)
    (hfam : ∀ f addr, E.get_prefix "10.0.0.0/24" f = .ok addr → addr.family = AF_INET)
    (heth : TC_H_MIN n.tcm_info ≠ htons E.le ETH_P_IP) (hz : TC_H_MIN n.tcm_info ≠ 0) :
    ∃ e,
      flower_parse_arg E (TC_H_MIN n.tcm_info)
        (initial_state (addattr_l n E.MAX_MSG .TCA_OPTIONS []).2) "dst_ip"
        ["10.0.0.0/24", "ip_proto", "tcp", "dst_port", "80-443"] = .error e ∧
      flower_parse_opt E none
        ["dst_ip", "10.0.0.0/24", "ip_proto", "tcp", "dst_port", "80-443"] n = .error e ∧
      (TC_H_MIN n.tcm_info ≠ htons E.le ETH_P_IPV6 → e = .err) := by
  have key : ∀ e, flower_parse_arg E (TC_H_MIN n.tcm_info)
        (initial_state (addattr_l n E.MAX_MSG .TCA_OPTIONS []).2) "dst_ip"
        ["10.0.0.0/24", "ip_proto", "tcp", "dst_port", "80-443"] = .error e →
      flower_parse_opt E none
        ["dst_ip", "10.0.0.0/24", "ip_proto", "tcp", "dst_port", "80-443"] n = .error e := by
    intro e he
    simp only [flower_parse_opt, flower_parse_begin, flower_parse_args, List.length_cons,
      List.length_nil, he]
  have harg : ∀ e, with_msg (initial_state (addattr_l n E.MAX_MSG .TCA_OPTIONS []).2)
        (flower_parse_ip_addr E "10.0.0.0/24" (TC_H_MIN n.tcm_info)
          .TCA_FLOWER_KEY_IPV4_DST .TCA_FLOWER_KEY_IPV4_DST_MASK
          .TCA_FLOWER_KEY_IPV6_DST .TCA_FLOWER_KEY_IPV6_DST_MASK
          (addattr_l n E.MAX_MSG .TCA_OPTIONS []).2) = .error e →
      flower_parse_arg E (TC_H_MIN n.tcm_info)
        (initial_state (addattr_l n E.MAX_MSG .TCA_OPTIONS []).2) "dst_ip"
        ["10.0.0.0/24", "ip_proto", "tcp", "dst_port", "80-443"] = .error e := by
    intro e he
    simp only [flower_parse_arg, hk1, flower_parse_value, initial_state, inner_eth_type,
      ne_eq, not_true_eq_false, if_false] at he ⊢
    simp only [he]
  by_cases h6 : TC_H_MIN n.tcm_info = htons E.le ETH_P_IPV6
  · cases hp : E.get_prefix "10.0.0.0/24" AF_INET6 with
    | error e =>
      have h1 := harg e (by
        unfold flower_parse_ip_addr
        rw [if_neg heth, if_pos h6]
        simp only [__flower_parse_ip_addr, hp, with_msg])
      exact ⟨e, h1, key e h1, fun h => absurd h6 h⟩
    | ok addr =>
      have hf := hfam _ _ hp
      have hne : addr.family ≠ AF_INET6 := by rw [hf]; decide
      have h1 := harg .err (by
        unfold flower_parse_ip_addr
        rw [if_neg heth, if_pos h6]
        simp only [__flower_parse_ip_addr, hp]
        rw [if_pos ⟨by decide, hne⟩]
        rfl)
      exact ⟨.err, h1, key .err h1, fun _ => rfl⟩
  · have h1 := harg .err (by
      unfold flower_parse_ip_addr
      rw [if_neg heth, if_neg h6, if_neg hz]
      rfl)
    exact ⟨.err, h1, key .err h1, fun _ => rfl⟩

/-- Scenario 2 under the filter protocol 0: `dst_ip` is taken, and the pass on
`ip_proto` returns -1. -/
theorem scenario2_ip_proto_refused (E : Ext) (n : nlmsghdr) (addr0 : inet_prefix)
    (hk1 : flower_keyword E "dst_ip" = .kw_dst_ip)
    (hk2 : flower_keyword E "ip_proto" = .kw_ip_proto)
    (hp0 : E.get_prefix "10.0.0.0/24" AF_UNSPEC = .ok addr0)
    (hz : TC_H_MIN n.tcm_info = 0) :
    ∃ st1 : ParseState,
      flower_parse_arg E (TC_H_MIN n.tcm_info)
        (initial_state (addattr_l n E.MAX_MSG .TCA_OPTIONS []).2) "dst_ip"
        ["10.0.0.0/24", "ip_proto", "tcp", "dst_port", "80-443"]
        = .ok (st1, ["ip_proto", "tcp", "dst_port", "80-443"]) ∧
      flower_parse_arg E (TC_H_MIN n.tcm_info) st1 "ip_proto" ["tcp", "dst_port", "80-443"]
        = .error .err ∧
      flower_parse_opt E none
        ["dst_ip", "10.0.0.0/24", "ip_proto", "tcp", "dst_port", "80-443"] n = .error .err := by
  obtain ⟨hne0, -, -⟩ := htons_ip_ne E.le
  have h60 : htons E.le ETH_P_IPV6 ≠ 0 := by cases E.le <;> decide
  have h1 : ∃ st1 : ParseState,
      flower_parse_arg E (TC_H_MIN n.tcm_info)
        (initial_state (addattr_l n E.MAX_MSG .TCA_OPTIONS []).2) "dst_ip"
        ["10.0.0.0/24", "ip_proto", "tcp", "dst_port", "80-443"]
        = .ok (st1, ["ip_proto", "tcp", "dst_port", "80-443"]) ∧
      st1.cvlan_ethtype = 0 ∧ st1.vlan_ethtype = 0 := by
    have hip : ∃ m, flower_parse_ip_addr E "10.0.0.0/24" 0
        .TCA_FLOWER_KEY_IPV4_DST .TCA_FLOWER_KEY_IPV4_DST_MASK
        .TCA_FLOWER_KEY_IPV6_DST .TCA_FLOWER_KEY_IPV6_DST_MASK
        (addattr_l n E.MAX_MSG .TCA_OPTIONS []).2 = .ok m := by
      unfold flower_parse_ip_addr
      rw [if_neg (Ne.symm hne0), if_neg (Ne.symm h60), if_pos rfl]
      simp only [__flower_parse_ip_addr, hp0]
      rw [if_neg (by intro h; exact h.1 rfl)]
      exact ⟨_, rfl⟩
    obtain ⟨m, hm⟩ := hip
    refine ⟨{ initial_state (addattr_l n E.MAX_MSG .TCA_OPTIONS []).2 with n := m }, ?_, rfl,
      rfl⟩
    simp only [flower_parse_arg, hk1, flower_parse_value, initial_state, inner_eth_type,
      ne_eq, not_true_eq_false, if_false, hz, hm, with_msg]
  obtain ⟨st1, hs1, hc, hv⟩ := h1
  have h2 : flower_parse_arg E (TC_H_MIN n.tcm_info) st1 "ip_proto"
      ["tcp", "dst_port", "80-443"] = .error .err := by
    simp only [flower_parse_arg, hk2, flower_parse_value, inner_eth_type, hc, hv, hz, ne_eq,
      not_true_eq_false, if_false, flower_parse_ip_proto, Ne.symm hne0, Ne.symm h60,
      not_false_eq_true, and_self, if_true]
  refine ⟨st1, hs1, h2, ?_⟩
  simp only [flower_parse_opt, flower_parse_begin, flower_parse_args, List.length_cons,
    List.length_nil, hs1, h2]

/-- C13 (as stated, refuted): with the filter protocol left at `ETH_P_ALL`, and
likewise with protocol 0, the list of scenario 2 is refused. -/
theorem C13_rejected_without_ipv4 :
    flower_parse_opt (demoExt true) none
      ["dst_ip", "10.0.0.0/24", "ip_proto", "tcp", "dst_port", "80-443"]
      (empty_msg (htons true ETH_P_ALL)) = .error .err ∧
    flower_parse_opt (demoExt true) none
      ["dst_ip", "10.0.0.0/24", "ip_proto", "tcp", "dst_port", "80-443"]
      (empty_msg 0) = .error .err := by
  decide

/-- C13 (amended): the argument list `dst_ip 10.0.0.0/24 ip_proto tcp dst_port
80-443` is accepted when the filter protocol is IPv4, and the request then
carries, inside `TCA_OPTIONS`, the address and mask, the protocol,
`PORT_DST_MIN` = 80 and `PORT_DST_MAX` = 443 in network byte order, the flags
and the ethertype, and no `TCP_DST` record. With any other filter protocol the
list is refused: when the protocol is not 0 the pass on `dst_ip` itself fails
(with -1 unless the protocol is IPv6), and when it is 0 the address is taken
and the pass on `ip_proto` returns -1, since `dst_ip` leaves the ethertype that
`ip_proto` tests unchanged. -/
theorem C13_scenario2 (E : Ext) (n : nlmsghdr) (addr0 : inet_prefix)
    (hk1 : flower_keyword E "dst_ip" = .kw_dst_ip)
    (hk2 : flower_keyword E "ip_proto" = .kw_ip_proto)
    (hk3 : flower_keyword E "dst_port" = .kw_dst_port)
    (hp : E.get_prefix "10.0.0.0/24" AF_INET
      = .ok { family := AF_INET, bytelen := 4, bitlen := 24, data := [10, 0, 0, 0] })
    (hp0 : E.get_prefix "10.0.0.0/24" AF_UNSPEC = .ok addr0)
    (hfam : ∀ f addr, E.get_prefix "10.0.0.0/24" f = .ok addr → addr.family = AF_INET)
    (hm : E.matches_cmd "tcp" "tcp" = true)
    (hb1 : E.get_be16 "80" 10 = some (htons E.le 80))
    (hb2 : E.get_be16 "443" 10 = some (htons E.le 443))
    (hroom : NLMSG_ALIGN n.nlmsg_len + 60 ≤ E.MAX_MSG) :
    (TC_H_MIN n.tcm_info = htons E.le ETH_P_IP →
      flower_parse_opt E none
        ["dst_ip", "10.0.0.0/24", "ip_proto", "tcp", "dst_port", "80-443"] n
        = .ok { n with
          nlmsg_len := NLMSG_ALIGN n.nlmsg_len + 60
          attrs := n.attrs ++
            [{ rta_len := 60, rta_type := .TCA_OPTIONS, data := [] },
             { rta_len := 8, rta_type := .TCA_FLOWER_KEY_IPV4_DST, data := [10, 0, 0, 0] },
             { rta_len := 8, rta_type := .TCA_FLOWER_KEY_IPV4_DST_MASK,
               data := [255, 255, 255, 0] },
             { rta_len := 5, rta_type := .TCA_FLOWER_KEY_IP_PROTO, data := [6] },
             { rta_len := 6, rta_type := .TCA_FLOWER_KEY_PORT_DST_MIN, data := [0, 80] },
             { rta_len := 6, rta_type := .TCA_FLOWER_KEY_PORT_DST_MAX, data := [1, 187] },
             { rta_len := 8, rta_type := .TCA_FLOWER_FLAGS, data := u32_mem E.le 0 },
             { rta_len := 6, rta_type := .TCA_FLOWER_KEY_ETH_TYPE, data := [8, 0] }] }) ∧
    (TC_H_MIN n.tcm_info ≠ htons E.le ETH_P_IP → TC_H_MIN n.tcm_info ≠ 0 →
      ∃ e,
        flower_parse_arg E (TC_H_MIN n.tcm_info)
          (initial_state (addattr_l n E.MAX_MSG .TCA_OPTIONS []).2) "dst_ip"
          ["10.0.0.0/24", "ip_proto", "tcp", "dst_port", "80-443"] = .error e ∧
        flower_parse_opt E none
          ["dst_ip", "10.0.0.0/24", "ip_proto", "tcp", "dst_port", "80-443"] n = .error e ∧
        (TC_H_MIN n.tcm_info ≠ htons E.le ETH_P_IPV6 → e = .err)) ∧
    (TC_H_MIN n.tcm_info = 0 →
      ∃ st1 : ParseState,
        flower_parse_arg E (TC_H_MIN n.tcm_info)
          (initial_state (addattr_l n E.MAX_MSG .TCA_OPTIONS []).2) "dst_ip"
          ["10.0.0.0/24", "ip_proto", "tcp", "dst_port", "80-443"]
          = .ok (st1, ["ip_proto", "tcp", "dst_port", "80-443"]) ∧
        flower_parse_arg E (TC_H_MIN n.tcm_info) st1 "ip_proto"
          ["tcp", "dst_port", "80-443"] = .error .err ∧
        flower_parse_opt E none
          ["dst_ip", "10.0.0.0/24", "ip_proto", "tcp", "dst_port", "80-443"] n
          = .error .err) :=
  ⟨fun heth => scenario2_ipv4 E n hk1 hk2 hk3 hp hm hb1 hb2 heth hroom,
   fun heth hz => scenario2_dst_ip_refused E n hk1 hfam heth hz,
   fun hz => scenario2_ip_proto_refused E n addr0 hk1 hk2 hp0 hz⟩

/-- C13 witness: the example helpers on a little-endian host, an empty request
with an IPv4 filter. -/
theorem C13_scenario2_witness :
    flower_parse_opt (demoExt true) none
      ["dst_ip", "10.0.0.0/24", "ip_proto", "tcp", "dst_port", "80-443"]
      (empty_msg (htons true ETH_P_IP))
      = .ok { empty_msg (htons true ETH_P_IP) with
        nlmsg_len := NLMSG_ALIGN (empty_msg (htons true ETH_P_IP)).nlmsg_len + 60
        attrs := (empty_msg (htons true ETH_P_IP)).attrs ++
          [{ rta_len := 60, rta_type := .TCA_OPTIONS, data := [] },
           { rta_len := 8, rta_type := .TCA_FLOWER_KEY_IPV4_DST, data := [10, 0, 0, 0] },
           { rta_len := 8, rta_type := .TCA_FLOWER_KEY_IPV4_DST_MASK,
             data := [255, 255, 255, 0] },
           { rta_len := 5, rta_type := .TCA_FLOWER_KEY_IP_PROTO, data := [6] },
           { rta_len := 6, rta_type := .TCA_FLOWER_KEY_PORT_DST_MIN, data := [0, 80] },
           { rta_len := 6, rta_type := .TCA_FLOWER_KEY_PORT_DST_MAX, data := [1, 187] },
           { rta_len := 8, rta_type := .TCA_FLOWER_FLAGS,
             data := u32_mem (demoExt true).le 0 },
           { rta_len := 6, rta_type := .TCA_FLOWER_KEY_ETH_TYPE, data := [8, 0] }] } :=
  (C13_scenario2 (demoExt true) (empty_msg (htons true ETH_P_IP))
    { family := AF_INET, bytelen := 4, bitlen := 24, data := [10, 0, 0, 0] }
    (by decide) (by decide) (by decide) (by decide) (by decide)
    (fun f addr h => read_prefix4_family _ f addr h)
    (by decide) (by decide) (by decide) (by decide)).1 (by decide)

/-! ## The local `ip_proto` -/

theorem with_msg_ip_proto (st st1 : ParseState) (r : Except Fail nlmsghdr)
    (h : with_msg st r = .ok st1) : st1.ip_proto = st.ip_proto := by
  cases r with
  | error e => simp [with_msg] at h
  | ok n =>
    simp only [with_msg, Except.ok.injEq] at h
    rw [← h]

theorem parse_vid_ip_proto (E : Ext) (st st1 : ParseState) (arg : String) (t : AttrId)
    (h : parse_vid E st arg t = .ok st1) : st1.ip_proto = st.ip_proto := by
  unfold parse_vid at h
  split at h
  · simp at h
  · dsimp only at h
    split at h
    · simp at h
    · simp only [Except.ok.injEq] at h
      rw [← h]

theorem parse_small_u8_ip_proto (E : Ext) (st st1 : ParseState) (arg : String)
    (limit : Nat) (t : AttrId) (h : parse_small_u8 E st arg limit t = .ok st1) :
    st1.ip_proto = st.ip_proto := by
  unfold parse_small_u8 at h
  split at h
  · simp at h
  · dsimp only at h
    split at h
    · simp at h
    · simp only [Except.ok.injEq] at h
      rw [← h]

/-- Only the `ip_proto` branch changes the local `ip_proto`. -/
theorem flower_parse_value_ip_proto (E : Ext) (eth_type : Nat) (kw : Keyword)
    (st st1 : ParseState) (V : String)
    (h : flower_parse_value E eth_type kw st V = .ok st1) :
    st1.ip_proto = st.ip_proto ∨ kw = .kw_ip_proto := by
  cases kw
  case kw_ip_proto => exact Or.inr rfl
  all_goals left
  all_goals simp only [flower_parse_value] at h
  all_goals first
    | exact with_msg_ip_proto _ _ _ h
    | (simp at h; done)
    | (split at h
       all_goals first
         | (simp at h; done)
         | exact parse_vid_ip_proto _ _ _ _ _ h
         | exact parse_small_u8_ip_proto _ _ _ _ _ _ h
         | (simp only [Except.ok.injEq] at h; rw [← h])
         | (split at h
            all_goals first
              | (simp at h; done)
              | (simp only [Except.ok.injEq] at h; rw [← h])
              | (split at h
                 all_goals first
                   | (simp at h; done)
                   | (simp only [Except.ok.injEq] at h; rw [← h]))))

theorem flower_parse_arg_ip_proto (E : Ext) (eth_type : Nat) (st st1 : ParseState)
    (a : String) (rest rest1 : List String)
    (h : flower_parse_arg E eth_type st a rest = .ok (st1, rest1)) :
    st1.ip_proto = st.ip_proto ∨ flower_keyword E a = .kw_ip_proto := by
  unfold flower_parse_arg at h
  split at h
  · simp only [Except.ok.injEq, Prod.mk.injEq] at h
    left
    rw [← h.1]
  · simp only [Except.ok.injEq, Prod.mk.injEq] at h
    left
    rw [← h.1]
  · simp only [Except.ok.injEq, Prod.mk.injEq] at h
    left
    rw [← h.1]
  · simp at h
  · simp at h
  · split at h
    · simp at h
    · split at h
      · simp at h
      · simp only [Except.ok.injEq, Prod.mk.injEq] at h
        left
        rw [← h.1]
  · split at h
    · simp at h
    · rename_i V r
      split at h
      · simp at h
      · rename_i st2 hv
        simp only [Except.ok.injEq, Prod.mk.injEq] at h
        rcases flower_parse_value_ip_proto E eth_type _ st st2 V hv with h1 | hk
        · left
          rw [← h.1, h1]
        · right
          exact hk

/-- The local `ip_proto` is still its initial value unless an earlier pass of
the loop went through the `ip_proto` branch. -/
theorem ip_proto_provenance (E : Ext) (eth_type : Nat) (st0 : ParseState)
    (argv : List String) (k : Nat) :
    ∀ (st : ParseState) (rest : List String),
      flower_parse_steps E eth_type k st0 argv = .ok (st, rest) →
      st.ip_proto = st0.ip_proto ∨
        ∃ (j : Nat) (stj : ParseState) (a : String) (r : List String),
          j < k ∧ flower_parse_steps E eth_type j st0 argv = .ok (stj, a :: r) ∧
          flower_keyword E a = .kw_ip_proto := by
  induction k with
  | zero =>
    intro st rest h
    simp only [flower_parse_steps, Except.ok.injEq, Prod.mk.injEq] at h
    left
    rw [← h.1]
  | succ k ih =>
    intro st rest h
    rw [flower_parse_steps_succ] at h
    cases hk : flower_parse_steps E eth_type k st0 argv with
    | error e => simp [hk] at h
    | ok x =>
      obtain ⟨st1, r1⟩ := x
      have lift : st.ip_proto = st1.ip_proto →
          (st.ip_proto = st0.ip_proto ∨
          ∃ (j : Nat) (stj : ParseState) (a : String) (r : List String),
            j < k + 1 ∧ flower_parse_steps E eth_type j st0 argv = .ok (stj, a :: r) ∧
            flower_keyword E a = .kw_ip_proto) := by
        intro heq
        rcases ih st1 r1 hk with h0 | ⟨j, stj, a, r, hj, hs, hkw⟩
        · left
          rw [heq, h0]
        · right
          exact ⟨j, stj, a, r, by omega, hs, hkw⟩
      cases r1 with
      | nil =>
        simp only [hk, Except.ok.injEq, Prod.mk.injEq] at h
        exact lift (by rw [← h.1])
      | cons a r =>
        simp only [hk] at h
        rcases flower_parse_arg_ip_proto E eth_type st1 st a r rest h with h1 | hkw
        · exact lift h1
        · right
          exact ⟨k, st1, a, r, by omega, hk, hkw⟩

/-- C14: (1) when the loop of `flower_parse_opt` reaches an argument that selects
the `dst_port` or `src_port` branch and no earlier pass went through the
`ip_proto` branch, `flower_parse_opt` returns -1, whatever follows in the list;
(2) the same when the `ip_proto` in effect is none of TCP, UDP and SCTP. -/
theorem C14_port_gating (E : Ext) :
    (∀ (handle : Option String) (argv : List String) (n n1 : nlmsghdr) (k : Nat)
        (st : ParseState) (a V : String) (post : List String),
      flower_parse_begin E handle n = .ok n1 →
      flower_parse_steps E (TC_H_MIN n.tcm_info) k (initial_state n1) argv
        = .ok (st, a :: V :: post) →
      (flower_keyword E a = .kw_dst_port ∨ flower_keyword E a = .kw_src_port) →
      (¬ ∃ (j : Nat) (stj : ParseState) (aj : String) (r : List String),
        j < k ∧
        flower_parse_steps E (TC_H_MIN n.tcm_info) j (initial_state n1) argv
          = .ok (stj, aj :: r) ∧
        flower_keyword E aj = .kw_ip_proto) →
      flower_parse_opt E handle argv n = .error .err) ∧
    (∀ (handle : Option String) (argv : List String) (n n1 : nlmsghdr) (k : Nat)
        (st : ParseState) (a V : String) (post : List String),
      flower_parse_begin E handle n = .ok n1 →
      flower_parse_steps E (TC_H_MIN n.tcm_info) k (initial_state n1) argv
        = .ok (st, a :: V :: post) →
      (flower_keyword E a = .kw_dst_port ∨ flower_keyword E a = .kw_src_port) →
      st.ip_proto ≠ IPPROTO_TCP → st.ip_proto ≠ IPPROTO_UDP → st.ip_proto ≠ IPPROTO_SCTP →
      flower_parse_opt E handle argv n = .error .err) := by
  have gate : ∀ (handle : Option String) (argv : List String) (n n1 : nlmsghdr) (k : Nat)
      (st : ParseState) (a V : String) (post : List String),
      flower_parse_begin E handle n = .ok n1 →
      flower_parse_steps E (TC_H_MIN n.tcm_info) k (initial_state n1) argv
        = .ok (st, a :: V :: post) →
      (flower_keyword E a = .kw_dst_port ∨ flower_keyword E a = .kw_src_port) →
      st.ip_proto ≠ IPPROTO_TCP → st.ip_proto ≠ IPPROTO_UDP → st.ip_proto ≠ IPPROTO_SCTP →
      flower_parse_opt E handle argv n = .error .err := by
    intro handle argv n n1 k st a V post hbegin hreach hkw h1 h2 h3
    apply flower_parse_opt_fails_at E handle argv n n1 k st a (V :: post) .err hbegin hreach
    rcases hkw with hkw | hkw <;>
      simp [flower_parse_arg, hkw, flower_parse_value, with_msg,
        flower_parse_port_gate E V st.ip_proto _ st.n h1 h2 h3]
  refine ⟨?_, gate⟩
  intro handle argv n n1 k st a V post hbegin hreach hkw hnone
  have hff : st.ip_proto = 0xff := by
    rcases ip_proto_provenance E _ _ argv k st _ hreach with h0 | ⟨j, stj, aj, r, hj, hs, hk⟩
    · rw [h0]
      rfl
    · exact absurd ⟨j, stj, aj, r, hj, hs, hk⟩ hnone
  exact gate handle argv n n1 k st a V post hbegin hreach hkw
    (by rw [hff]; decide) (by rw [hff]; decide) (by rw [hff]; decide)

/-- C14 witness: `dst_port 80` before `ip_proto tcp` fails under an IPv4 filter. -/
theorem C14_port_gating_witness :
    flower_parse_opt (demoExt true) none ["dst_port", "80", "ip_proto", "tcp"]
      (empty_msg (htons true ETH_P_IP)) = .error .err :=
  (C14_port_gating (demoExt true)).1 none ["dst_port", "80", "ip_proto", "tcp"]
    (empty_msg (htons true ETH_P_IP))
    (addattr_l (empty_msg (htons true ETH_P_IP)) 16384 .TCA_OPTIONS []).2 0
    (initial_state (addattr_l (empty_msg (htons true ETH_P_IP)) 16384 .TCA_OPTIONS []).2)
    "dst_port" "80" ["ip_proto", "tcp"] (by decide) (by decide) (Or.inl (by decide))
    (fun ⟨_, _, _, _, hj, _⟩ => absurd hj (by omega))

/-! ## ARP fields -/

/-- The `arp_tip`, `arp_sip` and `arp_op` branches return -1 when the ethertype in
effect (`vlan_ethtype` if set, else the filter ethertype) is neither ARP nor
RARP. -/
theorem arp_ip_op_gated (E : Ext) (handle : Option String) (argv : List String)
    (n n1 : nlmsghdr) (k : Nat) (st : ParseState) (a V : String) (post : List String)
    (hbegin : flower_parse_begin E handle n = .ok n1)
    (hreach : flower_parse_steps E (TC_H_MIN n.tcm_info) k (initial_state n1) argv
      = .ok (st, a :: V :: post))
    (hkw : flower_keyword E a = .kw_arp_tip ∨ flower_keyword E a = .kw_arp_sip ∨
      flower_keyword E a = .kw_arp_op)
    (hnarp : flower_eth_type_arp E.le
      (if st.vlan_ethtype ≠ 0 then st.vlan_ethtype else TC_H_MIN n.tcm_info) = false) :
    flower_parse_opt E handle argv n = .error .err := by
  apply flower_parse_opt_fails_at E handle argv n n1 k st a (V :: post) .err hbegin hreach
  simp only [ne_eq, ite_not] at hnarp
  rcases hkw with hkw | hkw | hkw <;>
    simp [flower_parse_arg, hkw, flower_parse_value, with_msg, flower_parse_arp_ip_addr,
      flower_parse_arp_op, arp_eth_type, hnarp]

/-- C15 (the `arp_tha` and `arp_sha` branches lack the gate their siblings
have): whatever the filter ethertype and `vlan_ethtype` are, the pass over an
`arp_tha` or `arp_sha` argument with a well-formed address and no mask is
accepted and appends the address and an all-ones mask. -/
theorem C15_arp_lladdr_not_gated (E : Ext) (eth_type : Nat) (st : ParseState) (a V : String)
    (post : List String) (addr : List Nat)
    (hs : '/' ∉ V.data) (ha : E.ll_addr_a2n V ETH_ALEN = some addr) :
    (flower_keyword E a = .kw_arp_tha →
      flower_parse_arg E eth_type st a (V :: post) = .ok ({ st with
        n := (addattr_l (addattr_l st.n E.MAX_MSG .TCA_FLOWER_KEY_ARP_THA
          (overlay (eth_buf E) addr)).2 E.MAX_MSG .TCA_FLOWER_KEY_ARP_THA_MASK
          [0xff, 0xff, 0xff, 0xff, 0xff, 0xff]).2 }, post)) ∧
    (flower_keyword E a = .kw_arp_sha →
      flower_parse_arg E eth_type st a (V :: post) = .ok ({ st with
        n := (addattr_l (addattr_l st.n E.MAX_MSG .TCA_FLOWER_KEY_ARP_SHA
          (overlay (eth_buf E) addr)).2 E.MAX_MSG .TCA_FLOWER_KEY_ARP_SHA_MASK
          [0xff, 0xff, 0xff, 0xff, 0xff, 0xff]).2 }, post)) := by
  have hc := cut_at_no_sep '/' V hs
  have ha6 : E.ll_addr_a2n V 6 = some addr := ha
  constructor
  · intro hkw
    simp [flower_parse_arg, hkw, flower_parse_value, with_msg, flower_parse_eth_addr, hc, ha6,
      ETH_ALEN]
  · intro hkw
    simp [flower_parse_arg, hkw, flower_parse_value, with_msg, flower_parse_eth_addr, hc, ha6,
      ETH_ALEN]

/-- C15 witness: `arp_tha aa:bb:cc:dd:ee:ff` under an IPv4 filter is accepted by
the pass, and `flower_parse_opt` returns 0 on that list. -/
theorem C15_arp_lladdr_not_gated_witness :
    flower_parse_arg (demoExt true) (htons true ETH_P_IP)
      (initial_state (empty_msg (htons true ETH_P_IP))) "arp_tha" ["aa:bb:cc:dd:ee:ff"]
      = .ok ({ initial_state (empty_msg (htons true ETH_P_IP)) with
        n := (addattr_l (addattr_l (initial_state (empty_msg (htons true ETH_P_IP))).n
          (demoExt true).MAX_MSG .TCA_FLOWER_KEY_ARP_THA
          (overlay (eth_buf (demoExt true)) [0xaa, 0xbb, 0xcc, 0xdd, 0xee, 0xff])).2
          (demoExt true).MAX_MSG .TCA_FLOWER_KEY_ARP_THA_MASK
          [0xff, 0xff, 0xff, 0xff, 0xff, 0xff]).2 }, []) ∧
    (flower_parse_opt (demoExt true) none ["arp_tha", "aa:bb:cc:dd:ee:ff"]
      (empty_msg (htons true ETH_P_IP))).toBool = true :=
  ⟨(C15_arp_lladdr_not_gated (demoExt true) (htons true ETH_P_IP)
      (initial_state (empty_msg (htons true ETH_P_IP))) "arp_tha" "aa:bb:cc:dd:ee:ff" []
      [0xaa, 0xbb, 0xcc, 0xdd, 0xee, 0xff] (by decide) (by decide)).1 (by decide),
   by decide⟩

/-! ## ICMP fields -/

/-- C16 (amended): `flower_icmp_attr_type` and `flower_icmp_attr_mask_type`
return the ICMPV4 id of the field and its mask id exactly when the ethertype is
IPv4 and the protocol ICMP, the ICMPV6 id of the field and its mask id exactly when the
ethertype is IPv6 and the protocol ICMPv6, and -1 (`none`) exactly in every
other case, so both always answer for the same field and family;
`flower_parse_icmp` returns -1 when the protocol does not match the address
family and otherwise is `flower_parse_u8` with that pair of ids. -/
theorem C16_icmp_attr_selection (le : Bool) (eth_type ip_proto : Nat) :
    ((eth_type = htons le ETH_P_IP ∧ ip_proto = IPPROTO_ICMP) ↔
      (flower_icmp_attr_type le eth_type ip_proto .FLOWER_ICMP_FIELD_TYPE
          = some .TCA_FLOWER_KEY_ICMPV4_TYPE ∧
        flower_icmp_attr_mask_type le eth_type ip_proto .FLOWER_ICMP_FIELD_TYPE
          = some .TCA_FLOWER_KEY_ICMPV4_TYPE_MASK ∧
        flower_icmp_attr_type le eth_type ip_proto .FLOWER_ICMP_FIELD_CODE
          = some .TCA_FLOWER_KEY_ICMPV4_CODE ∧
        flower_icmp_attr_mask_type le eth_type ip_proto .FLOWER_ICMP_FIELD_CODE
          = some .TCA_FLOWER_KEY_ICMPV4_CODE_MASK)) ∧
    ((eth_type = htons le ETH_P_IPV6 ∧ ip_proto = IPPROTO_ICMPV6) ↔
      (flower_icmp_attr_type le eth_type ip_proto .FLOWER_ICMP_FIELD_TYPE
          = some .TCA_FLOWER_KEY_ICMPV6_TYPE ∧
        flower_icmp_attr_mask_type le eth_type ip_proto .FLOWER_ICMP_FIELD_TYPE
          = some .TCA_FLOWER_KEY_ICMPV6_TYPE_MASK ∧
        flower_icmp_attr_type le eth_type ip_proto .FLOWER_ICMP_FIELD_CODE
          = some .TCA_FLOWER_KEY_ICMPV6_CODE ∧
        flower_icmp_attr_mask_type le eth_type ip_proto .FLOWER_ICMP_FIELD_CODE
          = some .TCA_FLOWER_KEY_ICMPV6_CODE_MASK)) ∧
    ((¬ (eth_type = htons le ETH_P_IP ∧ ip_proto = IPPROTO_ICMP) ∧
        ¬ (eth_type = htons le ETH_P_IPV6 ∧ ip_proto = IPPROTO_ICMPV6)) ↔
      (∀ field, flower_icmp_attr_type le eth_type ip_proto field = none ∧
        flower_icmp_attr_mask_type le eth_type ip_proto field = none)) ∧
    (∀ field v m, flower_icmp_attr_type le eth_type ip_proto field = some v →
      flower_icmp_attr_mask_type le eth_type ip_proto field = some m →
      (v, m) ∈ [(AttrId.TCA_FLOWER_KEY_ICMPV4_TYPE, AttrId.TCA_FLOWER_KEY_ICMPV4_TYPE_MASK),
        (AttrId.TCA_FLOWER_KEY_ICMPV4_CODE, AttrId.TCA_FLOWER_KEY_ICMPV4_CODE_MASK),
        (AttrId.TCA_FLOWER_KEY_ICMPV6_TYPE, AttrId.TCA_FLOWER_KEY_ICMPV6_TYPE_MASK),
        (AttrId.TCA_FLOWER_KEY_ICMPV6_CODE, AttrId.TCA_FLOWER_KEY_ICMPV6_CODE_MASK)]) ∧
    (∀ (E : Ext) (str : String) (field : flower_icmp_field) (n : nlmsghdr), E.le = le →
      flower_parse_icmp E str eth_type ip_proto field n =
        match flower_icmp_attr_type le eth_type ip_proto field,
            flower_icmp_attr_mask_type le eth_type ip_proto field with
        | some value_type, some mask_type =>
          flower_parse_u8 E str value_type mask_type none none n
        | _, _ => .error .err) ∧
    (∀ (E : Ext) (str : String) (field : flower_icmp_field) (n : nlmsghdr), E.le = le →
      ¬ (eth_type = htons le ETH_P_IP ∧ ip_proto = IPPROTO_ICMP) →
      ¬ (eth_type = htons le ETH_P_IPV6 ∧ ip_proto = IPPROTO_ICMPV6) →
      flower_parse_icmp E str eth_type ip_proto field n = .error .err) := by
  have hne : htons le ETH_P_IP ≠ htons le ETH_P_IPV6 := (htons_ip_ne le).2.2
  have h46 : (eth_type = htons le ETH_P_IP ∧ ip_proto = IPPROTO_ICMP) →
      ¬ (eth_type = htons le ETH_P_IPV6 ∧ ip_proto = IPPROTO_ICMPV6) := by
    rintro ⟨h, -⟩ ⟨h1, -⟩
    exact hne (h.symm.trans h1)
  have e5 : ∀ (E : Ext) (str : String) (field : flower_icmp_field) (n : nlmsghdr), E.le = le →
      flower_parse_icmp E str eth_type ip_proto field n =
        match flower_icmp_attr_type le eth_type ip_proto field,
            flower_icmp_attr_mask_type le eth_type ip_proto field with
        | some value_type, some mask_type =>
          flower_parse_u8 E str value_type mask_type none none n
        | _, _ => .error .err := by
    intro E str field n hle
    subst hle
    rfl
  by_cases h4 : eth_type = htons le ETH_P_IP ∧ ip_proto = IPPROTO_ICMP
  · have h6 := h46 h4
    have e1 : ∀ f, flower_icmp_attr_type le eth_type ip_proto f =
        some (if f = .FLOWER_ICMP_FIELD_CODE then .TCA_FLOWER_KEY_ICMPV4_CODE
          else .TCA_FLOWER_KEY_ICMPV4_TYPE) := fun f => by
      unfold flower_icmp_attr_type
      rw [if_pos h4]
    have e2 : ∀ f, flower_icmp_attr_mask_type le eth_type ip_proto f =
        some (if f = .FLOWER_ICMP_FIELD_CODE then .TCA_FLOWER_KEY_ICMPV4_CODE_MASK
          else .TCA_FLOWER_KEY_ICMPV4_TYPE_MASK) := fun f => by
      unfold flower_icmp_attr_mask_type
      rw [if_pos h4]
    refine ⟨?_, ?_, ?_, ?_, e5, ?_⟩
    · simp [e1, e2, eq_true h4]
    · simp [e1, e2, eq_false h6]
    · simp only [e1, e2, eq_true h4, not_true_eq_false, false_and, false_iff, not_forall]
      exact ⟨.FLOWER_ICMP_FIELD_TYPE, by simp⟩
    · intro field v m hv hm
      rw [e1] at hv
      rw [e2] at hm
      cases field <;> simp at hv hm <;> simp [← hv, ← hm]
    · intro E str field n hle hn4
      exact absurd h4 hn4
  · by_cases h6 : eth_type = htons le ETH_P_IPV6 ∧ ip_proto = IPPROTO_ICMPV6
    · have e1 : ∀ f, flower_icmp_attr_type le eth_type ip_proto f =
          some (if f = .FLOWER_ICMP_FIELD_CODE then .TCA_FLOWER_KEY_ICMPV6_CODE
            else .TCA_FLOWER_KEY_ICMPV6_TYPE) := fun f => by
        unfold flower_icmp_attr_type
        rw [if_neg h4, if_pos h6]
      have e2 : ∀ f, flower_icmp_attr_mask_type le eth_type ip_proto f =
          some (if f = .FLOWER_ICMP_FIELD_CODE then .TCA_FLOWER_KEY_ICMPV6_CODE_MASK
            else .TCA_FLOWER_KEY_ICMPV6_TYPE_MASK) := fun f => by
        unfold flower_icmp_attr_mask_type
        rw [if_neg h4, if_pos h6]
      refine ⟨?_, ?_, ?_, ?_, e5, ?_⟩
      · simp [e1, e2, eq_false h4]
      · simp [e1, e2, eq_true h6]
      · simp only [e1, e2, eq_true h6, not_true_eq_false, and_false, false_iff, not_forall]
        exact ⟨.FLOWER_ICMP_FIELD_TYPE, by simp⟩
      · intro field v m hv hm
        rw [e1] at hv
        rw [e2] at hm
        cases field <;> simp at hv hm <;> simp [← hv, ← hm]
      · intro E str field n hle hn4 hn6
        exact absurd h6 hn6
    · have e1 : ∀ f, flower_icmp_attr_type le eth_type ip_proto f = none := fun f => by
        unfold flower_icmp_attr_type
        rw [if_neg h4, if_neg h6]
      have e2 : ∀ f, flower_icmp_attr_mask_type le eth_type ip_proto f = none := fun f => by
        unfold flower_icmp_attr_mask_type
        rw [if_neg h4, if_neg h6]
      refine ⟨?_, ?_, ?_, ?_, e5, ?_⟩
      · simp [e1, e2, eq_false h4]
      · simp [e1, e2, eq_false h6]
      · simp [e1, e2, eq_false h4, eq_false h6]
      · intro field v m hv hm
        rw [e1] at hv
        cases hv
      · intro E str field n hle hn4 hn6
        rw [e5 E str field n hle, e1]

/-- C16 witness: IPv6 with ICMPv6 selects the ICMPV6 ids for both fields. -/
theorem C16_icmp_attr_selection_witness :
    flower_icmp_attr_type true (htons true ETH_P_IPV6) IPPROTO_ICMPV6 .FLOWER_ICMP_FIELD_TYPE
        = some .TCA_FLOWER_KEY_ICMPV6_TYPE ∧
      flower_icmp_attr_mask_type true (htons true ETH_P_IPV6) IPPROTO_ICMPV6
        .FLOWER_ICMP_FIELD_TYPE = some .TCA_FLOWER_KEY_ICMPV6_TYPE_MASK ∧
      flower_icmp_attr_type true (htons true ETH_P_IPV6) IPPROTO_ICMPV6 .FLOWER_ICMP_FIELD_CODE
        = some .TCA_FLOWER_KEY_ICMPV6_CODE ∧
      flower_icmp_attr_mask_type true (htons true ETH_P_IPV6) IPPROTO_ICMPV6
        .FLOWER_ICMP_FIELD_CODE = some .TCA_FLOWER_KEY_ICMPV6_CODE_MASK :=
  (C16_icmp_attr_selection true (htons true ETH_P_IPV6) IPPROTO_ICMPV6).2.1.mp ⟨rfl, rfl⟩

/-- C16 (as stated, refuted): under IPv4 with `ip_proto` ICMP, where both ids
are found, `flower_parse_icmp` still returns -1 on the value `abc`. -/
theorem C16_icmp_fails_on_matching_family :
    flower_icmp_attr_type true (htons true ETH_P_IP) IPPROTO_ICMP .FLOWER_ICMP_FIELD_TYPE
        = some .TCA_FLOWER_KEY_ICMPV4_TYPE ∧
      flower_icmp_attr_mask_type true (htons true ETH_P_IP) IPPROTO_ICMP .FLOWER_ICMP_FIELD_TYPE
        = some .TCA_FLOWER_KEY_ICMPV4_TYPE_MASK ∧
      flower_parse_icmp (demoExt true) "abc" (htons true ETH_P_IP) IPPROTO_ICMP
        .FLOWER_ICMP_FIELD_TYPE (empty_msg (htons true ETH_P_IP)) = .error .err := by
  decide

end Flower

namespace Fdb

open Flower (Fail inet_prefix NLMSG_ALIGN RTA_LENGTH u16_mem u32_mem htons ntohs ETH_ALEN)

/-! ## Lemmas on the argument loop -/

/-- With enough fuel the loop does not depend on the fuel. -/
theorem arg_loop_fuel {σ : Type}
    (pass : σ → String → List String → Except Fail (σ × List String))
    (hs : ∀ st a rest st1 rest1, pass st a rest = .ok (st1, rest1) → rest1.length ≤ rest.length)
    (fuel : Nat) :
    ∀ (st : σ) (argv : List String), argv.length ≤ fuel →
      arg_loop pass fuel st argv = arg_loop pass argv.length st argv := by
  induction fuel using Nat.strong_induction_on with
  | _ fuel ih =>
    intro st argv hlen
    cases argv with
    | nil => cases fuel <;> simp [arg_loop]
    | cons arg rest =>
      cases fuel with
      | zero => simp at hlen
      | succ f =>
        simp only [arg_loop, List.length_cons]
        cases h : pass st arg rest with
        | error e => rfl
        | ok r =>
          obtain ⟨st1, rest1⟩ := r
          have hsh := hs st arg rest st1 rest1 h
          simp only [List.length_cons] at hlen
          simp only
          rw [ih f (by omega) st1 rest1 (by omega),
            ih rest.length (by omega) st1 rest1 hsh]

/-- The loop run from the start equals the loop run from any point it reaches. -/
theorem arg_loop_of_steps {σ : Type}
    (pass : σ → String → List String → Except Fail (σ × List String))
    (hs : ∀ st a rest st1 rest1, pass st a rest = .ok (st1, rest1) → rest1.length ≤ rest.length)
    (k : Nat) :
    ∀ (st st1 : σ) (argv argv1 : List String),
      arg_steps pass k st argv = .ok (st1, argv1) →
      arg_loop pass argv.length st argv = arg_loop pass argv1.length st1 argv1 := by
  induction k with
  | zero =>
    intro st st1 argv argv1 h
    simp only [arg_steps, Except.ok.injEq, Prod.mk.injEq] at h
    rw [h.1, h.2]
  | succ k ih =>
    intro st st1 argv argv1 h
    cases argv with
    | nil =>
      simp only [arg_steps, Except.ok.injEq, Prod.mk.injEq] at h
      rw [h.1, ← h.2]
    | cons arg rest =>
      simp only [arg_steps] at h
      simp only [arg_loop, List.length_cons]
      cases h1 : pass st arg rest with
      | error e => simp [h1] at h
      | ok r =>
        obtain ⟨st2, rest2⟩ := r
        simp only [h1] at h
        have hsh := hs st arg rest st2 rest2 h1
        simp only
        rw [arg_loop_fuel pass hs rest.length st2 rest2 hsh]
        exact ih st2 st1 rest2 argv1 h

/-- One more turn after the first `k`. -/
theorem arg_steps_succ {σ : Type}
    (pass : σ → String → List String → Except Fail (σ × List String)) (k : Nat) :
    ∀ (st : σ) (argv : List String),
      arg_steps pass (k + 1) st argv =
        match arg_steps pass k st argv with
        | .error e => .error e
        | .ok (st1, []) => .ok (st1, [])
        | .ok (st1, a :: r) => pass st1 a r := by
  induction k with
  | zero =>
    intro st argv
    cases argv with
    | nil => simp [arg_steps]
    | cons a r =>
      simp only [arg_steps]
      cases h : pass st a r with
      | error e => rfl
      | ok x => rfl
  | succ k ih =>
    intro st argv
    cases argv with
    | nil => simp [arg_steps]
    | cons a r =>
      rw [arg_steps]
      cases h : pass st a r with
      | error e => simp [arg_steps, h]
      | ok x =>
        obtain ⟨st1, r1⟩ := x
        simp only [ih st1 r1]
        conv_rhs => rw [arg_steps]
        simp only [h]

/-- A loop that ends has gone through its turns: the locals at the end are
those after `fuel` turns, with no argument left. -/
theorem arg_steps_of_loop {σ : Type}
    (pass : σ → String → List String → Except Fail (σ × List String))
    (hs : ∀ st a rest st1 rest1, pass st a rest = .ok (st1, rest1) → rest1.length ≤ rest.length)
    (fuel : Nat) :
    ∀ (st st1 : σ) (argv : List String), argv.length ≤ fuel →
      arg_loop pass fuel st argv = .ok st1 → arg_steps pass fuel st argv = .ok (st1, []) := by
  induction fuel with
  | zero =>
    intro st st1 argv hlen h
    cases argv with
    | nil =>
      simp only [arg_loop, Except.ok.injEq] at h
      simp [arg_steps, h]
    | cons a r => simp at hlen
  | succ f ih =>
    intro st st1 argv hlen h
    cases argv with
    | nil =>
      simp only [arg_loop, Except.ok.injEq] at h
      simp [arg_steps, h]
    | cons a r =>
      simp only [arg_loop] at h
      simp only [arg_steps]
      cases h1 : pass st a r with
      | error e => simp [h1] at h
      | ok x =>
        obtain ⟨st2, r2⟩ := x
        simp only [h1] at h
        have hsh := hs st a r st2 r2 h1
        simp only [List.length_cons] at hlen
        exact ih st2 st1 r2 (by omega) h

/-- A property of the locals that every turn keeps holds at the end of the
loop. -/
theorem arg_loop_invariant {σ : Type}
    (pass : σ → String → List String → Except Fail (σ × List String)) (P : σ → Prop)
    (hP : ∀ st a rest st1 rest1, P st → pass st a rest = .ok (st1, rest1) → P st1)
    (fuel : Nat) :
    ∀ (st st1 : σ) (argv : List String), P st → arg_loop pass fuel st argv = .ok st1 → P st1 := by
  induction fuel with
  | zero =>
    intro st st1 argv h0 h
    cases argv with
    | nil =>
      simp only [arg_loop, Except.ok.injEq] at h
      exact h ▸ h0
    | cons a r => simp [arg_loop] at h
  | succ f ih =>
    intro st st1 argv h0 h
    cases argv with
    | nil =>
      simp only [arg_loop, Except.ok.injEq] at h
      exact h ▸ h0
    | cons a r =>
      simp only [arg_loop] at h
      cases h1 : pass st a r with
      | error e => simp [h1] at h
      | ok x =>
        obtain ⟨st2, r2⟩ := x
        simp only [h1] at h
        exact ih st2 st1 r2 (hP st a r st2 r2 h0 h1) h

/-- A property of the locals that holds on entry and that only the turns on
arguments in `K` can break either still holds after `k` turns, or an earlier
turn was on an argument in `K`. -/
theorem arg_steps_provenance {σ : Type}
    (pass : σ → String → List String → Except Fail (σ × List String)) (P : σ → Prop) (K : String → Prop)
    (hP : ∀ st a rest st1 rest1, P st → ¬ K a → pass st a rest = .ok (st1, rest1) → P st1)
    (st0 : σ) (argv : List String) (h0 : P st0) (k : Nat) :
    ∀ (st : σ) (rest : List String), arg_steps pass k st0 argv = .ok (st, rest) →
      P st ∨ ∃ (j : Nat) (stj : σ) (a : String) (r : List String),
        j < k ∧ arg_steps pass j st0 argv = .ok (stj, a :: r) ∧ K a := by
  induction k with
  | zero =>
    intro st rest h
    simp only [arg_steps, Except.ok.injEq, Prod.mk.injEq] at h
    exact Or.inl (h.1 ▸ h0)
  | succ k ih =>
    intro st rest h
    rw [arg_steps_succ] at h
    cases hk : arg_steps pass k st0 argv with
    | error e => simp [hk] at h
    | ok x =>
      obtain ⟨st1, r1⟩ := x
      have lift : (P st1 ∨ ∃ (j : Nat) (stj : σ) (a : String) (r : List String),
          j < k ∧ arg_steps pass j st0 argv = .ok (stj, a :: r) ∧ K a) →
          (P st1 ∨ ∃ (j : Nat) (stj : σ) (a : String) (r : List String),
          j < k + 1 ∧ arg_steps pass j st0 argv = .ok (stj, a :: r) ∧ K a) := by
        rintro (h1 | ⟨j, stj, a, r, hj, hs, hK⟩)
        · exact Or.inl h1
        · exact Or.inr ⟨j, stj, a, r, by omega, hs, hK⟩
      cases r1 with
      | nil =>
        simp only [hk, Except.ok.injEq, Prod.mk.injEq] at h
        rw [← h.1]
        exact lift (ih st1 [] hk)
      | cons a r =>
        simp only [hk] at h
        by_cases hK : K a
        · exact Or.inr ⟨k, st1, a, r, by omega, hk, hK⟩
        · rcases lift (ih st1 (a :: r) hk) with h1 | h2
          · exact Or.inl (hP st1 a r st rest h1 hK h)
          · exact Or.inr h2

/-- When the loop reaches an argument in `K`, whose turn establishes a property
that every later turn keeps, the property holds at the end of the loop. -/
theorem arg_loop_sticky {σ : Type}
    (pass : σ → String → List String → Except Fail (σ × List String)) (P : σ → Prop) (K : String → Prop)
    (hs : ∀ st a rest st1 rest1, pass st a rest = .ok (st1, rest1) → rest1.length ≤ rest.length)
    (hK : ∀ st a rest st1 rest1, K a → pass st a rest = .ok (st1, rest1) → P st1)
    (hP : ∀ st a rest st1 rest1, P st → pass st a rest = .ok (st1, rest1) → P st1)
    (st0 stk st1 : σ) (argv : List String) (k : Nat) (a : String) (rest : List String)
    (hreach : arg_steps pass k st0 argv = .ok (stk, a :: rest)) (ha : K a)
    (hend : arg_loop pass argv.length st0 argv = .ok st1) : P st1 := by
  rw [arg_loop_of_steps pass hs k st0 stk argv (a :: rest) hreach] at hend
  simp only [arg_loop, List.length_cons] at hend
  cases h1 : pass stk a rest with
  | error e => simp [h1] at hend
  | ok x =>
    obtain ⟨st2, r2⟩ := x
    simp only [h1] at hend
    exact arg_loop_invariant pass P hP _ st2 st1 r2 (hK stk a rest st2 r2 ha h1) hend

/-- When the loop reaches an argument whose turn fails, the loop fails the same
way. -/
theorem arg_loop_fails_at {σ : Type}
    (pass : σ → String → List String → Except Fail (σ × List String))
    (hs : ∀ st a rest st1 rest1, pass st a rest = .ok (st1, rest1) → rest1.length ≤ rest.length)
    (st0 stk : σ) (argv : List String) (k : Nat) (a : String) (rest : List String) (e : Fail)
    (hreach : arg_steps pass k st0 argv = .ok (stk, a :: rest))
    (hfail : pass stk a rest = .error e) :
    arg_loop pass argv.length st0 argv = .error e := by
  rw [arg_loop_of_steps pass hs k st0 stk argv (a :: rest) hreach]
  simp only [arg_loop, List.length_cons, hfail]

/-- The branches in the trace of a loop are those of the arguments its turns
reach. -/
theorem arg_trace_iff {σ κ : Type} (kw : String → κ)
    (pass : σ → String → List String → Except Fail (σ × List String))
    (hs : ∀ st a rest st1 rest1, pass st a rest = .ok (st1, rest1) → rest1.length ≤ rest.length)
    (x : κ) (fuel : Nat) :
    ∀ (st : σ) (argv : List String), argv.length ≤ fuel →
      (x ∈ arg_trace kw pass fuel st argv ↔
        ∃ (k : Nat) (stk : σ) (a : String) (rest : List String),
          arg_steps pass k st argv = .ok (stk, a :: rest) ∧ kw a = x) := by
  induction fuel with
  | zero =>
    intro st argv hlen
    cases argv with
    | nil =>
      simp only [arg_trace, List.not_mem_nil, false_iff, not_exists, not_and]
      intro k stk a rest h
      cases k <;> simp [arg_steps] at h
    | cons b r => simp at hlen
  | succ f ih =>
    intro st argv hlen
    cases argv with
    | nil =>
      simp only [arg_trace, List.not_mem_nil, false_iff, not_exists, not_and]
      intro k stk a rest h
      cases k <;> simp [arg_steps] at h
    | cons b r =>
      simp only [List.length_cons] at hlen
      simp only [arg_trace, List.mem_cons]
      constructor
      · rintro (h | h)
        · exact ⟨0, st, b, r, rfl, h.symm⟩
        · cases hp : pass st b r with
          | error e => simp [hp] at h
          | ok y =>
            obtain ⟨st1, r1⟩ := y
            simp only [hp] at h
            have hsh := hs st b r st1 r1 hp
            obtain ⟨k, stk, a, rest, hk, ha⟩ := (ih st1 r1 (by omega)).mp h
            exact ⟨k + 1, stk, a, rest, by simp only [arg_steps, hp]; exact hk, ha⟩
      · rintro ⟨k, stk, a, rest, hk, ha⟩
        cases k with
        | zero =>
          simp only [arg_steps, Except.ok.injEq, Prod.mk.injEq, List.cons.injEq] at hk
          left
          rw [← ha, hk.2.1]
        | succ k =>
          simp only [arg_steps] at hk
          cases hp : pass st b r with
          | error e => simp [hp] at hk
          | ok y =>
            obtain ⟨st1, r1⟩ := y
            simp only [hp] at hk
            have hsh := hs st b r st1 r1 hp
            right
            exact (ih st1 r1 (by omega)).mpr ⟨k, stk, a, rest, hk, ha⟩

/-! ## Lemmas on the passes of `fdb_modify` -/

theorem parse_to_addr_shrinks (E : Ext) (addr : Option String) (a : String)
    (rest : List String) (x : String) (rest1 : List String)
    (h : parse_to_addr E addr a rest = .ok (x, rest1)) : rest1.length ≤ rest.length := by
  unfold parse_to_addr at h
  by_cases hto : a = "to"
  · cases rest with
    | nil => simp [hto] at h
    | cons v post =>
      simp only [hto, if_true] at h
      split_ifs at h
      simp only [Except.ok.injEq, Prod.mk.injEq] at h
      rw [← h.2]
      simp
  · simp only [hto, if_false] at h
    split_ifs at h
    simp only [Except.ok.injEq, Prod.mk.injEq] at h
    rw [← h.2]

theorem ite_keep {α : Type} (P : α → Prop) (c : Prop) [Decidable c] (x y : α) (hx : P x)
    (hy : P y) : P (if c then x else y) := by
  split <;> assumption

/-- The chain of `fdb_modify` never selects the branches that only `fdb_get` has. -/
theorem fdb_modify_keyword_range (E : Ext) (a : String) :
    fdb_modify_keyword E a ≠ .kw_brport ∧ fdb_modify_keyword E a ≠ .kw_br := by
  unfold fdb_modify_keyword
  repeat' refine ite_keep (fun k => k ≠ Keyword.kw_brport ∧ k ≠ Keyword.kw_br) _ _ _ ?_ ?_
  all_goals exact ⟨nofun, nofun⟩

set_option maxRecDepth 100000 in
theorem or_flags_keep :
    ∀ x, x < 256 → x &&& 6 = 0 →
      ((x ||| 128) % 256 < 256 ∧ (x ||| 128) % 256 &&& 6 = 0) ∧
      ((x ||| 1) % 256 < 256 ∧ (x ||| 1) % 256 &&& 6 = 0) ∧
      ((x ||| 16) % 256 < 256 ∧ (x ||| 16) % 256 &&& 6 = 0) ∧
      ((x ||| 64) % 256 < 256 ∧ (x ||| 64) % 256 &&& 6 = 0) ∧
      ((x ||| 2) % 256 &&& 2 = 2 ∧ (x ||| 2) % 256 &&& 4 = 0) := by
  decide

theorem parse_vni_lt (E : Ext) (v : String) (x : Nat) (h : parse_vni E v = .ok x) :
    x < 2 ^ 24 ∧ x ≠ ULONG_MAX E := by
  unfold parse_vni at h
  dsimp only at h
  split_ifs at h with hc
  simp only [Except.ok.injEq] at h
  simp only [not_or, not_not] at hc
  rw [← h]
  refine ⟨?_, hc.2.2⟩
  have := hc.2.1
  rw [Nat.shiftRight_eq_div_pow] at this
  exact (Nat.div_eq_zero_iff (by norm_num)).mp this

/-- What a pass of the loop of `fdb_modify` that does not leave the process
changes: it consumes arguments, and each local is written only by its own
branch. -/
theorem fdb_modify_arg_frame (E : Ext) (st : ModifyState) (a : String) (rest : List String)
    (st1 : ModifyState) (rest1 : List String)
    (h : fdb_modify_arg E st a rest = .ok (st1, rest1)) :
    rest1.length ≤ rest.length ∧
    (fdb_modify_keyword E a ≠ .kw_dev → st1.d = st.d) ∧
    (fdb_modify_keyword E a ≠ .kw_other → st1.addr = st.addr) ∧
    (fdb_modify_keyword E a ≠ .kw_dst → st1.dst_ok = st.dst_ok) ∧
    (fdb_modify_keyword E a = .kw_dst → st1.dst_ok = true) ∧
    (fdb_modify_keyword E a ≠ .kw_vni → st1.vni = st.vni) ∧
    (fdb_modify_keyword E a = .kw_vni → st1.vni < 2 ^ 24) ∧
    (fdb_modify_keyword E a ≠ .kw_self → fdb_modify_keyword E a ≠ .kw_master →
      st.req.ndm_flags < 256 ∧ st.req.ndm_flags &&& 6 = 0 →
      st1.req.ndm_flags < 256 ∧ st1.req.ndm_flags &&& 6 = 0) ∧
    (fdb_modify_keyword E a ≠ .kw_local → fdb_modify_keyword E a ≠ .kw_temp →
      fdb_modify_keyword E a ≠ .kw_dynamic → st1.req.ndm_state = st.req.ndm_state) := by
  have hr := fdb_modify_keyword_range E a
  unfold fdb_modify_arg at h
  cases hk : fdb_modify_keyword E a <;> simp only [hk] at h hr
  case kw_brport => exact absurd rfl hr.1
  case kw_br => exact absurd rfl hr.2
  all_goals (try (repeat' split at h))
  all_goals (try simp at h)
  all_goals (try (obtain ⟨rfl, rfl⟩ := h))
  all_goals (try simp [or_flags, or_state, clear_state])
  all_goals first
    | exact (parse_vni_lt E _ _ (by assumption)).1
    | exact parse_to_addr_shrinks E _ _ _ _ _ (by assumption)
    | (intro h1 h2
       have hkeep := or_flags_keep _ h1 h2
       simp only [NTF_ROUTER, NTF_USE, NTF_EXT_LEARNED, NTF_STICKY]
       first
         | exact hkeep.1
         | exact hkeep.2.1
         | exact hkeep.2.2.1
         | exact hkeep.2.2.2.1)

theorem fdb_modify_arg_shrinks (E : Ext) (st : ModifyState) (a : String) (rest : List String)
    (st1 : ModifyState) (rest1 : List String)
    (h : fdb_modify_arg E st a rest = .ok (st1, rest1)) : rest1.length ≤ rest.length :=
  (fdb_modify_arg_frame E st a rest st1 rest1 h).1

/-- The locals with which `fdb_modify` leaves its loop are those after
`argv.length` passes, no argument being left. -/
theorem fdb_modify_steps_end (E : Ext) (cmd flags : Nat) (argv : List String)
    (st : ModifyState)
    (hloop : fdb_modify_args E argv.length (fdb_modify_init E cmd flags) argv = .ok st) :
    fdb_modify_steps E argv.length (fdb_modify_init E cmd flags) argv = .ok (st, []) :=
  arg_steps_of_loop (fdb_modify_arg E) (fdb_modify_arg_shrinks E) argv.length _ st argv
    (Nat.le_refl _) hloop

/-- When the loop of `fdb_modify` reaches an argument whose pass leaves the
function, `fdb_modify` ends the same way. -/
theorem fdb_modify_fails_at (E : Ext) (cmd flags : Nat) (argv : List String) (k : Nat)
    (st : ModifyState) (a : String) (rest : List String) (e : Fail)
    (hreach : fdb_modify_steps E k (fdb_modify_init E cmd flags) argv = .ok (st, a :: rest))
    (hfail : fdb_modify_arg E st a rest = .error e) :
    fdb_modify E cmd flags argv = .error e := by
  have h := arg_loop_fails_at (fdb_modify_arg E) (fdb_modify_arg_shrinks E) _ st argv k a rest e
    hreach hfail
  simp only [fdb_modify, fdb_modify_args, h]

/-- A branch is in the trace of `fdb_modify` exactly when the loop reaches an
argument that selects it. -/
theorem fdb_modify_trace_iff (E : Ext) (cmd flags : Nat) (argv : List String) (x : Keyword) :
    x ∈ fdb_modify_trace E cmd flags argv ↔
      ∃ (k : Nat) (stk : ModifyState) (a : String) (rest : List String),
        fdb_modify_steps E k (fdb_modify_init E cmd flags) argv = .ok (stk, a :: rest) ∧
        fdb_modify_keyword E a = x :=
  arg_trace_iff (fdb_modify_keyword E) (fdb_modify_arg E) (fdb_modify_arg_shrinks E) x
    argv.length _ argv (Nat.le_refl _)

theorem ULONG_MAX_ge (E : Ext) : 2 ^ 24 ≤ ULONG_MAX E := by
  unfold ULONG_MAX
  split <;> norm_num

/-- A `dst` argument that the loop of `fdb_modify` goes through leaves `dst_ok`
set until the end of the loop, and a `vni` argument leaves `vni` below 2^24. -/
theorem fdb_modify_dst_vni_sticky (E : Ext) (cmd flags : Nat) (argv : List String)
    (st stk : ModifyState) (k : Nat) (a : String) (rest : List String)
    (hloop : fdb_modify_args E argv.length (fdb_modify_init E cmd flags) argv = .ok st)
    (hreach : fdb_modify_steps E k (fdb_modify_init E cmd flags) argv = .ok (stk, a :: rest)) :
    (fdb_modify_keyword E a = .kw_dst → st.dst_ok = true) ∧
    (fdb_modify_keyword E a = .kw_vni → st.vni < 2 ^ 24) := by
  constructor
  · intro hk
    exact arg_loop_sticky (fdb_modify_arg E) (fun s => s.dst_ok = true)
      (fun x => fdb_modify_keyword E x = .kw_dst) (fdb_modify_arg_shrinks E)
      (fun s x r s1 r1 hx hp => (fdb_modify_arg_frame E s x r s1 r1 hp).2.2.2.2.1 hx)
      (fun s x r s1 r1 hs hp => by
        by_cases hx : fdb_modify_keyword E x = .kw_dst
        · exact (fdb_modify_arg_frame E s x r s1 r1 hp).2.2.2.2.1 hx
        · show s1.dst_ok = true
          rw [(fdb_modify_arg_frame E s x r s1 r1 hp).2.2.2.1 hx]
          exact hs)
      _ stk st argv k a rest hreach hk hloop
  · intro hk
    exact arg_loop_sticky (fdb_modify_arg E) (fun s => s.vni < 2 ^ 24)
      (fun x => fdb_modify_keyword E x = .kw_vni) (fdb_modify_arg_shrinks E)
      (fun s x r s1 r1 hx hp => (fdb_modify_arg_frame E s x r s1 r1 hp).2.2.2.2.2.2.1 hx)
      (fun s x r s1 r1 hs hp => by
        by_cases hx : fdb_modify_keyword E x = .kw_vni
        · exact (fdb_modify_arg_frame E s x r s1 r1 hp).2.2.2.2.2.2.1 hx
        · have := (fdb_modify_arg_frame E s x r s1 r1 hp).2.2.2.2.2.1 hx
          simp only at hs ⊢
          rw [this]
          exact hs)
      _ stk st argv k a rest hreach hk hloop

/-- With no `dst` and no `vni` argument among those the loop of `fdb_modify`
goes through, `dst_ok` and `vni` keep their initial values. -/
theorem fdb_modify_dst_vni_unset (E : Ext) (cmd flags : Nat) (argv : List String)
    (st : ModifyState)
    (hloop : fdb_modify_args E argv.length (fdb_modify_init E cmd flags) argv = .ok st)
    (hnone : ¬ ∃ (k : Nat) (stk : ModifyState) (a : String) (rest : List String),
      fdb_modify_steps E k (fdb_modify_init E cmd flags) argv = .ok (stk, a :: rest) ∧
      (fdb_modify_keyword E a = .kw_dst ∨ fdb_modify_keyword E a = .kw_vni)) :
    st.dst_ok = false ∧ st.vni = ULONG_MAX E := by
  rcases arg_steps_provenance (fdb_modify_arg E)
      (fun s => s.dst_ok = false ∧ s.vni = ULONG_MAX E)
      (fun x => fdb_modify_keyword E x = .kw_dst ∨ fdb_modify_keyword E x = .kw_vni)
      (fun s x r s1 r1 hs hx hp => by
        simp only [not_or] at hx
        have hf := fdb_modify_arg_frame E s x r s1 r1 hp
        exact ⟨by rw [hf.2.2.2.1 hx.1]; exact hs.1, by rw [hf.2.2.2.2.2.1 hx.2]; exact hs.2⟩)
      (fdb_modify_init E cmd flags) argv ⟨rfl, rfl⟩ argv.length st []
      (fdb_modify_steps_end E cmd flags argv st hloop) with h | ⟨j, stj, a, r, -, hs, hK⟩
  · exact h
  · exact absurd ⟨j, stj, a, r, hs, hK⟩ hnone

/-! ## Claims on `fdb_modify` and `fdb_get` -/

/-- C17 (as stated, refuted): `nhid 5 port 0` with a device and an address is
accepted, and the request carries `NDA_NH_ID` and no `NDA_PORT`. -/
theorem C17_nhid_with_port_zero_accepted :
    fdb_modify (demoExt true) 28 0x600
      ["aa:bb:cc:dd:ee:ff", "dev", "br0", "nhid", "5", "port", "0"]
      = .ok { nlmsg_len := 48, nlmsg_flags := 0x601, nlmsg_type := 28, ndm_family := PF_BRIDGE,
              ndm_ifindex := 2, ndm_state := NUD_NOARP ||| NUD_PERMANENT, ndm_flags := NTF_SELF,
              attrs := [{ rta_len := 10, rta_type := .NDA_LLADDR,
                          data := [0xaa, 0xbb, 0xcc, 0xdd, 0xee, 0xff] },
                        { rta_len := 8, rta_type := .NDA_NH_ID, data := [5, 0, 0, 0] }] } := by
  decide

/-- C17 (amended): let the loop of `fdb_modify` end with a device and an
address. (1) If the `nhid` left by the last `nhid` argument is non-zero and the
loop went through a `dst` or a `vni` branch, or the port left by the last
`port` argument is non-zero, `fdb_modify` returns -1 and hands no request to
`rtnl_talk`. (2) If `nhid` is zero, or the loop went through no `dst` and no
`vni` branch and the port is zero, the test does not fire: `fdb_modify` goes on
to build the request. (3) and (4): the `nhid` and `port` branches store the
value read. -/
theorem C17_nhid_exclusion (E : Ext) (cmd flags : Nat) (argv : List String) (st : ModifyState)
    (d addr : String)
    (hloop : fdb_modify_args E argv.length (fdb_modify_init E cmd flags) argv = .ok st)
    (hd : st.d = some d) (ha : st.addr = some addr) :
    (st.nhid ≠ 0 →
      (Keyword.kw_dst ∈ fdb_modify_trace E cmd flags argv ∨
        Keyword.kw_vni ∈ fdb_modify_trace E cmd flags argv ∨ st.port ≠ 0) →
      fdb_modify E cmd flags argv = .error .err) ∧
    ((st.nhid = 0 ∨
        (Keyword.kw_dst ∉ fdb_modify_trace E cmd flags argv ∧
          Keyword.kw_vni ∉ fdb_modify_trace E cmd flags argv ∧ st.port = 0)) →
      fdb_modify E cmd flags argv = fdb_modify_build E st d addr) ∧
    (∀ (s : ModifyState) (a v : String) (post : List String),
      fdb_modify_keyword E a = .kw_nhid →
      fdb_modify_arg E s a (v :: post) =
        match E.get_u32 v 0 with
        | none => .error .exit
        | some x => .ok ({ s with nhid := x % 2 ^ 32 }, post)) ∧
    (∀ (s : ModifyState) (a v : String) (post : List String),
      fdb_modify_keyword E a = .kw_port → (E.strtoul v 0).2 = "" →
      fdb_modify_arg E s a (v :: post) =
        if (E.strtoul v 0).1 % (ULONG_MAX E + 1) > 0xffff then .error .exit
        else .ok ({ s with port := (E.strtoul v 0).1 % (ULONG_MAX E + 1) }, post)) := by
  refine ⟨?_, ?_, ?_, ?_⟩
  · intro hn hor
    have hcond : st.dst_ok = true ∨ st.port ≠ 0 ∨ st.vni ≠ ULONG_MAX E := by
      rcases hor with hk | hk | hp
      · obtain ⟨k, stk, a, rest, hreach, hka⟩ :=
          (fdb_modify_trace_iff E cmd flags argv _).mp hk
        exact Or.inl
          ((fdb_modify_dst_vni_sticky E cmd flags argv st stk k a rest hloop hreach).1 hka)
      · obtain ⟨k, stk, a, rest, hreach, hka⟩ :=
          (fdb_modify_trace_iff E cmd flags argv _).mp hk
        have hv :=
          (fdb_modify_dst_vni_sticky E cmd flags argv st stk k a rest hloop hreach).2 hka
        have := ULONG_MAX_ge E
        exact Or.inr (Or.inr (by omega))
      · exact Or.inr (Or.inl hp)
    simp only [fdb_modify, hloop, fdb_modify_finish, hd, ha, ne_eq, hn, not_false_eq_true,
      true_and]
    rw [if_pos hcond]
  · intro hor
    have hcond : ¬ (st.nhid ≠ 0 ∧ (st.dst_ok = true ∨ st.port ≠ 0 ∨ st.vni ≠ ULONG_MAX E)) := by
      rcases hor with h0 | ⟨hnd, hnv, hp⟩
      · simp [h0]
      · have hu := fdb_modify_dst_vni_unset E cmd flags argv st hloop (by
          rintro ⟨k, stk, a, rest, hreach, hka | hka⟩
          · exact hnd ((fdb_modify_trace_iff E cmd flags argv _).mpr ⟨k, stk, a, rest, hreach, hka⟩)
          · exact hnv ((fdb_modify_trace_iff E cmd flags argv _).mpr ⟨k, stk, a, rest, hreach, hka⟩))
        simp [hu.1, hu.2, hp]
    simp only [fdb_modify, hloop, fdb_modify_finish, hd, ha]
    rw [if_neg hcond]
  · intro s a v post hk
    cases h : E.get_u32 v 0 <;> simp [fdb_modify_arg, hk, h]
  · intro s a v post hk he
    by_cases hc : (E.strtoul v 0).1 % (ULONG_MAX E + 1) > 0xffff <;>
      simp [fdb_modify_arg, hk, he, hc]

/-- C17 witness: `nhid 5 dst 10.0.0.1` with a device and an address. -/
theorem C17_nhid_exclusion_witness :
    fdb_modify (demoExt true) 28 0x600
      ["aa:bb:cc:dd:ee:ff", "dev", "br0", "nhid", "5", "dst", "10.0.0.1"] = .error .err :=
  (C17_nhid_exclusion (demoExt true) 28 0x600
    ["aa:bb:cc:dd:ee:ff", "dev", "br0", "nhid", "5", "dst", "10.0.0.1"]
    { fdb_modify_init (demoExt true) 28 0x600 with
      addr := some "aa:bb:cc:dd:ee:ff"
      d := some "br0"
      nhid := 5
      dst_ok := true
      dst := some { family := 2, bytelen := 4, bitlen := 32, data := [10, 0, 0, 1] } }
    "br0" "aa:bb:cc:dd:ee:ff" (by decide) rfl rfl).1 (by decide) (Or.inl (by decide))

theorem addattr_l_keep (r : req) (maxlen : Nat) (t : NdaId) (d : List Nat) :
    (addattr_l r maxlen t d).2.ndm_flags = r.ndm_flags ∧
    (addattr_l r maxlen t d).2.ndm_state = r.ndm_state := by
  unfold addattr_l
  dsimp only
  split <;> exact ⟨rfl, rfl⟩

/-- The records appended by `fdb_modify` leave `ndm_flags` and `ndm_state` alone. -/
theorem fdb_modify_attrs_keep (E : Ext) (st : ModifyState) (mac : List Nat) (r0 : req) :
    (fdb_modify_attrs E st mac r0).ndm_flags = r0.ndm_flags ∧
    (fdb_modify_attrs E st mac r0).ndm_state = r0.ndm_state := by
  cases hdst : st.dst <;>
    simp [fdb_modify_attrs, hdst, apply_ite req.ndm_flags, apply_ite req.ndm_state, addattr16,
      addattr32, addattr_l_keep]

/-- The flags and state of the request that `fdb_modify_build` returns. -/
theorem fdb_modify_build_flags (E : Ext) (st : ModifyState) (d addr : String) (r : req)
    (h : fdb_modify_build E st d addr = .ok r) :
    r.ndm_flags =
      (if st.req.ndm_flags &&& (NTF_SELF ||| NTF_MASTER) = 0 then
        (st.req.ndm_flags ||| NTF_SELF) % 2 ^ 8
      else st.req.ndm_flags) ∧
    r.ndm_state =
      (if st.req.ndm_state &&& (NUD_PERMANENT ||| NUD_REACHABLE) = 0 then
        (st.req.ndm_state ||| NUD_PERMANENT) % 2 ^ 16
      else st.req.ndm_state) := by
  unfold fdb_modify_build at h
  dsimp only at h
  split at h
  · simp at h
  · split at h
    · simp at h
    · simp only [Except.ok.injEq] at h
      rw [← h]
      exact ⟨(fdb_modify_attrs_keep E st _ _).1, (fdb_modify_attrs_keep E st _ _).2⟩

/-- A request comes out of `fdb_modify` only through `fdb_modify_build`, on the
locals with which the loop ended. -/
theorem fdb_modify_ok (E : Ext) (cmd flags : Nat) (argv : List String) (r : req)
    (h : fdb_modify E cmd flags argv = .ok r) :
    ∃ (st : ModifyState) (d addr : String),
      fdb_modify_args E argv.length (fdb_modify_init E cmd flags) argv = .ok st ∧
      st.d = some d ∧ st.addr = some addr ∧
      ¬ (st.nhid ≠ 0 ∧ (st.dst_ok = true ∨ st.port ≠ 0 ∨ st.vni ≠ ULONG_MAX E)) ∧
      fdb_modify_build E st d addr = .ok r := by
  unfold fdb_modify at h
  cases hl : fdb_modify_args E argv.length (fdb_modify_init E cmd flags) argv with
  | error e => simp [hl] at h
  | ok st =>
    simp only [hl, fdb_modify_finish] at h
    cases hd : st.d with
    | none => simp [hd] at h
    | some d =>
      cases ha : st.addr with
      | none => simp [hd, ha] at h
      | some addr =>
        simp only [hd, ha] at h
        split_ifs at h with hc
        exact ⟨st, d, addr, rfl, hd, ha, hc, h⟩

/-- A property of the locals of `fdb_modify` that holds on entry and that only
the branches in `K` can break holds at the end of the loop when the loop went
through none of them. -/
theorem fdb_modify_untouched (E : Ext) (cmd flags : Nat) (argv : List String)
    (st : ModifyState) (P : ModifyState → Prop) (K : List Keyword)
    (hloop : fdb_modify_args E argv.length (fdb_modify_init E cmd flags) argv = .ok st)
    (h0 : P (fdb_modify_init E cmd flags))
    (hP : ∀ s a rest s1 rest1, P s → fdb_modify_keyword E a ∉ K →
      fdb_modify_arg E s a rest = .ok (s1, rest1) → P s1)
    (hK : ∀ x ∈ K, x ∉ fdb_modify_trace E cmd flags argv) : P st := by
  rcases arg_steps_provenance (fdb_modify_arg E) P (fun x => fdb_modify_keyword E x ∈ K) hP
      (fdb_modify_init E cmd flags) argv h0 argv.length st []
      (fdb_modify_steps_end E cmd flags argv st hloop) with h | ⟨j, stj, a, r, -, hs, hin⟩
  · exact h
  · exact absurd ((fdb_modify_trace_iff E cmd flags argv _).mpr ⟨j, stj, a, r, hs, rfl⟩)
      (hK _ hin)

/-- C18: let `fdb_modify` build the request `r`. (1) If the loop went through
neither the `self` nor the `master` branch, `r` has `NTF_SELF` set (and
`NTF_MASTER` clear). (2) If it went through none of the `local`/`permanent`,
`temp`/`static` and `dynamic` branches, `ndm_state` is
`NUD_NOARP | NUD_PERMANENT`: the `NUD_PERMANENT` bit is set on top of the
initial `NUD_NOARP`, and `state_n2a` names that state `permanent`. -/
theorem C18_defaults (E : Ext) (cmd flags : Nat) (argv : List String) (r : req)
    (h : fdb_modify E cmd flags argv = .ok r) :
    (Keyword.kw_self ∉ fdb_modify_trace E cmd flags argv →
      Keyword.kw_master ∉ fdb_modify_trace E cmd flags argv →
      r.ndm_flags &&& NTF_SELF = NTF_SELF ∧ r.ndm_flags &&& NTF_MASTER = 0) ∧
    (Keyword.kw_local ∉ fdb_modify_trace E cmd flags argv →
      Keyword.kw_temp ∉ fdb_modify_trace E cmd flags argv →
      Keyword.kw_dynamic ∉ fdb_modify_trace E cmd flags argv →
      r.ndm_state = NUD_NOARP ||| NUD_PERMANENT ∧
      r.ndm_state &&& NUD_PERMANENT = NUD_PERMANENT ∧
      ∀ json, state_n2a json r.ndm_state = "permanent") := by
  obtain ⟨st, d, addr, hloop, -, -, -, hb⟩ := fdb_modify_ok E cmd flags argv r h
  have hfl := fdb_modify_build_flags E st d addr r hb
  constructor
  · intro hns hnm
    have hP : st.req.ndm_flags < 256 ∧ st.req.ndm_flags &&& 6 = 0 :=
      fdb_modify_untouched E cmd flags argv st
        (fun s => s.req.ndm_flags < 256 ∧ s.req.ndm_flags &&& 6 = 0) [.kw_self, .kw_master]
        hloop (by simp [fdb_modify_init])
        (fun s x rr s1 r1 hs hx hp => by
          simp only [List.mem_cons, List.mem_singleton, List.not_mem_nil, or_false,
            not_or] at hx
          exact (fdb_modify_arg_frame E s x rr s1 r1 hp).2.2.2.2.2.2.2.1 hx.1 hx.2 hs)
        (by
          intro x hx
          simp only [List.mem_cons, List.mem_singleton, List.not_mem_nil, or_false] at hx
          rcases hx with rfl | rfl
          · exact hns
          · exact hnm)
    have h6 : st.req.ndm_flags &&& (NTF_SELF ||| NTF_MASTER) = 0 := hP.2
    rw [hfl.1, if_pos h6]
    exact (or_flags_keep _ hP.1 hP.2).2.2.2.2
  · intro hnl hnt hnd
    have hP : st.req.ndm_state = NUD_NOARP :=
      fdb_modify_untouched E cmd flags argv st
        (fun s => s.req.ndm_state = NUD_NOARP) [.kw_local, .kw_temp, .kw_dynamic]
        hloop rfl
        (fun s x rr s1 r1 hs hx hp => by
          simp only [List.mem_cons, List.mem_singleton, List.not_mem_nil, or_false,
            not_or] at hx
          show s1.req.ndm_state = NUD_NOARP
          rw [(fdb_modify_arg_frame E s x rr s1 r1 hp).2.2.2.2.2.2.2.2 hx.1 hx.2.1 hx.2.2]
          exact hs)
        (by
          intro x hx
          simp only [List.mem_cons, List.mem_singleton, List.not_mem_nil, or_false] at hx
          rcases hx with rfl | rfl | rfl
          · exact hnl
          · exact hnt
          · exact hnd)
    have hs : r.ndm_state = NUD_NOARP ||| NUD_PERMANENT := by
      rw [hfl.2, hP]
      decide
    rw [hs]
    exact ⟨rfl, by decide, fun json => by cases json <;> decide⟩

/-- C18 witness: scenario 1, `de:ad:be:ef:00:01 dev br0 dst 10.0.0.5 vlan 10`,
gets the flag `NTF_SELF` and the state `NUD_NOARP | NUD_PERMANENT`. -/
theorem C18_defaults_witness :
    ((2 : Nat) &&& NTF_SELF = NTF_SELF ∧ (2 : Nat) &&& NTF_MASTER = 0) ∧
    ((192 : Nat) = NUD_NOARP ||| NUD_PERMANENT ∧
      (192 : Nat) &&& NUD_PERMANENT = NUD_PERMANENT ∧
      ∀ json, state_n2a json 192 = "permanent") :=
  ⟨(C18_defaults (demoExt true) 28 0x600
      ["de:ad:be:ef:00:01", "dev", "br0", "dst", "10.0.0.5", "vlan", "10"]
      { nlmsg_len := 56, nlmsg_flags := 0x601, nlmsg_type := 28, ndm_family := PF_BRIDGE,
        ndm_ifindex := 2, ndm_state := 192, ndm_flags := 2,
        attrs := [{ rta_len := 10, rta_type := .NDA_LLADDR,
                    data := [0xde, 0xad, 0xbe, 0xef, 0x00, 0x01] },
                  { rta_len := 8, rta_type := .NDA_DST, data := [10, 0, 0, 5] },
                  { rta_len := 6, rta_type := .NDA_VLAN, data := [10, 0] }] }
      (by decide)).1 (by decide) (by decide),
   (C18_defaults (demoExt true) 28 0x600
      ["de:ad:be:ef:00:01", "dev", "br0", "dst", "10.0.0.5", "vlan", "10"]
      { nlmsg_len := 56, nlmsg_flags := 0x601, nlmsg_type := 28, ndm_family := PF_BRIDGE,
        ndm_ifindex := 2, ndm_state := 192, ndm_flags := 2,
        attrs := [{ rta_len := 10, rta_type := .NDA_LLADDR,
                    data := [0xde, 0xad, 0xbe, 0xef, 0x00, 0x01] },
                  { rta_len := 8, rta_type := .NDA_DST, data := [10, 0, 0, 5] },
                  { rta_len := 6, rta_type := .NDA_VLAN, data := [10, 0] }] }
      (by decide)).2 (by decide) (by decide) (by decide)⟩

/-! ## The records appended by `fdb_modify` -/

theorem abuf_length (bs : List Nat) : (abuf bs).length = 6 := by
  simp [abuf, ETH_ALEN]

/-- Appending a record that fits to a request whose length is aligned. -/
theorem addattr_l_fits (r : req) (maxlen : Nat) (t : NdaId) (d : List Nat)
    (h4 : r.nlmsg_len % 4 = 0) (hroom : r.nlmsg_len + NLMSG_ALIGN (4 + d.length) ≤ maxlen) :
    (addattr_l r maxlen t d).2 = { r with
      nlmsg_len := r.nlmsg_len + NLMSG_ALIGN (4 + d.length)
      attrs := r.attrs ++ [{ rta_len := 4 + d.length, rta_type := t, data := d }] } := by
  have ha : NLMSG_ALIGN r.nlmsg_len = r.nlmsg_len := by
    unfold NLMSG_ALIGN
    omega
  unfold addattr_l RTA_LENGTH
  simp only [ha, if_neg (Nat.not_lt.mpr hroom)]

/-- One optional `addattr` statement of `fdb_modify`: `r` is the request so far,
which differs from the initial `r0` by the records `A` and its length. -/
theorem add_step (r0 r : req) (A : List rtattr) (c : Prop) [Decidable c] (t : NdaId)
    (d : List Nat) (r1 : req)
    (hr : r = { r0 with nlmsg_len := r.nlmsg_len, attrs := r0.attrs ++ A })
    (h4 : r.nlmsg_len % 4 = 0) (hB : r.nlmsg_len ≤ r0.nlmsg_len + 20 * A.length)
    (hd : d.length ≤ 16) (hfit : r0.nlmsg_len + 20 * (A.length + 1) ≤ sizeof_req)
    (hr1 : (if c then (addattr_l r sizeof_req t d).2 else r) = r1) :
    r1 = { r0 with
        nlmsg_len := r1.nlmsg_len
        attrs := r0.attrs ++
          (A ++ if c then [{ rta_len := 4 + d.length, rta_type := t, data := d }] else []) } ∧
      r1.nlmsg_len % 4 = 0 ∧
      r1.nlmsg_len ≤ r0.nlmsg_len +
        20 * (A ++ if c then [({ rta_len := 4 + d.length, rta_type := t, data := d } : rtattr)]
          else []).length ∧
      (A ++ if c then [({ rta_len := 4 + d.length, rta_type := t, data := d } : rtattr)]
          else []).length ≤ A.length + 1 := by
  have hal : NLMSG_ALIGN (4 + d.length) % 4 = 0 ∧ NLMSG_ALIGN (4 + d.length) ≤ 20 := by
    unfold NLMSG_ALIGN
    omega
  by_cases hc : c
  · simp only [hc, if_true] at hr1 ⊢
    rw [addattr_l_fits r sizeof_req t d h4 (by omega)] at hr1
    subst hr1
    refine ⟨?_, ?_, ?_, ?_⟩
    · rw [hr]
      simp only [List.append_assoc]
    · simp only
      omega
    · simp only [List.length_append, List.length_cons, List.length_nil]
      omega
    · simp
  · simp only [hc, if_false, List.append_nil] at hr1 ⊢
    subst hr1
    exact ⟨hr, h4, hB, by omega⟩

/-- The optional records that `fdb_modify` appends after `NDA_DST`. -/
theorem fdb_modify_attrs_tail (E : Ext) (st : ModifyState) (r0 r2 : req) (A : List rtattr)
    (hr : r2 = { r0 with nlmsg_len := r2.nlmsg_len, attrs := r0.attrs ++ A })
    (h4 : r2.nlmsg_len % 4 = 0) (hB : r2.nlmsg_len ≤ r0.nlmsg_len + 20 * A.length)
    (hA : A.length ≤ 2) (hfit : r0.nlmsg_len + 160 ≤ sizeof_req) :
    let r3 :=
      if st.vid ≥ 0 then (addattr_l r2 sizeof_req .NDA_VLAN (u16_mem E.le st.vid.toNat)).2
      else r2
    let r4 :=
      if st.nhid > 0 then (addattr_l r3 sizeof_req .NDA_NH_ID (u32_mem E.le st.nhid)).2 else r3
    let r5 :=
      if st.port ≠ 0 then
        (addattr_l r4 sizeof_req .NDA_PORT (u16_mem E.le (htons E.le (st.port % 2 ^ 16)))).2
      else r4
    let r6 :=
      if st.vni ≠ ULONG_MAX E then
        (addattr_l r5 sizeof_req .NDA_VNI (u32_mem E.le (st.vni % 2 ^ 32))).2
      else r5
    let r7 :=
      if st.src_vni ≠ ULONG_MAX E then
        (addattr_l r6 sizeof_req .NDA_SRC_VNI (u32_mem E.le (st.src_vni % 2 ^ 32))).2
      else r6
    let r8 :=
      if st.via ≠ 0 then (addattr_l r7 sizeof_req .NDA_IFINDEX (u32_mem E.le st.via)).2 else r7
    r8 = { r0 with
      nlmsg_len := r8.nlmsg_len
      attrs := r0.attrs ++
        (A ++
          (if st.vid ≥ 0 then
            [{ rta_len := 6, rta_type := .NDA_VLAN, data := u16_mem E.le st.vid.toNat }]
          else []) ++
          (if st.nhid > 0 then
            [{ rta_len := 8, rta_type := .NDA_NH_ID, data := u32_mem E.le st.nhid }]
          else []) ++
          (if st.port ≠ 0 then
            [{ rta_len := 6, rta_type := .NDA_PORT,
               data := u16_mem E.le (htons E.le (st.port % 2 ^ 16)) }]
          else []) ++
          (if st.vni ≠ ULONG_MAX E then
            [{ rta_len := 8, rta_type := .NDA_VNI, data := u32_mem E.le (st.vni % 2 ^ 32) }]
          else []) ++
          (if st.src_vni ≠ ULONG_MAX E then
            [{ rta_len := 8, rta_type := .NDA_SRC_VNI,
               data := u32_mem E.le (st.src_vni % 2 ^ 32) }]
          else []) ++
          (if st.via ≠ 0 then
            [{ rta_len := 8, rta_type := .NDA_IFINDEX, data := u32_mem E.le st.via }]
          else [])) } := by
  intro r3 r4 r5 r6 r7 r8
  have l16 := Flower.u16_mem_length
  have l32 := Flower.u32_mem_length
  have s3 := add_step r0 r2 A (st.vid ≥ 0) .NDA_VLAN (u16_mem E.le st.vid.toNat) r3 hr h4 hB
    (by rw [l16]; omega) (by omega) rfl
  have s4 := add_step r0 r3 _ (st.nhid > 0) .NDA_NH_ID (u32_mem E.le st.nhid) r4 s3.1 s3.2.1
    s3.2.2.1 (by rw [l32]; omega) (by have := s3.2.2.2; omega) rfl
  have s5 := add_step r0 r4 _ (st.port ≠ 0) .NDA_PORT
    (u16_mem E.le (htons E.le (st.port % 2 ^ 16))) r5 s4.1 s4.2.1
    s4.2.2.1 (by rw [l16]; omega) (by have := s3.2.2.2; have := s4.2.2.2; omega) rfl
  have s6 := add_step r0 r5 _ (st.vni ≠ ULONG_MAX E) .NDA_VNI
    (u32_mem E.le (st.vni % 2 ^ 32)) r6 s5.1 s5.2.1
    s5.2.2.1 (by rw [l32]; omega)
    (by have := s3.2.2.2; have := s4.2.2.2; have := s5.2.2.2; omega) rfl
  have s7 := add_step r0 r6 _ (st.src_vni ≠ ULONG_MAX E) .NDA_SRC_VNI
    (u32_mem E.le (st.src_vni % 2 ^ 32)) r7 s6.1 s6.2.1
    s6.2.2.1 (by rw [l32]; omega)
    (by have := s3.2.2.2; have := s4.2.2.2; have := s5.2.2.2; have := s6.2.2.2; omega) rfl
  have s8 := add_step r0 r7 _ (st.via ≠ 0) .NDA_IFINDEX (u32_mem E.le st.via) r8 s7.1 s7.2.1
    s7.2.2.1 (by rw [l32]; omega)
    (by
      have := s3.2.2.2
      have := s4.2.2.2
      have := s5.2.2.2
      have := s6.2.2.2
      have := s7.2.2.2
      omega) rfl
  have := s8.1
  simp only [l16, l32] at this
  exact this

/-- The records that `fdb_modify` appends to a request with room for them, in
order: the address, then `NDA_DST`, `NDA_VLAN`, `NDA_NH_ID`, `NDA_PORT`,
`NDA_VNI`, `NDA_SRC_VNI` and `NDA_IFINDEX`, each when its local is set. -/
theorem fdb_modify_attrs_layout (E : Ext) (st : ModifyState) (mac : List Nat) (r0 : req)
    (h4 : r0.nlmsg_len % 4 = 0) (hfit : r0.nlmsg_len + 160 ≤ sizeof_req)
    (hdst : ∀ dst, st.dst = some dst → (dst.data.take dst.bytelen).length ≤ 16) :
    fdb_modify_attrs E st mac r0 = { r0 with
      nlmsg_len := (fdb_modify_attrs E st mac r0).nlmsg_len
      attrs := r0.attrs ++
        ([{ rta_len := 10, rta_type := .NDA_LLADDR, data := abuf mac }] ++
          (if st.dst_ok = true then
            match st.dst with
            | some dst =>
              [{ rta_len := 4 + (dst.data.take dst.bytelen).length, rta_type := .NDA_DST,
                 data := dst.data.take dst.bytelen }]
            | none => []
          else []) ++
          (if st.vid ≥ 0 then
            [{ rta_len := 6, rta_type := .NDA_VLAN, data := u16_mem E.le st.vid.toNat }]
          else []) ++
          (if st.nhid > 0 then
            [{ rta_len := 8, rta_type := .NDA_NH_ID, data := u32_mem E.le st.nhid }]
          else []) ++
          (if st.port ≠ 0 then
            [{ rta_len := 6, rta_type := .NDA_PORT,
               data := u16_mem E.le (htons E.le (st.port % 2 ^ 16)) }]
          else []) ++
          (if st.vni ≠ ULONG_MAX E then
            [{ rta_len := 8, rta_type := .NDA_VNI, data := u32_mem E.le (st.vni % 2 ^ 32) }]
          else []) ++
          (if st.src_vni ≠ ULONG_MAX E then
            [{ rta_len := 8, rta_type := .NDA_SRC_VNI,
               data := u32_mem E.le (st.src_vni % 2 ^ 32) }]
          else []) ++
          (if st.via ≠ 0 then
            [{ rta_len := 8, rta_type := .NDA_IFINDEX, data := u32_mem E.le st.via }]
          else [])) } := by
  have e1 : (addattr_l r0 sizeof_req NdaId.NDA_LLADDR (abuf mac)).2 = { r0 with
      nlmsg_len := r0.nlmsg_len + 12
      attrs := r0.attrs ++ [{ rta_len := 10, rta_type := .NDA_LLADDR, data := abuf mac }] } := by
    rw [addattr_l_fits r0 sizeof_req _ _ h4
      (by rw [abuf_length]; unfold NLMSG_ALIGN; omega)]
    simp only [abuf_length, NLMSG_ALIGN]
  cases hd : st.dst with
  | none =>
    simp only [fdb_modify_attrs, addattr16, addattr32, hd, ite_self, List.append_nil]
    generalize h1 : (addattr_l r0 sizeof_req NdaId.NDA_LLADDR (abuf mac)).2 = r1
    rw [e1] at h1
    exact fdb_modify_attrs_tail E st r0 r1 _ (by rw [← h1]) (by rw [← h1]; simp only; omega)
      (by rw [← h1]; simp only [List.length_cons, List.length_nil]; omega) (by simp) hfit
  | some dst =>
    simp only [fdb_modify_attrs, addattr16, addattr32, hd]
    generalize h1 : (addattr_l r0 sizeof_req NdaId.NDA_LLADDR (abuf mac)).2 = r1
    rw [e1] at h1
    generalize h2 : (if st.dst_ok = true then
      (addattr_l r1 sizeof_req NdaId.NDA_DST (List.take dst.bytelen dst.data)).2 else r1) = r2
    have s2 := add_step r0 r1 [{ rta_len := 10, rta_type := .NDA_LLADDR, data := abuf mac }]
      (st.dst_ok = true) .NDA_DST (List.take dst.bytelen dst.data) r2 (by rw [← h1])
      (by rw [← h1]; simp only; omega)
      (by rw [← h1]; simp only [List.length_cons, List.length_nil]; omega)
      (hdst dst hd) (by simp only [List.length_cons, List.length_nil]; omega) h2
    exact fdb_modify_attrs_tail E st r0 r2 _ s2.1 s2.2.1 s2.2.2.1
      (by have := s2.2.2.2; simpa using this) hfit

theorem to_short_small (v : Int) (h0 : 0 ≤ v) (h1 : v < 32768) : to_short v = v := by
  unfold to_short
  have e : v % 65536 = v := Int.emod_eq_of_lt h0 (by omega)
  rw [e, if_neg (by omega)]

theorem fdb_modify_keyword_dev (E : Ext) : fdb_modify_keyword E "dev" = .kw_dev := by
  unfold fdb_modify_keyword
  rw [if_pos rfl]

theorem fdb_modify_keyword_dst (E : Ext) : fdb_modify_keyword E "dst" = .kw_dst := by
  unfold fdb_modify_keyword
  rw [if_neg (by decide), if_pos rfl]

/-- Scenario 1 through the loop of `fdb_modify`. -/
theorem scenario1_loop (E : Ext) (cmd flags : Nat) (ADDR D IP V : String) (dst : inet_prefix)
    (hk0 : fdb_modify_keyword E ADDR = .kw_other) (hto : ADDR ≠ "to")
    (hhelp : E.matches_cmd ADDR "help" = false)
    (hkv : fdb_modify_keyword E "vlan" = .kw_vlan)
    (haddr : E.get_addr IP E.preferred_family = some dst) :
    fdb_modify_args E [ADDR, "dev", D, "dst", IP, "vlan", V].length
        (fdb_modify_init E cmd flags) [ADDR, "dev", D, "dst", IP, "vlan", V]
      = .ok { fdb_modify_init E cmd flags with
          addr := some ADDR
          d := some D
          dst_ok := true
          dst := some dst
          vid := to_short (E.atoi V) } := by
  simp [fdb_modify_args, arg_loop, fdb_modify_arg, hk0, parse_to_addr, hto, hhelp,
    fdb_modify_keyword_dev, fdb_modify_keyword_dst, hkv, haddr, fdb_modify_init]

/-- Three records appended one after the other when they fit. -/
theorem addattr_l_fits3 (r : req) (maxlen : Nat) (t1 t2 t3 : NdaId) (d1 d2 d3 : List Nat)
    (h4 : r.nlmsg_len % 4 = 0)
    (hroom : r.nlmsg_len + NLMSG_ALIGN (4 + d1.length) + NLMSG_ALIGN (4 + d2.length) +
      NLMSG_ALIGN (4 + d3.length) ≤ maxlen) :
    (addattr_l (addattr_l (addattr_l r maxlen t1 d1).2 maxlen t2 d2).2 maxlen t3 d3).2 =
      { r with
        nlmsg_len := r.nlmsg_len + NLMSG_ALIGN (4 + d1.length) + NLMSG_ALIGN (4 + d2.length) +
          NLMSG_ALIGN (4 + d3.length)
        attrs := r.attrs ++
          [{ rta_len := 4 + d1.length, rta_type := t1, data := d1 },
           { rta_len := 4 + d2.length, rta_type := t2, data := d2 },
           { rta_len := 4 + d3.length, rta_type := t3, data := d3 }] } := by
  have a1 : NLMSG_ALIGN (4 + d1.length) % 4 = 0 := Flower.NLMSG_ALIGN_mod _
  have a2 : NLMSG_ALIGN (4 + d2.length) % 4 = 0 := Flower.NLMSG_ALIGN_mod _
  rw [addattr_l_fits r maxlen t1 d1 h4 (by omega)]
  rw [addattr_l_fits _ maxlen t2 d2 (by simp only; omega) (by simp only; omega)]
  rw [addattr_l_fits _ maxlen t3 d3 (by simp only; omega) (by simp only; omega)]
  simp only [List.append_assoc, List.cons_append, List.nil_append]

/-- Two records appended one after the other when they fit. -/
theorem addattr_l_fits2 (r : req) (maxlen : Nat) (t1 t2 : NdaId) (d1 d2 : List Nat)
    (h4 : r.nlmsg_len % 4 = 0)
    (hroom : r.nlmsg_len + NLMSG_ALIGN (4 + d1.length) + NLMSG_ALIGN (4 + d2.length)
      ≤ maxlen) :
    (addattr_l (addattr_l r maxlen t1 d1).2 maxlen t2 d2).2 =
      { r with
        nlmsg_len := r.nlmsg_len + NLMSG_ALIGN (4 + d1.length) + NLMSG_ALIGN (4 + d2.length)
        attrs := r.attrs ++
          [{ rta_len := 4 + d1.length, rta_type := t1, data := d1 },
           { rta_len := 4 + d2.length, rta_type := t2, data := d2 }] } := by
  have a1 : NLMSG_ALIGN (4 + d1.length) % 4 = 0 := Flower.NLMSG_ALIGN_mod _
  rw [addattr_l_fits r maxlen t1 d1 h4 (by omega)]
  rw [addattr_l_fits _ maxlen t2 d2 (by simp only; omega) (by simp only; omega)]
  simp only [List.append_assoc, List.cons_append, List.nil_append]

/-- Scenario 1: the request `fdb_modify` builds for `ADDR dev D dst IP vlan V`. -/
theorem scenario1 (E : Ext) (cmd flags : Nat) (ADDR D IP V : String) (dst : inet_prefix)
    (mac : List Nat)
    (hk0 : fdb_modify_keyword E ADDR = .kw_other) (hto : ADDR ≠ "to")
    (hhelp : E.matches_cmd ADDR "help" = false)
    (hkv : fdb_modify_keyword E "vlan" = .kw_vlan)
    (haddr : E.get_addr IP E.preferred_family = some dst)
    (hlen : (dst.data.take dst.bytelen).length ≤ 16)
    (hv0 : 0 ≤ E.atoi V) (hv1 : E.atoi V < 32768)
    (hmac : E.sscanf_lladdr ADDR = some mac)
    (hidx : E.ll_name_to_index D % 2 ^ 32 ≠ 0) :
    fdb_modify E cmd flags [ADDR, "dev", D, "dst", IP, "vlan", V] = .ok {
      nlmsg_len := 40 + NLMSG_ALIGN (4 + (dst.data.take dst.bytelen).length) + 8
      nlmsg_flags := (NLM_F_REQUEST ||| flags) % 2 ^ 16
      nlmsg_type := cmd % 2 ^ 16
      ndm_family := PF_BRIDGE
      ndm_ifindex := E.ll_name_to_index D % 2 ^ 32
      ndm_state := NUD_NOARP ||| NUD_PERMANENT
      ndm_flags := NTF_SELF
      attrs := [
        { rta_len := 10, rta_type := .NDA_LLADDR, data := abuf mac },
        { rta_len := 4 + (dst.data.take dst.bytelen).length, rta_type := .NDA_DST,
          data := dst.data.take dst.bytelen },
        { rta_len := 6, rta_type := .NDA_VLAN, data := u16_mem E.le (E.atoi V).toNat }] } := by
  have hst : (if NUD_NOARP &&& (NUD_PERMANENT ||| NUD_REACHABLE) = 0 then
      (NUD_NOARP ||| NUD_PERMANENT) % 2 ^ 16 else NUD_NOARP) = NUD_NOARP ||| NUD_PERMANENT := by
    decide
  have hfl : (if 0 &&& (NTF_SELF ||| NTF_MASTER) = 0 then (0 ||| NTF_SELF) % 2 ^ 8 else 0)
      = NTF_SELF := by
    decide
  unfold fdb_modify
  rw [scenario1_loop E cmd flags ADDR D IP V dst hk0 hto hhelp hkv haddr]
  simp only [fdb_modify_finish, fdb_modify_init, ne_eq, not_true_eq_false, false_and, if_false,
    fdb_modify_build, hmac, hidx, to_short_small _ hv0 hv1, fdb_modify_attrs, if_true, ge_iff_le,
    hv0, gt_iff_lt, Nat.lt_irrefl, addattr16, NLMSG_LENGTH, sizeof_ndmsg, hst, hfl]
  rw [addattr_l_fits3 _ _ _ _ _ _ _ _ (by simp only) (by
    simp only [abuf_length, Flower.u16_mem_length, sizeof_req, sizeof_ndmsg]
    unfold NLMSG_ALIGN
    omega)]
  simp only [abuf_length, Flower.u16_mem_length, List.nil_append, NLMSG_ALIGN]

/-- No pass of the loop of `fdb_modify` touches the length or the records of the
request. -/
theorem fdb_modify_arg_req (E : Ext) (st : ModifyState) (a : String) (rest : List String)
    (st1 : ModifyState) (rest1 : List String)
    (h : fdb_modify_arg E st a rest = .ok (st1, rest1)) :
    st1.req.nlmsg_len = st.req.nlmsg_len ∧ st1.req.attrs = st.req.attrs := by
  unfold fdb_modify_arg at h
  cases hk : fdb_modify_keyword E a <;> simp only [hk] at h
  all_goals (try (repeat' split at h))
  all_goals (try simp at h)
  all_goals (try (obtain ⟨rfl, rfl⟩ := h))
  all_goals (try simp [or_flags, or_state, clear_state])

theorem fdb_modify_loop_req (E : Ext) (cmd flags : Nat) (argv : List String) (st : ModifyState)
    (hloop : fdb_modify_args E argv.length (fdb_modify_init E cmd flags) argv = .ok st) :
    st.req.nlmsg_len = 28 ∧ st.req.attrs = [] :=
  arg_loop_invariant (fdb_modify_arg E) (fun s => s.req.nlmsg_len = 28 ∧ s.req.attrs = [])
    (fun s a rest s1 rest1 hs hp => by
      have := fdb_modify_arg_req E s a rest s1 rest1 hp
      exact ⟨this.1.trans hs.1, this.2.trans hs.2⟩)
    argv.length _ st argv ⟨rfl, rfl⟩ hloop

/-- The records of the request that `fdb_modify_build` returns are those that
`fdb_modify_attrs` appends to the request of the loop. -/
theorem fdb_modify_build_attrs (E : Ext) (st : ModifyState) (d addr : String) (mac : List Nat)
    (r : req) (hmac : E.sscanf_lladdr addr = some mac)
    (h : fdb_modify_build E st d addr = .ok r) :
    ∃ R0 : req, R0.nlmsg_len = st.req.nlmsg_len ∧ R0.attrs = st.req.attrs ∧
      r.attrs = (fdb_modify_attrs E st mac R0).attrs := by
  refine ⟨{ st.req with
    ndm_flags :=
      if st.req.ndm_flags &&& (NTF_SELF ||| NTF_MASTER) = 0 then
        (st.req.ndm_flags ||| NTF_SELF) % 2 ^ 8
      else st.req.ndm_flags
    ndm_state :=
      if st.req.ndm_state &&& (NUD_PERMANENT ||| NUD_REACHABLE) = 0 then
        (st.req.ndm_state ||| NUD_PERMANENT) % 2 ^ 16
      else st.req.ndm_state }, rfl, rfl, ?_⟩
  unfold fdb_modify_build at h
  simp only [hmac] at h
  split at h
  · simp at h
  · simp only [Except.ok.injEq] at h
    rw [← h]

/-- The records of a request built by `fdb_modify`, from the locals at the end
of the loop. -/
theorem fdb_modify_layout (E : Ext) (cmd flags : Nat) (argv : List String) (st : ModifyState)
    (addr : String) (mac : List Nat) (r : req)
    (hloop : fdb_modify_args E argv.length (fdb_modify_init E cmd flags) argv = .ok st)
    (ha : st.addr = some addr) (hmac : E.sscanf_lladdr addr = some mac)
    (hdst : ∀ dst, st.dst = some dst → (dst.data.take dst.bytelen).length ≤ 16)
    (h : fdb_modify E cmd flags argv = .ok r) :
    r.attrs =
      [{ rta_len := 10, rta_type := .NDA_LLADDR, data := abuf mac }] ++
      (if st.dst_ok = true then
        match st.dst with
        | some dst =>
          [{ rta_len := 4 + (dst.data.take dst.bytelen).length, rta_type := .NDA_DST,
             data := dst.data.take dst.bytelen }]
        | none => []
      else []) ++
      (if st.vid ≥ 0 then
        [{ rta_len := 6, rta_type := .NDA_VLAN, data := u16_mem E.le st.vid.toNat }]
      else []) ++
      (if st.nhid > 0 then
        [{ rta_len := 8, rta_type := .NDA_NH_ID, data := u32_mem E.le st.nhid }]
      else []) ++
      (if st.port ≠ 0 then
        [{ rta_len := 6, rta_type := .NDA_PORT,
           data := u16_mem E.le (htons E.le (st.port % 2 ^ 16)) }]
      else []) ++
      (if st.vni ≠ ULONG_MAX E then
        [{ rta_len := 8, rta_type := .NDA_VNI, data := u32_mem E.le (st.vni % 2 ^ 32) }]
      else []) ++
      (if st.src_vni ≠ ULONG_MAX E then
        [{ rta_len := 8, rta_type := .NDA_SRC_VNI, data := u32_mem E.le (st.src_vni % 2 ^ 32) }]
      else []) ++
      (if st.via ≠ 0 then
        [{ rta_len := 8, rta_type := .NDA_IFINDEX, data := u32_mem E.le st.via }]
      else []) := by
  obtain ⟨st1, d, addr1, hloop1, -, ha1, -, hb⟩ := fdb_modify_ok E cmd flags argv r h
  rw [hloop] at hloop1
  simp only [Except.ok.injEq] at hloop1
  subst hloop1
  rw [ha] at ha1
  simp only [Option.some.injEq] at ha1
  subst ha1
  have hreq := fdb_modify_loop_req E cmd flags argv st hloop
  obtain ⟨R0, h1, h2, h3⟩ := fdb_modify_build_attrs E st d addr mac r hmac hb
  rw [h3, fdb_modify_attrs_layout E st mac R0 (by rw [h1, hreq.1])
    (by rw [h1, hreq.1]; simp only [sizeof_req, sizeof_ndmsg]; omega) hdst]
  simp only [h2, hreq.2, List.nil_append]

/-- C19 (as stated, refuted): `port 0` is accepted and no `NDA_PORT` record is
appended. -/
theorem C19_port_zero_not_appended :
    fdb_modify (demoExt true) 28 0x600 ["aa:bb:cc:dd:ee:ff", "dev", "br0", "port", "0"]
      = .ok { nlmsg_len := 40, nlmsg_flags := 0x601, nlmsg_type := 28, ndm_family := PF_BRIDGE,
              ndm_ifindex := 2, ndm_state := NUD_NOARP ||| NUD_PERMANENT, ndm_flags := NTF_SELF,
              attrs := [{ rta_len := 10, rta_type := .NDA_LLADDR,
                          data := [0xaa, 0xbb, 0xcc, 0xdd, 0xee, 0xff] }] } := by
  decide

/-- C19 (amended): (1) for `ADDR dev D dst IP vlan V`, with `ADDR` accepted by
the `sscanf`, `IP` by `get_addr` (at most 16 bytes), `V` a number below 32768
and `D` an existing device, `fdb_modify` builds the request whose records are,
in this order, `NDA_LLADDR` with the six address bytes, `NDA_DST` with the
address bytes and `NDA_VLAN` with `V` as a host-order `u16`. (2) For every
argument list the records are, in this order, `NDA_LLADDR`, then `NDA_DST`,
`NDA_VLAN`, `NDA_NH_ID`, `NDA_PORT`, `NDA_VNI`, `NDA_SRC_VNI`, `NDA_IFINDEX`,
each present when its local is set: `NDA_PORT` only for a non-zero port.
(3) The two bytes of `NDA_PORT` are the port in network byte order. (4) A
numeric port above 65535 and (5) a VNI of 2^24 or more leave the process
through `invarg`; smaller values are stored. (6) A pass that leaves the
process ends `fdb_modify`. -/
theorem C19_attribute_layout (E : Ext) (cmd flags : Nat) :
    (∀ (ADDR D IP V : String) (dst : inet_prefix) (mac : List Nat),
      fdb_modify_keyword E ADDR = .kw_other → ADDR ≠ "to" →
      E.matches_cmd ADDR "help" = false →
      fdb_modify_keyword E "vlan" = .kw_vlan →
      E.get_addr IP E.preferred_family = some dst →
      (dst.data.take dst.bytelen).length ≤ 16 →
      0 ≤ E.atoi V → E.atoi V < 32768 →
      E.sscanf_lladdr ADDR = some mac →
      E.ll_name_to_index D % 2 ^ 32 ≠ 0 →
      fdb_modify E cmd flags [ADDR, "dev", D, "dst", IP, "vlan", V] = .ok {
        nlmsg_len := 40 + NLMSG_ALIGN (4 + (dst.data.take dst.bytelen).length) + 8
        nlmsg_flags := (NLM_F_REQUEST ||| flags) % 2 ^ 16
        nlmsg_type := cmd % 2 ^ 16
        ndm_family := PF_BRIDGE
        ndm_ifindex := E.ll_name_to_index D % 2 ^ 32
        ndm_state := NUD_NOARP ||| NUD_PERMANENT
        ndm_flags := NTF_SELF
        attrs := [
          { rta_len := 10, rta_type := .NDA_LLADDR, data := abuf mac },
          { rta_len := 4 + (dst.data.take dst.bytelen).length, rta_type := .NDA_DST,
            data := dst.data.take dst.bytelen },
          { rta_len := 6, rta_type := .NDA_VLAN, data := u16_mem E.le (E.atoi V).toNat }] }) ∧
    (∀ (argv : List String) (st : ModifyState) (addr : String) (mac : List Nat) (r : req),
      fdb_modify_args E argv.length (fdb_modify_init E cmd flags) argv = .ok st →
      st.addr = some addr → E.sscanf_lladdr addr = some mac →
      (∀ dst, st.dst = some dst → (dst.data.take dst.bytelen).length ≤ 16) →
      fdb_modify E cmd flags argv = .ok r →
      r.attrs =
        [{ rta_len := 10, rta_type := .NDA_LLADDR, data := abuf mac }] ++
        (if st.dst_ok = true then
          match st.dst with
          | some dst =>
            [{ rta_len := 4 + (dst.data.take dst.bytelen).length, rta_type := .NDA_DST,
               data := dst.data.take dst.bytelen }]
          | none => []
        else []) ++
        (if st.vid ≥ 0 then
          [{ rta_len := 6, rta_type := .NDA_VLAN, data := u16_mem E.le st.vid.toNat }]
        else []) ++
        (if st.nhid > 0 then
          [{ rta_len := 8, rta_type := .NDA_NH_ID, data := u32_mem E.le st.nhid }]
        else []) ++
        (if st.port ≠ 0 then
          [{ rta_len := 6, rta_type := .NDA_PORT,
             data := u16_mem E.le (htons E.le (st.port % 2 ^ 16)) }]
        else []) ++
        (if st.vni ≠ ULONG_MAX E then
          [{ rta_len := 8, rta_type := .NDA_VNI, data := u32_mem E.le (st.vni % 2 ^ 32) }]
        else []) ++
        (if st.src_vni ≠ ULONG_MAX E then
          [{ rta_len := 8, rta_type := .NDA_SRC_VNI,
             data := u32_mem E.le (st.src_vni % 2 ^ 32) }]
        else []) ++
        (if st.via ≠ 0 then
          [{ rta_len := 8, rta_type := .NDA_IFINDEX, data := u32_mem E.le st.via }]
        else [])) ∧
    (∀ (p : Nat), p ≤ 0xffff →
      u16_mem E.le (htons E.le (p % 2 ^ 16)) = [p / 256, p % 256]) ∧
    (∀ (s : ModifyState) (a v : String) (post : List String),
      fdb_modify_keyword E a = .kw_port → (E.strtoul v 0).2 = "" →
      fdb_modify_arg E s a (v :: post) =
        if (E.strtoul v 0).1 % (ULONG_MAX E + 1) > 0xffff then .error .exit
        else .ok ({ s with port := (E.strtoul v 0).1 % (ULONG_MAX E + 1) }, post)) ∧
    (∀ (s : ModifyState) (a v : String) (post : List String),
      fdb_modify_keyword E a = .kw_vni → (E.strtoul v 0).2 = "" →
      fdb_modify_arg E s a (v :: post) =
        if (E.strtoul v 0).1 % (ULONG_MAX E + 1) ≥ 2 ^ 24 then .error .exit
        else .ok ({ s with vni := (E.strtoul v 0).1 % (ULONG_MAX E + 1) }, post)) ∧
    (∀ (argv : List String) (k : Nat) (st : ModifyState) (a : String) (rest : List String)
        (e : Fail),
      fdb_modify_steps E k (fdb_modify_init E cmd flags) argv = .ok (st, a :: rest) →
      fdb_modify_arg E st a rest = .error e →
      fdb_modify E cmd flags argv = .error e) := by
  refine ⟨?_, ?_, ?_, ?_, ?_, ?_⟩
  · intro ADDR D IP V dst mac hk0 hto hhelp hkv haddr hlen hv0 hv1 hmac hidx
    exact scenario1 E cmd flags ADDR D IP V dst mac hk0 hto hhelp hkv haddr hlen hv0 hv1 hmac hidx
  · intro argv st addr mac r hloop ha hmac hdst h
    exact fdb_modify_layout E cmd flags argv st addr mac r hloop ha hmac hdst h
  · intro p hp
    rw [Flower.u16_mem_htons]
    simp only [Flower.be16_bytes]
    have e1 : p % 2 ^ 16 = p := Nat.mod_eq_of_lt (by omega)
    rw [e1]
    congr 1
    omega
  · intro s a v post hk he
    by_cases hc : (E.strtoul v 0).1 % (ULONG_MAX E + 1) > 0xffff <;>
      simp [fdb_modify_arg, hk, he, hc]
  · intro s a v post hk he
    have hU := ULONG_MAX_ge E
    have hsh : ∀ x : Nat, x >>> 24 = 0 ↔ x < 2 ^ 24 := by
      intro x
      rw [Nat.shiftRight_eq_div_pow]
      exact Nat.div_eq_zero_iff (by norm_num)
    by_cases hc : (E.strtoul v 0).1 % (ULONG_MAX E + 1) ≥ 2 ^ 24
    · have hcond : ((E.strtoul v 0).1 % (ULONG_MAX E + 1)) >>> 24 ≠ 0 := by
        rw [ne_eq, hsh]
        omega
      rw [if_pos hc]
      simp [fdb_modify_arg, hk, parse_vni, he, hcond]
    · have hcond : ((E.strtoul v 0).1 % (ULONG_MAX E + 1)) >>> 24 = 0 := by
        rw [hsh]
        omega
      have hne : (E.strtoul v 0).1 % (ULONG_MAX E + 1) ≠ ULONG_MAX E := by omega
      rw [if_neg hc]
      simp [fdb_modify_arg, hk, parse_vni, he, hcond, hne]
  · intro argv k st a rest e hreach hfail
    exact fdb_modify_fails_at E cmd flags argv k st a rest e hreach hfail

/-- C19 witness: scenario 1, `de:ad:be:ef:00:01 dev br0 dst 10.0.0.5 vlan 10`, on
a little-endian host. -/
theorem C19_attribute_layout_witness :
    fdb_modify (demoExt true) 28 0x600
      ["de:ad:be:ef:00:01", "dev", "br0", "dst", "10.0.0.5", "vlan", "10"] = .ok {
        nlmsg_len := 40 + NLMSG_ALIGN (4 + (List.take 4 [10, 0, 0, 5]).length) + 8
        nlmsg_flags := (NLM_F_REQUEST ||| 0x600) % 2 ^ 16
        nlmsg_type := 28 % 2 ^ 16
        ndm_family := PF_BRIDGE
        ndm_ifindex := (demoExt true).ll_name_to_index "br0" % 2 ^ 32
        ndm_state := NUD_NOARP ||| NUD_PERMANENT
        ndm_flags := NTF_SELF
        attrs := [
          { rta_len := 10, rta_type := .NDA_LLADDR,
            data := abuf [0xde, 0xad, 0xbe, 0xef, 0x00, 0x01] },
          { rta_len := 4 + (List.take 4 [10, 0, 0, 5]).length, rta_type := .NDA_DST,
            data := List.take 4 [10, 0, 0, 5] },
          { rta_len := 6, rta_type := .NDA_VLAN,
            data := u16_mem (demoExt true).le ((demoExt true).atoi "10").toNat }] } :=
  (C19_attribute_layout (demoExt true) 28 0x600).1 "de:ad:be:ef:00:01" "br0" "10.0.0.5" "10"
    { family := 2, bytelen := 4, bitlen := 32, data := [10, 0, 0, 5] }
    [0xde, 0xad, 0xbe, 0xef, 0x00, 0x01]
    (by decide) (by decide) (by decide) (by decide) (by decide) (by decide) (by decide)
    (by decide) (by decide) (by decide)

/-! ## Mandatory arguments -/

/-- The branches the chain of `fdb_get` can select. -/
theorem fdb_get_keyword_range (E : Ext) (a : String) :
    fdb_get_keyword E a ∈ [Keyword.kw_brport, .kw_br, .kw_dev, .kw_vni, .kw_self, .kw_master,
      .kw_vlan, .kw_dynamic, .kw_other] := by
  unfold fdb_get_keyword
  repeat' refine ite_keep (fun k => k ∈ [Keyword.kw_brport, .kw_br, .kw_dev, .kw_vni,
    .kw_self, .kw_master, .kw_vlan, .kw_dynamic, .kw_other]) _ _ _ ?_ ?_
  all_goals decide

/-- What a pass of the loop of `fdb_get` that does not leave the process
changes. -/
theorem fdb_get_arg_frame (E : Ext) (st : GetState) (a : String) (rest : List String)
    (st1 : GetState) (rest1 : List String)
    (h : fdb_get_arg E st a rest = .ok (st1, rest1)) :
    rest1.length ≤ rest.length ∧
    (fdb_get_keyword E a ≠ .kw_brport → fdb_get_keyword E a ≠ .kw_dev → st1.d = st.d) ∧
    (fdb_get_keyword E a ≠ .kw_br → st1.br = st.br) ∧
    (fdb_get_keyword E a ≠ .kw_other → st1.addr = st.addr) := by
  have hr := fdb_get_keyword_range E a
  unfold fdb_get_arg at h
  cases hk : fdb_get_keyword E a <;> simp only [hk] at h hr
  all_goals (try (simp at hr; done))
  all_goals (try (repeat' split at h))
  all_goals (try simp at h)
  all_goals (try (obtain ⟨rfl, rfl⟩ := h))
  all_goals (try simp)
  all_goals exact parse_to_addr_shrinks E _ _ _ _ _ (by assumption)

theorem fdb_get_arg_shrinks (E : Ext) (st : GetState) (a : String) (rest : List String)
    (st1 : GetState) (rest1 : List String)
    (h : fdb_get_arg E st a rest = .ok (st1, rest1)) : rest1.length ≤ rest.length :=
  (fdb_get_arg_frame E st a rest st1 rest1 h).1

/-- A property of the locals of `fdb_get` that holds on entry and that only the
branches in `K` can break holds at the end of the loop when the loop went
through none of them. -/
theorem fdb_get_untouched (E : Ext) (fd : Nat) (argv : List String)
    (st : GetState) (P : GetState → Prop) (K : List Keyword)
    (hloop : fdb_get_args E argv.length (fdb_get_init E fd) argv = .ok st)
    (h0 : P (fdb_get_init E fd))
    (hP : ∀ s a rest s1 rest1, P s → fdb_get_keyword E a ∉ K →
      fdb_get_arg E s a rest = .ok (s1, rest1) → P s1)
    (hK : ∀ x ∈ K, x ∉ fdb_get_trace E fd argv) : P st := by
  rcases arg_steps_provenance (fdb_get_arg E) P (fun x => fdb_get_keyword E x ∈ K) hP
      (fdb_get_init E fd) argv h0 argv.length st []
      (arg_steps_of_loop (fdb_get_arg E) (fdb_get_arg_shrinks E) argv.length _ st argv
        (Nat.le_refl _) hloop) with h | ⟨j, stj, a, r, -, hs, hin⟩
  · exact h
  · exact absurd ((arg_trace_iff (fdb_get_keyword E) (fdb_get_arg E) (fdb_get_arg_shrinks E) _
      argv.length _ argv (Nat.le_refl _)).mpr ⟨j, stj, a, r, hs, rfl⟩) (hK _ hin)

/-- Without a device or without an address at the end of the loop, `fdb_modify`
returns -1. -/
theorem fdb_modify_missing (E : Ext) (cmd flags : Nat) (argv : List String) (st : ModifyState)
    (hloop : fdb_modify_args E argv.length (fdb_modify_init E cmd flags) argv = .ok st)
    (h : st.d = none ∨ st.addr = none) : fdb_modify E cmd flags argv = .error .err := by
  simp only [fdb_modify, hloop, fdb_modify_finish]
  rcases h with h | h
  · rw [h]
  · rw [h]
    cases st.d <;> rfl

/-- Without an address, or without a device and a bridge, at the end of the
loop, `fdb_get` returns -1. -/
theorem fdb_get_missing (E : Ext) (fd : Nat) (argv : List String) (st : GetState)
    (hloop : fdb_get_args E argv.length (fdb_get_init E fd) argv = .ok st)
    (h : st.addr = none ∨ (st.d = none ∧ st.br = none)) : fdb_get E fd argv = .error .err := by
  have hc : (st.d = none ∧ st.br = none) ∨ st.addr = none := h.symm
  simp only [fdb_get, hloop, fdb_get_finish, if_pos hc]

/-- The mandatory arguments: (1) when the loop of `fdb_modify` goes through no
`dev` branch, or never through the final branch that takes the address,
`fdb_modify` does not hand a request to `rtnl_talk`; (2) when the loop ends with no device or no
address it returns -1, and (3) likewise when `sscanf` does not read six bytes
from the address; (4) when the loop of `fdb_get` never goes through the
address branch, or through none of the `brport`/`dev` and `br` branches,
`fdb_get` does not hand a request to `rtnl_talk`, and (5) it returns -1 when
the loop ends with no address or with neither device nor bridge; (6) on
`br B ADDR`, with `B` an existing device and `ADDR` read by `sscanf`,
`fdb_get` builds the request with `NDA_LLADDR` and `NDA_MASTER`. -/
theorem fdb_mandatory_arguments (E : Ext) :
    (∀ (cmd flags : Nat) (argv : List String),
      (Keyword.kw_dev ∉ fdb_modify_trace E cmd flags argv ∨
        Keyword.kw_other ∉ fdb_modify_trace E cmd flags argv) →
      ∃ e, fdb_modify E cmd flags argv = .error e) ∧
    (∀ (cmd flags : Nat) (argv : List String) (st : ModifyState),
      fdb_modify_args E argv.length (fdb_modify_init E cmd flags) argv = .ok st →
      (st.d = none ∨ st.addr = none) → fdb_modify E cmd flags argv = .error .err) ∧
    (∀ (cmd flags : Nat) (argv : List String) (st : ModifyState) (addr : String),
      fdb_modify_args E argv.length (fdb_modify_init E cmd flags) argv = .ok st →
      st.addr = some addr → E.sscanf_lladdr addr = none →
      fdb_modify E cmd flags argv = .error .err) ∧
    (∀ (fd : Nat) (argv : List String),
      (Keyword.kw_other ∉ fdb_get_trace E fd argv ∨
        (Keyword.kw_brport ∉ fdb_get_trace E fd argv ∧
          Keyword.kw_dev ∉ fdb_get_trace E fd argv ∧
          Keyword.kw_br ∉ fdb_get_trace E fd argv)) →
      ∃ e, fdb_get E fd argv = .error e) ∧
    (∀ (fd : Nat) (argv : List String) (st : GetState),
      fdb_get_args E argv.length (fdb_get_init E fd) argv = .ok st →
      (st.addr = none ∨ (st.d = none ∧ st.br = none)) → fdb_get E fd argv = .error .err) ∧
    (∀ (fd : Nat) (B ADDR : String) (mac : List Nat),
      fdb_get_keyword E ADDR = .kw_other → ADDR ≠ "to" → E.matches_cmd ADDR "help" = false →
      E.sscanf_lladdr ADDR = some mac → E.ll_name_to_index B % 2 ^ 32 ≠ 0 →
      fdb_get E fd ["br", B, ADDR] = .ok (
        { nlmsg_len := 48
          nlmsg_flags := NLM_F_REQUEST
          nlmsg_type := RTM_GETNEIGH
          ndm_family := AF_BRIDGE
          ndm_ifindex := 0
          ndm_state := 0
          ndm_flags := 0
          attrs := [
            { rta_len := 10, rta_type := .NDA_LLADDR, data := abuf mac },
            { rta_len := 8, rta_type := .NDA_MASTER,
              data := u32_mem E.le (E.ll_name_to_index B % 2 ^ 32) }] },
        { fdb_get_init E fd with br := some B, addr := some ADDR })) := by
  refine ⟨?_, ?_, ?_, ?_, ?_, ?_⟩
  · intro cmd flags argv hor
    cases hloop : fdb_modify_args E argv.length (fdb_modify_init E cmd flags) argv with
    | error e => exact ⟨e, by simp only [fdb_modify, hloop]⟩
    | ok st =>
      refine ⟨.err, fdb_modify_missing E cmd flags argv st hloop ?_⟩
      rcases hor with hn | hn
      · left
        exact fdb_modify_untouched E cmd flags argv st (fun s => s.d = none) [.kw_dev] hloop rfl
          (fun s a rest s1 rest1 hs hx hp => by
            simp only [List.mem_singleton] at hx
            show s1.d = none
            rw [(fdb_modify_arg_frame E s a rest s1 rest1 hp).2.1 hx]
            exact hs)
          (by
            intro x hx
            simp only [List.mem_singleton] at hx
            rw [hx]
            exact hn)
      · right
        exact fdb_modify_untouched E cmd flags argv st (fun s => s.addr = none) [.kw_other] hloop
          rfl
          (fun s a rest s1 rest1 hs hx hp => by
            simp only [List.mem_singleton] at hx
            show s1.addr = none
            rw [(fdb_modify_arg_frame E s a rest s1 rest1 hp).2.2.1 hx]
            exact hs)
          (by
            intro x hx
            simp only [List.mem_singleton] at hx
            rw [hx]
            exact hn)
  · intro cmd flags argv st hloop h
    exact fdb_modify_missing E cmd flags argv st hloop h
  · intro cmd flags argv st addr hloop ha hs
    simp only [fdb_modify, hloop, fdb_modify_finish, ha]
    cases st.d with
    | none => rfl
    | some d =>
      simp only [fdb_modify_build, hs]
      split <;> rfl
  · intro fd argv hor
    cases hloop : fdb_get_args E argv.length (fdb_get_init E fd) argv with
    | error e => exact ⟨e, by simp only [fdb_get, hloop]⟩
    | ok st =>
      refine ⟨.err, fdb_get_missing E fd argv st hloop ?_⟩
      rcases hor with hn | ⟨hn1, hn2, hn3⟩
      · left
        exact fdb_get_untouched E fd argv st (fun s => s.addr = none) [.kw_other] hloop rfl
          (fun s a rest s1 rest1 hs hx hp => by
            simp only [List.mem_singleton] at hx
            show s1.addr = none
            rw [(fdb_get_arg_frame E s a rest s1 rest1 hp).2.2.2 hx]
            exact hs)
          (by
            intro x hx
            simp only [List.mem_singleton] at hx
            rw [hx]
            exact hn)
      · right
        exact fdb_get_untouched E fd argv st (fun s => s.d = none ∧ s.br = none)
          [.kw_brport, .kw_dev, .kw_br] hloop ⟨rfl, rfl⟩
          (fun s a rest s1 rest1 hs hx hp => by
            simp only [List.mem_cons, List.mem_singleton, List.not_mem_nil, or_false,
              not_or] at hx
            have hf := fdb_get_arg_frame E s a rest s1 rest1 hp
            exact ⟨(hf.2.1 hx.1 hx.2.1).trans hs.1, (hf.2.2.1 hx.2.2).trans hs.2⟩)
          (by
            intro x hx
            simp only [List.mem_cons, List.mem_singleton, List.not_mem_nil, or_false] at hx
            rcases hx with rfl | rfl | rfl
            · exact hn1
            · exact hn2
            · exact hn3)
  · intro fd argv st hloop h
    exact fdb_get_missing E fd argv st hloop h
  · intro fd B ADDR mac hk hto hhelp hmac hidx
    have hkbr : fdb_get_keyword E "br" = .kw_br := by
      unfold fdb_get_keyword
      rw [if_neg (by decide), if_pos rfl]
    have hloop : fdb_get_args E ["br", B, ADDR].length (fdb_get_init E fd) ["br", B, ADDR]
        = .ok { fdb_get_init E fd with br := some B, addr := some ADDR } := by
      simp [fdb_get_args, arg_loop, fdb_get_arg, hkbr, hk, parse_to_addr, hto, hhelp,
        fdb_get_init]
    unfold fdb_get
    rw [hloop]
    have h1 : ¬ ((-1 : Int) ≥ 0) := by decide
    simp only [fdb_get_finish, fdb_get_init, Option.bind, hmac, hidx, addattr32, ne_eq,
      not_true_eq_false, if_false, h1, reduceCtorEq, and_false, or_self, NLMSG_LENGTH,
      sizeof_ndmsg]
    rw [addattr_l_fits2 _ _ _ _ _ _ (by simp only) (by
      simp only [abuf_length, Flower.u32_mem_length, sizeof_get_req, sizeof_ndmsg]
      unfold NLMSG_ALIGN
      omega)]
    simp only [abuf_length, Flower.u32_mem_length, List.nil_append, NLMSG_ALIGN]

/-- Example: `fdb_get` on `br br0 de:ad:be:ef:00:01`. -/
theorem fdb_mandatory_arguments_example :
    fdb_get (demoExt true) 0 ["br", "br0", "de:ad:be:ef:00:01"] = .ok (
      { nlmsg_len := 48
        nlmsg_flags := NLM_F_REQUEST
        nlmsg_type := RTM_GETNEIGH
        ndm_family := AF_BRIDGE
        ndm_ifindex := 0
        ndm_state := 0
        ndm_flags := 0
        attrs := [
          { rta_len := 10, rta_type := .NDA_LLADDR,
            data := abuf [0xde, 0xad, 0xbe, 0xef, 0x00, 0x01] },
          { rta_len := 8, rta_type := .NDA_MASTER,
            data := u32_mem (demoExt true).le ((demoExt true).ll_name_to_index "br0" % 2 ^ 32) }] },
      { fdb_get_init (demoExt true) 0 with br := some "br0", addr := some "de:ad:be:ef:00:01" }) :=
  (fdb_mandatory_arguments (demoExt true)).2.2.2.2.2 0 "br0" "de:ad:be:ef:00:01"
    [0xde, 0xad, 0xbe, 0xef, 0x00, 0x01] (by decide) (by decide) (by decide) (by decide)
    (by decide)

set_option maxRecDepth 100000 in
/-- C20 (the address test does not look past the sixth byte): `fdb_modify` does
not fail on every address that is not six
colon-separated hexadecimal bytes. The test is `sscanf(...) != 6`, and `sscanf`
returns 6 as soon as six numbers are converted, whatever follows them: on
`aa:bb:cc:dd:ee:ff:11 dev br0` the request for `aa:bb:cc:dd:ee:ff` is built,
the same request as for the address without the seventh field, while the
address with five fields is refused with -1. -/
theorem C20_trailing_text_accepted :
    sscanf_hhx6 "aa:bb:cc:dd:ee:ff:11" = some [0xaa, 0xbb, 0xcc, 0xdd, 0xee, 0xff] ∧
    fdb_modify (demoExt true) RTM_NEWNEIGH (NLM_F_CREATE ||| NLM_F_EXCL)
      ["aa:bb:cc:dd:ee:ff:11", "dev", "br0"] = .ok
        { nlmsg_len := 40
          nlmsg_flags := NLM_F_REQUEST ||| (NLM_F_CREATE ||| NLM_F_EXCL)
          nlmsg_type := RTM_NEWNEIGH
          ndm_family := AF_BRIDGE
          ndm_ifindex := 2
          ndm_state := NUD_NOARP ||| NUD_PERMANENT
          ndm_flags := NTF_SELF
          attrs := [{ rta_len := 10, rta_type := .NDA_LLADDR,
                      data := [0xaa, 0xbb, 0xcc, 0xdd, 0xee, 0xff] }] } ∧
    fdb_modify (demoExt true) RTM_NEWNEIGH (NLM_F_CREATE ||| NLM_F_EXCL)
      ["aa:bb:cc:dd:ee:ff:11", "dev", "br0"] =
      fdb_modify (demoExt true) RTM_NEWNEIGH (NLM_F_CREATE ||| NLM_F_EXCL)
        ["aa:bb:cc:dd:ee:ff", "dev", "br0"] ∧
    fdb_modify (demoExt true) RTM_NEWNEIGH (NLM_F_CREATE ||| NLM_F_EXCL)
      ["aa:bb:cc:dd:ee", "dev", "br0"] = .error .err := by
  decide

end Fdb

namespace Flower

/-! ## The shape of a geneve option key -/

/-- Characters other than the colon leave the counters of the loop unchanged. -/
theorem check_loop_skip (a rest : List Char) (kl col : Nat) (h : ':' ∉ a) :
    check_enc_opt_key_loop (a ++ rest) kl col = check_enc_opt_key_loop rest kl col := by
  induction a with
  | nil => rfl
  | cons x xs ih =>
    have hx : x ≠ ':' := fun e => h (by simp [e])
    have hxs : ':' ∉ xs := fun e => h (by simp [e])
    simp [check_enc_opt_key_loop, hx, ih hxs]

theorem check_loop_nil_of_not_mem (a : List Char) (kl col : Nat) (h : ':' ∉ a) :
    check_enc_opt_key_loop a kl col = some (kl, col) := by
  have := check_loop_skip a [] kl col h
  simpa [check_enc_opt_key_loop] using this

theorem check_loop_colon (rest : List Char) (kl col : Nat) :
    check_enc_opt_key_loop (':' :: rest) kl col =
      if rest.length + 1 = kl then none
      else check_enc_opt_key_loop rest rest.length (col + 1) := by
  simp [check_enc_opt_key_loop]

theorem check_loop_mono (l : List Char) : ∀ (kl col k c : Nat),
    check_enc_opt_key_loop l kl col = some (k, c) → col ≤ c := by
  induction l with
  | nil => intro kl col k c h; simp [check_enc_opt_key_loop] at h; omega
  | cons x xs ih =>
    intro kl col k c h
    simp only [check_enc_opt_key_loop] at h
    split_ifs at h with h1 h2
    · have := ih _ _ _ _ h; omega
    · exact ih _ _ _ _ h

theorem first_colon (l : List Char) :
    ':' ∉ l ∨ ∃ a r, l = a ++ ':' :: r ∧ ':' ∉ a := by
  induction l with
  | nil => left; simp
  | cons x xs ih =>
    by_cases hx : x = ':'
    · right; exact ⟨[], xs, by simp [hx], by simp⟩
    · rcases ih with h | ⟨a, r, h, ha⟩
      · left; simp [h]; exact fun e => hx e.symm
      · right; refine ⟨x :: a, r, by simp [h], ?_⟩
        simp [ha]; exact fun e => hx e.symm

/-- A string that `flower_check_enc_opt_key` accepts has exactly two colons and
three non-empty fields. -/
theorem check_enc_opt_key_fields (key : String) (h : flower_check_enc_opt_key key = true) :
    key.data.count ':' = 2 ∧
      ∃ cls typ dat : List Char, key.data = cls ++ ':' :: (typ ++ ':' :: dat) ∧
        cls ≠ [] ∧ typ ≠ [] ∧ dat ≠ [] := by
  unfold flower_check_enc_opt_key at h
  rcases first_colon key.data with h0 | ⟨a, r, hl, ha⟩
  · rw [check_loop_nil_of_not_mem _ _ _ h0] at h; simp at h
  rw [hl, check_loop_skip _ _ _ _ ha, check_loop_colon] at h
  have hlen : (a ++ ':' :: r).length = a.length + (r.length + 1) := by simp
  by_cases hae : a = []
  · subst hae; simp at h
  have hapos : 0 < a.length := List.length_pos.mpr hae
  rw [if_neg (by omega)] at h
  rcases first_colon r with h1 | ⟨b, r2, hr, hb⟩
  · rw [check_loop_nil_of_not_mem _ _ _ h1] at h; simp at h
  rw [hr, check_loop_skip _ _ _ _ hb, check_loop_colon] at h
  by_cases hbe : b = []
  · subst hbe; simp at h
  have hbpos : 0 < b.length := List.length_pos.mpr hbe
  have hlen2 : (b ++ ':' :: r2).length = b.length + (r2.length + 1) := by simp
  rw [if_neg (by omega)] at h
  rcases first_colon r2 with h2 | ⟨c, r3, hr2, hc⟩
  · rw [check_loop_nil_of_not_mem _ _ _ h2] at h
    simp at h
    refine ⟨?_, a, b, r2, by rw [hl, hr], hae, hbe, fun e => h (by simp [e])⟩
    rw [hl, hr]
    simp [List.count_append, List.count_cons, List.count_eq_zero_of_not_mem ha,
      List.count_eq_zero_of_not_mem hb, List.count_eq_zero_of_not_mem h2]
  · rw [hr2, check_loop_skip _ _ _ _ hc, check_loop_colon] at h
    split_ifs at h with h3
    cases hres : check_enc_opt_key_loop r3 r3.length (0 + 1 + 1 + 1) with
    | none => rw [hres] at h; simp at h
    | some p =>
      have := check_loop_mono r3 _ _ p.1 p.2 hres
      rw [hres] at h
      simp at h
      omega

/-- C26: `flower_check_enc_opt_key` accepts a string (returns 0) if and only if
the string contains exactly two colons and the three fields they delimit, class,
type and data, are each non-empty. -/
theorem C26_geneve_key_shape (key : String) :
    flower_check_enc_opt_key key = true ↔
      key.data.count ':' = 2 ∧
      ∃ cls typ dat : List Char, key.data = cls ++ ':' :: (typ ++ ':' :: dat) ∧
        cls ≠ [] ∧ typ ≠ [] ∧ dat ≠ [] := by
  constructor
  · exact check_enc_opt_key_fields key
  · rintro ⟨hcnt, cls, typ, dat, hl, hc, ht, hd⟩
    rw [hl] at hcnt
    simp [List.count_append, List.count_cons] at hcnt
    have h1 : ':' ∉ cls := List.count_eq_zero.mp (by omega)
    have h2 : ':' ∉ typ := List.count_eq_zero.mp (by omega)
    have h3 : ':' ∉ dat := List.count_eq_zero.mp (by omega)
    have hcp : 0 < cls.length := List.length_pos.mpr hc
    have htp : 0 < typ.length := List.length_pos.mpr ht
    have hdp : 0 < dat.length := List.length_pos.mpr hd
    unfold flower_check_enc_opt_key
    rw [hl, check_loop_skip _ _ _ _ h1, check_loop_colon]
    have e1 : (cls ++ ':' :: (typ ++ ':' :: dat)).length
        = cls.length + ((typ ++ ':' :: dat).length + 1) := by simp
    rw [if_neg (by omega)]
    rw [check_loop_skip _ _ _ _ h2, check_loop_colon]
    have e2 : (typ ++ ':' :: dat).length = typ.length + (dat.length + 1) := by simp
    rw [if_neg (by omega)]
    rw [check_loop_nil_of_not_mem _ _ _ h3]
    simp
    exact hd

/-! ## The key and mask texts of `flower_parse_enc_opts` -/

theorem split_chars_ne_nil (c : Char) (l : List Char) : split_chars c l ≠ [] := by
  cases l with
  | nil => simp [split_chars]
  | cons x xs =>
    simp only [split_chars]
    split
    · simp
    · split_ifs <;> simp

theorem split_chars_not_mem (c : Char) (p : List Char) (h : c ∉ p) :
    split_chars c p = [p] := by
  induction p with
  | nil => rfl
  | cons x xs ih =>
    have hx : x ≠ c := fun e => h (by simp [e])
    have hxs : c ∉ xs := fun e => h (by simp [e])
    simp [split_chars, ih hxs, hx]

theorem split_chars_append (c : Char) (p X : List Char) (h : c ∉ p) :
    split_chars c (p ++ c :: X) = p :: split_chars c X := by
  induction p with
  | nil =>
    simp only [List.nil_append, split_chars]
    cases hX : split_chars c X with
    | nil => exact absurd hX (split_chars_ne_nil c X)
    | cons f fs => simp
  | cons x xs ih =>
    have hx : x ≠ c := fun e => h (by simp [e])
    have hxs : c ∉ xs := fun e => h (by simp [e])
    simp [split_chars, ih hxs, hx]

theorem split_chars_mem (c : Char) (l : List Char) :
    ∀ f ∈ split_chars c l, c ∉ f ∧ ∀ x ∈ f, x ∈ l := by
  induction l with
  | nil => simp [split_chars]
  | cons x xs ih =>
    intro f hf
    simp only [split_chars] at hf
    cases hX : split_chars c xs with
    | nil => exact absurd hX (split_chars_ne_nil c xs)
    | cons g gs =>
      rw [hX] at hf ih
      simp only at hf
      split_ifs at hf with hxc
      · rcases List.mem_cons.mp hf with e | e
        · subst e; simp
        · have := ih f e
          exact ⟨this.1, fun y hy => List.mem_cons_of_mem _ (this.2 y hy)⟩
      · rcases List.mem_cons.mp hf with e | e
        · subst e
          have := ih g (by simp)
          refine ⟨?_, ?_⟩
          · simp only [List.mem_cons, not_or]
            exact ⟨fun e2 => hxc e2.symm, this.1⟩
          · intro y hy
            rcases List.mem_cons.mp hy with e3 | e3
            · simp [e3]
            · exact List.mem_cons_of_mem _ (this.2 y e3)
        · have := ih f (List.mem_cons_of_mem _ e)
          exact ⟨this.1, fun y hy => List.mem_cons_of_mem _ (this.2 y hy)⟩

theorem cut_chars_fst (c : Char) (l : List Char) :
    ∀ x ∈ (cut_chars c l).1, x ∈ l := by
  induction l with
  | nil => simp [cut_chars]
  | cons y ys ih =>
    intro x hx
    simp only [cut_chars] at hx
    split_ifs at hx with h
    · simp at hx
    · rcases List.mem_cons.mp hx with e | e
      · simp [e]
      · exact List.mem_cons_of_mem _ (ih x e)

theorem cut_chars_snd (c : Char) (l m : List Char) (hm : (cut_chars c l).2 = some m) :
    ∀ x ∈ m, x ∈ l := by
  induction l with
  | nil => simp [cut_chars] at hm
  | cons y ys ih =>
    intro x hx
    simp only [cut_chars] at hm
    split_ifs at hm with h
    · simp at hm; subst hm; exact List.mem_cons_of_mem _ hx
    · exact List.mem_cons_of_mem _ (ih hm x hx)

theorem cut_chars_none (c : Char) (l : List Char) (hm : (cut_chars c l).2 = none) :
    (cut_chars c l).1 = l := by
  induction l with
  | nil => simp [cut_chars]
  | cons y ys ih =>
    simp only [cut_chars] at hm ⊢
    split_ifs at hm ⊢ with h
    simp [ih hm]

theorem after_last_append (c : Char) (a d : List Char) (hd : c ∉ d) :
    after_last c (a ++ c :: d) = d := by
  unfold after_last
  simp only [List.reverse_append, List.reverse_cons, List.append_assoc, List.singleton_append]
  have : List.takeWhile (fun x => x != c) (d.reverse ++ c :: a.reverse) = d.reverse := by
    have hd2 : ∀ x ∈ d.reverse, (fun x => x != c) x = true := by
      intro x hx
      have : x ≠ c := fun e => hd (by simpa [e] using hx)
      simpa using this
    rw [List.takeWhile_append_of_pos hd2]
    simp [List.takeWhile]
  rw [this, List.reverse_reverse]

/-- Splitting the comma-terminated concatenation of comma-free parts, its last
comma dropped, gives the parts back. -/
theorem join_split (c : Char) : ∀ (parts : List (List Char)), parts ≠ [] →
    (∀ p ∈ parts, c ∉ p) →
    split_chars c (parts.foldr (fun p acc => p ++ c :: acc) []).dropLast = parts := by
  intro parts
  induction parts with
  | nil => intro h; exact absurd rfl h
  | cons p ps ih =>
    intro _ hall
    have hp : c ∉ p := hall p (by simp)
    cases ps with
    | nil =>
      simp only [List.foldr]
      have : (p ++ [c]).dropLast = p := by simp
      rw [this, split_chars_not_mem c p hp]
    | cons q qs =>
      have ih2 := ih (by simp) (fun r hr => hall r (List.mem_cons_of_mem _ hr))
      have hne : List.foldr (fun p acc => p ++ c :: acc) [] (q :: qs) ≠ [] := by
        simp [List.foldr]
      simp only [List.foldr] at ih2 hne ⊢
      have : (p ++ c :: (q ++ c :: List.foldr (fun p acc => p ++ c :: acc) [] qs)).dropLast
          = p ++ c :: (q ++ c :: List.foldr (fun p acc => p ++ c :: acc) [] qs).dropLast := by
        rw [List.dropLast_append_of_ne_nil _ (by simp)]
        rw [List.dropLast_cons_of_ne_nil (by simp)]
      rw [this, split_chars_append c p _ hp, ih2]

theorem enc_opts_loop_ok : ∀ (toks : List String) (key mask k1 m1 : List Char),
    enc_opts_loop toks key mask = .ok (k1, m1) →
    k1 = key ++ (toks.map fun t => (cut_at '/' t).1.data).foldr
      (fun p acc => p ++ ',' :: acc) [] ∧
    m1 = mask ++ (toks.map fun t =>
        match (cut_at '/' t).2 with
        | some m => m.data
        | none => "ffff:ff:".data ++ List.replicate (after_last ':' t.data).length 'f').foldr
      (fun p acc => p ++ ',' :: acc) [] ∧
    ∀ t ∈ toks, flower_check_enc_opt_key (cut_at '/' t).1 = true := by
  intro toks
  induction toks with
  | nil =>
    intro key mask k1 m1 h
    simp [enc_opts_loop] at h
    simp [h.1, h.2]
  | cons tok rest ih =>
    intro key mask k1 m1 h
    simp only [enc_opts_loop] at h
    cases hs : (cut_at '/' tok).2 with
    | none =>
      rw [hs] at h
      simp only at h
      split_ifs at h with h1 h2 h3 h4
      have hchk : flower_check_enc_opt_key (cut_at '/' tok).1 = true := by
        by_contra hc
        exact h1 (Or.inr (by simp [hc]))
      have hfst : (cut_at '/' tok).1.data = tok.data := by
        simp only [cut_at] at hs ⊢
        exact cut_chars_none _ _ (by simpa using hs)
      have := ih _ _ _ _ h
      refine ⟨?_, ?_, ?_⟩
      · rw [this.1]; simp
      · rw [this.2.1]; simp [hs, hfst]
      · intro t ht
        rcases List.mem_cons.mp ht with e | e
        · rw [e]; exact hchk
        · exact this.2.2 t e
    | some m =>
      rw [hs] at h
      simp only at h
      split_ifs at h with h1 h2 h3 h4
      have hchk : flower_check_enc_opt_key (cut_at '/' tok).1 = true := by
        by_contra hc
        exact h1 (Or.inr (by simp [hc]))
      have := ih _ _ _ _ h
      refine ⟨?_, ?_, ?_⟩
      · rw [this.1]; simp
      · rw [this.2.1]; simp [hs]
      · intro t ht
        rcases List.mem_cons.mp ht with e | e
        · rw [e]; exact hchk
        · exact this.2.2 t e

theorem enc_opts_loop_of_ok (E : Ext) (str : String) (n : nlmsghdr)
    (h : (flower_parse_enc_opts E str n).isOk = true) :
    ∃ key mask : List Char,
      enc_opts_loop ((split_chars ',' str.data).map String.mk) [] [] = .ok (key, mask) := by
  unfold flower_parse_enc_opts at h
  cases hl : enc_opts_loop ((split_chars ',' str.data).map String.mk) [] [] with
  | error e => rw [hl] at h; simp [Except.isOk, Except.toBool] at h
  | ok km => exact ⟨km.1, km.2, rfl⟩

/-- C27: for every geneve_opts string that `flower_parse_enc_opts` accepts, the
key text and the mask text it builds hold one option per comma-separated option
of the input, in the same order: the key option is the text before the slash,
the mask option is the text after the slash, and for an option without a slash
it is `ffff:ff:` followed by as many `f` as the data field (the text after the
second colon) has characters. -/
theorem C27_geneve_key_mask_pairing (E : Ext) (str : String) (n : nlmsghdr)
    (h : (flower_parse_enc_opts E str n).isOk = true) :
    ∃ key mask : List Char,
      enc_opts_loop ((split_chars ',' str.data).map String.mk) [] [] = .ok (key, mask) ∧
      split_chars ',' key.dropLast
        = (split_chars ',' str.data).map (fun t => (cut_chars '/' t).1) ∧
      split_chars ',' mask.dropLast
        = (split_chars ',' str.data).map (fun t =>
            match (cut_chars '/' t).2 with
            | some m => m
            | none => "ffff:ff:".data ++ List.replicate (after_last ':' t).length 'f') ∧
      ∀ t ∈ split_chars ',' str.data, (cut_chars '/' t).2 = none →
        ∃ cls typ dat : List Char, t = cls ++ ':' :: (typ ++ ':' :: dat) ∧
          ':' ∉ cls ∧ ':' ∉ typ ∧ ':' ∉ dat ∧ after_last ':' t = dat := by
  obtain ⟨key, mask, hl⟩ := enc_opts_loop_of_ok E str n h
  have hne : split_chars ',' str.data ≠ [] := split_chars_ne_nil _ _
  have hmem := split_chars_mem ',' str.data
  obtain ⟨hk, hm, hchk⟩ := enc_opts_loop_ok _ _ _ _ _ hl
  simp only [List.nil_append, List.map_map] at hk hm
  refine ⟨key, mask, hl, ?_, ?_, ?_⟩
  · rw [hk, join_split ',' _ (by simpa using hne)]
    · apply List.map_congr_left
      intro t _
      simp [cut_at]
    · intro p hp
      simp only [List.mem_map, Function.comp] at hp
      obtain ⟨t, ht, rfl⟩ := hp
      intro hc
      exact (hmem t ht).1 (cut_chars_fst _ _ _ (by simpa [cut_at] using hc))
  · rw [hm, join_split ',' _ (by simpa using hne)]
    · apply List.map_congr_left
      intro t _
      simp only [Function.comp, cut_at]
      cases (cut_chars '/' t).2 <;> simp
    · intro p hp
      simp only [List.mem_map, Function.comp, cut_at] at hp
      obtain ⟨t, ht, rfl⟩ := hp
      intro hc
      cases hs : (cut_chars '/' t).2 with
      | none =>
        rw [hs] at hc
        simp at hc
      | some m =>
        rw [hs] at hc
        exact (hmem t ht).1 (cut_chars_snd _ _ _ hs _ (by simpa using hc))
  · intro t ht hs
    have h1 := hchk (String.mk t) (List.mem_map.mpr ⟨t, ht, rfl⟩)
    have hfst : (cut_at '/' (String.mk t)).1.data = t := by
      simp only [cut_at]
      exact cut_chars_none _ _ hs
    obtain ⟨hcnt, cls, typ, dat, hd, -, -, -⟩ := check_enc_opt_key_fields _ h1
    rw [hfst] at hcnt hd
    rw [hd] at hcnt
    simp [List.count_append, List.count_cons] at hcnt
    have c1 : ':' ∉ cls := List.count_eq_zero.mp (by omega)
    have c2 : ':' ∉ typ := List.count_eq_zero.mp (by omega)
    have c3 : ':' ∉ dat := List.count_eq_zero.mp (by omega)
    refine ⟨cls, typ, dat, hd, c1, c2, c3, ?_⟩
    rw [hd]
    have : cls ++ ':' :: (typ ++ ':' :: dat) = (cls ++ ':' :: typ) ++ ':' :: dat := by simp
    rw [this, after_last_append _ _ _ c3]

/-- C27 witness: two options, the second without a mask. -/
theorem C27_geneve_key_mask_pairing_witness :
    ∃ key mask : List Char,
      enc_opts_loop ((split_chars ',' "0102:80:1122/ffff:ff:ffff,1:2:ab".data).map String.mk)
        [] [] = .ok (key, mask) ∧
      split_chars ',' key.dropLast
        = (split_chars ',' "0102:80:1122/ffff:ff:ffff,1:2:ab".data).map
            (fun t => (cut_chars '/' t).1) ∧
      split_chars ',' mask.dropLast
        = (split_chars ',' "0102:80:1122/ffff:ff:ffff,1:2:ab".data).map (fun t =>
            match (cut_chars '/' t).2 with
            | some m => m
            | none => "ffff:ff:".data ++ List.replicate (after_last ':' t).length 'f') ∧
      ∀ t ∈ split_chars ',' "0102:80:1122/ffff:ff:ffff,1:2:ab".data,
        (cut_chars '/' t).2 = none →
        ∃ cls typ dat : List Char, t = cls ++ ':' :: (typ ++ ':' :: dat) ∧
          ':' ∉ cls ∧ ':' ∉ typ ∧ ':' ∉ dat ∧ after_last ':' t = dat :=
  C27_geneve_key_mask_pairing
    { demoExt true with hex2mem := fun _ k => some (List.replicate k 0) }
    "0102:80:1122/ffff:ff:ffff,1:2:ab" (empty_msg 0) (by decide)

end Flower

namespace Fdb

open Flower (Fail inet_prefix NLMSG_ALIGN RTA_LENGTH u16_mem u32_mem htons ntohs ETH_ALEN)

/-! ## Claims on `fdb_flush` -/

theorem testBit_lt_16 (b i : Nat) (hb : b < 2 ^ 16) (h : b.testBit i = true) : i < 16 := by
  by_contra hi
  have : b < 2 ^ i := lt_of_lt_of_le hb (Nat.pow_le_pow_right (by norm_num) (by omega))
  rw [Nat.testBit_lt_two_pow this] at h
  exact Bool.noConfusion h

/-- A bit of `b` is set in `(x | b)` truncated to 16 bits. -/
theorem or_mod_and_sub (x b c : Nat) (hb : b < 2 ^ 16) (hc : b &&& c = c) :
    ((x ||| b) % 2 ^ 16) &&& c = c := by
  apply Nat.eq_of_testBit_eq
  intro i
  have hi := congrArg (fun z => z.testBit i) hc
  simp only [Nat.testBit_and, Nat.testBit_or, Nat.testBit_mod_two_pow] at hi ⊢
  cases hc' : c.testBit i
  · simp
  · rw [hc'] at hi
    simp only [Bool.and_true] at hi
    have := testBit_lt_16 b i hb hi
    simp [hi, this]

/-- A bit of `m` stays set in `(m | b)` truncated to 16 bits. -/
theorem or_mod_and_keep (m b c : Nat) (hm : m < 2 ^ 16) (h : m &&& c = c) :
    ((m ||| b) % 2 ^ 16) &&& c = c := by
  apply Nat.eq_of_testBit_eq
  intro i
  have hi := congrArg (fun z => z.testBit i) h
  simp only [Nat.testBit_and, Nat.testBit_or, Nat.testBit_mod_two_pow] at hi ⊢
  cases hc' : c.testBit i
  · simp
  · rw [hc'] at hi
    simp only [Bool.and_true] at hi
    have := testBit_lt_16 m i hm hi
    simp [hi, this]

theorem and_and_zero (x m c : Nat) (h : m &&& c = 0) : (x &&& m) &&& c = 0 := by
  rw [Nat.and_assoc, h, Nat.and_zero]

/-- Every pass of the loop of `fdb_flush` consumes what it reads. -/
theorem fdb_flush_arg_shrinks (E : Ext) (st : FlushState) (a : String) (rest : List String)
    (st1 : FlushState) (rest1 : List String)
    (h : fdb_flush_arg E st a rest = .ok (st1, rest1)) : rest1.length ≤ rest.length := by
  unfold fdb_flush_arg at h
  cases hk : fdb_flush_keyword a <;> simp only [hk] at h
  all_goals (try (repeat' split at h))
  all_goals (try simp at h)
  all_goals (try (obtain ⟨-, rfl⟩ := h))
  all_goals (try simp)

/-- The state mask of `fdb_flush` stays below 2^16 and only gains bits. -/
theorem fdb_flush_arg_mask (E : Ext) (c : Nat) (st : FlushState) (a : String)
    (rest : List String) (st1 : FlushState) (rest1 : List String)
    (hst : st.ndm_state_mask < 2 ^ 16 ∧ st.ndm_state_mask &&& c = c)
    (h : fdb_flush_arg E st a rest = .ok (st1, rest1)) :
    st1.ndm_state_mask < 2 ^ 16 ∧ st1.ndm_state_mask &&& c = c := by
  unfold fdb_flush_arg at h
  cases hk : fdb_flush_keyword a <;> simp only [hk] at h
  all_goals (try (repeat' split at h))
  all_goals (try simp at h)
  all_goals (try (obtain ⟨rfl, -⟩ := h))
  all_goals (try exact hst)
  all_goals (try simp only [flush_set_flag, flush_clear_flag])
  all_goals exact ⟨Nat.mod_lt _ (by norm_num), or_mod_and_keep _ _ _ hst.1 hst.2⟩


/-- One `addattr` call of `fdb_flush` with a payload of at most four bytes: the
length stays aligned and grows by at most eight, the state is kept. -/
theorem flush_add_bound (r : req) (t : NdaId) (d : List Nat) (hd : d.length ≤ 4)
    (h4 : r.nlmsg_len % 4 = 0) :
    (addattr_l r sizeof_req t d).2.nlmsg_len % 4 = 0 ∧
    (addattr_l r sizeof_req t d).2.nlmsg_len ≤ r.nlmsg_len + 8 ∧
    (addattr_l r sizeof_req t d).2.ndm_state = r.ndm_state ∧
    (addattr_l r sizeof_req t d).2.ndm_flags = r.ndm_flags := by
  have ha : NLMSG_ALIGN r.nlmsg_len = r.nlmsg_len := by
    unfold NLMSG_ALIGN
    omega
  have hb : NLMSG_ALIGN (4 + d.length) ≤ 8 := by
    unfold NLMSG_ALIGN
    omega
  have hc : NLMSG_ALIGN (4 + d.length) % 4 = 0 := Flower.NLMSG_ALIGN_mod _
  unfold addattr_l RTA_LENGTH
  simp only [ha]
  split_ifs
  · refine ⟨?_, ?_, rfl, rfl⟩
    · simp only
      exact h4
    · simp only
      omega
  · refine ⟨?_, ?_, rfl, rfl⟩
    · simp only
      omega
    · simp only
      omega

/-- The same for an optional call. -/
theorem flush_add_bound_if (c : Prop) [Decidable c] (r : req) (t : NdaId) (d : List Nat)
    (hd : d.length ≤ 4) (h4 : r.nlmsg_len % 4 = 0) :
    (if c then (addattr_l r sizeof_req t d).2 else r).nlmsg_len % 4 = 0 ∧
    (if c then (addattr_l r sizeof_req t d).2 else r).nlmsg_len ≤ r.nlmsg_len + 8 ∧
    (if c then (addattr_l r sizeof_req t d).2 else r).ndm_state = r.ndm_state ∧
    (if c then (addattr_l r sizeof_req t d).2 else r).ndm_flags = r.ndm_flags := by
  split_ifs
  · exact flush_add_bound r t d hd h4
  · exact ⟨h4, by omega, rfl, rfl⟩

/-- The records of `fdb_flush`: the request keeps the state it is given, and
ends with the `NDA_NDM_STATE_MASK` record when the state mask is not 0. -/
theorem fdb_flush_attrs_state (E : Ext) (st : FlushState) (port_ifidx : Int) (r0 : req)
    (h0 : r0.nlmsg_len = 28) (hm : st.ndm_state_mask ≠ 0) :
    (fdb_flush_attrs E st port_ifidx r0).ndm_state = r0.ndm_state ∧
    (fdb_flush_attrs E st port_ifidx r0).attrs.getLast? = some {
      rta_len := 6
      rta_type := .NDA_NDM_STATE_MASK
      data := u16_mem E.le st.ndm_state_mask } := by
  have b1 := flush_add_bound_if (port_ifidx > -1) r0 .NDA_IFINDEX
    (u32_mem E.le port_ifidx.toNat) (by rw [Flower.u32_mem_length]) (by omega)
  have k1 := le_trans b1.2.1 (by omega : r0.nlmsg_len + 8 ≤ 36)
  have b2 := flush_add_bound_if (st.vid > -1) _ .NDA_VLAN (u16_mem E.le st.vid.toNat)
    (by rw [Flower.u16_mem_length]; omega) b1.1
  have k2 := le_trans b2.2.1 (Nat.add_le_add_right k1 8)
  have b3 := flush_add_bound_if (st.ndm_flags_mask ≠ 0) _ .NDA_NDM_FLAGS_MASK
    [st.ndm_flags_mask % 256] (by simp) b2.1
  have k3 := le_trans b3.2.1 (Nat.add_le_add_right k2 8)
  have e1 : NLMSG_ALIGN (4 + (u16_mem E.le st.ndm_state_mask).length) = 8 := by
    rw [Flower.u16_mem_length]
    decide
  have e2 : sizeof_req = 284 := by decide
  have hfit := addattr_l_fits _ sizeof_req .NDA_NDM_STATE_MASK
    (u16_mem E.le st.ndm_state_mask) b3.1
    (by
      rw [e1, e2]
      exact le_trans (Nat.add_le_add_right k3 8) (by decide))
  unfold fdb_flush_attrs
  simp only [addattr32, addattr16, addattr8, if_pos hm]
  rw [hfit]
  refine ⟨?_, ?_⟩
  · simp only
    rw [b3.2.2.1, b2.2.2.1, b1.2.2.1]
  · simp [Flower.u16_mem_length]

/-- The request that `fdb_flush_finish` builds carries the state of the locals,
and ends with the `NDA_NDM_STATE_MASK` record when the state mask is not 0. -/
theorem fdb_flush_finish_state (E : Ext) (st : FlushState) (r : req)
    (hm : st.ndm_state_mask ≠ 0) (h : fdb_flush_finish E st = .ok r) :
    r.ndm_state = st.ndm_state ∧
    r.attrs.getLast? = some {
      rta_len := 6
      rta_type := .NDA_NDM_STATE_MASK
      data := u16_mem E.le st.ndm_state_mask } := by
  unfold fdb_flush_finish at h
  cases hd : st.d with
  | none => simp [hd] at h
  | some d =>
    simp only [hd] at h
    by_cases h1 : E.ll_name_to_index d % 2 ^ 32 = 0
    · rw [if_pos h1] at h
      cases h
    rw [if_neg h1] at h
    split at h
    · cases h
    split at h
    · cases h
    simp only [Except.ok.injEq] at h
    rw [← h]
    exact fdb_flush_attrs_state E st _ _ rfl hm

/-- A pass of `fdb_flush` on one of the five keywords puts the keyword's bit
into the state mask. -/
theorem fdb_flush_arg_sets_mask (E : Ext) (kw : FlushKeyword) (c : Nat) (st : FlushState)
    (a : String) (rest : List String) (st1 : FlushState) (rest1 : List String)
    (hkw : (kw = .fl_permanent ∨ kw = .fl_nopermanent) ∧ c = NUD_PERMANENT ∨
      (kw = .fl_static ∨ kw = .fl_nostatic ∨ kw = .fl_nodynamic) ∧ c = NUD_NOARP)
    (ha : fdb_flush_keyword a = kw)
    (h : fdb_flush_arg E st a rest = .ok (st1, rest1)) :
    st1.ndm_state_mask < 2 ^ 16 ∧ st1.ndm_state_mask &&& c = c := by
  unfold fdb_flush_arg at h
  rw [ha] at h
  rcases hkw with ⟨hk | hk, rfl⟩ | ⟨hk | hk | hk, rfl⟩ <;> subst hk <;>
    simp only [Except.ok.injEq, Prod.mk.injEq] at h <;> obtain ⟨rfl, -⟩ := h <;>
    exact ⟨Nat.mod_lt _ (by norm_num), or_mod_and_sub _ _ _ (by decide) (by decide)⟩

/-- C21: `fdb flush dev D permanent nostatic`, for a device `D` that exists,
hands over a request whose state is exactly PERMANENT (NOARP clear) and whose
only record is NDA_NDM_STATE_MASK with exactly the PERMANENT and NOARP bits.
In general a pass on `permanent` sets and one on `nopermanent` clears the
PERMANENT bit of the state, a pass on `static` or `nodynamic` sets and one on
`nostatic` clears the NOARP bit, each putting that bit into the state mask; and
whenever the loop went through one of these keywords, the request ends with an
NDA_NDM_STATE_MASK record that has the keyword's bit and carries the state of
the locals. -/
theorem C21_flush_state_selection (E : Ext) :
    (∀ D : String, E.ll_name_to_index D % 2 ^ 32 ≠ 0 →
      ∃ r, fdb_flush E ["dev", D, "permanent", "nostatic"] = .ok r ∧
        r.ndm_state = NUD_PERMANENT ∧
        r.attrs = [{
          rta_len := 6
          rta_type := .NDA_NDM_STATE_MASK
          data := u16_mem E.le (NUD_PERMANENT ||| NUD_NOARP) }]) ∧
    (∀ (st : FlushState) (rest : List String),
      (∃ st1, fdb_flush_arg E st "permanent" rest = .ok (st1, rest) ∧
        st1.ndm_state &&& NUD_PERMANENT = NUD_PERMANENT ∧
        st1.ndm_state_mask &&& NUD_PERMANENT = NUD_PERMANENT) ∧
      (∃ st1, fdb_flush_arg E st "nopermanent" rest = .ok (st1, rest) ∧
        st1.ndm_state &&& NUD_PERMANENT = 0 ∧
        st1.ndm_state_mask &&& NUD_PERMANENT = NUD_PERMANENT) ∧
      (∃ st1, fdb_flush_arg E st "static" rest = .ok (st1, rest) ∧
        st1.ndm_state &&& NUD_NOARP = NUD_NOARP ∧
        st1.ndm_state_mask &&& NUD_NOARP = NUD_NOARP) ∧
      (∃ st1, fdb_flush_arg E st "nostatic" rest = .ok (st1, rest) ∧
        st1.ndm_state &&& NUD_NOARP = 0 ∧
        st1.ndm_state_mask &&& NUD_NOARP = NUD_NOARP) ∧
      (∃ st1, fdb_flush_arg E st "nodynamic" rest = .ok (st1, rest) ∧
        st1.ndm_state &&& NUD_NOARP = NUD_NOARP ∧
        st1.ndm_state_mask &&& NUD_NOARP = NUD_NOARP)) ∧
    (∀ (argv : List String) (r : req) (kw : FlushKeyword) (c : Nat),
      fdb_flush E argv = .ok r → kw ∈ fdb_flush_trace E argv →
      ((kw = .fl_permanent ∨ kw = .fl_nopermanent) ∧ c = NUD_PERMANENT ∨
        (kw = .fl_static ∨ kw = .fl_nostatic ∨ kw = .fl_nodynamic) ∧ c = NUD_NOARP) →
      ∃ st : FlushState, fdb_flush_args E argv.length fdb_flush_init argv = .ok st ∧
        r.ndm_state = st.ndm_state ∧ st.ndm_state_mask &&& c = c ∧
        r.attrs.getLast? = some {
          rta_len := 6
          rta_type := .NDA_NDM_STATE_MASK
          data := u16_mem E.le st.ndm_state_mask }) := by
  refine ⟨?_, ?_, ?_⟩
  · intro D hD
    have e1 : fdb_flush_args E 4 fdb_flush_init ["dev", D, "permanent", "nostatic"] =
        .ok { fdb_flush_init with
          d := some D
          ndm_state := NUD_PERMANENT
          ndm_state_mask := NUD_PERMANENT ||| NUD_NOARP } := by
      have k1 : fdb_flush_keyword "dev" = .fl_dev := by decide
      have k2 : fdb_flush_keyword "permanent" = .fl_permanent := by decide
      have k3 : fdb_flush_keyword "nostatic" = .fl_nostatic := by decide
      simp only [fdb_flush_args, arg_loop, fdb_flush_arg, k1, k2, k3]
      rfl
    have e2 : fdb_flush E ["dev", D, "permanent", "nostatic"] =
        .ok (fdb_flush_attrs E { fdb_flush_init with
            d := some D
            ndm_state := NUD_PERMANENT
            ndm_state_mask := NUD_PERMANENT ||| NUD_NOARP } (-1) {
          nlmsg_len := NLMSG_LENGTH sizeof_ndmsg
          nlmsg_flags := NLM_F_REQUEST ||| NLM_F_BULK
          nlmsg_type := RTM_DELNEIGH
          ndm_family := PF_BRIDGE
          ndm_ifindex := E.ll_name_to_index D % 2 ^ 32
          ndm_state := NUD_PERMANENT
          ndm_flags := NTF_SELF
          attrs := [] }) := by
      unfold fdb_flush
      simp only [List.length_cons, List.length_nil, e1]
      unfold fdb_flush_finish
      simp only [fdb_flush_init, if_neg hD]
      rfl
    refine ⟨_, e2, ?_, ?_⟩
    · exact (fdb_flush_attrs_state E _ _ _ rfl (by simp [fdb_flush_init, NUD_PERMANENT, NUD_NOARP])).1
    · simp [fdb_flush_attrs, fdb_flush_init, addattr16, addattr_l, NLMSG_LENGTH, sizeof_ndmsg,
        sizeof_req, NLMSG_ALIGN, RTA_LENGTH, Flower.u16_mem_length, NUD_PERMANENT, NUD_NOARP]
  · intro st rest
    have k1 : fdb_flush_keyword "permanent" = .fl_permanent := by decide
    have k2 : fdb_flush_keyword "nopermanent" = .fl_nopermanent := by decide
    have k3 : fdb_flush_keyword "static" = .fl_static := by decide
    have k4 : fdb_flush_keyword "nostatic" = .fl_nostatic := by decide
    have k5 : fdb_flush_keyword "nodynamic" = .fl_nodynamic := by decide
    refine ⟨⟨{ st with
        ndm_state := (st.ndm_state ||| NUD_PERMANENT) % 2 ^ 16
        ndm_state_mask := (st.ndm_state_mask ||| NUD_PERMANENT) % 2 ^ 16 },
        by simp only [fdb_flush_arg, k1], ?_, ?_⟩,
      ⟨{ st with
        ndm_state := st.ndm_state &&& (0xffff ^^^ NUD_PERMANENT)
        ndm_state_mask := (st.ndm_state_mask ||| NUD_PERMANENT) % 2 ^ 16 },
        by simp only [fdb_flush_arg, k2], ?_, ?_⟩,
      ⟨{ st with
        ndm_state := (st.ndm_state ||| NUD_NOARP) % 2 ^ 16
        ndm_state_mask := (st.ndm_state_mask ||| (NUD_NOARP ||| NUD_PERMANENT)) % 2 ^ 16 },
        by simp only [fdb_flush_arg, k3], ?_, ?_⟩,
      ⟨{ st with
        ndm_state := st.ndm_state &&& (0xffff ^^^ NUD_NOARP)
        ndm_state_mask := (st.ndm_state_mask ||| NUD_NOARP) % 2 ^ 16 },
        by simp only [fdb_flush_arg, k4], ?_, ?_⟩,
      ⟨{ st with
        ndm_state := (st.ndm_state ||| NUD_NOARP) % 2 ^ 16
        ndm_state_mask := (st.ndm_state_mask ||| NUD_NOARP) % 2 ^ 16 },
        by simp only [fdb_flush_arg, k5], ?_, ?_⟩⟩
    · exact or_mod_and_sub _ _ _ (by decide) (by decide)
    · exact or_mod_and_sub _ _ _ (by decide) (by decide)
    · exact and_and_zero _ _ _ (by decide)
    · exact or_mod_and_sub _ _ _ (by decide) (by decide)
    · exact or_mod_and_sub _ _ _ (by decide) (by decide)
    · exact or_mod_and_sub _ _ _ (by decide) (by decide)
    · exact and_and_zero _ _ _ (by decide)
    · exact or_mod_and_sub _ _ _ (by decide) (by decide)
    · exact or_mod_and_sub _ _ _ (by decide) (by decide)
    · exact or_mod_and_sub _ _ _ (by decide) (by decide)
  · intro argv r kw c h hkw hc
    unfold fdb_flush at h
    cases hl : fdb_flush_args E argv.length fdb_flush_init argv with
    | error e => simp [hl] at h
    | ok st =>
      simp only [hl] at h
      obtain ⟨k, stk, a, rest, hreach, ha⟩ :=
        (arg_trace_iff fdb_flush_keyword (fdb_flush_arg E) (fdb_flush_arg_shrinks E) kw
          argv.length fdb_flush_init argv (le_refl _)).mp hkw
      have hP := arg_loop_sticky (fdb_flush_arg E)
        (fun s => s.ndm_state_mask < 2 ^ 16 ∧ s.ndm_state_mask &&& c = c)
        (fun a => fdb_flush_keyword a = kw) (fdb_flush_arg_shrinks E)
        (fun s a rest s1 rest1 hK hp => fdb_flush_arg_sets_mask E kw c s a rest s1 rest1 hc hK hp)
        (fun s a rest s1 rest1 hs hp => fdb_flush_arg_mask E c s a rest s1 rest1 hs hp)
        fdb_flush_init stk st argv k a rest hreach ha hl
      have hc0 : c ≠ 0 := by
        rcases hc with ⟨-, rfl⟩ | ⟨-, rfl⟩ <;> decide
      have hP2 : st.ndm_state_mask &&& c = c := hP.2
      have hm : st.ndm_state_mask ≠ 0 := by
        intro e
        rw [e, Nat.zero_and] at hP2
        exact hc0 hP2.symm
      have := fdb_flush_finish_state E st r hm h
      exact ⟨st, rfl, this.1, hP2, this.2⟩

/-- C21 witness: the scenario on the device `br0`, and a list with `static`. -/
theorem C21_flush_state_selection_witness :
    (∃ r, fdb_flush (demoExt true) ["dev", "br0", "permanent", "nostatic"] = .ok r ∧
      r.ndm_state = NUD_PERMANENT ∧
      r.attrs = [{
        rta_len := 6
        rta_type := .NDA_NDM_STATE_MASK
        data := u16_mem (demoExt true).le (NUD_PERMANENT ||| NUD_NOARP) }]) ∧
    (∃ st : FlushState,
      fdb_flush_args (demoExt true) ["self", "dev", "br0", "static"].length fdb_flush_init
        ["self", "dev", "br0", "static"] = .ok st ∧
      ({ nlmsg_len := 36, nlmsg_flags := 513, nlmsg_type := 29, ndm_family := 7,
         ndm_ifindex := 2, ndm_state := 64, ndm_flags := 2,
         attrs := [{ rta_len := 6, rta_type := .NDA_NDM_STATE_MASK, data := [192, 0] }] }
        : req).ndm_state = st.ndm_state ∧
      st.ndm_state_mask &&& NUD_NOARP = NUD_NOARP ∧
      ({ nlmsg_len := 36, nlmsg_flags := 513, nlmsg_type := 29, ndm_family := 7,
         ndm_ifindex := 2, ndm_state := 64, ndm_flags := 2,
         attrs := [{ rta_len := 6, rta_type := .NDA_NDM_STATE_MASK, data := [192, 0] }] }
        : req).attrs.getLast? = some {
          rta_len := 6
          rta_type := .NDA_NDM_STATE_MASK
          data := u16_mem (demoExt true).le st.ndm_state_mask }) :=
  ⟨(C21_flush_state_selection (demoExt true)).1 "br0" (by decide),
   (C21_flush_state_selection (demoExt true)).2.2 ["self", "dev", "br0", "static"]
     { nlmsg_len := 36, nlmsg_flags := 513, nlmsg_type := 29, ndm_family := 7,
       ndm_ifindex := 2, ndm_state := 64, ndm_flags := 2,
       attrs := [{ rta_len := 6, rta_type := .NDA_NDM_STATE_MASK, data := [192, 0] }] }
     .fl_static NUD_NOARP (by decide) (by decide) (by decide)⟩

/-! ## Claims on `print_fdb` -/

theorem append_both {α : Type} {a a1 b b1 : List α} (h1 : a = a1) (h2 : b = b1) :
    a ++ b = a1 ++ b1 := by
  rw [h1, h2]

/-- A pair that is `(X, b)` under a condition and `([], b)` otherwise has a
non-empty first component exactly under the condition, when `X` is not empty. -/
theorem fst_ne_nil_iff {α β : Type} (P : Prop) [Decidable P] (r : List α × β) (X : List α)
    (b : β) (h : r = if P then (X, b) else ([], b)) (hX : X ≠ []) : r.1 ≠ [] ↔ P := by
  by_cases hp : P
  · rw [h, if_pos hp]
    exact ⟨fun _ => hp, fun _ => hX⟩
  · rw [h, if_neg hp]
    exact ⟨fun hne => absurd rfl hne, fun hq => absurd hq hp⟩

/-- C22: for a neighbour record of type RTM_NEWNEIGH or RTM_DELNEIGH whose
length covers the header, `print_fdb` renders the record if and only if the
family is AF_BRIDGE and every filter is either 0 or satisfied: the interface
index equals `filter_index`, the state has a bit of `filter_state`, the VLAN id
read from NDA_VLAN (0 without that attribute) equals `filter_vlan`, and the
state is not PERMANENT under `filter_dynamic`. Rendering is spelled out: the
header and the opening of the object, `Deleted` for RTM_DELNEIGH, the address,
the device (when no `filter_index` is set), the destination, the VLAN, the
port, the two VNIs, the outgoing interface, the nexthop id, the netns id, the
statistics under `show_stats`, the flags, the master, the state, the closing
of the object and the flush, and the return value 0. A record that is not
rendered produces no call at all and the return value 0, so `print_fdb` makes
a call of the output interface exactly for the records that pass. `tb` is the table
that `parse_rtattr` fills; when the statistics are printed, the clock rate that
`fdb_print_stats` divides by is not 0. -/
theorem C22_show_filtering (E : ShowExt) (hz : Int) (n : req) (tb : NdaId → Option rtattr)
    (htype : n.nlmsg_type = RTM_NEWNEIGH ∨ n.nlmsg_type = RTM_DELNEIGH)
    (hlen : 0 ≤ to_int (n.nlmsg_len + 2 ^ 32 - NLMSG_LENGTH sizeof_ndmsg))
    (htb : tb = parse_rtattr n.attrs (to_int (n.nlmsg_len + 2 ^ 32 - NLMSG_LENGTH sizeof_ndmsg)))
    (hhz : E.show_stats ≠ 0 → (tb .NDA_CACHEINFO).isSome →
      ((if hz = 0 then E.get_user_hz else hz) % 2 ^ 32).toNat ≠ 0) :
    (print_fdb E hz n =
      (if n.ndm_family = AF_BRIDGE ∧
          (E.filter_index = 0 ∨ E.filter_index = n.ndm_ifindex) ∧
          (E.filter_state = 0 ∨ n.ndm_state &&& E.filter_state ≠ 0) ∧
          (E.filter_vlan = 0 ∨
            E.filter_vlan = (tb .NDA_VLAN).elim 0 fun a => Flower.rta_getattr_u16 E.le a.data) ∧
          (E.filter_dynamic = 0 ∨ n.ndm_state &&& NUD_PERMANENT = 0) then
        ([.print_headers "[NEIGH]", .open_json_object none] ++
          (if n.nlmsg_type = RTM_DELNEIGH then
            [.print_bool .PRINT_ANY (some "deleted") (some "Deleted ") true] else []) ++
          ((tb .NDA_LLADDR).elim [] fun a =>
            [.print_color_string .PRINT_ANY .COLOR_MAC (some "mac") (some "%s ")
              (some (E.ll_addr_n2a a.data (E.ll_index_to_type n.ndm_ifindex)))]) ++
          (if E.filter_index = 0 ∧ n.ndm_ifindex ≠ 0 then
            [.print_string .PRINT_FP none (some "dev ") none,
             .print_color_string .PRINT_ANY .COLOR_IFNAME (some "ifname") (some "%s ")
               (some (E.ll_index_to_name n.ndm_ifindex))]
            else []) ++
          ((tb .NDA_DST).elim [] fun a =>
            [.print_string .PRINT_FP none (some "dst ") none,
             .print_color_string .PRINT_ANY
               (.ifa_family_color
                 (if a.data.length = 16 then Flower.AF_INET6 else Flower.AF_INET))
               (some "dst") (some "%s ")
               (some (E.format_host
                 (if a.data.length = 16 then Flower.AF_INET6 else Flower.AF_INET) a.data))]) ++
          (if ((tb .NDA_VLAN).elim 0 fun a => Flower.rta_getattr_u16 E.le a.data) ≠ 0 then
            [.print_uint .PRINT_ANY (some "vlan") (some "vlan %hu ")
              ((tb .NDA_VLAN).elim 0 fun a => Flower.rta_getattr_u16 E.le a.data)]
            else []) ++
          ((tb .NDA_PORT).elim [] fun a =>
            [.print_uint .PRINT_ANY (some "port") (some "port %u ")
              (Flower.rta_getattr_be16 E.le a.data)]) ++
          ((tb .NDA_VNI).elim [] fun a =>
            [.print_uint .PRINT_ANY (some "vni") (some "vni %u ")
              (Flower.rta_getattr_u32 E.le a.data)]) ++
          ((tb .NDA_SRC_VNI).elim [] fun a =>
            [.print_uint .PRINT_ANY (some "src_vni") (some "src_vni %u ")
              (Flower.rta_getattr_u32 E.le a.data)]) ++
          ((tb .NDA_IFINDEX).elim [] fun a =>
            if (tb .NDA_LINK_NETNSID).isSome then
              [.print_uint .PRINT_ANY (some "viaIfIndex") (some "via ifindex %u ")
                (Flower.rta_getattr_u32 E.le a.data)]
            else
              [.print_string .PRINT_ANY (some "viaIf") (some "via %s ")
                (some (E.ll_index_to_name (Flower.rta_getattr_u32 E.le a.data)))]) ++
          ((tb .NDA_NH_ID).elim [] fun a =>
            [.print_uint .PRINT_ANY (some "nhid") (some "nhid %u ")
              (Flower.rta_getattr_u32 E.le a.data)]) ++
          ((tb .NDA_LINK_NETNSID).elim [] fun a =>
            [.print_uint .PRINT_ANY (some "linkNetNsId") (some "link-netnsid %d ")
              (Flower.rta_getattr_u32 E.le a.data)]) ++
          ((tb .NDA_CACHEINFO).elim [] fun a =>
            if E.show_stats ≠ 0 then
              if E.is_json_context then
                [.print_uint .PRINT_JSON (some "used") none
                  (Flower.rta_getattr_u32 E.le (a.data.drop 4) /
                    ((if hz = 0 then E.get_user_hz else hz) % 2 ^ 32).toNat),
                 .print_uint .PRINT_JSON (some "updated") none
                  (Flower.rta_getattr_u32 E.le (a.data.drop 8) /
                    ((if hz = 0 then E.get_user_hz else hz) % 2 ^ 32).toNat)]
              else
                [.fprintf "fp" ("used " ++
                  toString (to_int (Flower.rta_getattr_u32 E.le (a.data.drop 4) /
                    ((if hz = 0 then E.get_user_hz else hz) % 2 ^ 32).toNat)) ++ "/" ++
                  toString (to_int (Flower.rta_getattr_u32 E.le (a.data.drop 8) /
                    ((if hz = 0 then E.get_user_hz else hz) % 2 ^ 32).toNat)) ++ " ")]
            else []) ++
          [.open_json_array .PRINT_JSON (some (if E.is_json_context then "flags" else ""))] ++
          (if n.ndm_flags &&& NTF_SELF ≠ 0 then
            [.print_string .PRINT_ANY none (some "%s ") (some "self")] else []) ++
          (if n.ndm_flags &&& NTF_ROUTER ≠ 0 then
            [.print_string .PRINT_ANY none (some "%s ") (some "router")] else []) ++
          (if n.ndm_flags &&& NTF_EXT_LEARNED ≠ 0 then
            [.print_string .PRINT_ANY none (some "%s ") (some "extern_learn")] else []) ++
          (if n.ndm_flags &&& NTF_OFFLOADED ≠ 0 then
            [.print_string .PRINT_ANY none (some "%s ") (some "offload")] else []) ++
          (if n.ndm_flags &&& NTF_MASTER ≠ 0 then
            [.print_string .PRINT_ANY none (some "%s ") (some "master")] else []) ++
          (if n.ndm_flags &&& NTF_STICKY ≠ 0 then
            [.print_string .PRINT_ANY none (some "%s ") (some "sticky")] else []) ++
          (if ((tb .NDA_FLAGS_EXT).elim 0 fun a => Flower.rta_getattr_u32 E.le a.data)
              &&& NTF_EXT_LOCKED ≠ 0 then
            [.print_string .PRINT_ANY none (some "%s ") (some "locked")] else []) ++
          [.close_json_array .PRINT_JSON none] ++
          ((tb .NDA_MASTER).elim [] fun a =>
            [.print_string .PRINT_ANY (some "master") (some "master %s ")
              (some (E.ll_index_to_name (Flower.rta_getattr_u32 E.le a.data)))]) ++
          [.print_string .PRINT_ANY (some "state") (some "%s\n")
             (some (state_n2a E.is_json_context n.ndm_state)),
           .close_json_object, .fflush],
          .ok 0)
      else ([], .ok 0))) ∧
    ((print_fdb E hz n).1 ≠ [] ↔
      n.ndm_family = AF_BRIDGE ∧
      (E.filter_index = 0 ∨ E.filter_index = n.ndm_ifindex) ∧
      (E.filter_state = 0 ∨ n.ndm_state &&& E.filter_state ≠ 0) ∧
      (E.filter_vlan = 0 ∨
        E.filter_vlan = (tb .NDA_VLAN).elim 0 fun a => Flower.rta_getattr_u16 E.le a.data) ∧
      (E.filter_dynamic = 0 ∨ n.ndm_state &&& NUD_PERMANENT = 0)) := by
  refine (fun h => ⟨h, fst_ne_nil_iff _ _ _ _ h (by simp)⟩) ?_
  have h0 : ¬ (n.nlmsg_type ≠ RTM_NEWNEIGH ∧ n.nlmsg_type ≠ RTM_DELNEIGH) := by
    rcases htype with h | h <;> simp [h]
  have h1 : ¬ (to_int (n.nlmsg_len + 2 ^ 32 - NLMSG_LENGTH sizeof_ndmsg) < 0) := by omega
  unfold print_fdb
  rw [if_neg h0]
  obtain ⟨L, hL⟩ : ∃ L, L = to_int (n.nlmsg_len + 2 ^ 32 - NLMSG_LENGTH sizeof_ndmsg) :=
    ⟨_, rfl⟩
  rw [← hL] at h1 htb
  rw [← hL]
  simp only [if_neg h1]
  rw [← htb]
  have hvid : print_fdb_vid E tb =
      (tb .NDA_VLAN).elim 0 fun a => Flower.rta_getattr_u16 E.le a.data := by
    unfold print_fdb_vid
    cases tb .NDA_VLAN <;> rfl
  rw [hvid]
  obtain ⟨vid, hv⟩ : ∃ vid, vid = (tb .NDA_VLAN).elim 0
      fun a => Flower.rta_getattr_u16 E.le a.data := ⟨_, rfl⟩
  rw [← hv]
  by_cases c1 : n.ndm_family ≠ AF_BRIDGE
  · rw [if_pos c1, if_neg (fun h => c1 h.1)]
  rw [if_neg c1]
  have c1' : n.ndm_family = AF_BRIDGE := not_not.mp c1
  by_cases c2 : E.filter_index ≠ 0 ∧ E.filter_index ≠ n.ndm_ifindex
  · rw [if_pos c2, if_neg (fun h => h.2.1.elim c2.1 c2.2)]
  rw [if_neg c2]
  have c2' : E.filter_index = 0 ∨ E.filter_index = n.ndm_ifindex := by
    by_cases e : E.filter_index = 0
    · exact Or.inl e
    · right
      by_contra e2
      exact c2 ⟨e, e2⟩
  by_cases c3 : E.filter_state ≠ 0 ∧ n.ndm_state &&& E.filter_state = 0
  · rw [if_pos c3, if_neg (fun h => h.2.2.1.elim c3.1 (fun h3 => h3 c3.2))]
  rw [if_neg c3]
  have c3' : E.filter_state = 0 ∨ n.ndm_state &&& E.filter_state ≠ 0 := by
    by_cases e : E.filter_state = 0
    · exact Or.inl e
    · right
      intro e2
      exact c3 ⟨e, e2⟩
  by_cases c4 : E.filter_vlan ≠ 0 ∧ E.filter_vlan ≠ vid
  · rw [if_pos c4, if_neg (fun h => h.2.2.2.1.elim c4.1 c4.2)]
  rw [if_neg c4]
  have c4' : E.filter_vlan = 0 ∨ E.filter_vlan = vid := by
    by_cases e : E.filter_vlan = 0
    · exact Or.inl e
    · right
      by_contra e2
      exact c4 ⟨e, e2⟩
  by_cases c5 : E.filter_dynamic ≠ 0 ∧ n.ndm_state &&& NUD_PERMANENT ≠ 0
  · rw [if_pos c5, if_neg (fun h => h.2.2.2.2.elim c5.1 (fun h5 => c5.2 h5))]
  rw [if_neg c5]
  have c5' : E.filter_dynamic = 0 ∨ n.ndm_state &&& NUD_PERMANENT = 0 := by
    by_cases e : E.filter_dynamic = 0
    · exact Or.inl e
    · right
      by_contra e2
      exact c5 ⟨e, e2⟩
  rw [if_pos ⟨c1', c2', c3', c4', c5'⟩]
  obtain ⟨d, hd⟩ : ∃ d, d = ((if hz = 0 then E.get_user_hz else hz) % 2 ^ 32).toNat :=
    ⟨_, rfl⟩
  rw [← hd] at hhz ⊢
  have hs : d ≠ 0 → ∀ ci : List Nat, fdb_print_stats E hz ci =
      (if E.is_json_context then
        [.print_uint .PRINT_JSON (some "used") none
          (Flower.rta_getattr_u32 E.le (ci.drop 4) / d),
         .print_uint .PRINT_JSON (some "updated") none
          (Flower.rta_getattr_u32 E.le (ci.drop 8) / d)]
      else
        [.fprintf "fp" ("used " ++
          toString (to_int (Flower.rta_getattr_u32 E.le (ci.drop 4) / d)) ++ "/" ++
          toString (to_int (Flower.rta_getattr_u32 E.le (ci.drop 8) / d)) ++ " ")], none) := by
    intro hd0 ci
    unfold fdb_print_stats
    rw [← hd]
    simp only [if_neg hd0]
    split_ifs <;> rfl
  cases hc : tb .NDA_CACHEINFO <;> cases he : tb .NDA_FLAGS_EXT <;>
    by_cases hss : E.show_stats ≠ 0 <;>
    (try rw [hc] at hhz) <;>
    (try simp only [hs (hhz hss rfl)]) <;>
    simp only [Option.elim_some, Option.elim_none] <;>
    (try simp only [if_pos hss]) <;>
    (try simp only [if_neg hss]) <;>
    refine congrArg (fun l => (l, (Except.ok 0 : Except Fail Int))) ?_ <;>
    unfold print_fdb_fields print_fdb_tail fdb_print_flags <;>
    simp only [List.append_assoc] <;>
    repeat' (first | rfl | apply append_both)
  all_goals (split <;> (rename_i h; rw [h]; rfl))

set_option maxRecDepth 100000 in
/-- C22 witness: a static entry on interface 2 with VLAN 10 and master 3: under
the filters `filter_index = 2` and `filter_vlan = 10` it is rendered with its
address, VLAN, flags, master and state; under `filter_vlan = 20` nothing is
printed. -/
theorem C22_show_filtering_witness :
    print_fdb (demoShowExt true 2 0 10 0) 0
      { nlmsg_len := 56, nlmsg_flags := 0, nlmsg_type := RTM_NEWNEIGH, ndm_family := AF_BRIDGE,
        ndm_ifindex := 2, ndm_state := NUD_NOARP, ndm_flags := NTF_SELF,
        attrs := [⟨10, .NDA_LLADDR, [0, 17, 34, 51, 68, 85]⟩, ⟨6, .NDA_VLAN, [10, 0]⟩,
          ⟨8, .NDA_MASTER, [3, 0, 0, 0]⟩] } =
      ([.print_headers "[NEIGH]", .open_json_object none,
        .print_color_string .PRINT_ANY .COLOR_MAC (some "mac") (some "%s ")
          (some "0:17:34:51:68:85"),
        .print_uint .PRINT_ANY (some "vlan") (some "vlan %hu ") 10,
        .open_json_array .PRINT_JSON (some ""),
        .print_string .PRINT_ANY none (some "%s ") (some "self"),
        .close_json_array .PRINT_JSON none,
        .print_string .PRINT_ANY (some "master") (some "master %s ") (some "vxlan0"),
        .print_string .PRINT_ANY (some "state") (some "%s\n") (some "static"),
        .close_json_object, .fflush], .ok 0) ∧
    print_fdb (demoShowExt true 2 0 20 0) 0
      { nlmsg_len := 56, nlmsg_flags := 0, nlmsg_type := RTM_NEWNEIGH, ndm_family := AF_BRIDGE,
        ndm_ifindex := 2, ndm_state := NUD_NOARP, ndm_flags := NTF_SELF,
        attrs := [⟨10, .NDA_LLADDR, [0, 17, 34, 51, 68, 85]⟩, ⟨6, .NDA_VLAN, [10, 0]⟩,
          ⟨8, .NDA_MASTER, [3, 0, 0, 0]⟩] } = ([], .ok 0) :=
  ⟨(C22_show_filtering (demoShowExt true 2 0 10 0) 0
      { nlmsg_len := 56, nlmsg_flags := 0, nlmsg_type := RTM_NEWNEIGH, ndm_family := AF_BRIDGE,
        ndm_ifindex := 2, ndm_state := NUD_NOARP, ndm_flags := NTF_SELF,
        attrs := [⟨10, .NDA_LLADDR, [0, 17, 34, 51, 68, 85]⟩, ⟨6, .NDA_VLAN, [10, 0]⟩,
          ⟨8, .NDA_MASTER, [3, 0, 0, 0]⟩] }
      _ (by decide) (by decide) rfl (fun _ _ => by decide)).1.trans (by decide),
   (C22_show_filtering (demoShowExt true 2 0 20 0) 0
      { nlmsg_len := 56, nlmsg_flags := 0, nlmsg_type := RTM_NEWNEIGH, ndm_family := AF_BRIDGE,
        ndm_ifindex := 2, ndm_state := NUD_NOARP, ndm_flags := NTF_SELF,
        attrs := [⟨10, .NDA_LLADDR, [0, 17, 34, 51, 68, 85]⟩, ⟨6, .NDA_VLAN, [10, 0]⟩,
          ⟨8, .NDA_MASTER, [3, 0, 0, 0]⟩] }
      _ (by decide) (by decide) rfl (fun _ _ => by decide)).1.trans (by decide)⟩

/-! ## Claims on `do_fdb` -/

/-- C23 (as stated, refuted): a first argument that matches no verb does not
make `do_fdb` call `usage()`: the call ends with the message that the command
is unknown and `exit(-1)`. -/
theorem C23_unknown_verb_no_usage :
    do_fdb (demoExt true) ["frobnicate", "dev", "br0"] ≠ .usage ∧
    do_fdb (demoExt true) ["frobnicate", "dev", "br0"] =
      .unknown "Command \"frobnicate\" is unknown, try \"bridge fdb help\".\n" (-1) := by
  decide

/-- C23 (amended): `do_fdb` hands an empty argument list to `fdb_show`; a first
argument matching `add`, `append`, `replace` or `delete` (tested in this order)
goes to `fdb_modify` with (RTM_NEWNEIGH, CREATE|EXCL), (RTM_NEWNEIGH,
CREATE|APPEND), (RTM_NEWNEIGH, CREATE|REPLACE) and (RTM_DELNEIGH, 0) and the
remaining arguments; a first argument that matches `help` and no verb before it
ends in `usage()`; and a first argument that matches no verb and is not `help`
ends with the message `Command "..." is unknown, try "bridge fdb help".` on
standard error and `exit(-1)`, without the usage text. -/
theorem C23_dispatch (E : Ext) (arg : String) (rest : List String) :
    do_fdb E [] = .fdb_show [] ∧
    (E.matches_cmd arg "add" = true →
      do_fdb E (arg :: rest) = .fdb_modify RTM_NEWNEIGH (NLM_F_CREATE ||| NLM_F_EXCL) rest) ∧
    (E.matches_cmd arg "add" = false → E.matches_cmd arg "append" = true →
      do_fdb E (arg :: rest) = .fdb_modify RTM_NEWNEIGH (NLM_F_CREATE ||| NLM_F_APPEND) rest) ∧
    (E.matches_cmd arg "add" = false → E.matches_cmd arg "append" = false →
      E.matches_cmd arg "replace" = true →
      do_fdb E (arg :: rest) = .fdb_modify RTM_NEWNEIGH (NLM_F_CREATE ||| NLM_F_REPLACE) rest) ∧
    (E.matches_cmd arg "add" = false → E.matches_cmd arg "append" = false →
      E.matches_cmd arg "replace" = false → E.matches_cmd arg "delete" = true →
      do_fdb E (arg :: rest) = .fdb_modify RTM_DELNEIGH 0 rest) ∧
    (E.matches_cmd arg "add" = false → E.matches_cmd arg "append" = false →
      E.matches_cmd arg "replace" = false → E.matches_cmd arg "delete" = false →
      E.matches_cmd arg "get" = false → E.matches_cmd arg "show" = false →
      E.matches_cmd arg "lst" = false → E.matches_cmd arg "list" = false →
      arg ≠ "flush" →
      (E.matches_cmd arg "help" = true → do_fdb E (arg :: rest) = .usage) ∧
      (E.matches_cmd arg "help" = false →
        do_fdb E (arg :: rest) =
          .unknown ("Command \"" ++ arg ++ "\" is unknown, try \"bridge fdb help\".\n") (-1))) := by
  refine ⟨rfl, ?_, ?_, ?_, ?_, ?_⟩
  · intro h1; simp [do_fdb, h1]
  · intro h1 h2; simp [do_fdb, h1, h2]
  · intro h1 h2 h3; simp [do_fdb, h1, h2, h3]
  · intro h1 h2 h3 h4; simp [do_fdb, h1, h2, h3, h4]
  · intro h1 h2 h3 h4 h5 h6 h7 h8 h9
    constructor
    · intro h10; simp [do_fdb, h1, h2, h3, h4, h5, h6, h7, h8, h9, h10]
    · intro h10; simp [do_fdb, h1, h2, h3, h4, h5, h6, h7, h8, h9, h10]

/-- C23 witness: the four modifying verbs, `help` and an unknown verb with the
prefix matcher. -/
theorem C23_dispatch_witness :
    do_fdb (demoExt true) ["add", "x"] =
      .fdb_modify RTM_NEWNEIGH (NLM_F_CREATE ||| NLM_F_EXCL) ["x"] ∧
    do_fdb (demoExt true) ["append", "x"] =
      .fdb_modify RTM_NEWNEIGH (NLM_F_CREATE ||| NLM_F_APPEND) ["x"] ∧
    do_fdb (demoExt true) ["replace", "x"] =
      .fdb_modify RTM_NEWNEIGH (NLM_F_CREATE ||| NLM_F_REPLACE) ["x"] ∧
    do_fdb (demoExt true) ["delete", "x"] = .fdb_modify RTM_DELNEIGH 0 ["x"] ∧
    do_fdb (demoExt true) ["help", "x"] = .usage ∧
    do_fdb (demoExt true) ["frobnicate", "x"] =
      .unknown ("Command \"" ++ "frobnicate" ++ "\" is unknown, try \"bridge fdb help\".\n")
        (-1) :=
  ⟨(C23_dispatch (demoExt true) "add" ["x"]).2.1 (by decide),
   (C23_dispatch (demoExt true) "append" ["x"]).2.2.1 (by decide) (by decide),
   (C23_dispatch (demoExt true) "replace" ["x"]).2.2.2.1 (by decide) (by decide) (by decide),
   (C23_dispatch (demoExt true) "delete" ["x"]).2.2.2.2.1 (by decide) (by decide) (by decide)
     (by decide),
   ((C23_dispatch (demoExt true) "help" ["x"]).2.2.2.2.2 (by decide) (by decide) (by decide)
     (by decide) (by decide) (by decide) (by decide) (by decide) (by decide)).1 (by decide),
   ((C23_dispatch (demoExt true) "frobnicate" ["x"]).2.2.2.2.2 (by decide) (by decide)
     (by decide) (by decide) (by decide) (by decide) (by decide) (by decide) (by decide)).2
     (by decide)⟩

/-! ## Decoding what `fdb_modify` encodes -/

theorem rta_getattr_u16_mem (le : Bool) (x : Nat) (hx : x < 2 ^ 16) :
    Flower.rta_getattr_u16 le (u16_mem le x) = x := by
  cases le <;>
    simp [Flower.rta_getattr_u16, Flower.of_mem, Flower.rta_field, u16_mem, Flower.be16_bytes,
      Flower.of_be_bytes] <;> omega

theorem ntohs_swap (hi lo : Nat) (h1 : hi < 256) (h2 : lo < 256) :
    ntohs true (lo * 256 + hi) = hi * 256 + lo := by
  simp only [ntohs, htons, Flower.be16_bytes, Flower.of_be_bytes, if_true, List.reverse_cons,
    List.reverse_nil, List.nil_append, List.cons_append, List.foldl_cons, List.foldl_nil]
  omega

theorem rta_getattr_be16_mem (le : Bool) (x : Nat) (hx : x < 2 ^ 16) :
    Flower.rta_getattr_be16 le (u16_mem le (htons le x)) = x := by
  rw [Flower.u16_mem_htons]
  cases le
  · simp [Flower.rta_getattr_be16, Flower.rta_getattr_u16, Flower.of_mem, Flower.rta_field,
      htons, ntohs, Flower.be16_bytes, Flower.of_be_bytes]
    omega
  · have e : Flower.rta_getattr_u16 true (Flower.be16_bytes x) = x % 256 * 256 + x / 256 % 256 := by
      simp [Flower.rta_getattr_u16, Flower.of_mem, Flower.rta_field, Flower.be16_bytes,
        Flower.of_be_bytes]
    rw [Flower.rta_getattr_be16, e, ntohs_swap _ _ (Nat.mod_lt _ (by norm_num))
      (Nat.mod_lt _ (by norm_num))]
    omega

theorem rta_getattr_u32_mem (le : Bool) (x : Nat) (hx : x < 2 ^ 32) :
    Flower.rta_getattr_u32 le (u32_mem le x) = x := by
  cases le <;>
    simp [Flower.rta_getattr_u32, Flower.of_mem, Flower.rta_field, u32_mem, Flower.be32_bytes,
      Flower.of_be_bytes] <;> omega

/-- The scan of `parse_rtattr` visits every record of a list of well-formed
records that fits in the length it is given. -/
theorem rta_scan_all : ∀ (attrs : List rtattr) (len : Int),
    (∀ a ∈ attrs, 4 ≤ a.rta_len) →
    ((attrs.map fun a => NLMSG_ALIGN a.rta_len).sum : Int) ≤ len →
    rta_scan attrs len = attrs := by
  intro attrs
  induction attrs with
  | nil => intro len _ _; rfl
  | cons a rest ih =>
    intro len h4 hsum
    have ha : 4 ≤ a.rta_len := h4 a (by simp)
    have hal : a.rta_len ≤ NLMSG_ALIGN a.rta_len := by
      unfold NLMSG_ALIGN
      omega
    simp only [List.map_cons, List.sum_cons, Nat.cast_add] at hsum
    have hnn : (0 : Int) ≤ ((rest.map fun a => NLMSG_ALIGN a.rta_len).sum : Nat) :=
      Int.natCast_nonneg _
    have hc : len ≥ 4 ∧ a.rta_len ≥ 4 ∧ (a.rta_len : Int) ≤ len := by
      refine ⟨by omega, ha, by omega⟩
    simp only [rta_scan, if_pos hc]
    rw [ih _ (fun b hb => h4 b (List.mem_cons_of_mem _ hb)) (by omega)]

/-- The first record satisfying a test is the only one that satisfies it. -/
theorem find_unique {α : Type} (p : α → Bool) (x : α) : ∀ (l : List α),
    x ∈ l → p x = true → (∀ y ∈ l, p y = true → y = x) → l.find? p = some x := by
  intro l
  induction l with
  | nil => intro h; simp at h
  | cons a rest ih =>
    intro hx hp hu
    by_cases ha : p a = true
    · have := hu a (by simp) ha
      subst this
      simp [List.find?, hp]
    · have hne : x ≠ a := fun e => ha (e ▸ hp)
      have hx2 : x ∈ rest := by
        rcases List.mem_cons.mp hx with e | e
        · exact absurd e hne
        · exact e
      simp only [List.find?, Bool.not_eq_true] at ha ⊢
      rw [ha]
      exact ih hx2 hp (fun y hy => hu y (List.mem_cons_of_mem _ hy))

/-- A request is tight when its length is aligned, within the buffer, and the
header plus the aligned sizes of its records, each at least a header. -/
theorem addattr_l_tight (r : req) (maxlen : Nat) (t : NdaId) (d : List Nat)
    (h : r.nlmsg_len % 4 = 0 ∧ r.nlmsg_len ≤ maxlen ∧
      r.nlmsg_len = 28 + (r.attrs.map fun a => NLMSG_ALIGN a.rta_len).sum ∧
      ∀ a ∈ r.attrs, 4 ≤ a.rta_len) :
    (addattr_l r maxlen t d).2.nlmsg_len % 4 = 0 ∧ (addattr_l r maxlen t d).2.nlmsg_len ≤ maxlen ∧
      (addattr_l r maxlen t d).2.nlmsg_len =
        28 + ((addattr_l r maxlen t d).2.attrs.map fun a => NLMSG_ALIGN a.rta_len).sum ∧
      ∀ a ∈ (addattr_l r maxlen t d).2.attrs, 4 ≤ a.rta_len := by
  obtain ⟨h4, hm, hs, ha⟩ := h
  have e : NLMSG_ALIGN r.nlmsg_len = r.nlmsg_len := by
    unfold NLMSG_ALIGN
    omega
  have e2 : NLMSG_ALIGN (4 + d.length) % 4 = 0 := Flower.NLMSG_ALIGN_mod _
  unfold addattr_l RTA_LENGTH
  simp only [e]
  split_ifs with hc
  · exact ⟨h4, hm, hs, ha⟩
  · refine ⟨?_, ?_, ?_, ?_⟩
    · simp only
      omega
    · simp only
      omega
    · simp only [List.map_append, List.sum_append, List.map_cons, List.map_nil, List.sum_cons,
        List.sum_nil]
      omega
    · intro a hmem
      simp only [List.mem_append, List.mem_singleton] at hmem
      rcases hmem with hmem | hmem
      · exact ha a hmem
      · rw [hmem]
        simp only
        omega

theorem if_tight (c : Prop) [Decidable c] (r : req) (maxlen : Nat) (t : NdaId) (d : List Nat)
    (h : r.nlmsg_len % 4 = 0 ∧ r.nlmsg_len ≤ maxlen ∧
      r.nlmsg_len = 28 + (r.attrs.map fun a => NLMSG_ALIGN a.rta_len).sum ∧
      ∀ a ∈ r.attrs, 4 ≤ a.rta_len) :
    (if c then (addattr_l r maxlen t d).2 else r).nlmsg_len % 4 = 0 ∧
      (if c then (addattr_l r maxlen t d).2 else r).nlmsg_len ≤ maxlen ∧
      (if c then (addattr_l r maxlen t d).2 else r).nlmsg_len =
        28 + ((if c then (addattr_l r maxlen t d).2 else r).attrs.map
          fun a => NLMSG_ALIGN a.rta_len).sum ∧
      ∀ a ∈ (if c then (addattr_l r maxlen t d).2 else r).attrs, 4 ≤ a.rta_len := by
  split_ifs
  · exact addattr_l_tight r maxlen t d h
  · exact h

theorem fdb_modify_attrs_tight (E : Ext) (st : ModifyState) (mac : List Nat) (r0 : req)
    (h : r0.nlmsg_len % 4 = 0 ∧ r0.nlmsg_len ≤ sizeof_req ∧
      r0.nlmsg_len = 28 + (r0.attrs.map fun a => NLMSG_ALIGN a.rta_len).sum ∧
      ∀ a ∈ r0.attrs, 4 ≤ a.rta_len) :
    (fdb_modify_attrs E st mac r0).nlmsg_len % 4 = 0 ∧
      (fdb_modify_attrs E st mac r0).nlmsg_len ≤ sizeof_req ∧
      (fdb_modify_attrs E st mac r0).nlmsg_len =
        28 + ((fdb_modify_attrs E st mac r0).attrs.map fun a => NLMSG_ALIGN a.rta_len).sum ∧
      ∀ a ∈ (fdb_modify_attrs E st mac r0).attrs, 4 ≤ a.rta_len := by
  have t1 := addattr_l_tight r0 sizeof_req .NDA_LLADDR (abuf mac) h
  have t2 : ∀ x : req, x = (if st.dst_ok = true then
      match st.dst with
      | some dst => (addattr_l (addattr_l r0 sizeof_req .NDA_LLADDR (abuf mac)).2 sizeof_req
          .NDA_DST (dst.data.take dst.bytelen)).2
      | none => (addattr_l r0 sizeof_req .NDA_LLADDR (abuf mac)).2
      else (addattr_l r0 sizeof_req .NDA_LLADDR (abuf mac)).2) →
      x.nlmsg_len % 4 = 0 ∧ x.nlmsg_len ≤ sizeof_req ∧
      x.nlmsg_len = 28 + (x.attrs.map fun a => NLMSG_ALIGN a.rta_len).sum ∧
      ∀ a ∈ x.attrs, 4 ≤ a.rta_len := by
    intro x hx
    rw [hx]
    split_ifs
    · cases st.dst with
      | none => exact t1
      | some dst => exact addattr_l_tight _ _ _ _ t1
    · exact t1
  unfold fdb_modify_attrs
  simp only [addattr16, addattr32]
  exact if_tight _ _ _ _ _ (if_tight _ _ _ _ _ (if_tight _ _ _ _ _ (if_tight _ _ _ _ _
    (if_tight _ _ _ _ _ (if_tight _ _ _ _ _ (t2 _ rfl))))))

theorem to_short_lt (x : Int) : to_short x < 32768 := by
  unfold to_short
  split_ifs <;> omega

/-- The ranges of the locals `port`, `vni` and `vid` through a pass of the loop
of `fdb_modify`. -/
theorem fdb_modify_arg_ranges (E : Ext) (st : ModifyState) (a : String) (rest : List String)
    (st1 : ModifyState) (rest1 : List String)
    (hs : st.port < 2 ^ 16 ∧ (st.vni = ULONG_MAX E ∨ st.vni < 2 ^ 24) ∧ st.vid < 32768)
    (h : fdb_modify_arg E st a rest = .ok (st1, rest1)) :
    st1.port < 2 ^ 16 ∧ (st1.vni = ULONG_MAX E ∨ st1.vni < 2 ^ 24) ∧ st1.vid < 32768 := by
  unfold fdb_modify_arg at h
  cases hk : fdb_modify_keyword E a <;> simp only [hk] at h
  all_goals (try (repeat' split at h))
  all_goals (try simp at h)
  all_goals (try (obtain ⟨rfl, rfl⟩ := h))
  all_goals (try exact hs)
  · exact ⟨Flower.htons_lt _ _, hs.2.1, hs.2.2⟩
  · rename_i h1 h2
    refine ⟨?_, hs.2.1, hs.2.2⟩
    simp only
    omega
  · rename_i hv
    exact ⟨hs.1, Or.inr (parse_vni_lt E _ _ hv).1, hs.2.2⟩
  · exact ⟨hs.1, hs.2.1, to_short_lt _⟩

theorem fdb_modify_loop_ranges (E : Ext) (cmd flags : Nat) (argv : List String)
    (st : ModifyState)
    (hloop : fdb_modify_args E argv.length (fdb_modify_init E cmd flags) argv = .ok st) :
    st.port < 2 ^ 16 ∧ (st.vni = ULONG_MAX E ∨ st.vni < 2 ^ 24) ∧ st.vid < 32768 :=
  arg_loop_invariant (fdb_modify_arg E)
    (fun s => s.port < 2 ^ 16 ∧ (s.vni = ULONG_MAX E ∨ s.vni < 2 ^ 24) ∧ s.vid < 32768)
    (fun s a rest s1 rest1 hs hp => fdb_modify_arg_ranges E s a rest s1 rest1 hs hp)
    argv.length _ st argv ⟨by simp [fdb_modify_init], Or.inl rfl, by simp [fdb_modify_init]⟩ hloop

/-- The request that `fdb_modify` hands over is tight. -/
theorem fdb_modify_tight (E : Ext) (cmd flags : Nat) (argv : List String) (r : req)
    (h : fdb_modify E cmd flags argv = .ok r) :
    r.nlmsg_len ≤ sizeof_req ∧
      r.nlmsg_len = 28 + (r.attrs.map fun a => NLMSG_ALIGN a.rta_len).sum ∧
      ∀ a ∈ r.attrs, 4 ≤ a.rta_len := by
  obtain ⟨st, d, addr, hloop, -, -, -, hb⟩ := fdb_modify_ok E cmd flags argv r h
  have hreq := fdb_modify_loop_req E cmd flags argv st hloop
  unfold fdb_modify_build at hb
  cases hm : E.sscanf_lladdr addr with
  | none => simp [hm] at hb
  | some mac =>
    simp only [hm] at hb
    split_ifs at hb with h1 h2 h3
    all_goals
      simp only [Except.ok.injEq] at hb
      rw [← hb]
      refine (fdb_modify_attrs_tight E st mac _ ⟨?_, ?_, ?_, ?_⟩).2
      · simp only [hreq.1]
      · simp only [hreq.1]
        decide
      · simp only [hreq.1, hreq.2, List.map_nil, List.sum_nil, Nat.add_zero]
      · simp only [hreq.2]
        intro a ha
        simp at ha

/-- The local `dst` of `fdb_modify` is an address that `get_addr` returned. -/
theorem fdb_modify_arg_dst (E : Ext) (P : inet_prefix → Prop)
    (hP : ∀ s f a, E.get_addr s f = some a → P a)
    (st : ModifyState) (a : String) (rest : List String)
    (st1 : ModifyState) (rest1 : List String)
    (hs : ∀ dst, st.dst = some dst → P dst)
    (h : fdb_modify_arg E st a rest = .ok (st1, rest1)) :
    ∀ dst, st1.dst = some dst → P dst := by
  unfold fdb_modify_arg at h
  cases hk : fdb_modify_keyword E a <;> simp only [hk] at h
  all_goals (try (repeat' split at h))
  all_goals (try simp at h)
  all_goals (try (obtain ⟨rfl, rfl⟩ := h))
  all_goals (try exact hs)
  rename_i hg
  intro dst hd
  simp only [Option.some.injEq] at hd
  rw [← hd]
  exact hP _ _ _ hg

theorem fdb_modify_loop_dst (E : Ext) (P : inet_prefix → Prop)
    (hP : ∀ s f a, E.get_addr s f = some a → P a)
    (cmd flags : Nat) (argv : List String) (st : ModifyState)
    (hloop : fdb_modify_args E argv.length (fdb_modify_init E cmd flags) argv = .ok st) :
    ∀ dst, st.dst = some dst → P dst :=
  arg_loop_invariant (fdb_modify_arg E) (fun s => ∀ dst, s.dst = some dst → P dst)
    (fun s a rest s1 rest1 hs hp => fdb_modify_arg_dst E P hP s a rest s1 rest1 hs hp)
    argv.length _ st argv (by simp [fdb_modify_init]) hloop

/-- C28: whenever `fdb_modify` hands over a request, decoding its records the
way `print_fdb` does (`parse_rtattr` over the bytes after the `ndmsg`, then
`rta_getattr_u16` on NDA_VLAN, `rta_getattr_be16` on NDA_PORT and
`rta_getattr_u32` on NDA_VNI) gives back the locals that `fdb_modify` encoded:
the VLAN id when one was given (`vid >= 0`), the port when it is not 0, and the
VNI when one was given. `get_addr` is taken to return addresses of at most 16
bytes. -/
theorem C28_round_trip (E : Ext) (S : ShowExt) (cmd flags : Nat) (argv : List String)
    (hle : S.le = E.le)
    (haddr : ∀ s f a, E.get_addr s f = some a → (a.data.take a.bytelen).length ≤ 16)
    (h : (fdb_modify E cmd flags argv).isOk = true) :
    ∃ (r : req) (st : ModifyState),
      fdb_modify E cmd flags argv = .ok r ∧
      fdb_modify_args E argv.length (fdb_modify_init E cmd flags) argv = .ok st ∧
      (0 ≤ st.vid → print_fdb_vid S (parse_rtattr r.attrs
        (to_int (r.nlmsg_len + 2 ^ 32 - NLMSG_LENGTH sizeof_ndmsg))) = st.vid.toNat) ∧
      (st.port ≠ 0 → ((parse_rtattr r.attrs
        (to_int (r.nlmsg_len + 2 ^ 32 - NLMSG_LENGTH sizeof_ndmsg)) .NDA_PORT).map
          fun a => Flower.rta_getattr_be16 S.le a.data) = some st.port) ∧
      (st.vni ≠ ULONG_MAX E → ((parse_rtattr r.attrs
        (to_int (r.nlmsg_len + 2 ^ 32 - NLMSG_LENGTH sizeof_ndmsg)) .NDA_VNI).map
          fun a => Flower.rta_getattr_u32 S.le a.data) = some st.vni) := by
  cases hr : fdb_modify E cmd flags argv with
  | error e => rw [hr] at h; simp [Except.isOk, Except.toBool] at h
  | ok r =>
    obtain ⟨st, d, addr, hloop, -, ha, -, hb⟩ := fdb_modify_ok E cmd flags argv r hr
    refine ⟨r, st, rfl, hloop, ?_⟩
    have hmac : ∃ mac, E.sscanf_lladdr addr = some mac := by
      unfold fdb_modify_build at hb
      cases hm : E.sscanf_lladdr addr with
      | none => simp [hm] at hb
      | some mac => exact ⟨mac, rfl⟩
    obtain ⟨mac, hmac⟩ := hmac
    have hdst := fdb_modify_loop_dst E (fun a => (a.data.take a.bytelen).length ≤ 16) haddr
      cmd flags argv st hloop
    have hL := fdb_modify_layout E cmd flags argv st addr mac r hloop ha hmac hdst hr
    have hT := fdb_modify_tight E cmd flags argv r hr
    have hR := fdb_modify_loop_ranges E cmd flags argv st hloop
    have hlen : to_int (r.nlmsg_len + 2 ^ 32 - NLMSG_LENGTH sizeof_ndmsg) =
        ((r.attrs.map fun a => NLMSG_ALIGN a.rta_len).sum : Nat) := by
      have e1 : sizeof_req = 284 := by decide
      have e2 : NLMSG_LENGTH sizeof_ndmsg = 28 := by decide
      have := hT.1
      have := hT.2.1
      unfold to_int
      rw [e2]
      split_ifs <;> omega
    have hscan : rta_scan r.attrs (to_int (r.nlmsg_len + 2 ^ 32 - NLMSG_LENGTH sizeof_ndmsg))
        = r.attrs := rta_scan_all _ _ hT.2.2 (by rw [hlen])
    have hfind : ∀ (t : NdaId) (x : rtattr), x ∈ r.attrs → x.rta_type = t →
        (∀ y ∈ r.attrs, y.rta_type = t → y = x) →
        parse_rtattr r.attrs (to_int (r.nlmsg_len + 2 ^ 32 - NLMSG_LENGTH sizeof_ndmsg)) t
          = some x := by
      intro t x hx ht hu
      unfold parse_rtattr
      rw [hscan]
      exact find_unique _ x _ hx (by simpa using ht) (fun y hy hp => hu y hy (by simpa using hp))
    have hmem : ∀ y, y ∈ r.attrs →
        y = (⟨10, .NDA_LLADDR, abuf mac⟩ : rtattr) ∨
        y.rta_type = .NDA_DST ∨
        (st.vid ≥ 0 ∧
          y = (⟨6, .NDA_VLAN, u16_mem E.le st.vid.toNat⟩ : rtattr)) ∨
        y.rta_type = .NDA_NH_ID ∨
        (st.port ≠ 0 ∧
          y = (⟨6, .NDA_PORT, u16_mem E.le (htons E.le (st.port % 2 ^ 16))⟩ : rtattr)) ∨
        (st.vni ≠ ULONG_MAX E ∧ y = (⟨8, .NDA_VNI, u32_mem E.le (st.vni % 2 ^ 32)⟩ : rtattr)) ∨
        y.rta_type = .NDA_SRC_VNI ∨ y.rta_type = .NDA_IFINDEX := by
      intro y hy
      rw [hL] at hy
      simp only [List.mem_append, List.mem_singleton, List.mem_ite_nil_right] at hy
      rcases hy with ((((((hy | hy) | hy) | hy) | hy) | hy) | hy) | hy
      · exact Or.inl hy
      · right; left
        obtain ⟨-, hy⟩ := hy
        cases hd : st.dst with
        | none => simp [hd] at hy
        | some dst =>
          simp only [hd, List.mem_singleton] at hy
          rw [hy]
      · exact Or.inr (Or.inr (Or.inl hy))
      · right; right; right; left
        rw [hy.2]
      · exact Or.inr (Or.inr (Or.inr (Or.inr (Or.inl hy))))
      · exact Or.inr (Or.inr (Or.inr (Or.inr (Or.inr (Or.inl hy)))))
      · right; right; right; right; right; right; left
        rw [hy.2]
      · right; right; right; right; right; right; right
        rw [hy.2]
    refine ⟨?_, ?_, ?_⟩
    · intro hv
      have hx : (⟨6, .NDA_VLAN, u16_mem E.le st.vid.toNat⟩ : rtattr) ∈ r.attrs := by
        rw [hL]
        simp [hv]
      have := hfind .NDA_VLAN _ hx rfl (by
        intro y hy ht
        rcases hmem y hy with e | e | e | e | e | e | e | e
        · rw [e] at ht; cases ht
        · rw [e] at ht; cases ht
        · exact e.2
        · rw [e] at ht; cases ht
        · rw [e.2] at ht; cases ht
        · rw [e.2] at ht; cases ht
        · rw [e] at ht; cases ht
        · rw [e] at ht; cases ht)
      unfold print_fdb_vid
      rw [this, hle]
      simp only
      exact rta_getattr_u16_mem _ _ (by have := hR.2.2; omega)
    · intro hp
      have hx : (⟨6, .NDA_PORT, u16_mem E.le (htons E.le (st.port % 2 ^ 16))⟩ : rtattr)
          ∈ r.attrs := by
        rw [hL]
        simp [hp]
      have := hfind .NDA_PORT _ hx rfl (by
        intro y hy ht
        rcases hmem y hy with e | e | e | e | e | e | e | e
        · rw [e] at ht; cases ht
        · rw [e] at ht; cases ht
        · rw [e.2] at ht; cases ht
        · rw [e] at ht; cases ht
        · exact e.2
        · rw [e.2] at ht; cases ht
        · rw [e] at ht; cases ht
        · rw [e] at ht; cases ht)
      rw [this, hle]
      simp only [Option.map_some']
      rw [Nat.mod_eq_of_lt hR.1, rta_getattr_be16_mem _ _ hR.1]
    · intro hv
      have hlt : st.vni < 2 ^ 24 := by
        rcases hR.2.1 with e | e
        · exact absurd e hv
        · exact e
      have hx : (⟨8, .NDA_VNI, u32_mem E.le (st.vni % 2 ^ 32)⟩ : rtattr) ∈ r.attrs := by
        rw [hL]
        simp [hv]
      have := hfind .NDA_VNI _ hx rfl (by
        intro y hy ht
        rcases hmem y hy with e | e | e | e | e | e | e | e
        · rw [e] at ht; cases ht
        · rw [e] at ht; cases ht
        · rw [e.2] at ht; cases ht
        · rw [e] at ht; cases ht
        · rw [e.2] at ht; cases ht
        · exact e.2
        · rw [e] at ht; cases ht
        · rw [e] at ht; cases ht)
      rw [this, hle]
      simp only [Option.map_some']
      have e32 : st.vni % 2 ^ 32 = st.vni := Nat.mod_eq_of_lt (by omega)
      rw [e32, rta_getattr_u32_mem _ _ (by omega)]

/-- The addresses of the example helpers have four bytes. -/
theorem demo_get_addr_length (le : Bool) (s : String) (f : Nat) (a : inet_prefix)
    (h : (demoExt le).get_addr s f = some a) : (a.data.take a.bytelen).length ≤ 16 := by
  have hb : a.bytelen = 4 := by
    simp only [demoExt] at h
    cases hr : Flower.read_prefix4 s f with
    | error e => simp [hr] at h
    | ok b =>
      simp only [hr, Option.some.injEq] at h
      subst h
      unfold Flower.read_prefix4 at hr
      simp only at hr
      split_ifs at hr
      all_goals (try (split at hr))
      all_goals (try simp at hr)
      all_goals (try (rw [← hr]))
  rw [List.length_take, hb]
  omega

/-- C28 witness: an entry with VLAN 10, port 4789 and VNI 100. -/
theorem C28_round_trip_witness :
    ∃ (r : req) (st : ModifyState),
      fdb_modify (demoExt true) RTM_NEWNEIGH (NLM_F_CREATE ||| NLM_F_EXCL)
        ["00:11:22:33:44:55", "dev", "vxlan0", "vlan", "10", "port", "4789", "vni", "100",
          "self"] = .ok r ∧
      fdb_modify_args (demoExt true)
        ["00:11:22:33:44:55", "dev", "vxlan0", "vlan", "10", "port", "4789", "vni", "100",
          "self"].length
        (fdb_modify_init (demoExt true) RTM_NEWNEIGH (NLM_F_CREATE ||| NLM_F_EXCL))
        ["00:11:22:33:44:55", "dev", "vxlan0", "vlan", "10", "port", "4789", "vni", "100",
          "self"] = .ok st ∧
      (0 ≤ st.vid → print_fdb_vid (demoShowExt true 0 0 0 0) (parse_rtattr r.attrs
        (to_int (r.nlmsg_len + 2 ^ 32 - NLMSG_LENGTH sizeof_ndmsg))) = st.vid.toNat) ∧
      (st.port ≠ 0 → ((parse_rtattr r.attrs
        (to_int (r.nlmsg_len + 2 ^ 32 - NLMSG_LENGTH sizeof_ndmsg)) .NDA_PORT).map
          fun a => Flower.rta_getattr_be16 (demoShowExt true 0 0 0 0).le a.data) =
            some st.port) ∧
      (st.vni ≠ ULONG_MAX (demoExt true) → ((parse_rtattr r.attrs
        (to_int (r.nlmsg_len + 2 ^ 32 - NLMSG_LENGTH sizeof_ndmsg)) .NDA_VNI).map
          fun a => Flower.rta_getattr_u32 (demoShowExt true 0 0 0 0).le a.data) =
            some st.vni) :=
  C28_round_trip (demoExt true) (demoShowExt true 0 0 0 0) RTM_NEWNEIGH
    (NLM_F_CREATE ||| NLM_F_EXCL)
    ["00:11:22:33:44:55", "dev", "vxlan0", "vlan", "10", "port", "4789", "vni", "100", "self"]
    rfl (demo_get_addr_length true) (by decide)

end Fdb

namespace Flower

/-! ## The keys of the calls of `flower_print_opt` -/

theorem flower_print_eth_addr_key (E : PrintExt) (name : String) (a m : Option (List Nat)) :
    ∀ c ∈ flower_print_eth_addr E name a m, c.key = some name := by
  intro c hc
  unfold flower_print_eth_addr at hc
  split at hc
  · simp at hc
  · split_ifs at hc
    · simp at hc
    · simp only [List.mem_singleton] at hc
      rw [hc]
      rfl

theorem flower_print_eth_type_key (E : PrintExt) (e0 : Nat) (a : Option (List Nat)) :
    ∀ c ∈ (flower_print_eth_type E e0 a).1, c.key = some "eth_type" := by
  intro c hc
  unfold flower_print_eth_type at hc
  split at hc
  · simp at hc
  · simp only [List.mem_singleton] at hc
    rw [hc]
    rfl

theorem flower_print_ip_proto_key (p0 : Nat) (a : Option (List Nat)) :
    ∀ c ∈ (flower_print_ip_proto p0 a).1, c.key = some "ip_proto" := by
  intro c hc
  unfold flower_print_ip_proto at hc
  split at hc
  · simp at hc
  · simp only [List.mem_singleton] at hc
    rw [hc]
    rfl

theorem flower_print_ip_attr_key (E : PrintExt) (name : String) (a m : Option (List Nat)) :
    ∀ c ∈ flower_print_ip_attr E name a m, c.key = none ∨ c.key = some name := by
  intro c hc
  unfold flower_print_ip_attr at hc
  split at hc
  · simp at hc
  · simp only [List.mem_cons, List.mem_singleton, List.not_mem_nil, or_false] at hc
    rcases hc with hc | hc
    · left; rw [hc]; rfl
    · right; rw [hc]; rfl

theorem flower_print_ip_addr_calls_key (E : PrintExt) (name : String) (t : Nat)
    (a4 m4 a6 m6 : Option (List Nat)) :
    ∀ c ∈ flower_print_ip_addr_calls E name t a4 m4 a6 m6, c.key = some name := by
  intro c hc
  unfold flower_print_ip_addr_calls at hc
  split at hc
  · simp at hc
  · simp only [List.mem_singleton] at hc
    rw [hc]
    rfl

theorem flower_print_port_key (E : PrintExt) (name : String) (a : Option (List Nat)) :
    ∀ c ∈ flower_print_port E name a, c.key = some name := by
  intro c hc
  unfold flower_print_port at hc
  split at hc
  · simp at hc
  · simp only [List.mem_singleton] at hc
    rw [hc]
    rfl

theorem flower_print_tcp_flags_key (E : PrintExt) (name : String) (a m : Option (List Nat)) :
    ∀ c ∈ flower_print_tcp_flags E name a m, c.key = none ∨ c.key = some name := by
  intro c hc
  unfold flower_print_tcp_flags at hc
  split at hc
  · simp at hc
  · simp only [List.mem_cons, List.mem_singleton, List.not_mem_nil, or_false] at hc
    rcases hc with hc | hc
    · left; rw [hc]; rfl
    · right; rw [hc]; rfl

theorem flower_print_key_id_key (E : PrintExt) (name : String) (a : Option (List Nat)) :
    ∀ c ∈ flower_print_key_id E name a, c.key = some name := by
  intro c hc
  unfold flower_print_key_id at hc
  split at hc
  · simp at hc
  · simp only [List.mem_singleton] at hc
    rw [hc]
    rfl

theorem flower_print_masked_u8_key (name : String) (a m : Option (List Nat))
    (f : Option (Nat → Option String)) :
    ∀ c ∈ flower_print_masked_u8 name a m f, c.key = some name := by
  intro c hc
  unfold flower_print_masked_u8 at hc
  split at hc
  · simp at hc
  · simp only [List.mem_singleton] at hc
    rw [hc]
    rfl

theorem flower_print_u32_key (E : PrintExt) (name : String) (a : Option (List Nat)) :
    ∀ c ∈ flower_print_u32 E name a, c.key = some name := by
  intro c hc
  unfold flower_print_u32 at hc
  split at hc
  · simp at hc
  · simp only [List.mem_singleton] at hc
    rw [hc]
    rfl

theorem matching_flags_loop_key (name k : String) (mtf mtf_mask : Nat) (hk : k ≠ name) :
    ∀ (l : List (Nat × String)) (count : Nat), (∀ e ∈ l, k ≠ e.2) →
      ∀ c ∈ (matching_flags_loop name mtf mtf_mask l count).1, c.key ≠ some k := by
  intro l
  induction l with
  | nil => intro count _ c hc; simp [matching_flags_loop] at hc
  | cons e rest ih =>
    intro count hl c hc
    obtain ⟨flag, str⟩ := e
    have hs : k ≠ str := hl (flag, str) (by simp)
    have hl2 : ∀ e ∈ rest, k ≠ e.2 := fun e he => hl e (List.mem_cons_of_mem _ he)
    simp only [matching_flags_loop] at hc
    split_ifs at hc
    all_goals
      try simp only [List.append_assoc, List.cons_append, List.nil_append, List.mem_cons,
        List.mem_append] at hc
    all_goals try casesm* _ ∨ _
    all_goals first
      | exact ih _ hl2 c (by assumption)
      | (subst_vars
         simp only [print_call.key, ne_eq, Option.some.injEq, not_false_eq_true, reduceCtorEq]
         first
           | exact fun e => hk e.symm
           | exact fun e => hs e.symm
           | done)

theorem flower_print_matching_flags_key (E : PrintExt) (name k : String)
    (a m : Option (List Nat)) (hk : k ≠ name) (hl : ∀ e ∈ flags_str, k ≠ e.2) :
    ∀ c ∈ (flower_print_matching_flags E name a m).1, c.key ≠ some k := by
  intro c hc
  unfold flower_print_matching_flags at hc
  split at hc
  · simp at hc
  · split_ifs at hc
    · simp at hc
    · split at hc
      · simp at hc
      · simp only [List.mem_append] at hc
        rcases hc with hc | hc
        · exact matching_flags_loop_key name k _ _ hk _ _ hl c hc
        · split_ifs at hc
          · simp only [List.mem_singleton] at hc
            rw [hc]
            simp [print_call.key]
          · simp at hc

theorem port_free_of_named (l : List print_call) (name : String)
    (h1 : "dst_port" ≠ name) (h2 : "src_port" ≠ name)
    (h : ∀ c ∈ l, c.key = none ∨ c.key = some name) :
    ∀ c ∈ l, c.key ≠ some "dst_port" ∧ c.key ≠ some "src_port" := by
  intro c hc
  rcases h c hc with e | e
  · rw [e]
    exact ⟨nofun, nofun⟩
  · rw [e]
    exact ⟨fun e1 => h1 (Option.some.inj e1).symm, fun e2 => h2 (Option.some.inj e2).symm⟩

theorem port_free_of_named' (l : List print_call) (name : String)
    (h1 : "dst_port" ≠ name) (h2 : "src_port" ≠ name)
    (h : ∀ c ∈ l, c.key = some name) :
    ∀ c ∈ l, c.key ≠ some "dst_port" ∧ c.key ≠ some "src_port" :=
  port_free_of_named l name h1 h2 (fun c hc => Or.inr (h c hc))

theorem flower_print_head_key (E : PrintExt) (tb : AttrId → Option (List Nat)) (handle : Nat) :
    ∀ c ∈ flower_print_head E tb handle,
      c.key ≠ some "dst_port" ∧ c.key ≠ some "src_port" := by
  intro c hc
  unfold flower_print_head at hc
  simp only [List.mem_append] at hc
  casesm* _ ∨ _
  all_goals rename_i hc
  all_goals (try split at hc)
  all_goals (try split_ifs at hc)
  all_goals simp at hc
  all_goals (subst hc; simp [print_call.key])

theorem flower_print_vlan_key (E : PrintExt) (tb : AttrId → Option (List Nat)) :
    ∀ c ∈ flower_print_vlan E tb, c.key ≠ some "dst_port" ∧ c.key ≠ some "src_port" := by
  intro c hc
  unfold flower_print_vlan at hc
  simp only [List.mem_append] at hc
  casesm* _ ∨ _
  all_goals rename_i hc
  all_goals (split at hc)
  all_goals simp at hc
  all_goals (subst hc; simp [print_call.key])

theorem flower_print_tail_key (E : PrintExt) (tb : AttrId → Option (List Nat)) :
    ∀ c ∈ flower_print_tail E tb, c.key ≠ some "dst_port" ∧ c.key ≠ some "src_port" := by
  intro c hc
  unfold flower_print_tail at hc
  simp only [List.mem_append] at hc
  rcases hc with hc | hc
  · split at hc
    · simp only [List.mem_append] at hc
      rcases hc with (hc | hc) | hc
      · split_ifs at hc
        · simp only [List.mem_singleton] at hc
          subst hc
          simp [print_call.key]
        · simp at hc
      · split_ifs at hc
        · simp only [List.mem_singleton] at hc
          subst hc
          simp [print_call.key]
        · simp at hc
      · split_ifs at hc
        · simp only [List.mem_append, List.mem_singleton] at hc
          rcases hc with hc | hc
          · subst hc
            simp [print_call.key]
          · split at hc
            · simp only [List.mem_singleton] at hc
              subst hc
              simp [print_call.key]
            · simp at hc
        · simp only [List.mem_singleton] at hc
          subst hc
          simp [print_call.key]
        · simp at hc
    · simp at hc
  · split at hc
    · simp only [List.mem_singleton] at hc
      subst hc
      simp [print_call.key]
    · simp at hc

theorem flower_print_l3_key (E : PrintExt) (tb : AttrId → Option (List Nat))
    (eth_type : Nat) :
    ∀ c ∈ flower_print_l3 E tb eth_type,
      c.key ≠ some "dst_port" ∧ c.key ≠ some "src_port" := by
  intro c hc
  unfold flower_print_l3 flower_print_u8 at hc
  simp only [List.mem_append] at hc
  rcases hc with ((((((hc | hc) | hc) | hc) | hc) | hc) | hc) | hc
  · exact port_free_of_named _ "ip_tos" (by decide) (by decide)
      (flower_print_ip_attr_key _ _ _ _) c hc
  · exact port_free_of_named _ "ip_ttl" (by decide) (by decide)
      (flower_print_ip_attr_key _ _ _ _) c hc
  · exact port_free_of_named' _ "mpls_label" (by decide) (by decide)
      (flower_print_u32_key _ _ _) c hc
  · exact port_free_of_named' _ "mpls_tc" (by decide) (by decide)
      (flower_print_masked_u8_key _ _ _ _) c hc
  · exact port_free_of_named' _ "mpls_bos" (by decide) (by decide)
      (flower_print_masked_u8_key _ _ _ _) c hc
  · exact port_free_of_named' _ "mpls_ttl" (by decide) (by decide)
      (flower_print_masked_u8_key _ _ _ _) c hc
  · exact port_free_of_named' _ "dst_ip" (by decide) (by decide)
      (flower_print_ip_addr_calls_key _ _ _ _ _ _ _) c hc
  · exact port_free_of_named' _ "src_ip" (by decide) (by decide)
      (flower_print_ip_addr_calls_key _ _ _ _ _ _ _) c hc

theorem flower_print_l4_key (E : PrintExt) (tb : AttrId → Option (List Nat))
    (eth_type ip_proto : Nat) :
    ∀ c ∈ flower_print_l4 E tb eth_type ip_proto,
      c.key ≠ some "dst_port" ∧ c.key ≠ some "src_port" := by
  intro c hc
  unfold flower_print_l4 flower_print_ip4_addr flower_print_arp_op at hc
  simp only [List.mem_append] at hc
  rcases hc with ((((((hc | hc) | hc) | hc) | hc) | hc) | hc) | hc
  · exact port_free_of_named _ "tcp_flags" (by decide) (by decide)
      (flower_print_tcp_flags_key _ _ _ _) c hc
  · split at hc
    · exact port_free_of_named' _ "icmp_type" (by decide) (by decide)
        (flower_print_masked_u8_key _ _ _ _) c hc
    · simp at hc
  · split at hc
    · exact port_free_of_named' _ "icmp_code" (by decide) (by decide)
        (flower_print_masked_u8_key _ _ _ _) c hc
    · simp at hc
  · exact port_free_of_named' _ "arp_sip" (by decide) (by decide)
      (flower_print_ip_addr_calls_key _ _ _ _ _ _ _) c hc
  · exact port_free_of_named' _ "arp_tip" (by decide) (by decide)
      (flower_print_ip_addr_calls_key _ _ _ _ _ _ _) c hc
  · exact port_free_of_named' _ "arp_op" (by decide) (by decide)
      (flower_print_masked_u8_key _ _ _ _) c hc
  · exact port_free_of_named' _ "arp_sha" (by decide) (by decide)
      (flower_print_eth_addr_key _ _ _ _) c hc
  · exact port_free_of_named' _ "arp_tha" (by decide) (by decide)
      (flower_print_eth_addr_key _ _ _ _) c hc

theorem flower_print_enc_key (E : PrintExt) (tb : AttrId → Option (List Nat)) :
    ∀ c ∈ flower_print_enc E tb, c.key ≠ some "dst_port" ∧ c.key ≠ some "src_port" := by
  intro c hc
  unfold flower_print_enc at hc
  simp only [List.mem_append] at hc
  rcases hc with ((((hc | hc) | hc) | hc) | hc) | hc
  · exact port_free_of_named' _ "enc_dst_ip" (by decide) (by decide)
      (flower_print_ip_addr_calls_key _ _ _ _ _ _ _) c hc
  · exact port_free_of_named' _ "enc_src_ip" (by decide) (by decide)
      (flower_print_ip_addr_calls_key _ _ _ _ _ _ _) c hc
  · exact port_free_of_named' _ "enc_key_id" (by decide) (by decide)
      (flower_print_key_id_key _ _ _) c hc
  · exact port_free_of_named' _ "enc_dst_port" (by decide) (by decide)
      (flower_print_port_key _ _ _) c hc
  · exact port_free_of_named _ "enc_tos" (by decide) (by decide)
      (flower_print_ip_attr_key _ _ _ _) c hc
  · exact port_free_of_named _ "enc_ttl" (by decide) (by decide)
      (flower_print_ip_attr_key _ _ _ _) c hc

/-- The calls of `flower_print_opt` begin with those of `flower_print_keys`;
what follows comes from the encapsulation options, the matching flags and the
end of the function. -/
theorem flower_print_opt_calls (E : PrintExt) (tb : AttrId → Option (List Nat)) (handle : Nat) :
    ∃ rest : List print_call,
      (flower_print_opt E (some tb) handle).1 = flower_print_keys E tb handle ++ rest ∧
      ∀ c ∈ rest,
        c ∈ (flower_print_enc_opts E "enc_opt" (tb .TCA_FLOWER_KEY_ENC_OPTS)
          (tb .TCA_FLOWER_KEY_ENC_OPTS_MASK)).1 ∨
        c ∈ (flower_print_matching_flags E "ip_flags" (tb .TCA_FLOWER_KEY_FLAGS)
          (tb .TCA_FLOWER_KEY_FLAGS_MASK)).1 ∨
        c = .close_json_object ∨ c ∈ flower_print_tail E tb := by
  unfold flower_print_opt
  simp only
  split
  · exact ⟨_, rfl, fun c hc => Or.inl hc⟩
  · split
    · refine ⟨_, List.append_assoc _ _ _, fun c hc => ?_⟩
      simp only [List.mem_append] at hc
      rcases hc with hc | hc
      · exact Or.inl hc
      · exact Or.inr (Or.inl hc)
    · refine ⟨(flower_print_enc_opts E "enc_opt" (tb .TCA_FLOWER_KEY_ENC_OPTS)
          (tb .TCA_FLOWER_KEY_ENC_OPTS_MASK)).1 ++
        ((flower_print_matching_flags E "ip_flags" (tb .TCA_FLOWER_KEY_FLAGS)
          (tb .TCA_FLOWER_KEY_FLAGS_MASK)).1 ++ ([.close_json_object] ++ flower_print_tail E tb)),
        by simp only [List.append_assoc], fun c hc => ?_⟩
      simp only [List.mem_append, List.mem_singleton] at hc
      rcases hc with hc | hc | hc | hc
      · exact Or.inl hc
      · exact Or.inr (Or.inl hc)
      · exact Or.inr (Or.inr (Or.inl hc))
      · exact Or.inr (Or.inr (Or.inr hc))

/-- The `vlan_id` of a decoded table is printed whatever else the table holds:
no test of `vlan_ethtype` or of the ethertype stands before the call. -/
theorem flower_print_opt_vlan_id (E : PrintExt) (tb : AttrId → Option (List Nat)) (handle : Nat)
    (a : List Nat) (hv : tb .TCA_FLOWER_KEY_VLAN_ID = some a) :
    print_call.print_uint .PRINT_ANY (some "vlan_id") (some "\n  vlan_id %u")
        (rta_getattr_u16 E.le a) ∈ (flower_print_opt E (some tb) handle).1 := by
  obtain ⟨rest, hr, -⟩ := flower_print_opt_calls E tb handle
  rw [hr]
  apply List.mem_append_left
  unfold flower_print_keys
  simp only [List.mem_append]
  refine Or.inl (Or.inl (Or.inl (Or.inl (Or.inl (Or.inl (Or.inl (Or.inl (Or.inr ?_))))))))
  unfold flower_print_vlan
  simp [hv]

/-- On a table without encapsulation options, and with TCA_FLOWER_KEY_FLAGS
whenever TCA_FLOWER_KEY_FLAGS_MASK is there, `flower_print_opt` returns 0. -/
theorem flower_print_opt_returns (E : PrintExt) (tb : AttrId → Option (List Nat))
    (handle : Nat) (henc : tb .TCA_FLOWER_KEY_ENC_OPTS = none)
    (hflags : tb .TCA_FLOWER_KEY_FLAGS_MASK = none ∨ (tb .TCA_FLOWER_KEY_FLAGS).isSome = true) :
    (flower_print_opt E (some tb) handle).2 = .ok 0 := by
  have he : (flower_print_enc_opts E "enc_opt" (tb .TCA_FLOWER_KEY_ENC_OPTS)
      (tb .TCA_FLOWER_KEY_ENC_OPTS_MASK)).2 = none := by
    rw [henc]
    rfl
  have hm : (flower_print_matching_flags E "ip_flags" (tb .TCA_FLOWER_KEY_FLAGS)
      (tb .TCA_FLOWER_KEY_FLAGS_MASK)).2 = none := by
    unfold flower_print_matching_flags
    rcases hflags with h | h
    · rw [h]
    · cases hf : tb .TCA_FLOWER_KEY_FLAGS with
      | none => rw [hf] at h; cases h
      | some f =>
        cases tb .TCA_FLOWER_KEY_FLAGS_MASK with
        | none => rfl
        | some m =>
          simp only
          split_ifs <;> rfl
  unfold flower_print_opt
  simp only [he, hm]

/-- C24 (`flower_print_matching_flags` lacks the null test of its siblings):
`flower_print_opt` does not return 0 on every table that
holds TCA_FLOWER_KEY_VLAN_ID. `flower_print_matching_flags` tests only
`mask_attr` before it reads `attr`, unlike the printers next to it, which
begin with `if (!attr) return;`. On a table with the VLAN id, a
TCA_FLOWER_KEY_FLAGS_MASK of four bytes and no TCA_FLOWER_KEY_FLAGS (and no
encapsulation options), the `vlan_id` is printed, and then
`rta_getattr_u32(attr)` reads through a null pointer: the function does not
return. -/
theorem C24_flags_mask_without_flags (E : PrintExt) (tb : AttrId → Option (List Nat))
    (handle : Nat) (a m : List Nat) (hv : tb .TCA_FLOWER_KEY_VLAN_ID = some a)
    (henc : tb .TCA_FLOWER_KEY_ENC_OPTS = none)
    (hm : tb .TCA_FLOWER_KEY_FLAGS_MASK = some m) (h4 : m.length = 4)
    (hf : tb .TCA_FLOWER_KEY_FLAGS = none) :
    print_call.print_uint .PRINT_ANY (some "vlan_id") (some "\n  vlan_id %u")
        (rta_getattr_u16 E.le a) ∈ (flower_print_opt E (some tb) handle).1 ∧
      (flower_print_opt E (some tb) handle).2 = .error .undefined := by
  refine ⟨flower_print_opt_vlan_id E tb handle a hv, ?_⟩
  have he : (flower_print_enc_opts E "enc_opt" (tb .TCA_FLOWER_KEY_ENC_OPTS)
      (tb .TCA_FLOWER_KEY_ENC_OPTS_MASK)).2 = none := by
    rw [henc]
    rfl
  have hmf : (flower_print_matching_flags E "ip_flags" (tb .TCA_FLOWER_KEY_FLAGS)
      (tb .TCA_FLOWER_KEY_FLAGS_MASK)).2 = some .undefined := by
    unfold flower_print_matching_flags
    simp [hm, hf, h4]
  unfold flower_print_opt
  simp only [he, hmf]

/-- C24 witness: a table with the VLAN id 5 and a flags mask alone. -/
theorem C24_flags_mask_without_flags_witness :
    print_call.print_uint .PRINT_ANY (some "vlan_id") (some "\n  vlan_id %u")
        (rta_getattr_u16 (demoPrintExt true).le [5, 0]) ∈
      (flower_print_opt (demoPrintExt true)
        (some fun t =>
          if t = .TCA_FLOWER_KEY_VLAN_ID then some [5, 0]
          else if t = .TCA_FLOWER_KEY_FLAGS_MASK then some [0, 0, 0, 1]
          else none) 0).1 ∧
      (flower_print_opt (demoPrintExt true)
        (some fun t =>
          if t = .TCA_FLOWER_KEY_VLAN_ID then some [5, 0]
          else if t = .TCA_FLOWER_KEY_FLAGS_MASK then some [0, 0, 0, 1]
          else none) 0).2 = .error .undefined :=
  C24_flags_mask_without_flags (demoPrintExt true)
    (fun t =>
      if t = .TCA_FLOWER_KEY_VLAN_ID then some [5, 0]
      else if t = .TCA_FLOWER_KEY_FLAGS_MASK then some [0, 0, 0, 1]
      else none) 0 [5, 0] [0, 0, 0, 1] (by decide) (by decide) (by decide) (by decide)
    (by decide)

/-! ## The port part of `flower_print_opt` -/

theorem flower_print_keys_split (E : PrintExt) (tb : AttrId → Option (List Nat)) (handle : Nat) :
    ∃ pre post : List print_call,
      flower_print_keys E tb handle = pre ++
        flower_print_ports E tb (flower_print_ip_proto 0xff (tb .TCA_FLOWER_KEY_IP_PROTO)).2 ++
        post ∧
      ∀ c ∈ pre ++ post, c.key ≠ some "dst_port" ∧ c.key ≠ some "src_port" := by
  refine ⟨flower_print_head E tb handle ++ flower_print_vlan E tb ++
      flower_print_eth_addr E "dst_mac" (tb .TCA_FLOWER_KEY_ETH_DST)
        (tb .TCA_FLOWER_KEY_ETH_DST_MASK) ++
      flower_print_eth_addr E "src_mac" (tb .TCA_FLOWER_KEY_ETH_SRC)
        (tb .TCA_FLOWER_KEY_ETH_SRC_MASK) ++
      (flower_print_eth_type E 0 (tb .TCA_FLOWER_KEY_ETH_TYPE)).1 ++
      (flower_print_ip_proto 0xff (tb .TCA_FLOWER_KEY_IP_PROTO)).1 ++
      flower_print_l3 E tb (flower_print_eth_type E 0 (tb .TCA_FLOWER_KEY_ETH_TYPE)).2,
    flower_print_l4 E tb (flower_print_eth_type E 0 (tb .TCA_FLOWER_KEY_ETH_TYPE)).2
        (flower_print_ip_proto 0xff (tb .TCA_FLOWER_KEY_IP_PROTO)).2 ++
      flower_print_enc E tb, ?_, ?_⟩
  · unfold flower_print_keys
    simp only [List.append_assoc]
  · intro c hc
    simp only [List.mem_append] at hc
    rcases hc with ((((((hc | hc) | hc) | hc) | hc) | hc) | hc) | hc | hc
    · exact flower_print_head_key E tb handle c hc
    · exact flower_print_vlan_key E tb c hc
    · exact port_free_of_named' _ "dst_mac" (by decide) (by decide)
        (flower_print_eth_addr_key _ _ _ _) c hc
    · exact port_free_of_named' _ "src_mac" (by decide) (by decide)
        (flower_print_eth_addr_key _ _ _ _) c hc
    · exact port_free_of_named' _ "eth_type" (by decide) (by decide)
        (flower_print_eth_type_key _ _ _) c hc
    · exact port_free_of_named' _ "ip_proto" (by decide) (by decide)
        (flower_print_ip_proto_key _ _) c hc
    · exact flower_print_l3_key E tb _ c hc
    · exact flower_print_l4_key E tb _ _ c hc
    · exact flower_print_enc_key E tb c hc

/-! ## The encapsulation options of `flower_print_opt` -/

/-- The calls of one pass of the loop of `flower_print_geneve_opts` file their
values under `class`, `type`, `data` or no key. -/
theorem geneve_opt_calls_key (opt_class type : Nat) (data_r : List Nat) (data_len : Nat) :
    ∀ c ∈ ([.open_json_object none,
        .print_uint .PRINT_JSON (some "class") none opt_class,
        .print_uint .PRINT_JSON (some "type") none type,
        .open_json_array .PRINT_JSON (some "data")] ++
        (List.range data_len).map (fun ii =>
          print_call.print_uint .PRINT_JSON none none (data_r.getD ii 0)) ++
        [.close_json_array .PRINT_JSON (some "data"), .close_json_object] : List print_call),
      c.key ≠ some "dst_port" ∧ c.key ≠ some "src_port" := by
  intro c hc
  simp only [List.mem_append, List.mem_cons, List.mem_singleton, List.mem_map,
    List.not_mem_nil, or_false] at hc
  rcases hc with ((h | h | h | h) | ⟨ii, -, h⟩) | h | h
  all_goals (subst h; exact ⟨by simp [print_call.key], by simp [print_call.key]⟩)

/-- No call of the loop of `flower_print_geneve_opts` files a value under
`dst_port` or `src_port`. -/
theorem geneve_opts_loop_key (E : PrintExt) (payload : List Nat) (rem0 size : Nat)
    (fuel : Nat) :
    ∀ (offset : Nat) (rem : Int) (strbuf : Option (List Char)),
      ∀ c ∈ (geneve_opts_loop E payload rem0 size fuel offset rem strbuf).1,
        c.key ≠ some "dst_port" ∧ c.key ≠ some "src_port" := by
  induction fuel with
  | zero =>
    intro offset rem strbuf c hc
    simp [geneve_opts_loop] at hc
  | succ f ih =>
    intro offset rem strbuf c hc
    rw [geneve_opts_loop] at hc
    repeat' (first | split at hc | (dsimp only at hc; split at hc))
    all_goals first
      | (simp at hc; done)
      | exact geneve_opt_calls_key _ _ _ _ c hc
      | (rw [List.mem_append] at hc
         rcases hc with hc | hc
         · exact geneve_opt_calls_key _ _ _ _ c hc
         · exact ih _ _ _ c hc)

/-- No call of `flower_print_geneve_opts` files a value under `dst_port` or
`src_port`, when its own name is neither. -/
theorem flower_print_geneve_opts_key (E : PrintExt) (name : String)
    (attr : Option (List Nat)) (size : Nat)
    (h1 : "dst_port" ≠ name) (h2 : "src_port" ≠ name) :
    ∀ c ∈ (flower_print_geneve_opts E name attr size).1,
      c.key ≠ some "dst_port" ∧ c.key ≠ some "src_port" := by
  have hname : ∀ c : print_call, c.key = some name →
      c.key ≠ some "dst_port" ∧ c.key ≠ some "src_port" := by
    intro c e
    rw [e]
    exact ⟨fun e1 => h1 (Option.some.inj e1).symm, fun e2 => h2 (Option.some.inj e2).symm⟩
  intro c hc
  unfold flower_print_geneve_opts at hc
  split at hc
  · simp at hc
  · split at hc
    · rw [List.mem_cons] at hc
      rcases hc with hc | hc
      · exact hname c (by rw [hc]; rfl)
      · exact geneve_opts_loop_key _ _ _ _ _ _ _ _ c hc
    · rw [List.mem_append, List.mem_cons, List.mem_singleton] at hc
      rcases hc with (hc | hc) | hc
      · exact hname c (by rw [hc]; rfl)
      · exact geneve_opts_loop_key _ _ _ _ _ _ _ _ c hc
      · exact hname c (by rw [hc]; rfl)

/-- The call of `flower_print_geneve_parts` files its value under the name
handed to it. -/
theorem flower_print_geneve_parts_key (E : PrintExt) (name : String) (attr : List Nat)
    (key mask : Option (List Char)) :
    ∀ c ∈ (flower_print_geneve_parts E name attr key mask).1, c.key = some name := by
  intro c hc
  unfold flower_print_geneve_parts at hc
  split at hc
  · simp at hc
  · split at hc
    · split at hc
      · simp at hc
      · rw [List.mem_singleton] at hc
        rw [hc]
        rfl
    · simp at hc

/-- No call of `flower_print_enc_opts` files a value under `dst_port` or
`src_port`, when its own name is neither. -/
theorem flower_print_enc_opts_key (E : PrintExt) (name : String)
    (attr mask_attr : Option (List Nat))
    (h1 : "dst_port" ≠ name) (h2 : "src_port" ≠ name) :
    ∀ c ∈ (flower_print_enc_opts E name attr mask_attr).1,
      c.key ≠ some "dst_port" ∧ c.key ≠ some "src_port" := by
  have hk := fun a s => flower_print_geneve_opts_key E "geneve_opt_key" a s
    (by decide) (by decide)
  have hm := fun a s => flower_print_geneve_opts_key E "geneve_opt_mask" a s
    (by decide) (by decide)
  have hp := fun a k m => port_free_of_named' _ name h1 h2
    (flower_print_geneve_parts_key E name a k m)
  intro c hc
  unfold flower_print_enc_opts at hc
  repeat' (first | split at hc | (dsimp only at hc; split at hc))
  all_goals first
    | (simp at hc; done)
    | exact hk _ _ c hc
    | (rw [List.mem_append] at hc
       rcases hc with hc | hc
       · exact hk _ _ c hc
       · exact hm _ _ c hc)
    | (rw [List.mem_append, List.mem_append] at hc
       rcases hc with (hc | hc) | hc
       · exact hk _ _ c hc
       · exact hm _ _ c hc
       · exact hp _ _ _ c hc)

/-- The calls of `flower_print_opt` split around those of the port part; none
of the others files a value under `dst_port` or `src_port`. -/
theorem flower_print_opt_split (E : PrintExt) (tb : AttrId → Option (List Nat))
    (handle : Nat) :
    ∃ pre post : List print_call,
      (flower_print_opt E (some tb) handle).1 = pre ++
        flower_print_ports E tb (flower_print_ip_proto 0xff (tb .TCA_FLOWER_KEY_IP_PROTO)).2 ++
        post ∧
      ∀ c ∈ pre ++ post, c.key ≠ some "dst_port" ∧ c.key ≠ some "src_port" := by
  obtain ⟨rest, hr, hrest⟩ := flower_print_opt_calls E tb handle
  obtain ⟨pre, post, hk, hpp⟩ := flower_print_keys_split E tb handle
  refine ⟨pre, post ++ rest, ?_, ?_⟩
  · rw [hr, hk]
    simp only [List.append_assoc]
  · intro c hc
    simp only [List.mem_append] at hc
    rcases hc with hc | hc | hc
    · exact hpp c (List.mem_append_left _ hc)
    · exact hpp c (List.mem_append_right _ hc)
    · rcases hrest c hc with h | h | h | h
      · exact flower_print_enc_opts_key E "enc_opt" _ _ (by decide) (by decide) c h
      · exact ⟨flower_print_matching_flags_key E "ip_flags" "dst_port" _ _ (by decide)
            (by decide) c h,
          flower_print_matching_flags_key E "ip_flags" "src_port" _ _ (by decide)
            (by decide) c h⟩
      · rw [h]
        exact ⟨nofun, nofun⟩
      · exact flower_print_tail_key E tb c h

theorem flower_print_ports_none (E : PrintExt) (tb : AttrId → Option (List Nat)) (ip_proto : Nat)
    (h : ip_proto ≠ IPPROTO_TCP ∧ ip_proto ≠ IPPROTO_UDP ∧ ip_proto ≠ IPPROTO_SCTP) :
    flower_print_ports E tb ip_proto = [] := by
  unfold flower_print_ports flower_port_attr_type flower_port_range_attr_type
  simp [h.1, h.2.1, h.2.2]

theorem flower_print_ports_some (E : PrintExt) (tb : AttrId → Option (List Nat)) (ip_proto : Nat)
    (h : ip_proto = IPPROTO_TCP ∨ ip_proto = IPPROTO_UDP ∨ ip_proto = IPPROTO_SCTP) :
    ∃ t_dst t_src : AttrId,
      flower_port_attr_type ip_proto .FLOWER_ENDPOINT_DST = some t_dst ∧
      flower_port_attr_type ip_proto .FLOWER_ENDPOINT_SRC = some t_src ∧
      flower_print_ports E tb ip_proto =
        flower_print_port E "dst_port" (tb t_dst) ++ flower_print_port E "src_port" (tb t_src) ++
        flower_print_port_range E "dst_port" (tb .TCA_FLOWER_KEY_PORT_DST_MIN)
          (tb .TCA_FLOWER_KEY_PORT_DST_MAX) ++
        flower_print_port_range E "src_port" (tb .TCA_FLOWER_KEY_PORT_SRC_MIN)
          (tb .TCA_FLOWER_KEY_PORT_SRC_MAX) := by
  rcases h with h | h | h <;> subst h
  · exact ⟨.TCA_FLOWER_KEY_TCP_DST, .TCA_FLOWER_KEY_TCP_SRC, by decide, by decide, rfl⟩
  · exact ⟨.TCA_FLOWER_KEY_UDP_DST, .TCA_FLOWER_KEY_UDP_SRC, by decide, by decide, rfl⟩
  · exact ⟨.TCA_FLOWER_KEY_SCTP_DST, .TCA_FLOWER_KEY_SCTP_SRC, by decide, by decide, rfl⟩

/-- C25: `flower_print_opt` prints `dst_port` and `src_port` from the attribute
ids that `flower_port_attr_type` gives for the decoded `ip_proto`: when the
table has TCA_FLOWER_KEY_IP_PROTO with the value TCP, UDP or SCTP, its calls
are some calls that file nothing under `dst_port` or `src_port`, then the two
single ports (read as `be16` from the attribute of that id, nothing when the
attribute is absent), then the two ranges, then other calls that file nothing
under these keys. A range prints nothing unless both its MIN and MAX
attributes are present. When the table has no `ip_proto` attribute, or one
with another value, no call files anything under `dst_port` or `src_port`,
whatever port attributes are present. -/
theorem C25_decode_ports (E : PrintExt) (tb : AttrId → Option (List Nat)) (handle : Nat) :
    (∀ p, tb .TCA_FLOWER_KEY_IP_PROTO = some p →
      rta_getattr_u8 p = IPPROTO_TCP ∨ rta_getattr_u8 p = IPPROTO_UDP ∨
        rta_getattr_u8 p = IPPROTO_SCTP →
      ∃ (t_dst t_src : AttrId) (pre post : List print_call),
        flower_port_attr_type (rta_getattr_u8 p) .FLOWER_ENDPOINT_DST = some t_dst ∧
        flower_port_attr_type (rta_getattr_u8 p) .FLOWER_ENDPOINT_SRC = some t_src ∧
        (flower_print_opt E (some tb) handle).1 = pre ++
          (flower_print_port E "dst_port" (tb t_dst) ++
            flower_print_port E "src_port" (tb t_src) ++
            flower_print_port_range E "dst_port" (tb .TCA_FLOWER_KEY_PORT_DST_MIN)
              (tb .TCA_FLOWER_KEY_PORT_DST_MAX) ++
            flower_print_port_range E "src_port" (tb .TCA_FLOWER_KEY_PORT_SRC_MIN)
              (tb .TCA_FLOWER_KEY_PORT_SRC_MAX)) ++ post ∧
        ∀ c ∈ pre ++ post, c.key ≠ some "dst_port" ∧ c.key ≠ some "src_port") ∧
    (∀ (name : String) (a : List Nat),
      flower_print_port E name (some a) =
        [.print_hu .PRINT_ANY (some name) (some ("\n  " ++ name ++ " %u"))
          (rta_getattr_be16 E.le a)] ∧
      flower_print_port E name none = []) ∧
    (∀ (name : String) (lo hi : Option (List Nat)),
      flower_print_port_range E name lo hi ≠ [] ↔ lo.isSome = true ∧ hi.isSome = true) ∧
    ((tb .TCA_FLOWER_KEY_IP_PROTO = none ∨
        ∃ p, tb .TCA_FLOWER_KEY_IP_PROTO = some p ∧ rta_getattr_u8 p ≠ IPPROTO_TCP ∧
          rta_getattr_u8 p ≠ IPPROTO_UDP ∧ rta_getattr_u8 p ≠ IPPROTO_SCTP) →
      ∀ c ∈ (flower_print_opt E (some tb) handle).1,
        c.key ≠ some "dst_port" ∧ c.key ≠ some "src_port") := by
  obtain ⟨pre, post, hsplit, hpp⟩ := flower_print_opt_split E tb handle
  refine ⟨?_, fun name a => ⟨rfl, rfl⟩, ?_, ?_⟩
  · intro p hp hproto
    have e : (flower_print_ip_proto 0xff (tb .TCA_FLOWER_KEY_IP_PROTO)).2 = rta_getattr_u8 p := by
      rw [hp]
      rfl
    rw [e] at hsplit
    obtain ⟨t_dst, t_src, h1, h2, h3⟩ := flower_print_ports_some E tb _ hproto
    rw [h3] at hsplit
    exact ⟨t_dst, t_src, pre, post, h1, h2, hsplit, hpp⟩
  · intro name lo hi
    unfold flower_print_port_range
    cases lo <;> cases hi <;> simp
    split_ifs <;> simp
  · intro h c hc
    have e : flower_print_ports E tb
        (flower_print_ip_proto 0xff (tb .TCA_FLOWER_KEY_IP_PROTO)).2 = [] := by
      apply flower_print_ports_none
      rcases h with h | ⟨p, hp, h⟩
      · rw [h]
        exact ⟨by decide, by decide, by decide⟩
      · rw [hp]
        exact h
    rw [hsplit, e, List.append_nil] at hc
    exact hpp c hc

/-- C25 witness: a UDP table with a destination port, the lower end of a source
range, and, next to it, a table with the same ports and no protocol. -/
theorem C25_decode_ports_witness :
    (∃ (t_dst t_src : AttrId) (pre post : List print_call),
      flower_port_attr_type (rta_getattr_u8 [17]) .FLOWER_ENDPOINT_DST = some t_dst ∧
      flower_port_attr_type (rta_getattr_u8 [17]) .FLOWER_ENDPOINT_SRC = some t_src ∧
      (flower_print_opt (demoPrintExt true)
        (some fun t =>
          if t = .TCA_FLOWER_KEY_IP_PROTO then some [17]
          else if t = .TCA_FLOWER_KEY_UDP_DST then some [0, 53]
          else if t = .TCA_FLOWER_KEY_PORT_SRC_MIN then some [4, 0]
          else none) 0).1 = pre ++
        (flower_print_port (demoPrintExt true) "dst_port"
            ((fun t =>
              if t = AttrId.TCA_FLOWER_KEY_IP_PROTO then some [17]
              else if t = .TCA_FLOWER_KEY_UDP_DST then some [0, 53]
              else if t = .TCA_FLOWER_KEY_PORT_SRC_MIN then some [4, 0]
              else none) t_dst) ++
          flower_print_port (demoPrintExt true) "src_port"
            ((fun t =>
              if t = AttrId.TCA_FLOWER_KEY_IP_PROTO then some [17]
              else if t = .TCA_FLOWER_KEY_UDP_DST then some [0, 53]
              else if t = .TCA_FLOWER_KEY_PORT_SRC_MIN then some [4, 0]
              else none) t_src) ++
          flower_print_port_range (demoPrintExt true) "dst_port" none none ++
          flower_print_port_range (demoPrintExt true) "src_port" (some [4, 0]) none) ++ post ∧
      ∀ c ∈ pre ++ post, c.key ≠ some "dst_port" ∧ c.key ≠ some "src_port") ∧
    (∀ c ∈ (flower_print_opt (demoPrintExt true)
        (some fun t =>
          if t = .TCA_FLOWER_KEY_UDP_DST then some [0, 53]
          else if t = .TCA_FLOWER_KEY_PORT_SRC_MIN then some [4, 0]
          else none) 0).1,
      c.key ≠ some "dst_port" ∧ c.key ≠ some "src_port") :=
  ⟨(C25_decode_ports (demoPrintExt true)
      (fun t =>
        if t = .TCA_FLOWER_KEY_IP_PROTO then some [17]
        else if t = .TCA_FLOWER_KEY_UDP_DST then some [0, 53]
        else if t = .TCA_FLOWER_KEY_PORT_SRC_MIN then some [4, 0]
        else none) 0).1 [17] (by decide)
      (by decide),
    (C25_decode_ports (demoPrintExt true)
      (fun t =>
        if t = .TCA_FLOWER_KEY_UDP_DST then some [0, 53]
        else if t = .TCA_FLOWER_KEY_PORT_SRC_MIN then some [4, 0]
        else none) 0).2.2.2
      (Or.inl (by decide))⟩

end Flower

namespace RtNames

/-! ## Claims on `rtnl_rtprot_a2n` -/

/-- C30 (the code misses to keep `res` for the cached name): when the cache
holds `name` and a later call is made with another string that is not in the
table, that call stores the value of `strtoul` in the static `res` (whether or
not it accepts the string) and leaves `cache` alone, so the next call with
`name` is answered from the cache with that value instead of the table index
of `name`. -/
theorem C30_cache_res_clobbered (E : Ext) (s : rtprot_state) (name arg : String)
    (hinit : s.rtnl_rtprot_init = true) (hc : s.cache = some name) (hne : arg ≠ name)
    (hmiss : tab_find arg (s.rtnl_rtprot_tab.take 256) 0 = none) :
    ∃ (ret : Int) (id : Option Nat) (s1 : rtprot_state),
      rtnl_rtprot_a2n E s arg = .ok (ret, id, s1) ∧
      s1.rtnl_rtprot_tab = s.rtnl_rtprot_tab ∧
      rtnl_rtprot_a2n E s1 name = .ok (0, some ((E.strtoul arg 0).1 % 2 ^ 64 % 2 ^ 32), s1) := by
  have h1 : ¬ (s.cache = some arg) := by
    rw [hc]
    intro e
    exact hne (Option.some.inj e).symm
  have e1 : ∃ (ret : Int) (id : Option Nat),
      rtnl_rtprot_a2n E s arg =
        .ok (ret, id, { s with res := (E.strtoul arg 0).1 % 2 ^ 64 }) := by
    unfold rtnl_rtprot_a2n
    simp only [if_neg h1, hinit, if_true, hmiss]
    split_ifs
    · exact ⟨_, _, rfl⟩
    · exact ⟨_, _, rfl⟩
  obtain ⟨ret, id, e1⟩ := e1
  refine ⟨ret, id, _, e1, rfl, ?_⟩
  unfold rtnl_rtprot_a2n
  simp only [hc, if_true]

set_option maxRecDepth 100000 in
/-- C30 witness: after `kernel` has been looked up (index 2), the lookup of
`5` makes the next lookup of `kernel` return 5. -/
theorem C30_cache_res_clobbered_witness :
    ∃ (ret : Int) (id : Option Nat) (s1 : rtprot_state),
      rtnl_rtprot_a2n demoExt
        { rtprot_state_init with rtnl_rtprot_init := true, cache := some "kernel", res := 2 }
        "5" = .ok (ret, id, s1) ∧
      s1.rtnl_rtprot_tab = rtprot_state_init.rtnl_rtprot_tab ∧
      rtnl_rtprot_a2n demoExt s1 "kernel" =
        .ok (0, some ((demoExt.strtoul "5" 0).1 % 2 ^ 64 % 2 ^ 32), s1) :=
  C30_cache_res_clobbered demoExt
    { rtprot_state_init with rtnl_rtprot_init := true, cache := some "kernel", res := 2 }
    "kernel" "5" rfl rfl (by decide) (by decide)

set_option maxRecDepth 100000 in
/-- The run from program start: `kernel`, then `5`, then `kernel` again. The
table index of `kernel` is 2; the third call returns 5. -/
theorem rtprot_kernel_5_kernel :
    (rtnl_rtprot_a2n_calls demoExt rtprot_state_init ["kernel", "5", "kernel"]).map (·.1) =
      .ok [(0, some 2), (0, some 5), (0, some 5)] ∧
    tab_find "kernel" rtprot_state_init.rtnl_rtprot_tab 0 = some 2 := by
  decide

end RtNames

namespace RtNames
open Flower (Fail)

/-! ## Claims on `rtnl_tab_initialize` -/

/-- C32 (the bound test lets `id == size` through): on a table declared with
`size` elements, a database line whose identifier is negative or above `size`
is skipped, a line with `0 <= id < size` stores its name at index `id`, and a
line with `id == size` passes the test `id < 0 || id > size`, so that the store
`tab[id] = strdup(namebuf)` goes one element past the end of the table. -/
theorem C32_id_equal_size_stored (size : Nat) (tab : List (Option String))
    (hsize : tab.length = size) (id : Int) (name : String) (rest : List db_line) :
    ((id < 0 ∨ id > size) →
      tab_load size (.entry id name :: rest) tab = tab_load size rest tab) ∧
    ((0 ≤ id ∧ id < size) →
      tab_load size (.entry id name :: rest) tab
        = tab_load size rest (tab_set tab id.toNat name) ∧
      (tab_set tab id.toNat name).length = size) ∧
    (id = size → tab_load size (.entry id name :: rest) tab = .error .undefined) := by
  refine ⟨fun h => ?_, fun h => ⟨?_, ?_⟩, fun h => ?_⟩
  · simp only [tab_load, if_pos h]
  · have h1 : ¬ (id < 0 ∨ id > size) := by omega
    have h2 : ¬ (id.toNat ≥ tab.length) := by omega
    simp only [tab_load, if_neg h1, if_neg h2]
  · simp [tab_set, hsize]
  · have h1 : ¬ (id < 0 ∨ id > size) := by omega
    have h2 : id.toNat ≥ tab.length := by omega
    simp only [tab_load, if_neg h1, if_pos h2]

/-- The protocol table has 256 elements. -/
theorem rtnl_rtprot_tab_init_length : rtnl_rtprot_tab_init.length = 256 := by
  simp [rtnl_rtprot_tab_init]

/-- C32 witness: the protocol table of 256 elements and the database lines
`-1 a`, `300 b`, `7 c`, `256 d`. -/
theorem C32_id_equal_size_stored_witness :
    tab_load 256 [.entry (-1) "a", .entry 300 "b", .entry 256 "d"] rtnl_rtprot_tab_init
      = .error .undefined ∧
    (tab_load 256 [.entry 7 "c"] rtnl_rtprot_tab_init
      = .ok (tab_set rtnl_rtprot_tab_init 7 "c") ∧
      (tab_set rtnl_rtprot_tab_init 7 "c").length = 256) :=
  ⟨((C32_id_equal_size_stored 256 rtnl_rtprot_tab_init rtnl_rtprot_tab_init_length (-1) "a"
        [.entry 300 "b", .entry 256 "d"]).1 (by decide)).trans
      (((C32_id_equal_size_stored 256 rtnl_rtprot_tab_init rtnl_rtprot_tab_init_length 300 "b"
        [.entry 256 "d"]).1 (by decide)).trans
      ((C32_id_equal_size_stored 256 rtnl_rtprot_tab_init rtnl_rtprot_tab_init_length 256 "d" []).2.2 rfl)),
   (C32_id_equal_size_stored 256 rtnl_rtprot_tab_init rtnl_rtprot_tab_init_length 7 "c" []).2.1 (by decide)⟩

end RtNames

namespace Fdb
open Flower (Fail inet_prefix NLMSG_ALIGN RTA_LENGTH u16_mem u32_mem htons ntohs ETH_ALEN)

/-! ## Claims on `state_a2n` and `state_n2a` -/

/-- C39 (as stated, refuted): the name `dynamic` does not come back. With the
matcher that accepts a beginning of the keyword, `state_a2n` parses it to
NUD_REACHABLE, and `state_n2a` renders NUD_REACHABLE as the empty string. -/
theorem C39_dynamic_not_returned :
    state_a2n (demoExt true) "dynamic" = some NUD_REACHABLE ∧
    (∀ json, state_n2a json NUD_REACHABLE = "") ∧
    (∀ json, state_n2a json NUD_REACHABLE ≠ "dynamic") := by
  decide

/-- C39 (amended): when `matches` accepts exactly the beginnings of a keyword,
`state_n2a` applied to the state that `state_a2n` parses from `permanent`,
`static` or `stale` returns the same name, while `dynamic` parses to
NUD_REACHABLE, which is rendered as the empty string; and a state with several
of the bits is named after the first that is set in the order PERMANENT
(`permanent`), NOARP (`static`), STALE (`stale`), REACHABLE (empty string). -/
theorem C39_state_names (E : Ext) (json : Bool)
    (hm : ∀ a b, a ≠ "" → E.matches_cmd a b = a.data.isPrefixOf b.data) :
    (∃ s, state_a2n E "permanent" = some s ∧ state_n2a json s = "permanent") ∧
    (∃ s, state_a2n E "static" = some s ∧ state_n2a json s = "static") ∧
    (∃ s, state_a2n E "stale" = some s ∧ state_n2a json s = "stale") ∧
    (∃ s, state_a2n E "dynamic" = some s ∧ state_n2a json s = "") ∧
    (∀ s, s &&& NUD_PERMANENT ≠ 0 → state_n2a json s = "permanent") ∧
    (∀ s, s &&& NUD_PERMANENT = 0 → s &&& NUD_NOARP ≠ 0 → state_n2a json s = "static") ∧
    (∀ s, s &&& NUD_PERMANENT = 0 → s &&& NUD_NOARP = 0 → s &&& NUD_STALE ≠ 0 →
      state_n2a json s = "stale") ∧
    (∀ s, s &&& NUD_PERMANENT = 0 → s &&& NUD_NOARP = 0 → s &&& NUD_STALE = 0 →
      s &&& NUD_REACHABLE ≠ 0 → state_n2a json s = "") := by
  have p1 : E.matches_cmd "permanent" "permanent" = true := by
    rw [hm _ _ (by decide)]; decide
  have s1 : E.matches_cmd "static" "permanent" = false := by
    rw [hm _ _ (by decide)]; decide
  have s2 : E.matches_cmd "static" "static" = true := by
    rw [hm _ _ (by decide)]; decide
  have t1 : E.matches_cmd "stale" "permanent" = false := by
    rw [hm _ _ (by decide)]; decide
  have t2 : E.matches_cmd "stale" "static" = false := by
    rw [hm _ _ (by decide)]; decide
  have t3 : E.matches_cmd "stale" "temp" = false := by
    rw [hm _ _ (by decide)]; decide
  have t4 : E.matches_cmd "stale" "stale" = true := by
    rw [hm _ _ (by decide)]; decide
  have d1 : E.matches_cmd "dynamic" "permanent" = false := by
    rw [hm _ _ (by decide)]; decide
  have d2 : E.matches_cmd "dynamic" "static" = false := by
    rw [hm _ _ (by decide)]; decide
  have d3 : E.matches_cmd "dynamic" "temp" = false := by
    rw [hm _ _ (by decide)]; decide
  have d4 : E.matches_cmd "dynamic" "stale" = false := by
    rw [hm _ _ (by decide)]; decide
  have d5 : E.matches_cmd "dynamic" "dynamic" = true := by
    rw [hm _ _ (by decide)]; decide
  refine ⟨⟨NUD_PERMANENT, ?_, by cases json <;> decide⟩, ⟨NUD_NOARP, ?_, by cases json <;> decide⟩,
    ⟨NUD_STALE, ?_, by cases json <;> decide⟩, ⟨NUD_REACHABLE, ?_, by cases json <;> decide⟩,
    ?_, ?_, ?_, ?_⟩
  · simp [state_a2n, p1]
  · simp [state_a2n, s1, s2]
  · simp [state_a2n, t1, t2, t3, t4]
  · simp [state_a2n, d1, d2, d3, d4, d5]
  · intro s h
    simp only [state_n2a, if_pos h]
  · intro s h1 h2
    have e1 : ¬ (s &&& NUD_PERMANENT ≠ 0) := not_not.mpr h1
    simp only [state_n2a, if_neg e1, if_pos h2]
  · intro s h1 h2 h3
    have e1 : ¬ (s &&& NUD_PERMANENT ≠ 0) := not_not.mpr h1
    have e2 : ¬ (s &&& NUD_NOARP ≠ 0) := not_not.mpr h2
    simp only [state_n2a, if_neg e1, if_neg e2, if_pos h3]
  · intro s h1 h2 h3 h4
    have e1 : ¬ (s &&& NUD_PERMANENT ≠ 0) := not_not.mpr h1
    have e2 : ¬ (s &&& NUD_NOARP ≠ 0) := not_not.mpr h2
    have e3 : ¬ (s &&& NUD_STALE ≠ 0) := not_not.mpr h3
    simp only [state_n2a, if_neg e1, if_neg e2, if_neg e3, if_pos h4]

/-- C39 witness: the matcher of the examples, text output. -/
theorem C39_state_names_witness :
    (∃ s, state_a2n (demoExt true) "permanent" = some s ∧ state_n2a false s = "permanent") ∧
    (∃ s, state_a2n (demoExt true) "dynamic" = some s ∧ state_n2a false s = "") :=
  ⟨(C39_state_names (demoExt true) false (fun _ _ _ => rfl)).1,
   (C39_state_names (demoExt true) false (fun _ _ _ => rfl)).2.2.2.1⟩

end Fdb

namespace Fdb
open Flower (Fail inet_prefix NLMSG_ALIGN RTA_LENGTH u16_mem u32_mem htons ntohs ETH_ALEN)

/-! ## The state and the VLAN of `fdb_flush` -/

/-- Appending a record, or not, leaves the state of the header alone. -/
theorem if_add_ndm_state (c : Prop) [Decidable c] (r : req) (maxlen : Nat) (t : NdaId)
    (d : List Nat) :
    (if c then (addattr_l r maxlen t d).2 else r).ndm_state = r.ndm_state := by
  by_cases hc : c
  · rw [if_pos hc]
    simp only [addattr_l]
    split_ifs <;> rfl
  · rw [if_neg hc]

/-- The records `fdb_flush` appends leave the header fields alone. -/
theorem fdb_flush_attrs_ndm_state (E : Ext) (st : FlushState) (port_ifidx : Int) (r0 : req) :
    (fdb_flush_attrs E st port_ifidx r0).ndm_state = r0.ndm_state := by
  simp only [fdb_flush_attrs, addattr32, addattr16, addattr8, if_add_ndm_state]

/-- The request of `fdb_flush` carries the state of the locals. -/
theorem fdb_flush_finish_ndm_state (E : Ext) (st : FlushState) (r : req)
    (h : fdb_flush_finish E st = .ok r) : r.ndm_state = st.ndm_state := by
  unfold fdb_flush_finish at h
  cases hd : st.d with
  | none => simp [hd] at h
  | some d =>
    simp only [hd] at h
    by_cases h1 : E.ll_name_to_index d % 2 ^ 32 = 0
    · rw [if_pos h1] at h
      cases h
    rw [if_neg h1] at h
    split at h
    · cases h
    split at h
    · cases h
    simp only [Except.ok.injEq] at h
    rw [← h]
    exact fdb_flush_attrs_ndm_state E st _ _

/-- One pass of the loop of `fdb_flush` keeps the state and the state mask
within the PERMANENT and NOARP bits, and the state within the mask. -/
theorem fdb_flush_arg_covered (E : Ext) (st : FlushState) (a : String) (rest : List String)
    (st1 : FlushState) (rest1 : List String)
    (hP : (st.ndm_state = 0 ∨ st.ndm_state = 0x40 ∨ st.ndm_state = 0x80 ∨ st.ndm_state = 0xc0) ∧
      (st.ndm_state_mask = 0 ∨ st.ndm_state_mask = 0x40 ∨ st.ndm_state_mask = 0x80 ∨
        st.ndm_state_mask = 0xc0) ∧
      st.ndm_state &&& st.ndm_state_mask = st.ndm_state)
    (h : fdb_flush_arg E st a rest = .ok (st1, rest1)) :
    (st1.ndm_state = 0 ∨ st1.ndm_state = 0x40 ∨ st1.ndm_state = 0x80 ∨ st1.ndm_state = 0xc0) ∧
      (st1.ndm_state_mask = 0 ∨ st1.ndm_state_mask = 0x40 ∨ st1.ndm_state_mask = 0x80 ∨
        st1.ndm_state_mask = 0xc0) ∧
      st1.ndm_state &&& st1.ndm_state_mask = st1.ndm_state := by
  obtain ⟨d, port, vid, fl, state, flm, mask⟩ := st
  simp only at hP
  obtain ⟨hs, hm, hc⟩ := hP
  unfold fdb_flush_arg at h
  repeat' split at h
  all_goals first
    | (simp at h; done)
    | (simp only [Except.ok.injEq, Prod.mk.injEq] at h
       obtain ⟨rfl, -⟩ := h
       first
         | exact ⟨hs, hm, hc⟩
         | (rcases hs with rfl | rfl | rfl | rfl <;> rcases hm with rfl | rfl | rfl | rfl <;>
              first
                | (exfalso; revert hc; decide)
                | (dsimp only; decide)))

/-- C36 (the `dynamic` branch keeps the PERMANENT bit): for every argument
list, every bit of the state that `fdb_flush` hands over is in the state mask
of the locals, which is the payload of the last record, NDA_NDM_STATE_MASK,
whenever it is not 0. But a pass on `dynamic` clears the NOARP bit only: the
operand of `&=` is `~NUD_NOARP | NUD_PERMANENT`, so the PERMANENT bit stays as
it was, and `dev D permanent dynamic` hands over the state PERMANENT under the
mask PERMANENT|NOARP. -/
theorem C36_dynamic_keeps_permanent (E : Ext) :
    (∀ (argv : List String) (r : req), fdb_flush E argv = .ok r →
      ∃ st : FlushState, fdb_flush_args E argv.length fdb_flush_init argv = .ok st ∧
        r.ndm_state = st.ndm_state ∧
        st.ndm_state &&& st.ndm_state_mask = st.ndm_state ∧
        (st.ndm_state_mask ≠ 0 → r.attrs.getLast? = some {
          rta_len := 6
          rta_type := .NDA_NDM_STATE_MASK
          data := u16_mem E.le st.ndm_state_mask })) ∧
    (∀ (st : FlushState) (rest : List String),
      ∃ st1, fdb_flush_arg E st "dynamic" rest = .ok (st1, rest) ∧
        st1.ndm_state &&& NUD_NOARP = 0 ∧
        st1.ndm_state &&& NUD_PERMANENT = st.ndm_state &&& NUD_PERMANENT) ∧
    (∀ D : String, E.ll_name_to_index D % 2 ^ 32 ≠ 0 →
      ∃ r, fdb_flush E ["dev", D, "permanent", "dynamic"] = .ok r ∧
        r.ndm_state = NUD_PERMANENT ∧
        r.attrs = [{
          rta_len := 6
          rta_type := .NDA_NDM_STATE_MASK
          data := u16_mem E.le (NUD_PERMANENT ||| NUD_NOARP) }]) := by
  refine ⟨?_, ?_, ?_⟩
  · intro argv r h
    unfold fdb_flush at h
    cases hl : fdb_flush_args E argv.length fdb_flush_init argv with
    | error e => simp [hl] at h
    | ok st =>
      simp only [hl] at h
      have hP := arg_loop_invariant (fdb_flush_arg E)
        (fun s => (s.ndm_state = 0 ∨ s.ndm_state = 0x40 ∨ s.ndm_state = 0x80 ∨
            s.ndm_state = 0xc0) ∧
          (s.ndm_state_mask = 0 ∨ s.ndm_state_mask = 0x40 ∨ s.ndm_state_mask = 0x80 ∨
            s.ndm_state_mask = 0xc0) ∧
          s.ndm_state &&& s.ndm_state_mask = s.ndm_state)
        (fun s a rest s1 rest1 hs hp => fdb_flush_arg_covered E s a rest s1 rest1 hs hp)
        argv.length fdb_flush_init st argv (by decide) hl
      exact ⟨st, rfl, fdb_flush_finish_ndm_state E st r h, hP.2.2,
        fun hm => (fdb_flush_finish_state E st r hm h).2⟩
  · intro st rest
    have k1 : fdb_flush_keyword "dynamic" = .fl_dynamic := by decide
    refine ⟨{ st with
        ndm_state := st.ndm_state &&& ((0xffff ^^^ NUD_NOARP) ||| NUD_PERMANENT)
        ndm_state_mask := (st.ndm_state_mask ||| (NUD_NOARP ||| NUD_PERMANENT)) % 2 ^ 16 },
        by simp only [fdb_flush_arg, k1], ?_, ?_⟩
    · exact and_and_zero _ _ _ (by decide)
    · show st.ndm_state &&& ((0xffff ^^^ NUD_NOARP) ||| NUD_PERMANENT) &&& NUD_PERMANENT
        = st.ndm_state &&& NUD_PERMANENT
      rw [Nat.and_assoc]
      have : ((0xffff ^^^ NUD_NOARP) ||| NUD_PERMANENT) &&& NUD_PERMANENT = NUD_PERMANENT := by
        decide
      rw [this]
  · intro D hD
    have e1 : fdb_flush_args E 4 fdb_flush_init ["dev", D, "permanent", "dynamic"] =
        .ok { fdb_flush_init with
          d := some D
          ndm_state := NUD_PERMANENT
          ndm_state_mask := NUD_PERMANENT ||| NUD_NOARP } := by
      have k1 : fdb_flush_keyword "dev" = .fl_dev := by decide
      have k2 : fdb_flush_keyword "permanent" = .fl_permanent := by decide
      have k3 : fdb_flush_keyword "dynamic" = .fl_dynamic := by decide
      simp only [fdb_flush_args, arg_loop, fdb_flush_arg, k1, k2, k3]
      rfl
    have e2 : fdb_flush E ["dev", D, "permanent", "dynamic"] =
        .ok (fdb_flush_attrs E { fdb_flush_init with
            d := some D
            ndm_state := NUD_PERMANENT
            ndm_state_mask := NUD_PERMANENT ||| NUD_NOARP } (-1) {
          nlmsg_len := NLMSG_LENGTH sizeof_ndmsg
          nlmsg_flags := NLM_F_REQUEST ||| NLM_F_BULK
          nlmsg_type := RTM_DELNEIGH
          ndm_family := PF_BRIDGE
          ndm_ifindex := E.ll_name_to_index D % 2 ^ 32
          ndm_state := NUD_PERMANENT
          ndm_flags := NTF_SELF
          attrs := [] }) := by
      unfold fdb_flush
      simp only [List.length_cons, List.length_nil, e1]
      unfold fdb_flush_finish
      simp only [fdb_flush_init, if_neg hD]
      rfl
    refine ⟨_, e2, ?_, ?_⟩
    · exact fdb_flush_attrs_ndm_state E _ _ _
    · simp [fdb_flush_attrs, fdb_flush_init, addattr16, addattr_l, NLMSG_LENGTH, sizeof_ndmsg,
        sizeof_req, NLMSG_ALIGN, RTA_LENGTH, Flower.u16_mem_length, NUD_PERMANENT, NUD_NOARP]

/-- C36 witness: `dev br0 permanent dynamic` with the helpers of the examples. -/
theorem C36_dynamic_keeps_permanent_witness :
    ∃ r, fdb_flush (demoExt true) ["dev", "br0", "permanent", "dynamic"] = .ok r ∧
      r.ndm_state = NUD_PERMANENT ∧
      r.attrs = [{
        rta_len := 6
        rta_type := .NDA_NDM_STATE_MASK
        data := u16_mem (demoExt true).le (NUD_PERMANENT ||| NUD_NOARP) }] :=
  (C36_dynamic_keeps_permanent (demoExt true)).2.2 "br0" (by decide)

end Fdb

namespace Fdb
open Flower (Fail inet_prefix NLMSG_ALIGN RTA_LENGTH u16_mem u32_mem htons ntohs ETH_ALEN)

/-- The locals of `fdb_flush` after the loop on `dev D vlan v`. -/
theorem fdb_flush_args_dev_vlan (E : Ext) (D v : String) :
    fdb_flush_args E 4 fdb_flush_init ["dev", D, "vlan", v] =
      .ok { fdb_flush_init with d := some D, vid := to_short (E.atoi v) } := by
  have k1 : fdb_flush_keyword "dev" = .fl_dev := by decide
  have k2 : fdb_flush_keyword "vlan" = .fl_vlan := by decide
  have k3 : ¬ ((-1 : Int) ≥ 0) := by decide
  simp only [fdb_flush_args, arg_loop, fdb_flush_arg, k1, k2, fdb_flush_init, if_neg k3]

/-- C37 (a VLAN id of 32768 or more slips through): the local `vid` is a
`short`, so on `fdb flush dev D vlan v`, for a device `D` that exists and with
`a` the value `atoi` gives for `v`: when `4096 <= a < 32768` the function
returns -1 without building a request; when `0 <= a < 4096` it hands over a
request whose only record is NDA_VLAN with the value `a`; but when
`32768 <= a < 65536` the `short` is negative, the test `vid >= 4096` does not
fire and the test `vid > -1` fails, so the function hands over a request with
no record at all: the flush is sent without a VLAN condition. -/
theorem C37_vlan_wraps (E : Ext) (D v : String)
    (hD : E.ll_name_to_index D % 2 ^ 32 ≠ 0) :
    (4096 ≤ E.atoi v → E.atoi v < 32768 →
      fdb_flush E ["dev", D, "vlan", v] = .error .err) ∧
    (0 ≤ E.atoi v → E.atoi v < 4096 →
      ∃ r, fdb_flush E ["dev", D, "vlan", v] = .ok r ∧
        r.attrs = [{
          rta_len := 6
          rta_type := .NDA_VLAN
          data := u16_mem E.le (E.atoi v).toNat }]) ∧
    (32768 ≤ E.atoi v → E.atoi v < 65536 →
      ∃ r, fdb_flush E ["dev", D, "vlan", v] = .ok r ∧ r.attrs = []) := by
  have e1 := fdb_flush_args_dev_vlan E D v
  refine ⟨fun h1 h2 => ?_, fun h1 h2 => ?_, fun h1 h2 => ?_⟩
  · have hv : to_short (E.atoi v) = E.atoi v := by
      unfold to_short
      have : ¬ (E.atoi v % 65536 ≥ 32768) := by omega
      rw [if_neg this]
      omega
    have c2 : to_short (E.atoi v) ≥ 4096 := by omega
    unfold fdb_flush
    simp only [List.length_cons, List.length_nil, e1]
    unfold fdb_flush_finish
    simp only [if_neg hD]
    simp [c2]
  · have hv : to_short (E.atoi v) = E.atoi v := by
      unfold to_short
      have : ¬ (E.atoi v % 65536 ≥ 32768) := by omega
      rw [if_neg this]
      omega
    have c2 : ¬ (to_short (E.atoi v) ≥ 4096) := by omega
    have c3 : to_short (E.atoi v) > -1 := by omega
    have e2 : fdb_flush E ["dev", D, "vlan", v] =
        .ok (fdb_flush_attrs E { fdb_flush_init with d := some D, vid := to_short (E.atoi v) }
          (-1) {
          nlmsg_len := NLMSG_LENGTH sizeof_ndmsg
          nlmsg_flags := NLM_F_REQUEST ||| NLM_F_BULK
          nlmsg_type := RTM_DELNEIGH
          ndm_family := PF_BRIDGE
          ndm_ifindex := E.ll_name_to_index D % 2 ^ 32
          ndm_state := 0
          ndm_flags := NTF_SELF
          attrs := [] }) := by
      unfold fdb_flush
      simp only [List.length_cons, List.length_nil, e1]
      unfold fdb_flush_finish
      simp only [if_neg hD, if_neg c2]
      rfl
    refine ⟨_, e2, ?_⟩
    simp [fdb_flush_attrs, fdb_flush_init, addattr16, addattr_l, NLMSG_LENGTH, sizeof_ndmsg,
      sizeof_req, NLMSG_ALIGN, RTA_LENGTH, Flower.u16_mem_length, hv]
    rw [if_pos (by omega)]
  · have hv : to_short (E.atoi v) = E.atoi v - 65536 := by
      unfold to_short
      have : E.atoi v % 65536 ≥ 32768 := by omega
      rw [if_pos this]
      omega
    have c2 : ¬ (to_short (E.atoi v) ≥ 4096) := by omega
    have c3 : ¬ (to_short (E.atoi v) > -1) := by omega
    have e2 : fdb_flush E ["dev", D, "vlan", v] =
        .ok (fdb_flush_attrs E { fdb_flush_init with d := some D, vid := to_short (E.atoi v) }
          (-1) {
          nlmsg_len := NLMSG_LENGTH sizeof_ndmsg
          nlmsg_flags := NLM_F_REQUEST ||| NLM_F_BULK
          nlmsg_type := RTM_DELNEIGH
          ndm_family := PF_BRIDGE
          ndm_ifindex := E.ll_name_to_index D % 2 ^ 32
          ndm_state := 0
          ndm_flags := NTF_SELF
          attrs := [] }) := by
      unfold fdb_flush
      simp only [List.length_cons, List.length_nil, e1]
      unfold fdb_flush_finish
      simp only [if_neg hD, if_neg c2]
      rfl
    refine ⟨_, e2, ?_⟩
    simp [fdb_flush_attrs, fdb_flush_init, c3]

/-- C37 witness: `dev br0 vlan 40000` is sent without a VLAN record, next to
`vlan 5000` (refused) and `vlan 10`. -/
theorem C37_vlan_wraps_witness :
    (∃ r, fdb_flush (demoExt true) ["dev", "br0", "vlan", "40000"] = .ok r ∧ r.attrs = []) ∧
    fdb_flush (demoExt true) ["dev", "br0", "vlan", "5000"] = .error .err ∧
    (∃ r, fdb_flush (demoExt true) ["dev", "br0", "vlan", "10"] = .ok r ∧
      r.attrs = [{
        rta_len := 6
        rta_type := .NDA_VLAN
        data := u16_mem (demoExt true).le ((demoExt true).atoi "10").toNat }]) :=
  ⟨(C37_vlan_wraps (demoExt true) "br0" "40000" (by decide)).2.2 (by decide) (by decide),
   (C37_vlan_wraps (demoExt true) "br0" "5000" (by decide)).1 (by decide) (by decide),
   (C37_vlan_wraps (demoExt true) "br0" "10" (by decide)).2.1 (by decide) (by decide)⟩

end Fdb

namespace Fdb
open Flower (Fail inet_prefix NLMSG_ALIGN RTA_LENGTH u16_mem u32_mem htons ntohs ETH_ALEN)

/-! ## The state keywords of `fdb_modify` -/

/-- A property that every pass establishes on the passes of `K`, given an
invariant of the loop, and that every pass keeps, holds at the end of a loop
that went through a pass of `K`. -/
theorem arg_loop_sticky_inv {σ : Type}
    (pass : σ → String → List String → Except Fail (σ × List String))
    (I P : σ → Prop) (K : String → Prop)
    (hs : ∀ st a rest st1 rest1, pass st a rest = .ok (st1, rest1) → rest1.length ≤ rest.length)
    (hI : ∀ st a rest st1 rest1, I st → pass st a rest = .ok (st1, rest1) → I st1)
    (hK : ∀ st a rest st1 rest1, I st → K a → pass st a rest = .ok (st1, rest1) → P st1)
    (hP : ∀ st a rest st1 rest1, I st → P st → pass st a rest = .ok (st1, rest1) → P st1)
    (st0 stk st1 : σ) (argv : List String) (k : Nat) (a : String) (rest : List String)
    (h0 : I st0)
    (hreach : arg_steps pass k st0 argv = .ok (stk, a :: rest)) (ha : K a)
    (hend : arg_loop pass argv.length st0 argv = .ok st1) : P st1 := by
  have hIk : I stk := by
    rcases arg_steps_provenance pass I (fun _ => False)
      (fun st a rest st1 rest1 hi _ hp => hI st a rest st1 rest1 hi hp)
      st0 argv h0 k stk (a :: rest) hreach with h | ⟨_, _, _, _, _, _, hf⟩
    · exact h
    · exact absurd hf id
  rw [arg_loop_of_steps pass hs k st0 stk argv (a :: rest) hreach] at hend
  simp only [List.length_cons, arg_loop] at hend
  cases hp : pass stk a rest with
  | error e => simp [hp] at hend
  | ok r =>
    obtain ⟨st2, rest2⟩ := r
    simp only [hp] at hend
    have h2 : I st2 ∧ P st2 := ⟨hI _ _ _ _ _ hIk hp, hK _ _ _ _ _ hIk ha hp⟩
    exact (arg_loop_invariant pass (fun s => I s ∧ P s)
      (fun st a rest st1 rest1 hi hq =>
        ⟨hI _ _ _ _ _ hi.1 hq, hP _ _ _ _ _ hi.1 hi.2 hq⟩)
      rest.length st2 st1 rest2 h2 hend).2

/-- What one pass of the loop of `fdb_modify` does to `ndm_state`. -/
theorem fdb_modify_arg_state (E : Ext) (st : ModifyState) (a : String) (rest : List String)
    (st1 : ModifyState) (rest1 : List String)
    (h : fdb_modify_arg E st a rest = .ok (st1, rest1)) :
    (fdb_modify_keyword E a ≠ .kw_local ∧ fdb_modify_keyword E a ≠ .kw_temp ∧
      fdb_modify_keyword E a ≠ .kw_dynamic ∧ st1.req.ndm_state = st.req.ndm_state) ∨
    (fdb_modify_keyword E a = .kw_local ∧
      st1.req.ndm_state = (st.req.ndm_state ||| NUD_PERMANENT) % 2 ^ 16) ∨
    (fdb_modify_keyword E a = .kw_temp ∧
      st1.req.ndm_state = (st.req.ndm_state ||| NUD_REACHABLE) % 2 ^ 16) ∨
    (fdb_modify_keyword E a = .kw_dynamic ∧
      st1.req.ndm_state =
        (st.req.ndm_state ||| NUD_REACHABLE) % 2 ^ 16 &&& (0xffff ^^^ NUD_NOARP)) := by
  by_cases k1 : fdb_modify_keyword E a = .kw_local
  · right; left
    refine ⟨k1, ?_⟩
    unfold fdb_modify_arg at h
    simp only [k1, Except.ok.injEq, Prod.mk.injEq] at h
    rw [← h.1]
    rfl
  by_cases k2 : fdb_modify_keyword E a = .kw_temp
  · right; right; left
    refine ⟨k2, ?_⟩
    unfold fdb_modify_arg at h
    simp only [k2, Except.ok.injEq, Prod.mk.injEq] at h
    rw [← h.1]
    rfl
  by_cases k3 : fdb_modify_keyword E a = .kw_dynamic
  · right; right; right
    refine ⟨k3, ?_⟩
    unfold fdb_modify_arg at h
    simp only [k3, Except.ok.injEq, Prod.mk.injEq] at h
    rw [← h.1]
    rfl
  · left
    exact ⟨k1, k2, k3, (fdb_modify_arg_frame E st a rest st1 rest1 h).2.2.2.2.2.2.2.2 k1 k2 k3⟩

/-- The values `ndm_state` takes in the loop of `fdb_modify`, and three sets of
them that the passes do not leave: PERMANENT set; REACHABLE set; REACHABLE set
and NOARP clear. -/
theorem fdb_modify_state_closed (E : Ext) (st : ModifyState) (a : String) (rest : List String)
    (st1 : ModifyState) (rest1 : List String)
    (hI : st.req.ndm_state = 0x40 ∨ st.req.ndm_state = 0xc0 ∨ st.req.ndm_state = 0x42 ∨
      st.req.ndm_state = 0xc2 ∨ st.req.ndm_state = 0x02 ∨ st.req.ndm_state = 0x82)
    (h : fdb_modify_arg E st a rest = .ok (st1, rest1)) :
    (st1.req.ndm_state = 0x40 ∨ st1.req.ndm_state = 0xc0 ∨ st1.req.ndm_state = 0x42 ∨
      st1.req.ndm_state = 0xc2 ∨ st1.req.ndm_state = 0x02 ∨ st1.req.ndm_state = 0x82) ∧
    (fdb_modify_keyword E a = .kw_local ∨ st.req.ndm_state &&& NUD_PERMANENT = NUD_PERMANENT →
      st1.req.ndm_state &&& NUD_PERMANENT = NUD_PERMANENT) ∧
    (fdb_modify_keyword E a = .kw_temp ∨ fdb_modify_keyword E a = .kw_dynamic ∨
        st.req.ndm_state &&& NUD_REACHABLE = NUD_REACHABLE →
      st1.req.ndm_state &&& NUD_REACHABLE = NUD_REACHABLE) ∧
    (fdb_modify_keyword E a = .kw_dynamic ∨ st.req.ndm_state &&& NUD_NOARP = 0 →
      st1.req.ndm_state &&& NUD_NOARP = 0) ∧
    (fdb_modify_keyword E a ≠ .kw_dynamic →
      st.req.ndm_state &&& NUD_NOARP = NUD_NOARP → st1.req.ndm_state &&& NUD_NOARP = NUD_NOARP) ∧
    (fdb_modify_keyword E a ≠ .kw_local →
      st.req.ndm_state &&& NUD_PERMANENT = 0 → st1.req.ndm_state &&& NUD_PERMANENT = 0) := by
  rcases fdb_modify_arg_state E st a rest st1 rest1 h with
    ⟨k1, k2, k3, e⟩ | ⟨k, e⟩ | ⟨k, e⟩ | ⟨k, e⟩
  · rw [e]
    refine ⟨hI, fun hp => ?_, fun hp => ?_, fun hp => ?_, fun _ hp => hp, fun _ hp => hp⟩
    · rcases hp with hp | hp
      · exact absurd hp k1
      · exact hp
    · rcases hp with hp | hp | hp
      · exact absurd hp k2
      · exact absurd hp k3
      · exact hp
    · rcases hp with hp | hp
      · exact absurd hp k3
      · exact hp
  all_goals
    rw [e, k]
    rcases hI with hI | hI | hI | hI | hI | hI <;> rw [hI] <;> decide

/-- C40 (as stated, refuted): with `static` alone the request has NUD_REACHABLE
set, next to NUD_NOARP: the branch of `temp` and `static` is
`ndm_state |= NUD_REACHABLE`. -/
theorem C40_static_sets_reachable :
    fdb_modify (demoExt true) 28 0x600 ["de:ad:be:ef:00:01", "dev", "br0", "static"] =
      .ok { nlmsg_len := 40, nlmsg_flags := 0x601, nlmsg_type := 28, ndm_family := PF_BRIDGE,
            ndm_ifindex := 2, ndm_state := 0x42, ndm_flags := 2,
            attrs := [{ rta_len := 10, rta_type := .NDA_LLADDR,
                        data := [0xde, 0xad, 0xbe, 0xef, 0x00, 0x01] }] } ∧
    (0x42 : Nat) &&& NUD_REACHABLE = NUD_REACHABLE ∧
    (0x42 : Nat) &&& NUD_NOARP = NUD_NOARP := by
  decide

/-- C40 (amended): let `fdb_modify` build the request `r`. If the loop went
through the `local`/`permanent` branch, `r` has NUD_PERMANENT set. If it went
through the `temp`/`static` branch and through neither the `local`/`permanent`
nor the `dynamic` branch, the state is exactly NUD_NOARP | NUD_REACHABLE:
NUD_NOARP and NUD_REACHABLE set, NUD_PERMANENT clear. If it went through the
`dynamic` branch and not through the `local`/`permanent` branch, the state is
exactly NUD_REACHABLE: NUD_NOARP is clear. -/
theorem C40_state_keywords (E : Ext) (cmd flags : Nat) (argv : List String) (r : req)
    (h : fdb_modify E cmd flags argv = .ok r) :
    (Keyword.kw_local ∈ fdb_modify_trace E cmd flags argv →
      r.ndm_state &&& NUD_PERMANENT = NUD_PERMANENT) ∧
    (Keyword.kw_temp ∈ fdb_modify_trace E cmd flags argv →
      Keyword.kw_local ∉ fdb_modify_trace E cmd flags argv →
      Keyword.kw_dynamic ∉ fdb_modify_trace E cmd flags argv →
      r.ndm_state = NUD_NOARP ||| NUD_REACHABLE) ∧
    (Keyword.kw_dynamic ∈ fdb_modify_trace E cmd flags argv →
      Keyword.kw_local ∉ fdb_modify_trace E cmd flags argv →
      r.ndm_state = NUD_REACHABLE) := by
  obtain ⟨st, d, addr, hloop, -, -, -, hb⟩ := fdb_modify_ok E cmd flags argv r h
  have hfl := (fdb_modify_build_flags E st d addr r hb).2
  have h0 : (fdb_modify_init E cmd flags).req.ndm_state = 0x40 ∨
      (fdb_modify_init E cmd flags).req.ndm_state = 0xc0 ∨
      (fdb_modify_init E cmd flags).req.ndm_state = 0x42 ∨
      (fdb_modify_init E cmd flags).req.ndm_state = 0xc2 ∨
      (fdb_modify_init E cmd flags).req.ndm_state = 0x02 ∨
      (fdb_modify_init E cmd flags).req.ndm_state = 0x82 := Or.inl rfl
  have hI := arg_loop_invariant (fdb_modify_arg E)
    (fun s => s.req.ndm_state = 0x40 ∨ s.req.ndm_state = 0xc0 ∨ s.req.ndm_state = 0x42 ∨
      s.req.ndm_state = 0xc2 ∨ s.req.ndm_state = 0x02 ∨ s.req.ndm_state = 0x82)
    (fun s a rest s1 rest1 hi hp => (fdb_modify_state_closed E s a rest s1 rest1 hi hp).1)
    argv.length _ st argv h0 hloop
  have sticky : ∀ (P : ModifyState → Prop) (x : Keyword),
      x ∈ fdb_modify_trace E cmd flags argv →
      (∀ s a rest s1 rest1,
        (s.req.ndm_state = 0x40 ∨ s.req.ndm_state = 0xc0 ∨ s.req.ndm_state = 0x42 ∨
          s.req.ndm_state = 0xc2 ∨ s.req.ndm_state = 0x02 ∨ s.req.ndm_state = 0x82) →
        fdb_modify_keyword E a = x ∨ P s →
        fdb_modify_arg E s a rest = .ok (s1, rest1) → P s1) → P st := by
    intro P x hx hstep
    obtain ⟨k, stk, a, rest, hreach, ha⟩ := (fdb_modify_trace_iff E cmd flags argv x).mp hx
    exact arg_loop_sticky_inv (fdb_modify_arg E)
      (fun s => s.req.ndm_state = 0x40 ∨ s.req.ndm_state = 0xc0 ∨ s.req.ndm_state = 0x42 ∨
        s.req.ndm_state = 0xc2 ∨ s.req.ndm_state = 0x02 ∨ s.req.ndm_state = 0x82)
      P (fun a => fdb_modify_keyword E a = x) (fdb_modify_arg_shrinks E)
      (fun s a rest s1 rest1 hi hp => (fdb_modify_state_closed E s a rest s1 rest1 hi hp).1)
      (fun s a rest s1 rest1 hi hk hp => hstep s a rest s1 rest1 hi (Or.inl hk) hp)
      (fun s a rest s1 rest1 hi hq hp => hstep s a rest s1 rest1 hi (Or.inr hq) hp)
      (fdb_modify_init E cmd flags) stk st argv k a rest h0 hreach ha hloop
  have clear_perm : Keyword.kw_local ∉ fdb_modify_trace E cmd flags argv →
      st.req.ndm_state &&& NUD_PERMANENT = 0 := by
    intro hnl
    exact (fdb_modify_untouched E cmd flags argv st
      (fun s => (s.req.ndm_state = 0x40 ∨ s.req.ndm_state = 0xc0 ∨ s.req.ndm_state = 0x42 ∨
          s.req.ndm_state = 0xc2 ∨ s.req.ndm_state = 0x02 ∨ s.req.ndm_state = 0x82) ∧
        s.req.ndm_state &&& NUD_PERMANENT = 0) [.kw_local] hloop
      ⟨h0, show NUD_NOARP &&& NUD_PERMANENT = 0 by decide⟩
      (fun s a rest s1 rest1 hs hx hp => by
        simp only [List.mem_singleton] at hx
        exact ⟨(fdb_modify_state_closed E s a rest s1 rest1 hs.1 hp).1,
          (fdb_modify_state_closed E s a rest s1 rest1 hs.1 hp).2.2.2.2.2 hx hs.2⟩)
      (by
        intro x hx
        simp only [List.mem_singleton] at hx
        rw [hx]
        exact hnl)).2
  refine ⟨fun hl => ?_, fun ht hnl hnd => ?_, fun hd hnl => ?_⟩
  · have hP : st.req.ndm_state &&& NUD_PERMANENT = NUD_PERMANENT :=
      sticky (fun s => s.req.ndm_state &&& NUD_PERMANENT = NUD_PERMANENT) .kw_local hl
        (fun s a rest s1 rest1 hi hk hp =>
          (fdb_modify_state_closed E s a rest s1 rest1 hi hp).2.1 hk)
    rw [hfl]
    rcases hI with e | e | e | e | e | e <;> rw [e] at hP ⊢ <;> revert hP <;> decide
  · have hR : st.req.ndm_state &&& NUD_REACHABLE = NUD_REACHABLE :=
      sticky (fun s => s.req.ndm_state &&& NUD_REACHABLE = NUD_REACHABLE) .kw_temp ht
        (fun s a rest s1 rest1 hi hk hp =>
          (fdb_modify_state_closed E s a rest s1 rest1 hi hp).2.2.1
            (hk.elim Or.inl (fun q => Or.inr (Or.inr q))))
    have hN : st.req.ndm_state &&& NUD_NOARP = NUD_NOARP :=
      (fdb_modify_untouched E cmd flags argv st
        (fun s => (s.req.ndm_state = 0x40 ∨ s.req.ndm_state = 0xc0 ∨ s.req.ndm_state = 0x42 ∨
            s.req.ndm_state = 0xc2 ∨ s.req.ndm_state = 0x02 ∨ s.req.ndm_state = 0x82) ∧
          s.req.ndm_state &&& NUD_NOARP = NUD_NOARP) [.kw_dynamic] hloop
        ⟨h0, show NUD_NOARP &&& NUD_NOARP = NUD_NOARP by decide⟩
        (fun s a rest s1 rest1 hs hx hp => by
          simp only [List.mem_singleton] at hx
          exact ⟨(fdb_modify_state_closed E s a rest s1 rest1 hs.1 hp).1,
            (fdb_modify_state_closed E s a rest s1 rest1 hs.1 hp).2.2.2.2.1 hx hs.2⟩)
        (by
          intro x hx
          simp only [List.mem_singleton] at hx
          rw [hx]
          exact hnd)).2
    have hM := clear_perm hnl
    rw [hfl]
    rcases hI with e | e | e | e | e | e <;> rw [e] at hR hN hM ⊢ <;>
      revert hR hN hM <;> decide
  · have hR : st.req.ndm_state &&& NUD_REACHABLE = NUD_REACHABLE :=
      sticky (fun s => s.req.ndm_state &&& NUD_REACHABLE = NUD_REACHABLE) .kw_dynamic hd
        (fun s a rest s1 rest1 hi hk hp =>
          (fdb_modify_state_closed E s a rest s1 rest1 hi hp).2.2.1
            (hk.elim (fun q => Or.inr (Or.inl q)) (fun q => Or.inr (Or.inr q))))
    have hN : st.req.ndm_state &&& NUD_NOARP = 0 :=
      sticky (fun s => s.req.ndm_state &&& NUD_NOARP = 0) .kw_dynamic hd
        (fun s a rest s1 rest1 hi hk hp =>
          (fdb_modify_state_closed E s a rest s1 rest1 hi hp).2.2.2.1 hk)
    have hM := clear_perm hnl
    rw [hfl]
    rcases hI with e | e | e | e | e | e <;> rw [e] at hR hN hM ⊢ <;>
      revert hR hN hM <;> decide

/-- C40 witness: `static` alone gives NUD_NOARP | NUD_REACHABLE. -/
theorem C40_state_keywords_witness :
    (0x42 : Nat) = NUD_NOARP ||| NUD_REACHABLE :=
  (C40_state_keywords (demoExt true) 28 0x600
    ["de:ad:be:ef:00:01", "dev", "br0", "static"]
    { nlmsg_len := 40, nlmsg_flags := 0x601, nlmsg_type := 28, ndm_family := PF_BRIDGE,
      ndm_ifindex := 2, ndm_state := 0x42, ndm_flags := 2,
      attrs := [{ rta_len := 10, rta_type := .NDA_LLADDR,
                  data := [0xde, 0xad, 0xbe, 0xef, 0x00, 0x01] }] }
    (by decide)).2.1 (by decide) (by decide) (by decide)

end Fdb

namespace RtmMap
open Flower (Fail)

/-! ## Claims on the route types -/

/-- C33 (as stated, refuted): the string `rtnl_rtntype_n2a` returns for
RTN_UNSPEC, `none`, is not accepted by `rtnl_rtntype_a2n`: it is none of the
keywords and not a number. -/
theorem C33_none_not_parsed :
    rtnl_rtntype_n2a demoExt RTN_UNSPEC "" 64 = "none" ∧
    rtnl_rtntype_a2n demoExt "none" = none := by
  decide

/-- A string that starts with a digit is not a keyword that starts with
another character. -/
theorem digit_ne_keyword (arg k : String) (c l : Char) (cs ls : List Char)
    (ha : arg.data = c :: cs) (hc : c.isDigit = true) (hk : k.data = l :: ls)
    (hl : l.isDigit = false) : arg ≠ k := by
  intro e
  rw [e, hk] at ha
  injection ha with h1 h2
  rw [h1, hc] at hl
  exact absurd hl (by decide)

/-- A string that starts with a digit is not the beginning of a keyword that
starts with another character. -/
theorem digit_not_beginning (k : String) (c l : Char) (cs ls : List Char)
    (hc : c.isDigit = true) (hk : k.data = l :: ls) (hl : l.isDigit = false) :
    (c :: cs).isPrefixOf k.data = false := by
  rw [hk]
  have hne : (c == l) = false := by
    rw [beq_eq_false_iff_ne]
    intro e
    rw [e, hl] at hc
    exact absurd hc (by decide)
  simp [List.isPrefixOf, hne]

/-- C33 (amended): in non-numeric mode and when `matches` accepts the
beginnings of a keyword, `rtnl_rtntype_a2n` applied to the string that
`rtnl_rtntype_n2a` returns for a route type from RTN_UNICAST (1) to
RTN_XRESOLVE (11) returns that type; the string for RTN_UNSPEC (0) is `none`,
which `rtnl_rtntype_a2n` rejects when `strtoul` finds no number in it; and
`rtnl_rtntype_a2n` rejects every string that starts with a digit and whose
value is above 255. -/
theorem C33_route_type_round_trip (E : Ext) (buf : String) (len : Int)
    (hnum : E.names.numeric = 0)
    (hm : ∀ a b, a ≠ "" → E.matches_cmd a b = a.data.isPrefixOf b.data) :
    (∀ id : Nat, 1 ≤ id → id ≤ 11 →
      rtnl_rtntype_a2n E (rtnl_rtntype_n2a E id buf len) = some id) ∧
    (rtnl_rtntype_n2a E RTN_UNSPEC buf len = "none" ∧
      ((E.names.strtoul "none" 0).2 = "none" → rtnl_rtntype_a2n E "none" = none)) ∧
    (∀ (arg : String) (c : Char) (cs : List Char), arg.data = c :: cs → c.isDigit = true →
      255 < (E.names.strtoul arg 0).1 % 2 ^ 64 → rtnl_rtntype_a2n E arg = none) := by
  refine ⟨?_, ⟨?_, ?_⟩, ?_⟩
  · intro id h1 h2
    interval_cases id
    · have hn : rtnl_rtntype_n2a E ((1 : Nat) : Int) buf len = "unicast" := by
        simp only [rtnl_rtntype_n2a, hnum]
        rfl
      have m : ∀ b, E.matches_cmd "unicast" b = "unicast".data.isPrefixOf b.data :=
        fun b => hm _ b (by decide)
      rw [hn]
      simp only [rtnl_rtntype_a2n, m]
      rfl
    · have hn : rtnl_rtntype_n2a E ((2 : Nat) : Int) buf len = "local" := by
        simp only [rtnl_rtntype_n2a, hnum]
        rfl
      have m : ∀ b, E.matches_cmd "local" b = "local".data.isPrefixOf b.data :=
        fun b => hm _ b (by decide)
      rw [hn]
      simp only [rtnl_rtntype_a2n, m]
      rfl
    · have hn : rtnl_rtntype_n2a E ((3 : Nat) : Int) buf len = "broadcast" := by
        simp only [rtnl_rtntype_n2a, hnum]
        rfl
      have m : ∀ b, E.matches_cmd "broadcast" b = "broadcast".data.isPrefixOf b.data :=
        fun b => hm _ b (by decide)
      rw [hn]
      simp only [rtnl_rtntype_a2n, m]
      rfl
    · have hn : rtnl_rtntype_n2a E ((4 : Nat) : Int) buf len = "anycast" := by
        simp only [rtnl_rtntype_n2a, hnum]
        rfl
      have m : ∀ b, E.matches_cmd "anycast" b = "anycast".data.isPrefixOf b.data :=
        fun b => hm _ b (by decide)
      rw [hn]
      simp only [rtnl_rtntype_a2n, m]
      rfl
    · have hn : rtnl_rtntype_n2a E ((5 : Nat) : Int) buf len = "multicast" := by
        simp only [rtnl_rtntype_n2a, hnum]
        rfl
      have m : ∀ b, E.matches_cmd "multicast" b = "multicast".data.isPrefixOf b.data :=
        fun b => hm _ b (by decide)
      rw [hn]
      simp only [rtnl_rtntype_a2n, m]
      rfl
    · have hn : rtnl_rtntype_n2a E ((6 : Nat) : Int) buf len = "blackhole" := by
        simp only [rtnl_rtntype_n2a, hnum]
        rfl
      have m : ∀ b, E.matches_cmd "blackhole" b = "blackhole".data.isPrefixOf b.data :=
        fun b => hm _ b (by decide)
      rw [hn]
      simp only [rtnl_rtntype_a2n, m]
      rfl
    · have hn : rtnl_rtntype_n2a E ((7 : Nat) : Int) buf len = "unreachable" := by
        simp only [rtnl_rtntype_n2a, hnum]
        rfl
      have m : ∀ b, E.matches_cmd "unreachable" b = "unreachable".data.isPrefixOf b.data :=
        fun b => hm _ b (by decide)
      rw [hn]
      simp only [rtnl_rtntype_a2n, m]
      rfl
    · have hn : rtnl_rtntype_n2a E ((8 : Nat) : Int) buf len = "prohibit" := by
        simp only [rtnl_rtntype_n2a, hnum]
        rfl
      have m : ∀ b, E.matches_cmd "prohibit" b = "prohibit".data.isPrefixOf b.data :=
        fun b => hm _ b (by decide)
      rw [hn]
      simp only [rtnl_rtntype_a2n, m]
      rfl
    · have hn : rtnl_rtntype_n2a E ((9 : Nat) : Int) buf len = "throw" := by
        simp only [rtnl_rtntype_n2a, hnum]
        rfl
      have m : ∀ b, E.matches_cmd "throw" b = "throw".data.isPrefixOf b.data :=
        fun b => hm _ b (by decide)
      rw [hn]
      simp only [rtnl_rtntype_a2n, m]
      rfl
    · have hn : rtnl_rtntype_n2a E ((10 : Nat) : Int) buf len = "nat" := by
        simp only [rtnl_rtntype_n2a, hnum]
        rfl
      have m : ∀ b, E.matches_cmd "nat" b = "nat".data.isPrefixOf b.data :=
        fun b => hm _ b (by decide)
      rw [hn]
      simp only [rtnl_rtntype_a2n, m]
      rfl
    · have hn : rtnl_rtntype_n2a E ((11 : Nat) : Int) buf len = "xresolve" := by
        simp only [rtnl_rtntype_n2a, hnum]
        rfl
      have m : ∀ b, E.matches_cmd "xresolve" b = "xresolve".data.isPrefixOf b.data :=
        fun b => hm _ b (by decide)
      rw [hn]
      simp only [rtnl_rtntype_a2n, m]
      rfl
  · simp only [rtnl_rtntype_n2a, hnum]
    rfl
  · intro hs
    have m : ∀ b, E.matches_cmd "none" b = "none".data.isPrefixOf b.data :=
      fun b => hm _ b (by decide)
    simp only [rtnl_rtntype_a2n, m, hs]
    rfl
  · intro arg c cs ha hc hv
    have hne : arg ≠ "" := by
      intro e
      rw [e] at ha
      cases ha
    have m : ∀ (k : String) (l : Char) (ls : List Char), k.data = l :: ls → l.isDigit = false →
        E.matches_cmd arg k = false := by
      intro k l ls hk hl
      rw [hm arg k hne, ha]
      exact digit_not_beginning k c l cs ls hc hk hl
    have n : ∀ (k : String) (l : Char) (ls : List Char), k.data = l :: ls → l.isDigit = false →
        arg ≠ k := fun k l ls hk hl => digit_ne_keyword arg k c l cs ls ha hc hk hl
    have hv2 : (E.names.strtoul arg 0).1 % 2 ^ 64 > 255 := hv
    simp only [rtnl_rtntype_a2n, m "broadcast" _ _ rfl (by decide),
      m "anycast" _ _ rfl (by decide), m "multicast" _ _ rfl (by decide),
      m "prohibit" _ _ rfl (by decide), m "unreachable" _ _ rfl (by decide),
      m "blackhole" _ _ rfl (by decide), m "xresolve" _ _ rfl (by decide),
      m "unicast" _ _ rfl (by decide),
      if_neg (n "local" _ _ rfl (by decide)), if_neg (n "nat" _ _ rfl (by decide)),
      if_neg (n "throw" _ _ rfl (by decide)), n "brd" _ _ rfl (by decide)]
    simp only [Bool.false_eq_true, false_or, or_self, if_false]
    rw [if_pos (Or.inr (Or.inr hv2))]

/-- C33 witness: the helpers of the examples. -/
theorem C33_route_type_round_trip_witness :
    rtnl_rtntype_a2n demoExt (rtnl_rtntype_n2a demoExt (7 : Nat) "" 64) = some 7 ∧
    rtnl_rtntype_a2n demoExt "256" = none :=
  ⟨(C33_route_type_round_trip demoExt "" 64 rfl (fun a b h => by simp [demoExt, h])).1 7 (by decide) (by decide),
   (C33_route_type_round_trip demoExt "" 64 rfl (fun a b h => by simp [demoExt, h])).2.2 "256" '2' ['5', '6'] rfl (by decide) (by decide)⟩

end RtmMap

namespace RtmMap
open Flower (Fail)

/-! ## Claims on the realms -/

theorem strchr_append (A B : List Char) (c : Char) (h : c ∉ A) :
    strchr (A ++ c :: B) c = some A.length := by
  induction A with
  | nil => simp [strchr]
  | cons x xs ih =>
    have hx : x ≠ c := fun e => h (by simp [e])
    have hxs : c ∉ xs := fun e => h (by simp [e])
    simp [strchr, hx, ih hxs]

theorem strchr_none (A : List Char) (c : Char) (h : c ∉ A) : strchr A c = none := by
  induction A with
  | nil => rfl
  | cons x xs ih =>
    have hx : x ≠ c := fun e => h (by simp [e])
    have hxs : c ∉ xs := fun e => h (by simp [e])
    simp [strchr, hx, ih hxs]

/-- Overwriting the character that `strchr` found and writing it back gives the
string back. -/
theorem strchr_set_back (c z : Char) : ∀ (arg : List Char) (p : Nat),
    strchr arg c = some p → (arg.set p z).set p c = arg := by
  intro arg
  induction arg with
  | nil => intro p h; simp [strchr] at h
  | cons x xs ih =>
    intro p h
    by_cases hx : x = c
    · simp only [strchr, if_pos hx, Option.some.injEq] at h
      rw [← h, hx]
      rfl
    · simp only [strchr, if_neg hx, Option.map_eq_some'] at h
      obtain ⟨q, hq, rfl⟩ := h
      simp only [List.set_cons_succ, ih q hq]

theorem set_append_mid (A B : List Char) (x z : Char) :
    (A ++ x :: B).set A.length z = A ++ z :: B := by
  induction A with
  | nil => rfl
  | cons y ys ih => simp [ih]

theorem c_str_chars_stop (A B : List Char) (h : Char.ofNat 0 ∉ A) :
    c_str_chars (A ++ Char.ofNat 0 :: B) = A := by
  induction A with
  | nil => simp [c_str_chars]
  | cons x xs ih =>
    have hx : x ≠ Char.ofNat 0 := fun e => h (by simp [e])
    have hxs : Char.ofNat 0 ∉ xs := fun e => h (by simp [e])
    show c_str_chars (x :: (xs ++ Char.ofNat 0 :: B)) = x :: xs
    simp only [c_str_chars, if_neg hx, ih hxs]

theorem drop_append_mid (A B : List Char) (x : Char) :
    (A ++ x :: B).drop (A.length + 1) = B := by
  induction A with
  | nil => rfl
  | cons y ys ih => simp [ih]

theorem c_str_chars_all (A : List Char) (h : Char.ofNat 0 ∉ A) : c_str_chars A = A := by
  induction A with
  | nil => rfl
  | cons x xs ih =>
    have hx : x ≠ Char.ofNat 0 := fun e => h (by simp [e])
    have hxs : Char.ofNat 0 ∉ xs := fun e => h (by simp [e])
    simp only [c_str_chars, if_neg hx, ih hxs]

/-- Whatever `get_rt_realms_tail` returns, it keeps the buffer. -/
theorem get_rt_realms_tail_arg (E : Ext) (s : RtNames.rtrealm_state) (realms : Nat)
    (buf : List Char) (off : Nat) (r : realms_result)
    (h : get_rt_realms_tail E s realms buf off = .ok r) : r.arg = buf := by
  unfold get_rt_realms_tail at h
  split at h
  · split at h
    · simp at h
    · split at h
      all_goals
        simp only [Except.ok.injEq] at h
        rw [← h]
  · simp only [Except.ok.injEq] at h
    rw [← h]

/-- Whatever `get_rt_realms` returns, the argument is as it was. -/
theorem get_rt_realms_arg (E : Ext) (s : RtNames.rtrealm_state) (arg : List Char)
    (r : realms_result) (h : get_rt_realms E s arg = .ok r) : r.arg = arg := by
  unfold get_rt_realms at h
  split at h
  · rename_i p hp
    have hback := strchr_set_back '/' (Char.ofNat 0) arg p hp
    split at h
    · simp at h
    · split at h
      · simp only [Except.ok.injEq] at h
        rw [← h]
        exact hback
      · rw [get_rt_realms_tail_arg E _ _ _ _ r h]
        exact hback
  · exact get_rt_realms_tail_arg E _ _ _ _ r h

/-- C34: let `A` hold no slash, and let neither `A` nor `B` hold a NUL. When
`rtnl_rtrealm_a2n` resolves `A` to `a` and then `B` (not empty) to `b`, both at
most 255, `get_rt_realms_or_raw` on `A/B` returns 0 with
`realms = a * 65536 + b`; when `B` holds no slash and resolves to `b`,
`get_rt_realms_or_raw` on `B` returns 0 with `realms = b`; and whenever
`get_rt_realms_or_raw` returns, with 0 or with -1, the argument buffer holds
the string that was passed in. -/
theorem C34_realm_pairs (E : Ext) (s : RtNames.rtrealm_state) :
    (∀ (A B : List Char) (a b : Nat) (s1 s2 : RtNames.rtrealm_state),
      '/' ∉ A → Char.ofNat 0 ∉ A → Char.ofNat 0 ∉ B → B ≠ [] →
      RtNames.rtnl_rtrealm_a2n E.names s (String.mk A) = .ok (0, some a, s1) →
      RtNames.rtnl_rtrealm_a2n E.names s1 (String.mk B) = .ok (0, some b, s2) →
      a ≤ 255 → b ≤ 255 →
      get_rt_realms_or_raw E s (A ++ '/' :: B) =
        .ok { ret := 0, realms := a * 65536 + b, arg := A ++ '/' :: B, statics := s2 }) ∧
    (∀ (B : List Char) (b : Nat) (s2 : RtNames.rtrealm_state),
      '/' ∉ B → Char.ofNat 0 ∉ B → B ≠ [] →
      RtNames.rtnl_rtrealm_a2n E.names s (String.mk B) = .ok (0, some b, s2) →
      b ≤ 255 →
      get_rt_realms_or_raw E s B = .ok { ret := 0, realms := b, arg := B, statics := s2 }) ∧
    (∀ (arg : List Char) (r : realms_result),
      get_rt_realms_or_raw E s arg = .ok r → r.arg = arg) := by
  refine ⟨?_, ?_, ?_⟩
  · intro A B a b s1 s2 hA1 hA0 hB0 hB ha hb ha255 hb255
    have e1 : c_str ((A ++ '/' :: B).set A.length (Char.ofNat 0)) 0 = String.mk A := by
      rw [set_append_mid]
      simp only [c_str, List.drop_zero, c_str_chars_stop A B hA0]
    have e2 : ((A ++ '/' :: B).set A.length (Char.ofNat 0)).set A.length '/' = A ++ '/' :: B := by
      rw [set_append_mid, set_append_mid]
    have e3 : c_str (A ++ '/' :: B) (A.length + 1) = String.mk B := by
      simp only [c_str, drop_append_mid, c_str_chars_all B hB0]
    have e4 : String.mk B ≠ "" := by
      intro e
      exact hB (congrArg String.data e)
    have e5 : (((a <<< 16) % 2 ^ 32) ||| b) % 2 ^ 32 = a * 65536 + b := by
      have h1 : a <<< 16 = 2 ^ 16 * a := by rw [Nat.shiftLeft_eq, Nat.mul_comm]
      have h2 : (2 ^ 16 * a) % 2 ^ 32 = 2 ^ 16 * a := Nat.mod_eq_of_lt (by omega)
      have h3 := Nat.mul_add_lt_is_or (show b < 2 ^ 16 by omega) a
      rw [h1, h2, ← h3]
      omega
    have g : get_rt_realms E s (A ++ '/' :: B) =
        .ok { ret := 0, realms := a * 65536 + b, arg := A ++ '/' :: B, statics := s2 } := by
      unfold get_rt_realms
      simp only [strchr_append A B '/' hA1, e1, ha, e2]
      unfold get_rt_realms_tail
      simp only [e3, if_pos e4, hb, Option.getD_some, e5]
      rfl
    unfold get_rt_realms_or_raw
    simp only [g]
    rfl
  · intro B b s2 hB1 hB0 hB hb hb255
    have e3 : c_str B 0 = String.mk B := by
      simp only [c_str, List.drop_zero, c_str_chars_all B hB0]
    have e4 : String.mk B ≠ "" := by
      intro e
      exact hB (congrArg String.data e)
    have e5 : (0 ||| b) % 2 ^ 32 = b := by
      rw [Nat.zero_or]
      exact Nat.mod_eq_of_lt (by omega)
    have g : get_rt_realms E s B =
        .ok { ret := 0, realms := b, arg := B, statics := s2 } := by
      unfold get_rt_realms
      simp only [strchr_none B '/' hB1]
      unfold get_rt_realms_tail
      simp only [e3, if_pos e4, hb, Option.getD_some, e5]
      rfl
    unfold get_rt_realms_or_raw
    simp only [g]
    rfl
  · intro arg r h
    unfold get_rt_realms_or_raw at h
    split at h
    · simp at h
    · rename_i r0 hr0
      have h0 := get_rt_realms_arg E s arg r0 hr0
      split at h
      · simp only [Except.ok.injEq] at h
        rw [← h]
        exact h0
      · split at h
        all_goals
          simp only [Except.ok.injEq] at h
          rw [← h]
          exact h0

set_option maxRecDepth 100000 in
/-- C34 witness: `5/10` with the helpers of the examples and the statics of
program start. -/
theorem C34_realm_pairs_witness :
    get_rt_realms_or_raw demoExt RtNames.rtrealm_state_init ['5', '/', '1', '0'] =
      .ok { ret := 0, realms := 5 * 65536 + 10, arg := ['5', '/', '1', '0'],
            statics := { rtnl_rtrealm_tab := RtNames.rtnl_rtrealm_tab_init
                         rtnl_rtrealm_init := true
                         cache := none
                         res := 10 } } :=
  (C34_realm_pairs demoExt RtNames.rtrealm_state_init).1 ['5'] ['1', '0'] 5 10
    { rtnl_rtrealm_tab := RtNames.rtnl_rtrealm_tab_init
      rtnl_rtrealm_init := true
      cache := none
      res := 5 }
    { rtnl_rtrealm_tab := RtNames.rtnl_rtrealm_tab_init
      rtnl_rtrealm_init := true
      cache := none
      res := 10 }
    (by decide) (by decide) (by decide) (by decide) (by decide) (by decide) (by decide)
    (by decide)

end RtmMap

namespace Flower

/-! ## The text of `ip_flags` -/

theorem and_one_mod (V : Nat) : V &&& 1 = V % 2 := Nat.and_one_is_mod V

theorem and_two_div (V : Nat) : V &&& 2 = 2 * (V / 2 % 2) := by
  have h := Nat.and_two_pow V 1
  rw [Nat.testBit_to_div_mod] at h
  simp only [pow_one] at h
  rw [h]
  by_cases c : V / 2 % 2 = 1
  · simp [c]
  · have : V / 2 % 2 = 0 := by omega
    simp [this]

theorem and_three_mod (V : Nat) : V &&& 3 = V % 4 :=
  Nat.and_pow_two_sub_one_eq_mod V 2

/-- The text of `ip_flags` for a mask with the single bit IS_FRAGMENT. -/
theorem ip_flags_text_1 (E : PrintExt) (a m : List Nat) (hm : m.length = 4)
    (hM : ntohl E.le (rta_getattr_u32 E.le m) = 1) :
    ∃ text, fp_texts (flower_print_matching_flags E "ip_flags" (some a) (some m)).1
        = some ("\n  ip_flags " ++ text) ∧
      flower_parse_matching_flags text 0 0 =
        some (ntohl E.le (rta_getattr_u32 E.le a) &&& ntohl E.le (rta_getattr_u32 E.le m),
          ntohl E.le (rta_getattr_u32 E.le m)) := by
  have c4 : ¬ (m.length ≠ 4) := not_not.mpr hm
  simp only [flower_print_matching_flags, if_neg c4, hM]
  generalize ntohl E.le (rta_getattr_u32 E.le a) = V
  have k1 : (1 &&& 1 : Nat) ≠ 0 := by decide
  have k2 : ¬ ((1 &&& 2 : Nat) ≠ 0) := by decide
  simp only [flags_str, matching_flags_loop, TCA_FLOWER_KEY_FLAGS_IS_FRAGMENT,
    TCA_FLOWER_KEY_FLAGS_FRAG_IS_FIRST, if_pos k1, if_neg k2, and_one_mod]
  by_cases c0 : V % 2 = 0
  · have h0 : ¬ (V % 2 ≠ 0) := not_not.mpr c0
    simp only [if_neg h0, c0]
    exact ⟨"nofrag", by rfl, by decide⟩
  · have e : V % 2 = 1 := by omega
    simp only [if_pos c0, e]
    exact ⟨"frag", by rfl, by decide⟩

/-- The text of `ip_flags` for a mask with the single bit FRAG_IS_FIRST. -/
theorem ip_flags_text_2 (E : PrintExt) (a m : List Nat) (hm : m.length = 4)
    (hM : ntohl E.le (rta_getattr_u32 E.le m) = 2) :
    ∃ text, fp_texts (flower_print_matching_flags E "ip_flags" (some a) (some m)).1
        = some ("\n  ip_flags " ++ text) ∧
      flower_parse_matching_flags text 0 0 =
        some (ntohl E.le (rta_getattr_u32 E.le a) &&& ntohl E.le (rta_getattr_u32 E.le m),
          ntohl E.le (rta_getattr_u32 E.le m)) := by
  have c4 : ¬ (m.length ≠ 4) := not_not.mpr hm
  simp only [flower_print_matching_flags, if_neg c4, hM]
  generalize ntohl E.le (rta_getattr_u32 E.le a) = V
  have k1 : ¬ ((2 &&& 1 : Nat) ≠ 0) := by decide
  have k2 : (2 &&& 2 : Nat) ≠ 0 := by decide
  simp only [flags_str, matching_flags_loop, TCA_FLOWER_KEY_FLAGS_IS_FRAGMENT,
    TCA_FLOWER_KEY_FLAGS_FRAG_IS_FIRST, if_neg k1, if_pos k2, and_two_div]
  by_cases c1 : V / 2 % 2 = 0
  · have h1 : ¬ (2 * (V / 2 % 2) ≠ 0) := by omega
    simp only [if_neg h1, c1]
    exact ⟨"nofirstfrag", by rfl, by decide⟩
  · have e : V / 2 % 2 = 1 := by omega
    have h1 : 2 * (V / 2 % 2) ≠ 0 := by omega
    simp only [if_pos h1, e]
    exact ⟨"firstfrag", by rfl, by decide⟩

/-- The text of `ip_flags` for a mask with both bits. -/
theorem ip_flags_text_3 (E : PrintExt) (a m : List Nat) (hm : m.length = 4)
    (hM : ntohl E.le (rta_getattr_u32 E.le m) = 3) :
    ∃ text, fp_texts (flower_print_matching_flags E "ip_flags" (some a) (some m)).1
        = some ("\n  ip_flags " ++ text) ∧
      flower_parse_matching_flags text 0 0 =
        some (ntohl E.le (rta_getattr_u32 E.le a) &&& ntohl E.le (rta_getattr_u32 E.le m),
          ntohl E.le (rta_getattr_u32 E.le m)) := by
  have c4 : ¬ (m.length ≠ 4) := not_not.mpr hm
  simp only [flower_print_matching_flags, if_neg c4, hM]
  generalize ntohl E.le (rta_getattr_u32 E.le a) = V
  have k1 : (3 &&& 1 : Nat) ≠ 0 := by decide
  have k2 : (3 &&& 2 : Nat) ≠ 0 := by decide
  have k3 : ¬ (0 + 1 + 1 = 1) := by decide
  simp only [flags_str, matching_flags_loop, TCA_FLOWER_KEY_FLAGS_IS_FRAGMENT,
    TCA_FLOWER_KEY_FLAGS_FRAG_IS_FIRST, if_pos k1, if_pos k2, if_neg k3, and_one_mod,
    and_two_div, and_three_mod]
  by_cases c0 : V % 2 = 0 <;> by_cases c1 : V / 2 % 2 = 0
  · have h0 : ¬ (V % 2 ≠ 0) := not_not.mpr c0
    have h1 : ¬ (2 * (V / 2 % 2) ≠ 0) := by omega
    have e : V % 4 = 0 := by omega
    simp only [if_neg h0, if_neg h1, e]
    exact ⟨"nofrag/nofirstfrag", by rfl, by decide⟩
  · have h0 : ¬ (V % 2 ≠ 0) := not_not.mpr c0
    have h1 : 2 * (V / 2 % 2) ≠ 0 := by omega
    have e : V % 4 = 2 := by omega
    simp only [if_neg h0, if_pos h1, e]
    exact ⟨"nofrag/firstfrag", by rfl, by decide⟩
  · have h1 : ¬ (2 * (V / 2 % 2) ≠ 0) := by omega
    have e : V % 4 = 1 := by omega
    simp only [if_pos c0, if_neg h1, e]
    exact ⟨"frag/nofirstfrag", by rfl, by decide⟩
  · have h1 : 2 * (V / 2 % 2) ≠ 0 := by omega
    have e : V % 4 = 3 := by omega
    simp only [if_pos c0, if_pos h1, e]
    exact ⟨"frag/firstfrag", by rfl, by decide⟩

/-- A token that is none of the four names is not found in `flags_str`. -/
theorem matching_flag_token_unknown (token : String) (mtf mtf_mask : Nat)
    (h1 : token ≠ "frag") (h2 : token ≠ "nofrag") (h3 : token ≠ "firstfrag")
    (h4 : token ≠ "nofirstfrag") : matching_flag_token token mtf mtf_mask = none := by
  have key : ∀ nm : String, nm ≠ "" →
      (if "no".data.isPrefixOf token.data = true then String.mk (token.data.drop 2) else token)
        = nm → token = nm ∨ token = "no" ++ nm := by
    intro nm _ hn
    by_cases hno : "no".data.isPrefixOf token.data = true
    · rw [if_pos hno] at hn
      right
      have hp : "no".data <+: token.data := List.isPrefixOf_iff_prefix.mp hno
      have := List.prefix_iff_eq_append.mp hp
      apply String.ext
      rw [String.data_append, ← this, ← hn]
      rfl
    · rw [if_neg hno] at hn
      exact Or.inl hn
  have n1 : (if "no".data.isPrefixOf token.data = true then String.mk (token.data.drop 2)
      else token) ≠ "frag" := by
    intro e
    rcases key "frag" (by decide) e with h | h
    · exact h1 h
    · exact h2 h
  have n2 : (if "no".data.isPrefixOf token.data = true then String.mk (token.data.drop 2)
      else token) ≠ "firstfrag" := by
    intro e
    rcases key "firstfrag" (by decide) e with h | h
    · exact h3 h
    · exact h4 h
  unfold matching_flag_token
  simp only [flags_str, List.find?]
  have b1 : ("frag" == (if "no".data.isPrefixOf token.data = true then
      String.mk (token.data.drop 2) else token)) = false := by
    rw [beq_eq_false_iff_ne]
    exact fun e => n1 e.symm
  have b2 : ("firstfrag" == (if "no".data.isPrefixOf token.data = true then
      String.mk (token.data.drop 2) else token)) = false := by
    rw [beq_eq_false_iff_ne]
    exact fun e => n2 e.symm
  simp only [b1, b2]

/-- The loop over the tokens stays at `return -1` once it got there, and gets
there on a token that no state accepts. -/
theorem matching_flags_fold_none (t : String)
    (ht : ∀ m k, matching_flag_token t m k = none) :
    ∀ (l : List String) (init : Option (Nat × Nat)), t ∈ l →
      l.foldl (fun acc token => acc.bind fun (m, k) => matching_flag_token token m k) init
        = none := by
  have hnone : ∀ l : List String,
      l.foldl (fun (acc : Option (Nat × Nat)) token =>
        acc.bind fun (m, k) => matching_flag_token token m k) none = none := by
    intro l
    induction l with
    | nil => rfl
    | cons x xs ih => simpa using ih
  intro l
  induction l with
  | nil => intro init h; simp at h
  | cons x xs ih =>
    intro init h
    simp only [List.foldl_cons]
    rcases List.mem_cons.mp h with e | e
    · subst e
      cases init with
      | none => exact hnone xs
      | some p =>
        obtain ⟨m, k⟩ := p
        simp only [Option.bind, ht m k]
        exact hnone xs
    · exact ih _ e

/-- C35: for a mask attribute of four bytes whose value `M` is one of
IS_FRAGMENT, FRAG_IS_FIRST or both, and a value attribute `V`, the plain text
that `flower_print_matching_flags` writes is the header followed by a text that
`flower_parse_matching_flags`, started from `mtf = 0` and `mask = 0`, parses
with return value 0 to `mtf = V & M` and `mask = M`; a token that is none of
`frag`, `nofrag`, `firstfrag`, `nofirstfrag` makes the loop body return -1, and
so does a string with such a token. -/
theorem C35_ip_flags_round_trip (E : PrintExt) (a m : List Nat) (hm : m.length = 4)
    (hM : ntohl E.le (rta_getattr_u32 E.le m) = TCA_FLOWER_KEY_FLAGS_IS_FRAGMENT ∨
      ntohl E.le (rta_getattr_u32 E.le m) = TCA_FLOWER_KEY_FLAGS_FRAG_IS_FIRST ∨
      ntohl E.le (rta_getattr_u32 E.le m) =
        TCA_FLOWER_KEY_FLAGS_IS_FRAGMENT ||| TCA_FLOWER_KEY_FLAGS_FRAG_IS_FIRST) :
    (∃ text, fp_texts (flower_print_matching_flags E "ip_flags" (some a) (some m)).1
        = some ("\n  ip_flags " ++ text) ∧
      flower_parse_matching_flags text 0 0 =
        some (ntohl E.le (rta_getattr_u32 E.le a) &&& ntohl E.le (rta_getattr_u32 E.le m),
          ntohl E.le (rta_getattr_u32 E.le m))) ∧
    (∀ (token : String) (mtf mtf_mask : Nat),
      token ≠ "frag" → token ≠ "nofrag" → token ≠ "firstfrag" → token ≠ "nofirstfrag" →
      matching_flag_token token mtf mtf_mask = none) ∧
    (∀ (str token : String) (mtf mtf_mask : Nat), token ∈ strtok_slash str →
      token ≠ "frag" → token ≠ "nofrag" → token ≠ "firstfrag" → token ≠ "nofirstfrag" →
      flower_parse_matching_flags str mtf mtf_mask = none) := by
  refine ⟨?_, fun token mtf mtf_mask h1 h2 h3 h4 =>
      matching_flag_token_unknown token mtf mtf_mask h1 h2 h3 h4,
    fun str token mtf mtf_mask hin h1 h2 h3 h4 =>
      matching_flags_fold_none token
        (fun x y => matching_flag_token_unknown token x y h1 h2 h3 h4) _ _ hin⟩
  rcases hM with h | h | h
  · exact ip_flags_text_1 E a m hm h
  · exact ip_flags_text_2 E a m hm h
  · exact ip_flags_text_3 E a m hm h

/-- C35 witness: the value IS_FRAGMENT under the mask of both bits, on a
little-endian host: the text is `frag/nofirstfrag`. -/
theorem C35_ip_flags_round_trip_witness :
    ∃ text, fp_texts (flower_print_matching_flags (demoPrintExt true) "ip_flags"
        (some [0, 0, 0, 1]) (some [0, 0, 0, 3])).1 = some ("\n  ip_flags " ++ text) ∧
      flower_parse_matching_flags text 0 0 =
        some (ntohl (demoPrintExt true).le (rta_getattr_u32 (demoPrintExt true).le [0, 0, 0, 1])
            &&& ntohl (demoPrintExt true).le (rta_getattr_u32 (demoPrintExt true).le [0, 0, 0, 3]),
          ntohl (demoPrintExt true).le (rta_getattr_u32 (demoPrintExt true).le [0, 0, 0, 3])) :=
  (C35_ip_flags_round_trip (demoPrintExt true) [0, 0, 0, 1] [0, 0, 0, 3] rfl
    (Or.inr (Or.inr (by decide)))).1

end Flower

namespace Ipvlan
open Flower (Fail print_call NLMSG_ALIGN RTA_LENGTH u16_mem)
open Fdb (arg_loop arg_steps)

/-! ## Claims on the ipvlan options -/

/-- What one pass of the loop of `ipvlan_parse_opt` does: a `mode` pass takes
the next argument and at most appends an IFLA_IPVLAN_MODE record; the three
flag passes need `mflag_given` to be false and set it. -/
theorem ipvlan_parse_arg_cases (E : Ext) (st : ParseState) (a : String) (rest : List String)
    (st1 : ParseState) (rest1 : List String)
    (h : ipvlan_parse_arg E st a rest = .ok (st1, rest1)) :
    (E.matches_cmd a "mode" = true ∧ (∃ v mode, rest = v :: rest1 ∧
      st1 = { st with n := (addattr16 E.le st.n 1024 .IFLA_IPVLAN_MODE mode).2 })) ∨
    (E.matches_cmd a "mode" = false ∧ st.mflag_given = false ∧ rest1 = rest ∧
      ((E.matches_cmd a "private" = true ∧
          st1 = { st with flags := (st.flags ||| IPVLAN_F_PRIVATE) % 2 ^ 16,
                          mflag_given := true }) ∨
        (E.matches_cmd a "private" = false ∧ E.matches_cmd a "vepa" = true ∧
          st1 = { st with flags := (st.flags ||| IPVLAN_F_VEPA) % 2 ^ 16,
                          mflag_given := true }) ∨
        (E.matches_cmd a "private" = false ∧ E.matches_cmd a "vepa" = false ∧
          E.matches_cmd a "bridge" = true ∧ st1 = { st with mflag_given := true }))) := by
  unfold ipvlan_parse_arg ipvlan_keyword at h
  by_cases m0 : E.matches_cmd a "mode" = true
  · left
    refine ⟨m0, ?_⟩
    simp only [m0, if_true] at h
    cases rest with
    | nil => simp at h
    | cons v post =>
      simp only at h
      split_ifs at h
      all_goals
        simp only [Except.ok.injEq, Prod.mk.injEq] at h
        exact ⟨v, _, by rw [h.2], h.1.symm⟩
  · right
    have m0' : E.matches_cmd a "mode" = false := by simpa using m0
    refine ⟨m0', ?_⟩
    simp only [m0', Bool.false_eq_true, if_false] at h
    cases hg : st.mflag_given
    · simp only [hg, and_true] at h
      refine ⟨rfl, ?_⟩
      by_cases m1 : E.matches_cmd a "private" = true
      · simp only [m1, if_true, Except.ok.injEq, Prod.mk.injEq] at h
        exact ⟨h.2.symm, Or.inl ⟨m1, h.1.symm⟩⟩
      · have m1' : E.matches_cmd a "private" = false := by simpa using m1
        simp only [m1', Bool.false_eq_true, if_false] at h
        by_cases m2 : E.matches_cmd a "vepa" = true
        · simp only [m2, if_true, Except.ok.injEq, Prod.mk.injEq] at h
          exact ⟨h.2.symm, Or.inr (Or.inl ⟨m1', m2, h.1.symm⟩)⟩
        · have m2' : E.matches_cmd a "vepa" = false := by simpa using m2
          simp only [m2', Bool.false_eq_true, if_false] at h
          by_cases m3 : E.matches_cmd a "bridge" = true
          · simp only [m3, if_true, Except.ok.injEq, Prod.mk.injEq] at h
            exact ⟨h.2.symm, Or.inr (Or.inr ⟨m1', m2', m3, h.1.symm⟩)⟩
          · have m3' : E.matches_cmd a "bridge" = false := by simpa using m3
            simp only [m3', Bool.false_eq_true, if_false] at h
            split_ifs at h
    · simp only [hg, Bool.true_eq_false, and_false, if_false] at h
      split_ifs at h

theorem ipvlan_parse_arg_shrinks (E : Ext) (st : ParseState) (a : String) (rest : List String)
    (st1 : ParseState) (rest1 : List String)
    (h : ipvlan_parse_arg E st a rest = .ok (st1, rest1)) : rest1.length ≤ rest.length := by
  rcases ipvlan_parse_arg_cases E st a rest st1 rest1 h with
    ⟨-, v, mode, hr, -⟩ | ⟨-, -, hr, -⟩
  · rw [hr]
    simp
  · rw [hr]

/-- The locals `flags` and `mflag_given` go together: no flag before the first
flag pass, and one of the three values after it. -/
theorem ipvlan_parse_arg_flags (E : Ext) (st : ParseState) (a : String) (rest : List String)
    (st1 : ParseState) (rest1 : List String)
    (hJ : (st.mflag_given = false ∧ st.flags = 0) ∨
      (st.mflag_given = true ∧
        (st.flags = 0 ∨ st.flags = IPVLAN_F_PRIVATE ∨ st.flags = IPVLAN_F_VEPA)))
    (h : ipvlan_parse_arg E st a rest = .ok (st1, rest1)) :
    ((st1.mflag_given = false ∧ st1.flags = 0) ∨
      (st1.mflag_given = true ∧
        (st1.flags = 0 ∨ st1.flags = IPVLAN_F_PRIVATE ∨ st1.flags = IPVLAN_F_VEPA))) ∧
    (st.mflag_given = true → st1.flags = st.flags ∧ st1.mflag_given = true) ∧
    (E.matches_cmd a "mode" = false →
      (E.matches_cmd a "private" = true →
        st1.flags = IPVLAN_F_PRIVATE ∧ st1.mflag_given = true) ∧
      (E.matches_cmd a "private" = false → E.matches_cmd a "vepa" = true →
        st1.flags = IPVLAN_F_VEPA ∧ st1.mflag_given = true) ∧
      (E.matches_cmd a "private" = false → E.matches_cmd a "vepa" = false →
        E.matches_cmd a "bridge" = true → st1.flags = 0 ∧ st1.mflag_given = true)) ∧
    (E.matches_cmd a "private" = false → E.matches_cmd a "vepa" = false →
      st1.flags = st.flags) := by
  rcases ipvlan_parse_arg_cases E st a rest st1 rest1 h with
    ⟨m0, v, mode, -, e⟩ | ⟨m0, hg, -, ⟨m1, e⟩ | ⟨m1, m2, e⟩ | ⟨m1, m2, m3, e⟩⟩
  · subst e
    refine ⟨hJ, fun hg => ⟨rfl, hg⟩, fun hm => ?_, fun _ _ => rfl⟩
    rw [m0] at hm
    cases hm
  all_goals
    have hf : st.flags = 0 := by
      rcases hJ with ⟨-, hf⟩ | ⟨hg2, -⟩
      · exact hf
      · rw [hg] at hg2
        cases hg2
    subst e
    first
      | simp [hf, hg, m1, m2, m3, IPVLAN_F_PRIVATE, IPVLAN_F_VEPA]
      | simp [hf, hg, m1, m2, IPVLAN_F_PRIVATE, IPVLAN_F_VEPA]
      | simp [hf, hg, m1, IPVLAN_F_PRIVATE, IPVLAN_F_VEPA]

/-- The records a pass appends are IFLA_IPVLAN_MODE records, of eight bytes
each, at most one per pass and only on a pass that takes two arguments. -/
theorem ipvlan_parse_arg_attrs (E : Ext) (st : ParseState) (a : String) (rest : List String)
    (st1 : ParseState) (rest1 : List String)
    (h : ipvlan_parse_arg E st a rest = .ok (st1, rest1)) :
    ∃ ms, st1.n.attrs = st.n.attrs ++ ms ∧ (∀ x ∈ ms, x.rta_type = .IFLA_IPVLAN_MODE) ∧
      NLMSG_ALIGN st1.n.nlmsg_len + 8 * rest1.length
        ≤ NLMSG_ALIGN st.n.nlmsg_len + 8 * rest.length := by
  rcases ipvlan_parse_arg_cases E st a rest st1 rest1 h with
    ⟨-, v, mode, hr, e⟩ | ⟨-, -, hr, ⟨-, e⟩ | ⟨-, -, e⟩ | ⟨-, -, -, e⟩⟩
  · subst e
    rw [hr]
    simp only [addattr16, addattr_l, Flower.u16_mem_length, RTA_LENGTH, List.length_cons]
    split_ifs
    · refine ⟨[], by simp, by simp, ?_⟩
      dsimp only
      omega
    · refine ⟨[_], rfl, by simp, ?_⟩
      dsimp only
      simp only [NLMSG_ALIGN]
      omega
  all_goals
    subst e
    rw [hr]
    exact ⟨[], by simp, by simp, le_refl _⟩

/-- The records the whole loop appends. -/
theorem ipvlan_parse_loop_attrs (E : Ext) (fuel : Nat) :
    ∀ (st st1 : ParseState) (argv : List String),
      arg_loop (ipvlan_parse_arg E) fuel st argv = .ok st1 →
      ∃ ms, st1.n.attrs = st.n.attrs ++ ms ∧ (∀ x ∈ ms, x.rta_type = .IFLA_IPVLAN_MODE) ∧
        NLMSG_ALIGN st1.n.nlmsg_len ≤ NLMSG_ALIGN st.n.nlmsg_len + 8 * argv.length := by
  induction fuel with
  | zero =>
    intro st st1 argv h
    cases argv with
    | nil =>
      simp only [arg_loop, Except.ok.injEq] at h
      subst h
      exact ⟨[], by simp, by simp, by simp⟩
    | cons a rest => simp [arg_loop] at h
  | succ fuel ih =>
    intro st st1 argv h
    cases argv with
    | nil =>
      simp only [arg_loop, Except.ok.injEq] at h
      subst h
      exact ⟨[], by simp, by simp, by simp⟩
    | cons a rest =>
      simp only [arg_loop] at h
      cases hp : ipvlan_parse_arg E st a rest with
      | error e => simp [hp] at h
      | ok r =>
        obtain ⟨st2, rest2⟩ := r
        simp only [hp] at h
        obtain ⟨ms1, e1, t1, b1⟩ := ipvlan_parse_arg_attrs E st a rest st2 rest2 hp
        obtain ⟨ms2, e2, t2, b2⟩ := ih st2 st1 rest2 h
        refine ⟨ms1 ++ ms2, by rw [e2, e1, List.append_assoc], ?_, ?_⟩
        · intro x hx
          rcases List.mem_append.mp hx with hx | hx
          · exact t1 x hx
          · exact t2 x hx
        · simp only [List.length_cons]
          omega

/-- What `ipvlan_print_opt` prints last for a table whose IFLA_IPVLAN_FLAGS
entry is the `__u16` with the value `flags`. -/
theorem ipvlan_print_opt_flags (E : Ext) (tb : IflaId → Option (List Nat)) (flags : Nat)
    (hf : flags = 0 ∨ flags = IPVLAN_F_PRIVATE ∨ flags = IPVLAN_F_VEPA)
    (htb : tb .IFLA_IPVLAN_FLAGS = some (u16_mem E.le flags)) :
    (ipvlan_print_opt E (some tb)).getLast? =
      some (if flags = IPVLAN_F_PRIVATE then
          .print_bool .PRINT_ANY (some "private") (some "private ") true
        else if flags = IPVLAN_F_VEPA then
          .print_bool .PRINT_ANY (some "vepa") (some "vepa ") true
        else .print_bool .PRINT_ANY (some "bridge") (some "bridge ") true) := by
  have hlt : flags < 2 ^ 16 := by
    rcases hf with e | e | e <;> rw [e] <;> decide
  simp only [ipvlan_print_opt, htb, Flower.u16_mem_length, if_true,
    Fdb.rta_getattr_u16_mem E.le flags hlt]
  rcases hf with e | e | e <;> subst e <;> simp [IPVLAN_F_PRIVATE, IPVLAN_F_VEPA]

/-- With room in the message: once a flag was taken (`mflag_given`), every argument that does not
match `mode` makes `ipvlan_parse_opt` return -1. When `ipvlan_parse_opt`
returns 0 on a message with room for the records (eight bytes per argument and
eight more, up to the 1024 of the `addattr16` calls): the value of `flags` is
0, IPVLAN_F_PRIVATE or IPVLAN_F_VEPA; the records appended are
IFLA_IPVLAN_MODE records followed by exactly one IFLA_IPVLAN_FLAGS record, the
last, that holds `flags`; `flags` is IPVLAN_F_PRIVATE, IPVLAN_F_VEPA or 0 when
the loop took an argument as `private`, `vepa` or `bridge`, and 0 when no
argument matched `private` or `vepa`; and from a table with that record
`ipvlan_print_opt` prints, last, the name of the flag. -/
theorem ipvlan_flags_with_room (E : Ext) (argv : List String) (n n1 : nlmsghdr)
    (h : ipvlan_parse_opt E argv n = .ok n1)
    (hroom : NLMSG_ALIGN n.nlmsg_len + 8 * argv.length + 8 ≤ 1024) :
    (∀ (st : ParseState) (a : String) (rest : List String), st.mflag_given = true →
      E.matches_cmd a "mode" = false → ipvlan_parse_arg E st a rest = .error .err) ∧
    ∃ (st : ParseState) (modes : List rtattr),
      arg_loop (ipvlan_parse_arg E) argv.length
        { flags := 0, mflag_given := false, n := n } argv = .ok st ∧
      (st.flags = 0 ∨ st.flags = IPVLAN_F_PRIVATE ∨ st.flags = IPVLAN_F_VEPA) ∧
      n1.attrs = n.attrs ++ modes ++
        [{ rta_len := 6, rta_type := .IFLA_IPVLAN_FLAGS, data := u16_mem E.le st.flags }] ∧
      (∀ x ∈ modes, x.rta_type = .IFLA_IPVLAN_MODE) ∧
      (∀ (k : Nat) (stk : ParseState) (a : String) (rest : List String),
        arg_steps (ipvlan_parse_arg E) k { flags := 0, mflag_given := false, n := n } argv
          = .ok (stk, a :: rest) →
        E.matches_cmd a "mode" = false →
        (E.matches_cmd a "private" = true → st.flags = IPVLAN_F_PRIVATE) ∧
        (E.matches_cmd a "private" = false → E.matches_cmd a "vepa" = true →
          st.flags = IPVLAN_F_VEPA) ∧
        (E.matches_cmd a "private" = false → E.matches_cmd a "vepa" = false →
          E.matches_cmd a "bridge" = true → st.flags = 0)) ∧
      ((∀ (k : Nat) (stk : ParseState) (a : String) (rest : List String),
        arg_steps (ipvlan_parse_arg E) k { flags := 0, mflag_given := false, n := n } argv
          = .ok (stk, a :: rest) →
        E.matches_cmd a "private" = false ∧ E.matches_cmd a "vepa" = false) →
        st.flags = 0) ∧
      (∀ tb : IflaId → Option (List Nat),
        tb .IFLA_IPVLAN_FLAGS = some (u16_mem E.le st.flags) →
        (ipvlan_print_opt E (some tb)).getLast? =
          some (if st.flags = IPVLAN_F_PRIVATE then
              .print_bool .PRINT_ANY (some "private") (some "private ") true
            else if st.flags = IPVLAN_F_VEPA then
              .print_bool .PRINT_ANY (some "vepa") (some "vepa ") true
            else .print_bool .PRINT_ANY (some "bridge") (some "bridge ") true)) := by
  constructor
  · intro st a rest hg hm
    unfold ipvlan_parse_arg ipvlan_keyword
    simp only [hm, hg, Bool.false_eq_true, Bool.true_eq_false, and_false, if_false]
    split_ifs <;> rfl
  unfold ipvlan_parse_opt at h
  cases hl : arg_loop (ipvlan_parse_arg E) argv.length
      { flags := 0, mflag_given := false, n := n } argv with
  | error e => simp [hl] at h
  | ok st =>
    simp only [hl, Except.ok.injEq] at h
    have h0 : ((({ flags := 0, mflag_given := false, n := n } : ParseState).mflag_given = false ∧
        ({ flags := 0, mflag_given := false, n := n } : ParseState).flags = 0) ∨
      (({ flags := 0, mflag_given := false, n := n } : ParseState).mflag_given = true ∧
        (({ flags := 0, mflag_given := false, n := n } : ParseState).flags = 0 ∨
          ({ flags := 0, mflag_given := false, n := n } : ParseState).flags = IPVLAN_F_PRIVATE ∨
          ({ flags := 0, mflag_given := false, n := n } : ParseState).flags = IPVLAN_F_VEPA))) :=
      Or.inl ⟨rfl, rfl⟩
    have hJ := Fdb.arg_loop_invariant (ipvlan_parse_arg E)
      (fun s => (s.mflag_given = false ∧ s.flags = 0) ∨
        (s.mflag_given = true ∧
          (s.flags = 0 ∨ s.flags = IPVLAN_F_PRIVATE ∨ s.flags = IPVLAN_F_VEPA)))
      (fun s a rest s1 rest1 hs hp => (ipvlan_parse_arg_flags E s a rest s1 rest1 hs hp).1)
      argv.length _ st argv h0 hl
    have hfl : st.flags = 0 ∨ st.flags = IPVLAN_F_PRIVATE ∨ st.flags = IPVLAN_F_VEPA := by
      rcases hJ with ⟨-, e⟩ | ⟨-, e⟩
      · exact Or.inl e
      · exact e
    obtain ⟨ms, e1, t1, b1⟩ := ipvlan_parse_loop_attrs E argv.length _ st argv hl
    have sticky : ∀ (v : Nat) (K : String → Prop),
        (∀ s a rest s1 rest1,
          ((s.mflag_given = false ∧ s.flags = 0) ∨
            (s.mflag_given = true ∧
              (s.flags = 0 ∨ s.flags = IPVLAN_F_PRIVATE ∨ s.flags = IPVLAN_F_VEPA))) →
          K a → ipvlan_parse_arg E s a rest = .ok (s1, rest1) →
          s1.flags = v ∧ s1.mflag_given = true) →
        ∀ (k : Nat) (stk : ParseState) (a : String) (rest : List String),
          arg_steps (ipvlan_parse_arg E) k { flags := 0, mflag_given := false, n := n } argv
            = .ok (stk, a :: rest) → K a → st.flags = v := by
      intro v K hK k stk a rest hreach ha
      exact (Fdb.arg_loop_sticky_inv (ipvlan_parse_arg E)
        (fun s => (s.mflag_given = false ∧ s.flags = 0) ∨
          (s.mflag_given = true ∧
            (s.flags = 0 ∨ s.flags = IPVLAN_F_PRIVATE ∨ s.flags = IPVLAN_F_VEPA)))
        (fun s => s.flags = v ∧ s.mflag_given = true) K (ipvlan_parse_arg_shrinks E)
        (fun s a rest s1 rest1 hs hp => (ipvlan_parse_arg_flags E s a rest s1 rest1 hs hp).1)
        hK
        (fun s a rest s1 rest1 hs hq hp => by
          have := (ipvlan_parse_arg_flags E s a rest s1 rest1 hs hp).2.1 hq.2
          exact ⟨this.1.trans hq.1, this.2⟩)
        _ stk st argv k a rest h0 hreach ha hl).1
    refine ⟨st, ms, rfl, hfl, ?_, t1, ?_, ?_, ?_⟩
    · have hroom2 : ¬ (NLMSG_ALIGN st.n.nlmsg_len + NLMSG_ALIGN (RTA_LENGTH 2) > 1024) := by
        have : NLMSG_ALIGN (RTA_LENGTH 2) = 8 := by decide
        rw [this]
        simp only at b1
        omega
      rw [← h]
      simp only [addattr16, addattr_l, Flower.u16_mem_length, if_neg hroom2, e1]
      rfl
    · intro k stk a rest hreach hm
      refine ⟨fun m1 => ?_, fun m1 m2 => ?_, fun m1 m2 m3 => ?_⟩
      · exact sticky IPVLAN_F_PRIVATE
          (fun a => E.matches_cmd a "mode" = false ∧ E.matches_cmd a "private" = true)
          (fun s a rest s1 rest1 hs hk hp =>
            ((ipvlan_parse_arg_flags E s a rest s1 rest1 hs hp).2.2.1 hk.1).1 hk.2)
          k stk a rest hreach ⟨hm, m1⟩
      · exact sticky IPVLAN_F_VEPA
          (fun a => E.matches_cmd a "mode" = false ∧ E.matches_cmd a "private" = false ∧
            E.matches_cmd a "vepa" = true)
          (fun s a rest s1 rest1 hs hk hp =>
            ((ipvlan_parse_arg_flags E s a rest s1 rest1 hs hp).2.2.1 hk.1).2.1 hk.2.1 hk.2.2)
          k stk a rest hreach ⟨hm, m1, m2⟩
      · exact sticky 0
          (fun a => E.matches_cmd a "mode" = false ∧ E.matches_cmd a "private" = false ∧
            E.matches_cmd a "vepa" = false ∧ E.matches_cmd a "bridge" = true)
          (fun s a rest s1 rest1 hs hk hp =>
            ((ipvlan_parse_arg_flags E s a rest s1 rest1 hs hp).2.2.1 hk.1).2.2
              hk.2.1 hk.2.2.1 hk.2.2.2)
          k stk a rest hreach ⟨hm, m1, m2, m3⟩
    · intro hno
      have hend := Fdb.arg_steps_of_loop (ipvlan_parse_arg E) (ipvlan_parse_arg_shrinks E)
        argv.length _ st argv (le_refl _) hl
      rcases Fdb.arg_steps_provenance (ipvlan_parse_arg E)
        (fun s => ((s.mflag_given = false ∧ s.flags = 0) ∨
          (s.mflag_given = true ∧
            (s.flags = 0 ∨ s.flags = IPVLAN_F_PRIVATE ∨ s.flags = IPVLAN_F_VEPA))) ∧
          s.flags = 0)
        (fun a => ¬ (E.matches_cmd a "private" = false ∧ E.matches_cmd a "vepa" = false))
        (fun s a rest s1 rest1 hs hk hp => by
          have hk2 := not_not.mp hk
          have := ipvlan_parse_arg_flags E s a rest s1 rest1 hs.1 hp
          exact ⟨this.1, (this.2.2.2 hk2.1 hk2.2).trans hs.2⟩)
        _ argv ⟨h0, rfl⟩ argv.length st [] hend with hP | ⟨j, stj, a, r, -, hj, hk⟩
      · exact hP.2
      · exact absurd (hno j stj a r hj) hk
    · intro tb htb
      exact ipvlan_print_opt_flags E tb st.flags hfl htb

/-- Example: `mode l3 vepa` on an empty message of 32 bytes. -/
theorem ipvlan_flags_with_room_example :
    ∃ (st : ParseState) (modes : List rtattr),
      arg_loop (ipvlan_parse_arg (demoExt true)) 3
        { flags := 0, mflag_given := false, n := { nlmsg_len := 32, attrs := [] } }
        ["mode", "l3", "vepa"] = .ok st ∧
      (st.flags = 0 ∨ st.flags = IPVLAN_F_PRIVATE ∨ st.flags = IPVLAN_F_VEPA) ∧
      ({ nlmsg_len := 48
         attrs := [{ rta_len := 6, rta_type := .IFLA_IPVLAN_MODE, data := [1, 0] },
                   { rta_len := 6, rta_type := .IFLA_IPVLAN_FLAGS, data := [2, 0] }] }
        : nlmsghdr).attrs = [] ++ modes ++
        [{ rta_len := 6, rta_type := .IFLA_IPVLAN_FLAGS,
           data := u16_mem (demoExt true).le st.flags }] :=
  have w := (ipvlan_flags_with_room (demoExt true) ["mode", "l3", "vepa"]
    { nlmsg_len := 32, attrs := [] }
    { nlmsg_len := 48
      attrs := [{ rta_len := 6, rta_type := .IFLA_IPVLAN_MODE, data := [1, 0] },
                { rta_len := 6, rta_type := .IFLA_IPVLAN_FLAGS, data := [2, 0] }] }
    (by decide) (by decide)).2
  ⟨w.choose, w.choose_spec.choose, w.choose_spec.choose_spec.1,
    w.choose_spec.choose_spec.2.1, w.choose_spec.choose_spec.2.2.1⟩

/-- The loop of `ipvlan_parse_opt` on `mode l2` repeated `k` times, when the
message has room for the `k` records: each pass appends one
`IFLA_IPVLAN_MODE` record of 8 bytes and leaves the flags alone. -/
theorem ipvlan_mode_l2_loop (E : Ext) (hm : E.matches_cmd "mode" "mode" = true) (k : Nat) :
    ∀ (fuel : Nat) (st : ParseState), k ≤ fuel →
      NLMSG_ALIGN st.n.nlmsg_len + 8 * k ≤ 1024 →
      ∃ st1 : ParseState,
        arg_loop (ipvlan_parse_arg E) fuel st (List.replicate k ["mode", "l2"]).flatten
          = .ok st1 ∧
        st1.flags = st.flags ∧
        st1.n.attrs = st.n.attrs ++
          List.replicate k { rta_len := 6, rta_type := .IFLA_IPVLAN_MODE,
                             data := u16_mem E.le IPVLAN_MODE_L2 } ∧
        NLMSG_ALIGN st1.n.nlmsg_len = NLMSG_ALIGN st.n.nlmsg_len + 8 * k := by
  induction k with
  | zero =>
    intro fuel st _ _
    refine ⟨st, ?_, rfl, by simp, by simp⟩
    cases fuel <;> simp [arg_loop]
  | succ k ih =>
    intro fuel st hf hroom
    cases fuel with
    | zero => omega
    | succ f =>
      have hkw : ipvlan_keyword E st.mflag_given "mode" = .kw_mode := by
        unfold ipvlan_keyword
        rw [if_pos hm]
      have hfit : ¬ (NLMSG_ALIGN st.n.nlmsg_len + NLMSG_ALIGN (RTA_LENGTH 2) > 1024) := by
        have : NLMSG_ALIGN (RTA_LENGTH 2) = 8 := by decide
        rw [this]
        omega
      have hadd : (addattr16 E.le st.n 1024 .IFLA_IPVLAN_MODE IPVLAN_MODE_L2).2 =
          { nlmsg_len := NLMSG_ALIGN st.n.nlmsg_len + 8
            attrs := st.n.attrs ++ [{ rta_len := 6, rta_type := .IFLA_IPVLAN_MODE,
                                      data := u16_mem E.le IPVLAN_MODE_L2 }] } := by
        unfold addattr16 addattr_l
        simp only [Flower.u16_mem_length, if_neg hfit]
        rfl
      obtain ⟨st1, h1, h2, h3, h4⟩ := ih f
        { st with n := (addattr16 E.le st.n 1024 .IFLA_IPVLAN_MODE IPVLAN_MODE_L2).2 }
        (by omega)
        (by
          rw [hadd]
          have := Flower.NLMSG_ALIGN_add st.n.nlmsg_len 8
          have e8 : NLMSG_ALIGN 8 = 8 := by decide
          rw [e8] at this
          dsimp only
          rw [this]
          omega)
      refine ⟨st1, ?_, h2, ?_, ?_⟩
      · simp only [List.replicate_succ, List.flatten_cons, List.cons_append, List.nil_append,
          arg_loop, ipvlan_parse_arg, hkw, if_true]
        exact h1
      · rw [h3, hadd]
        simp only [List.replicate_succ, List.append_assoc, List.singleton_append]
      · rw [h4, hadd]
        have := Flower.NLMSG_ALIGN_add st.n.nlmsg_len 8
        have e8 : NLMSG_ALIGN 8 = 8 := by decide
        rw [e8] at this
        dsimp only
        rw [this]
        omega

/-- C38 (the value `addattr16` returns is not looked at): a successful parse
does not always append an
`IFLA_IPVLAN_FLAGS` record. The value that `addattr16` returns is not looked
at, so when `mode l2` is given `k` times and the `k` mode records leave less
than 8 of the 1024 bytes, `ipvlan_parse_opt` returns 0 and the message ends
with the mode records: no `IFLA_IPVLAN_FLAGS` record is in what was appended. -/
theorem C38_flags_record_dropped (E : Ext) (k : Nat) (n : nlmsghdr)
    (hm : E.matches_cmd "mode" "mode" = true)
    (hroom : NLMSG_ALIGN n.nlmsg_len + 8 * k ≤ 1024)
    (hfull : 1024 < NLMSG_ALIGN n.nlmsg_len + 8 * k + 8) :
    ∃ n1 : nlmsghdr,
      ipvlan_parse_opt E (List.replicate k ["mode", "l2"]).flatten n = .ok n1 ∧
      n1.attrs = n.attrs ++
        List.replicate k { rta_len := 6, rta_type := .IFLA_IPVLAN_MODE,
                           data := u16_mem E.le IPVLAN_MODE_L2 } ∧
      ∀ r ∈ n1.attrs.drop n.attrs.length, r.rta_type ≠ .IFLA_IPVLAN_FLAGS := by
  obtain ⟨st1, h1, h2, h3, h4⟩ := ipvlan_mode_l2_loop E hm k
    (List.replicate k ["mode", "l2"]).flatten.length
    { flags := 0, mflag_given := false, n := n } (by simp; omega) hroom
  have hfail : NLMSG_ALIGN st1.n.nlmsg_len + NLMSG_ALIGN (RTA_LENGTH 2) > 1024 := by
    have : NLMSG_ALIGN (RTA_LENGTH 2) = 8 := by decide
    rw [this, h4]
    dsimp only
    omega
  have hend : (addattr16 E.le st1.n 1024 .IFLA_IPVLAN_FLAGS st1.flags).2 = st1.n := by
    unfold addattr16 addattr_l
    simp only [Flower.u16_mem_length, if_pos hfail]
  refine ⟨st1.n, ?_, h3, ?_⟩
  · unfold ipvlan_parse_opt
    simp only [h1, hend]
  · intro r hr
    rw [h3] at hr
    simp only [List.drop_left] at hr
    rw [List.eq_of_mem_replicate hr]
    exact (by decide : IflaId.IFLA_IPVLAN_MODE ≠ IflaId.IFLA_IPVLAN_FLAGS)

/-- C38 witness: `mode l2` given 124 times on a message of 32 bytes, the
header and the `ifinfomsg`. -/
theorem C38_flags_record_dropped_witness :
    ∃ n1 : nlmsghdr,
      ipvlan_parse_opt (demoExt true) (List.replicate 124 ["mode", "l2"]).flatten
        { nlmsg_len := 32, attrs := [] } = .ok n1 ∧
      n1.attrs = ({ nlmsg_len := 32, attrs := [] } : nlmsghdr).attrs ++
        List.replicate 124 { rta_len := 6, rta_type := .IFLA_IPVLAN_MODE,
                             data := u16_mem (demoExt true).le IPVLAN_MODE_L2 } ∧
      ∀ r ∈ n1.attrs.drop ({ nlmsg_len := 32, attrs := [] } : nlmsghdr).attrs.length,
        r.rta_type ≠ .IFLA_IPVLAN_FLAGS :=
  C38_flags_record_dropped (demoExt true) 124 { nlmsg_len := 32, attrs := [] }
    (by decide) (by decide) (by decide)

end Ipvlan

namespace RtNames
open Flower (Fail)

/-! ## Claims on `rtnl_rtprot_n2a` -/

/-- C31 (the conversion is `%u` where the sibling uses `%d`): for a negative
identifier `rtnl_rtprot_n2a` does not return
the decimal string of the identifier. Its `snprintf` calls use `%u` on the
`int`, so the buffer gets the digits of the identifier plus 2^32, while
`rtnl_rtscope_n2a`, the same function for scopes, uses `%d` and gives the
digits of the identifier with its sign. -/
theorem C31_negative_id_unsigned (E : Ext) (s : rtprot_state) (t : rtscope_state) (id : Int)
    (buf : String) (len : Int) (hneg : id < 0) (hmin : -2 ^ 31 ≤ id) :
    rtnl_rtprot_n2a E s id buf len
      = .ok (snprintf buf len (toString (id + 2 ^ 32).toNat), s) ∧
    rtnl_rtscope_n2a E t id buf len = .ok (snprintf buf len (toString id), t) := by
  constructor
  · unfold rtnl_rtprot_n2a
    rw [if_pos (Or.inl hneg)]
    unfold fmt_u
    have : id % 2 ^ 32 = id + 2 ^ 32 := by omega
    rw [this]
  · unfold rtnl_rtscope_n2a
    rw [if_pos (Or.inl hneg)]
    rfl

set_option maxRecDepth 100000 in
/-- C31 witness: the identifier -1 at program start, with a buffer of 64
bytes: `rtnl_rtprot_n2a` gives `4294967295`, `rtnl_rtscope_n2a` gives `-1`. -/
theorem C31_negative_id_unsigned_witness :
    (rtnl_rtprot_n2a demoExt rtprot_state_init (-1) "" 64
        = .ok (snprintf "" 64 (toString ((-1 : Int) + 2 ^ 32).toNat), rtprot_state_init) ∧
      rtnl_rtscope_n2a demoExt rtscope_state_init (-1) "" 64
        = .ok (snprintf "" 64 (toString (-1 : Int)), rtscope_state_init)) ∧
    snprintf "" 64 (toString ((-1 : Int) + 2 ^ 32).toNat) = "4294967295" ∧
    snprintf "" 64 (toString (-1 : Int)) = "-1" :=
  ⟨C31_negative_id_unsigned demoExt rtprot_state_init rtscope_state_init (-1) "" 64
    (by decide) (by decide), by decide, by decide⟩

/-- The index `tab_find` returns lies in the table. -/
theorem tab_find_lt (arg : String) : ∀ (l : List (Option String)) (i j : Nat),
    tab_find arg l i = some j → j < i + l.length := by
  intro l
  induction l with
  | nil => intro i j h; simp [tab_find] at h
  | cons e rest ih =>
    intro i j h
    simp only [tab_find] at h
    split_ifs at h
    · simp only [Option.some.injEq] at h
      simp only [List.length_cons]
      omega
    · have := ih (i + 1) j h
      simp only [List.length_cons]
      omega

/-- What `rtnl_rtprot_n2a` returns for an identifier of the table in
non-numeric mode: the entry of the table, loaded first when the entry is empty
and the databases have not been read, or the digits when there is none. -/
theorem rtnl_rtprot_n2a_in_range (E : Ext) (s s1 : rtprot_state) (id : Int) (buf : String)
    (len : Int) (name : String) (h0 : 0 ≤ id) (h1 : id < 256) (hnum : E.numeric = 0)
    (h : rtnl_rtprot_n2a E s id buf len = .ok (name, s1)) :
    name = (s1.rtnl_rtprot_tab.getD id.toNat none).getD (snprintf buf len (fmt_u id)) ∧
    (s1 = s ∨
      (s.rtnl_rtprot_init = false ∧ s.rtnl_rtprot_tab.getD id.toNat none = none ∧
        ∃ tab, rtnl_rtprot_initialize E s.rtnl_rtprot_tab = .ok tab ∧
          s1 = { s with rtnl_rtprot_tab := tab, rtnl_rtprot_init := true })) := by
  have c : ¬ (id < 0 ∨ id ≥ 256 ∨ E.numeric ≠ 0) := by
    rw [hnum]
    omega
  unfold rtnl_rtprot_n2a at h
  rw [if_neg c] at h
  by_cases hl : (s.rtnl_rtprot_tab.getD id.toNat none).isNone = true ∧
      s.rtnl_rtprot_init = false
  · simp only [if_pos hl] at h
    cases hi : rtnl_rtprot_initialize E s.rtnl_rtprot_tab with
    | error e => simp [hi] at h
    | ok tab =>
      simp only [hi] at h
      have hn : s.rtnl_rtprot_tab.getD id.toNat none = none := by
        simpa using hl.1
      cases ht : tab.getD id.toNat none with
      | none =>
        simp only [ht, Except.ok.injEq, Prod.mk.injEq] at h
        refine ⟨?_, Or.inr ⟨hl.2, hn, tab, rfl, h.2.symm⟩⟩
        rw [← h.2, ← h.1]
        simp only [ht, Option.getD]
      | some nm =>
        simp only [ht, Except.ok.injEq, Prod.mk.injEq] at h
        refine ⟨?_, Or.inr ⟨hl.2, hn, tab, rfl, h.2.symm⟩⟩
        rw [← h.2, ← h.1]
        simp only [ht, Option.getD]
  · simp only [if_neg hl] at h
    cases ht : s.rtnl_rtprot_tab.getD id.toNat none with
    | none =>
      simp only [ht, Except.ok.injEq, Prod.mk.injEq] at h
      refine ⟨?_, Or.inl h.2.symm⟩
      rw [← h.2, ← h.1]
      simp only [ht, Option.getD]
    | some nm =>
      simp only [ht, Except.ok.injEq, Prod.mk.injEq] at h
      refine ⟨?_, Or.inl h.2.symm⟩
      rw [← h.2, ← h.1]
      simp only [ht, Option.getD]

/-- Looking up, on a table that has been read, a string that the table holds
at index `i` first, or a string of digits for `i` that the table does not
hold, gives `i`, when the cache is consistent with the table. -/
theorem rtnl_rtprot_a2n_back (E : Ext) (s : rtprot_state) (name : String) (i : Nat)
    (hi : i < 256) (hinit : s.rtnl_rtprot_init = true)
    (hcache : ∀ c, s.cache = some c → tab_find c (s.rtnl_rtprot_tab.take 256) 0 = some s.res)
    (hname : tab_find name (s.rtnl_rtprot_tab.take 256) 0 = some i ∨
      (tab_find name (s.rtnl_rtprot_tab.take 256) 0 = none ∧
        E.strtoul name 0 = (i, "") ∧ name ≠ "")) :
    ∃ s2, rtnl_rtprot_a2n E s name = .ok (0, some i, s2) := by
  unfold rtnl_rtprot_a2n
  by_cases hc : s.cache = some name
  · rw [if_pos hc]
    have h1 := hcache name hc
    rcases hname with h2 | ⟨h2, -⟩
    · rw [h2] at h1
      simp only [Option.some.injEq] at h1
      rw [← h1, Nat.mod_eq_of_lt (by omega)]
      exact ⟨s, rfl⟩
    · rw [h2] at h1
      cases h1
  · rw [if_neg hc]
    simp only [hinit, if_true]
    rcases hname with h2 | ⟨h2, h3, h4⟩
    · simp only [h2]
      exact ⟨_, rfl⟩
    · simp only [h2, h3]
      have e1 : i % 2 ^ 64 = i := Nat.mod_eq_of_lt (by omega)
      have e2 : i % 2 ^ 32 = i := Nat.mod_eq_of_lt (by omega)
      have hlen : ¬ ("".length = name.length ∨ ("" : String) ≠ "" ∨ i > 255) := by
        intro h
        rcases h with h | h | h
        · have : name.length = 0 := h.symm
          have hd : name.data = [] := List.length_eq_zero.mp this
          exact h4 (String.ext hd)
        · exact h rfl
        · omega
      simp only [e1, e2, if_neg hlen]
      exact ⟨_, rfl⟩

/-- A buffer with room for the text holds the text after `snprintf`. -/
theorem snprintf_room (buf text : String) (len : Int)
    (h : len < 0 ∨ (text.length : Int) < len) : snprintf buf len text = text := by
  unfold snprintf
  have h0 : ¬ (len = 0) := by
    rcases h with h | h <;> omega
  rw [if_neg h0]
  by_cases hn : len < 0
  · rw [if_pos hn]
  · rw [if_neg hn]
    have hl : text.data.length ≤ len.toNat - 1 := by
      rcases h with h | h
      · exact absurd h hn
      · have : text.length = text.data.length := rfl
        omega
    rw [List.take_of_length_le hl]

/-- The cases of `rtnl_rtprot_n2a`: it returns, for an identifier below 0 or
above 255 or in numeric mode, the buffer after `snprintf` of the conversion
`%u`: with room in the buffer these are the decimal digits of the identifier
when it is not negative, and those of the identifier plus 2^32 when it is
negative. For an identifier of the table in non-numeric mode it returns the
entry of the table (read from the databases first, when the entry is empty and
they have not been read), or the digits when there is no entry. And for every
identifier from 0 to 255, on a table that has been read and with room in the
buffer, `rtnl_rtprot_n2a` returns a string on which `rtnl_rtprot_a2n` returns 0
and the identifier, provided the cache of `rtnl_rtprot_a2n` agrees with the
table, the name of the identifier is not the name of an earlier entry, and the
digits of an identifier that is rendered in digits are the name of no other
entry and are read back by `strtoul`. -/
theorem rtnl_rtprot_n2a_cases (E : Ext) (s : rtprot_state) (id : Int) (buf : String) (len : Int) :
    ((id < 0 ∨ 256 ≤ id ∨ E.numeric ≠ 0) →
      rtnl_rtprot_n2a E s id buf len = .ok (snprintf buf len (fmt_u id), s)) ∧
    ((len < 0 ∨ ((fmt_u id).length : Int) < len) →
      snprintf buf len (fmt_u id) = fmt_u id) ∧
    (0 ≤ id → id < 2 ^ 32 → fmt_u id = toString id.toNat) ∧
    (id < 0 → -2 ^ 32 ≤ id → fmt_u id = toString (id + 2 ^ 32).toNat) ∧
    (0 ≤ id → id < 256 → E.numeric = 0 → ∀ name s1,
      rtnl_rtprot_n2a E s id buf len = .ok (name, s1) →
      name = (s1.rtnl_rtprot_tab.getD id.toNat none).getD (snprintf buf len (fmt_u id)) ∧
      (s1 = s ∨
        (s.rtnl_rtprot_init = false ∧ s.rtnl_rtprot_tab.getD id.toNat none = none ∧
          ∃ tab, rtnl_rtprot_initialize E s.rtnl_rtprot_tab = .ok tab ∧
            s1 = { s with rtnl_rtprot_tab := tab, rtnl_rtprot_init := true }))) ∧
    (0 ≤ id → id < 256 → s.rtnl_rtprot_init = true →
      (len < 0 ∨ ((fmt_u id).length : Int) < len) →
      (∀ c, s.cache = some c → tab_find c (s.rtnl_rtprot_tab.take 256) 0 = some s.res) →
      (∀ nm, E.numeric = 0 → s.rtnl_rtprot_tab.getD id.toNat none = some nm →
        tab_find nm (s.rtnl_rtprot_tab.take 256) 0 = some id.toNat) →
      ((E.numeric ≠ 0 ∨ s.rtnl_rtprot_tab.getD id.toNat none = none) →
        tab_find (fmt_u id) (s.rtnl_rtprot_tab.take 256) 0 = some id.toNat ∨
        (tab_find (fmt_u id) (s.rtnl_rtprot_tab.take 256) 0 = none ∧
          E.strtoul (fmt_u id) 0 = (id.toNat, "") ∧ fmt_u id ≠ "")) →
      ∃ name s2, rtnl_rtprot_n2a E s id buf len = .ok (name, s) ∧
        rtnl_rtprot_a2n E s name = .ok (0, some id.toNat, s2)) := by
  refine ⟨fun h => ?_, fun h => snprintf_room buf _ len h, fun h0 h1 => ?_, fun h0 h1 => ?_,
    fun h0 h1 hnum name s1 h => rtnl_rtprot_n2a_in_range E s s1 id buf len name h0 h1 hnum h,
    fun h0 h1 hinit hroom hcache hnm hdig => ?_⟩
  · have c : id < 0 ∨ id ≥ 256 ∨ E.numeric ≠ 0 := by
      rcases h with h | h | h
      · exact Or.inl h
      · exact Or.inr (Or.inl h)
      · exact Or.inr (Or.inr h)
    unfold rtnl_rtprot_n2a
    rw [if_pos c]
  · unfold fmt_u
    have : id % 2 ^ 32 = id := Int.emod_eq_of_lt h0 h1
    rw [this]
  · unfold fmt_u
    have : id % 2 ^ 32 = id + 2 ^ 32 := by omega
    rw [this]
  · have hi : id.toNat < 256 := by omega
    by_cases hnum : E.numeric = 0
    · have c : ¬ (id < 0 ∨ id ≥ 256 ∨ E.numeric ≠ 0) := by
        rw [hnum]
        omega
      have hl : ¬ ((s.rtnl_rtprot_tab.getD id.toNat none).isNone = true ∧
          s.rtnl_rtprot_init = false) := by
        rw [hinit]
        simp
      cases ht : s.rtnl_rtprot_tab.getD id.toNat none with
      | none =>
        have hn : rtnl_rtprot_n2a E s id buf len = .ok (fmt_u id, s) := by
          unfold rtnl_rtprot_n2a
          rw [if_neg c]
          simp only [if_neg hl]
          simp only [ht, snprintf_room buf _ len hroom]
        obtain ⟨s2, h2⟩ := rtnl_rtprot_a2n_back E s (fmt_u id) id.toNat hi hinit hcache
          (hdig (Or.inr ht))
        exact ⟨_, s2, hn, h2⟩
      | some nm =>
        have hn : rtnl_rtprot_n2a E s id buf len = .ok (nm, s) := by
          unfold rtnl_rtprot_n2a
          rw [if_neg c]
          simp only [if_neg hl]
          simp only [ht]
        obtain ⟨s2, h2⟩ := rtnl_rtprot_a2n_back E s nm id.toNat hi hinit hcache
          (Or.inl (hnm nm hnum ht))
        exact ⟨_, s2, hn, h2⟩
    · have c : id < 0 ∨ id ≥ 256 ∨ E.numeric ≠ 0 := Or.inr (Or.inr hnum)
      have hn : rtnl_rtprot_n2a E s id buf len = .ok (fmt_u id, s) := by
        unfold rtnl_rtprot_n2a
        rw [if_pos c, snprintf_room buf _ len hroom]
      obtain ⟨s2, h2⟩ := rtnl_rtprot_a2n_back E s (fmt_u id) id.toNat hi hinit hcache
        (hdig (Or.inl hnum))
      exact ⟨_, s2, hn, h2⟩

set_option maxRecDepth 100000 in
/-- Example: the built-in table once read, with the helpers of the
examples: 2 comes back through `kernel`, 5 through its digits. -/
theorem rtnl_rtprot_n2a_cases_example :
    (∃ name s2,
      rtnl_rtprot_n2a demoExt { rtprot_state_init with rtnl_rtprot_init := true } 2 "" 64
        = .ok (name, { rtprot_state_init with rtnl_rtprot_init := true }) ∧
      rtnl_rtprot_a2n demoExt { rtprot_state_init with rtnl_rtprot_init := true } name
        = .ok (0, some (2 : Int).toNat, s2)) ∧
    (∃ name s2,
      rtnl_rtprot_n2a demoExt { rtprot_state_init with rtnl_rtprot_init := true } 5 "" 64
        = .ok (name, { rtprot_state_init with rtnl_rtprot_init := true }) ∧
      rtnl_rtprot_a2n demoExt { rtprot_state_init with rtnl_rtprot_init := true } name
        = .ok (0, some (5 : Int).toNat, s2)) :=
  ⟨(rtnl_rtprot_n2a_cases demoExt { rtprot_state_init with rtnl_rtprot_init := true } 2 "" 64).2.2.2.2.2
      (by decide) (by decide) rfl (by decide)
      (fun c h => by cases h)
      (fun nm _ h => by
        have e : ({ rtprot_state_init with rtnl_rtprot_init := true } : rtprot_state
            ).rtnl_rtprot_tab.getD (2 : Int).toNat none = some "kernel" := by decide
        rw [e] at h
        cases h
        decide)
      (fun h => by
        exfalso
        rcases h with h | h
        · exact h rfl
        · revert h
          decide),
   (rtnl_rtprot_n2a_cases demoExt { rtprot_state_init with rtnl_rtprot_init := true } 5 "" 64).2.2.2.2.2
      (by decide) (by decide) rfl (by decide)
      (fun c h => by cases h)
      (fun nm _ h => by
        have e : ({ rtprot_state_init with rtnl_rtprot_init := true } : rtprot_state
            ).rtnl_rtprot_tab.getD (5 : Int).toNat none = none := by decide
        rw [e] at h
        cases h)
      (fun _ => Or.inr (by decide))⟩

end RtNames

/-! ## The `TCA_OPTIONS` nest of `flower_parse_opt` -/

namespace Flower

theorem NLMSG_ALIGN_ge (a : Nat) : a ≤ NLMSG_ALIGN a := by
  unfold NLMSG_ALIGN
  omega

theorem NLMSG_ALIGN_mono (a b : Nat) (h : a ≤ b) : NLMSG_ALIGN a ≤ NLMSG_ALIGN b := by
  unfold NLMSG_ALIGN
  omega

/-- Appending a record keeps the records already there and does not shorten
the message. -/
theorem addattr_l_grows (n m : nlmsghdr) (maxlen : Nat) (t : AttrId) (d : List Nat)
    (h : n.attrs <+: m.attrs ∧ n.nlmsg_len ≤ m.nlmsg_len) :
    n.attrs <+: (addattr_l m maxlen t d).2.attrs ∧
      n.nlmsg_len ≤ (addattr_l m maxlen t d).2.nlmsg_len := by
  unfold addattr_l
  dsimp only
  split
  · exact h
  · refine ⟨h.1.trans (List.prefix_append _ _), ?_⟩
    have := NLMSG_ALIGN_ge m.nlmsg_len
    dsimp only
    omega

theorem addattr8_grows (n m : nlmsghdr) (maxlen : Nat) (t : AttrId) (d : Nat)
    (h : n.attrs <+: m.attrs ∧ n.nlmsg_len ≤ m.nlmsg_len) :
    n.attrs <+: (addattr8 m maxlen t d).2.attrs ∧
      n.nlmsg_len ≤ (addattr8 m maxlen t d).2.nlmsg_len :=
  addattr_l_grows n m maxlen t _ h

theorem addattr16_grows (le : Bool) (n m : nlmsghdr) (maxlen : Nat) (t : AttrId) (d : Nat)
    (h : n.attrs <+: m.attrs ∧ n.nlmsg_len ≤ m.nlmsg_len) :
    n.attrs <+: (addattr16 le m maxlen t d).2.attrs ∧
      n.nlmsg_len ≤ (addattr16 le m maxlen t d).2.nlmsg_len :=
  addattr_l_grows n m maxlen t _ h

theorem addattr32_grows (le : Bool) (n m : nlmsghdr) (maxlen : Nat) (t : AttrId) (d : Nat)
    (h : n.attrs <+: m.attrs ∧ n.nlmsg_len ≤ m.nlmsg_len) :
    n.attrs <+: (addattr32 le m maxlen t d).2.attrs ∧
      n.nlmsg_len ≤ (addattr32 le m maxlen t d).2.nlmsg_len :=
  addattr_l_grows n m maxlen t _ h

theorem grows_refl (n : nlmsghdr) : n.attrs <+: n.attrs ∧ n.nlmsg_len ≤ n.nlmsg_len :=
  ⟨List.prefix_refl _, le_refl _⟩

theorem grows_trans (a b c : nlmsghdr)
    (h1 : a.attrs <+: b.attrs ∧ a.nlmsg_len ≤ b.nlmsg_len)
    (h2 : b.attrs <+: c.attrs ∧ b.nlmsg_len ≤ c.nlmsg_len) :
    a.attrs <+: c.attrs ∧ a.nlmsg_len ≤ c.nlmsg_len :=
  ⟨h1.1.trans h2.1, le_trans h1.2 h2.2⟩

/-- Patching a length field at or after the end of a prefix keeps the prefix. -/
theorem set_rta_len_keeps (pre : List rtattr) :
    ∀ (l : List rtattr) (idx len : Nat), pre <+: l → pre.length ≤ idx →
      pre <+: set_rta_len l idx len := by
  induction pre with
  | nil => intro l idx len _ _; exact List.nil_prefix
  | cons p ps ih =>
    intro l idx len hp hi
    obtain ⟨r, rfl⟩ := hp
    cases idx with
    | zero => simp at hi
    | succ i =>
      simp only [List.cons_append, set_rta_len]
      rw [List.cons_prefix_cons]
      exact ⟨rfl, ih _ i len (List.prefix_append _ _) (by simpa using hi)⟩

/-- Closing a nest that was opened on a message extending `n` keeps the
records of `n`. -/
theorem addattr_nest_end_grows (n m : nlmsghdr) (nest : Nat × Nat)
    (h : n.attrs <+: m.attrs ∧ n.nlmsg_len ≤ m.nlmsg_len) (hi : n.attrs.length ≤ nest.1) :
    n.attrs <+: (addattr_nest_end m nest).attrs ∧
      n.nlmsg_len ≤ (addattr_nest_end m nest).nlmsg_len :=
  ⟨set_rta_len_keeps _ _ _ _ h.1 hi, h.2⟩

theorem flower_parse_eth_addr_grows (E : Ext) (str : String) (t1 t2 : AttrId)
    (n n' : nlmsghdr) (h : flower_parse_eth_addr E str t1 t2 n = .ok n') :
    n.attrs <+: n'.attrs ∧ n.nlmsg_len ≤ n'.nlmsg_len := by
  unfold flower_parse_eth_addr at h
  repeat' (first | split at h | (dsimp only at h; split at h))
  all_goals first
    | (cases h; done)
    | (injection h with h
       subst h
       repeat (first
         | exact grows_refl _
         | apply addattr_l_grows
         | apply addattr8_grows
         | apply addattr16_grows
         | apply addattr32_grows))

theorem flower_parse_u8_grows (E : Ext) (str : String) (t1 t2 : AttrId) (f : Option (String → Option Nat)) (g : Option (Nat → Bool)) (n n' : nlmsghdr)
    (h : flower_parse_u8 E str t1 t2 f g n = .ok n') :
    n.attrs <+: n'.attrs ∧ n.nlmsg_len ≤ n'.nlmsg_len := by
  unfold flower_parse_u8 at h
  repeat' (first | split at h | (dsimp only at h; split at h))
  all_goals first
    | (cases h; done)
    | (cases h
       repeat (first
         | exact grows_refl _
         | apply addattr_l_grows
         | apply addattr8_grows
         | apply addattr16_grows
         | apply addattr32_grows))

theorem flower_parse_tcp_flags_grows (E : Ext) (str : String) (t1 t2 : AttrId) (n n' : nlmsghdr)
    (h : flower_parse_tcp_flags E str t1 t2 n = .ok n') :
    n.attrs <+: n'.attrs ∧ n.nlmsg_len ≤ n'.nlmsg_len := by
  unfold flower_parse_tcp_flags at h
  repeat' (first | split at h | (dsimp only at h; split at h))
  all_goals first
    | (cases h; done)
    | (cases h
       repeat (first
         | exact grows_refl _
         | apply addattr_l_grows
         | apply addattr8_grows
         | apply addattr16_grows
         | apply addattr32_grows))

theorem flower_parse_ip_tos_ttl_grows (E : Ext) (str : String) (t1 t2 : AttrId) (n n' : nlmsghdr)
    (h : flower_parse_ip_tos_ttl E str t1 t2 n = .ok n') :
    n.attrs <+: n'.attrs ∧ n.nlmsg_len ≤ n'.nlmsg_len := by
  unfold flower_parse_ip_tos_ttl at h
  repeat' (first | split at h | (dsimp only at h; split at h))
  all_goals first
    | (cases h; done)
    | (cases h
       repeat (first
         | exact grows_refl _
         | apply addattr_l_grows
         | apply addattr8_grows
         | apply addattr16_grows
         | apply addattr32_grows))

theorem flower_parse_vlan_eth_type_grows (E : Ext) (str : String) (eth_type : Nat) (t : AttrId) (p : Nat) (n n' : nlmsghdr)
    (h : flower_parse_vlan_eth_type E str eth_type t n = .ok (p, n')) :
    n.attrs <+: n'.attrs ∧ n.nlmsg_len ≤ n'.nlmsg_len := by
  unfold flower_parse_vlan_eth_type at h
  repeat' (first | split at h | (dsimp only at h; split at h))
  all_goals first
    | (cases h; done)
    | (cases h
       repeat (first
         | exact grows_refl _
         | apply addattr_l_grows
         | apply addattr8_grows
         | apply addattr16_grows
         | apply addattr32_grows))

theorem flower_parse_ip_proto_grows (E : Ext) (str : String) (eth_type : Nat) (t : AttrId) (p : Nat) (n n' : nlmsghdr)
    (h : flower_parse_ip_proto E str eth_type t n = .ok (p, n')) :
    n.attrs <+: n'.attrs ∧ n.nlmsg_len ≤ n'.nlmsg_len := by
  unfold flower_parse_ip_proto at h
  repeat' (first | split at h | (dsimp only at h; split at h))
  all_goals first
    | (cases h; done)
    | (cases h
       repeat (first
         | exact grows_refl _
         | apply addattr_l_grows
         | apply addattr8_grows
         | apply addattr16_grows
         | apply addattr32_grows))

theorem __flower_parse_ip_addr_grows (E : Ext) (str : String) (family : Nat) (t1 t2 t3 t4 : AttrId) (n n' : nlmsghdr)
    (h : __flower_parse_ip_addr E str family t1 t2 t3 t4 n = .ok n') :
    n.attrs <+: n'.attrs ∧ n.nlmsg_len ≤ n'.nlmsg_len := by
  unfold __flower_parse_ip_addr at h
  repeat' (first | split at h | (dsimp only at h; split at h))
  all_goals first
    | (cases h; done)
    | (cases h
       repeat (first
         | exact grows_refl _
         | apply addattr_l_grows
         | apply addattr8_grows
         | apply addattr16_grows
         | apply addattr32_grows))

theorem flower_parse_port_grows (E : Ext) (str : String) (ip_proto : Nat) (ep : flower_endpoint) (n n' : nlmsghdr)
    (h : flower_parse_port E str ip_proto ep n = .ok n') :
    n.attrs <+: n'.attrs ∧ n.nlmsg_len ≤ n'.nlmsg_len := by
  unfold flower_parse_port at h
  repeat' (first | split at h | (dsimp only at h; split at h))
  all_goals first
    | (cases h; done)
    | (cases h
       repeat (first
         | exact grows_refl _
         | apply addattr_l_grows
         | apply addattr8_grows
         | apply addattr16_grows
         | apply addattr32_grows))

theorem flower_parse_key_id_grows (E : Ext) (str : String) (t : AttrId) (n n' : nlmsghdr)
    (h : flower_parse_key_id E str t n = .ok n') :
    n.attrs <+: n'.attrs ∧ n.nlmsg_len ≤ n'.nlmsg_len := by
  unfold flower_parse_key_id at h
  repeat' (first | split at h | (dsimp only at h; split at h))
  all_goals first
    | (cases h; done)
    | (cases h
       repeat (first
         | exact grows_refl _
         | apply addattr_l_grows
         | apply addattr8_grows
         | apply addattr16_grows
         | apply addattr32_grows))

theorem flower_parse_enc_port_grows (E : Ext) (str : String) (t : AttrId) (n n' : nlmsghdr)
    (h : flower_parse_enc_port E str t n = .ok n') :
    n.attrs <+: n'.attrs ∧ n.nlmsg_len ≤ n'.nlmsg_len := by
  unfold flower_parse_enc_port at h
  repeat' (first | split at h | (dsimp only at h; split at h))
  all_goals first
    | (cases h; done)
    | (cases h
       repeat (first
         | exact grows_refl _
         | apply addattr_l_grows
         | apply addattr8_grows
         | apply addattr16_grows
         | apply addattr32_grows))

theorem geneve_field_grows (E : Ext) (i : Nat) (token : String) (n n' : nlmsghdr)
    (h : geneve_field E i token n = .ok n') :
    n.attrs <+: n'.attrs ∧ n.nlmsg_len ≤ n'.nlmsg_len := by
  unfold geneve_field at h
  repeat' (first | split at h | (dsimp only at h; split at h))
  all_goals first
    | (cases h; done)
    | (cases h
       repeat (first
         | exact grows_refl _
         | apply addattr_l_grows
         | apply addattr8_grows
         | apply addattr16_grows
         | apply addattr32_grows))

theorem flower_parse_ip_addr_grows (E : Ext) (str : String) (eth_type : Nat)
    (t1 t2 t3 t4 : AttrId) (n n' : nlmsghdr)
    (h : flower_parse_ip_addr E str eth_type t1 t2 t3 t4 n = .ok n') :
    n.attrs <+: n'.attrs ∧ n.nlmsg_len ≤ n'.nlmsg_len := by
  unfold flower_parse_ip_addr at h
  repeat' (first | split at h | (dsimp only at h; split at h))
  all_goals first
    | (cases h; done)
    | exact __flower_parse_ip_addr_grows _ _ _ _ _ _ _ _ _ h

theorem flower_parse_arp_ip_addr_grows (E : Ext) (str : String) (eth_type : Nat)
    (t1 t2 : AttrId) (n n' : nlmsghdr)
    (h : flower_parse_arp_ip_addr E str eth_type t1 t2 n = .ok n') :
    n.attrs <+: n'.attrs ∧ n.nlmsg_len ≤ n'.nlmsg_len := by
  unfold flower_parse_arp_ip_addr at h
  repeat' (first | split at h | (dsimp only at h; split at h))
  all_goals first
    | (cases h; done)
    | exact __flower_parse_ip_addr_grows _ _ _ _ _ _ _ _ _ h

theorem flower_parse_arp_op_grows (E : Ext) (str : String) (eth_type : Nat)
    (t1 t2 : AttrId) (n n' : nlmsghdr)
    (h : flower_parse_arp_op E str eth_type t1 t2 n = .ok n') :
    n.attrs <+: n'.attrs ∧ n.nlmsg_len ≤ n'.nlmsg_len := by
  unfold flower_parse_arp_op at h
  repeat' (first | split at h | (dsimp only at h; split at h))
  all_goals first
    | (cases h; done)
    | exact flower_parse_u8_grows _ _ _ _ _ _ _ _ h

theorem flower_parse_icmp_grows (E : Ext) (str : String) (eth_type ip_proto : Nat)
    (field : flower_icmp_field) (n n' : nlmsghdr)
    (h : flower_parse_icmp E str eth_type ip_proto field n = .ok n') :
    n.attrs <+: n'.attrs ∧ n.nlmsg_len ≤ n'.nlmsg_len := by
  unfold flower_parse_icmp at h
  repeat' (first | split at h | (dsimp only at h; split at h))
  all_goals first
    | (cases h; done)
    | exact flower_parse_u8_grows _ _ _ _ _ _ _ _ h

theorem geneve_fields_grows (E : Ext) (tokens : List String) :
    ∀ (i : Nat) (n n' : nlmsghdr), geneve_fields E i tokens n = .ok n' →
      n.attrs <+: n'.attrs ∧ n.nlmsg_len ≤ n'.nlmsg_len := by
  induction tokens with
  | nil =>
    intro i n n' h
    simp only [geneve_fields, Except.ok.injEq] at h
    rw [← h]
    exact grows_refl _
  | cons tok rest ih =>
    intro i n n' h
    simp only [geneve_fields] at h
    cases h1 : geneve_field E i tok n with
    | error e => simp [h1] at h
    | ok n1 =>
      simp only [h1] at h
      exact grows_trans _ _ _ (geneve_field_grows E i tok n n1 h1) (ih _ _ _ h)

theorem flower_parse_geneve_opts_grows (E : Ext) (str : String) (n n' : nlmsghdr)
    (h : flower_parse_geneve_opts E str n = .ok n') :
    n.attrs <+: n'.attrs ∧ n.nlmsg_len ≤ n'.nlmsg_len := by
  simp only [flower_parse_geneve_opts, addattr_nest] at h
  split at h
  · cases h
  · rename_i n1 h1
    cases h
    exact addattr_nest_end_grows _ _ _
      (grows_trans _ _ _ (addattr_l_grows _ _ _ _ _ (grows_refl n))
        (geneve_fields_grows E _ _ _ _ h1)) (le_refl _)

theorem enc_opt_parts_grows (E : Ext) (tokens : List String) :
    ∀ (n n' : nlmsghdr), enc_opt_parts E tokens n = .ok n' →
      n.attrs <+: n'.attrs ∧ n.nlmsg_len ≤ n'.nlmsg_len := by
  induction tokens with
  | nil =>
    intro n n' h
    simp only [enc_opt_parts, Except.ok.injEq] at h
    rw [← h]
    exact grows_refl _
  | cons tok rest ih =>
    intro n n' h
    simp only [enc_opt_parts] at h
    cases h1 : flower_parse_geneve_opts E tok n with
    | error e => simp [h1] at h
    | ok n1 =>
      simp only [h1] at h
      exact grows_trans _ _ _ (flower_parse_geneve_opts_grows E tok n n1 h1) (ih _ _ h)

theorem flower_parse_enc_opts_grows (E : Ext) (str : String) (n n' : nlmsghdr)
    (h : flower_parse_enc_opts E str n = .ok n') :
    n.attrs <+: n'.attrs ∧ n.nlmsg_len ≤ n'.nlmsg_len := by
  simp only [flower_parse_enc_opts, addattr_nest, flower_parse_enc_opt_part] at h
  split at h
  · cases h
  · rename_i key mask hk
    split at h
    · cases h
    · rename_i n1 h1
      split at h
      · cases h
      · rename_i n4 h4
        cases h
        have a1 := grows_trans _ _ _ (addattr_l_grows _ _ _ _ _ (grows_refl n))
          (enc_opt_parts_grows E _ _ _ h1)
        have a2 := addattr_nest_end_grows n n1 (n.attrs.length, NLMSG_ALIGN n.nlmsg_len)
          a1 (le_refl _)
        have a3 := grows_trans _ _ _ (addattr_l_grows _ _ _ _ _ (grows_refl _))
          (enc_opt_parts_grows E _ _ _ h4)
        exact grows_trans _ _ _ a2 (addattr_nest_end_grows _ _ _ a3 (le_refl _))

theorem with_msg_ok (st st1 : ParseState) (r : Except Fail nlmsghdr)
    (h : with_msg st r = .ok st1) : ∃ m, r = .ok m ∧ st1.n = m := by
  cases r with
  | error e => simp [with_msg] at h
  | ok m =>
    simp only [with_msg, Except.ok.injEq] at h
    exact ⟨m, rfl, by rw [← h]⟩

theorem parse_vid_grows (E : Ext) (st st1 : ParseState) (arg : String) (t : AttrId)
    (h : parse_vid E st arg t = .ok st1) :
    st.n.attrs <+: st1.n.attrs ∧ st.n.nlmsg_len ≤ st1.n.nlmsg_len := by
  unfold parse_vid at h
  repeat' (first | split at h | (dsimp only at h; split at h))
  all_goals first
    | (cases h; done)
    | (cases h; exact addattr16_grows _ _ _ _ _ _ (grows_refl _))

theorem parse_small_u8_grows (E : Ext) (st st1 : ParseState) (arg : String) (limit : Nat)
    (t : AttrId) (h : parse_small_u8 E st arg limit t = .ok st1) :
    st.n.attrs <+: st1.n.attrs ∧ st.n.nlmsg_len ≤ st1.n.nlmsg_len := by
  unfold parse_small_u8 at h
  repeat' (first | split at h | (dsimp only at h; split at h))
  all_goals first
    | (cases h; done)
    | (cases h; exact addattr8_grows _ _ _ _ _ (grows_refl _))

/-- Every branch that takes a value only appends to the message. -/
theorem flower_parse_value_grows (E : Ext) (eth_type : Nat) (kw : Keyword)
    (st st1 : ParseState) (V : String)
    (h : flower_parse_value E eth_type kw st V = .ok st1) :
    st.n.attrs <+: st1.n.attrs ∧ st.n.nlmsg_len ≤ st1.n.nlmsg_len := by
  cases kw
  all_goals simp only [flower_parse_value] at h
  all_goals first
    | (cases h; done)
    | (obtain ⟨m, hm, hn⟩ := with_msg_ok _ _ _ h
       rw [hn]
       first
         | exact flower_parse_eth_addr_grows _ _ _ _ _ _ hm
         | exact flower_parse_ip_tos_ttl_grows _ _ _ _ _ _ hm
         | exact flower_parse_ip_addr_grows _ _ _ _ _ _ _ _ _ hm
         | exact flower_parse_port_grows _ _ _ _ _ _ hm
         | exact flower_parse_tcp_flags_grows _ _ _ _ _ _ hm
         | exact flower_parse_icmp_grows _ _ _ _ _ _ _ hm
         | exact flower_parse_arp_ip_addr_grows _ _ _ _ _ _ _ hm
         | exact flower_parse_arp_op_grows _ _ _ _ _ _ _ hm
         | exact flower_parse_key_id_grows _ _ _ _ _ hm
         | exact flower_parse_enc_port_grows _ _ _ _ _ hm
         | exact flower_parse_enc_opts_grows _ _ _ _ hm)
    | (repeat' (first | split at h | (dsimp only at h; split at h))
       all_goals first
         | (cases h; done)
         | exact parse_vid_grows _ _ _ _ _ h
         | exact parse_small_u8_grows _ _ _ _ _ _ h
         | (rename_i heq
            cases h
            first
              | exact flower_parse_vlan_eth_type_grows _ _ _ _ _ _ _ heq
              | exact flower_parse_ip_proto_grows _ _ _ _ _ _ _ heq)
         | (cases h
            repeat (first
              | exact grows_refl _
              | apply addattr_l_grows
              | apply addattr8_grows
              | apply addattr16_grows
              | apply addattr32_grows)))

/-- One pass of the argument loop only appends to the message, when
`parse_action` does. -/
theorem flower_parse_arg_grows (E : Ext) (eth_type : Nat) (st st1 : ParseState)
    (a : String) (rest rest1 : List String)
    (hact : ∀ (args : List String) (t : AttrId) (m m' : nlmsghdr) (k : Nat),
      E.parse_action args t m = some (k, m') →
        m.attrs <+: m'.attrs ∧ m.nlmsg_len ≤ m'.nlmsg_len)
    (h : flower_parse_arg E eth_type st a rest = .ok (st1, rest1)) :
    st.n.attrs <+: st1.n.attrs ∧ st.n.nlmsg_len ≤ st1.n.nlmsg_len := by
  unfold flower_parse_arg at h
  split at h
  · cases h
    exact grows_refl _
  · cases h
    exact grows_refl _
  · cases h
    exact grows_refl _
  · cases h
  · cases h
  · split at h
    · cases h
    · split at h
      · cases h
      · rename_i used m hm
        cases h
        exact hact _ _ _ _ _ hm
  · split at h
    · cases h
    · split at h
      · cases h
      · rename_i st2 hv
        cases h
        exact flower_parse_value_grows E eth_type _ st _ _ hv

/-- The argument loop only appends to the message. -/
theorem flower_parse_args_grows (E : Ext) (eth_type : Nat)
    (hact : ∀ (args : List String) (t : AttrId) (m m' : nlmsghdr) (k : Nat),
      E.parse_action args t m = some (k, m') →
        m.attrs <+: m'.attrs ∧ m.nlmsg_len ≤ m'.nlmsg_len)
    (fuel : Nat) :
    ∀ (st st1 : ParseState) (argv : List String),
      flower_parse_args E eth_type fuel st argv = .ok st1 →
      st.n.attrs <+: st1.n.attrs ∧ st.n.nlmsg_len ≤ st1.n.nlmsg_len := by
  induction fuel with
  | zero =>
    intro st st1 argv h
    cases argv with
    | nil =>
      simp only [flower_parse_args, Except.ok.injEq] at h
      rw [← h]
      exact grows_refl _
    | cons a r => simp [flower_parse_args] at h
  | succ f ih =>
    intro st st1 argv h
    cases argv with
    | nil =>
      simp only [flower_parse_args, Except.ok.injEq] at h
      rw [← h]
      exact grows_refl _
    | cons a r =>
      simp only [flower_parse_args] at h
      cases h1 : flower_parse_arg E eth_type st a r with
      | error e => simp [h1] at h
      | ok x =>
        obtain ⟨st2, r2⟩ := x
        simp only [h1] at h
        exact grows_trans _ _ _ (flower_parse_arg_grows E eth_type st st2 a r r2 hact h1)
          (ih _ _ _ h)

/-- A successful append leaves the message within `maxlen` and moves its end
by the aligned size of the record. -/
theorem addattr_l_ret_zero (n : nlmsghdr) (maxlen : Nat) (t : AttrId) (d : List Nat)
    (hret : ¬ (addattr_l n maxlen t d).1 ≠ 0) :
    (n.attrs <+: (addattr_l n maxlen t d).2.attrs ∧
        n.nlmsg_len ≤ (addattr_l n maxlen t d).2.nlmsg_len) ∧
      (addattr_l n maxlen t d).2.nlmsg_len ≤ maxlen ∧
      NLMSG_ALIGN n.nlmsg_len + NLMSG_ALIGN (4 + d.length)
        ≤ (addattr_l n maxlen t d).2.nlmsg_len := by
  refine ⟨addattr_l_grows n n maxlen t d (grows_refl n), ?_⟩
  by_cases hfit : NLMSG_ALIGN n.nlmsg_len + NLMSG_ALIGN (4 + d.length) ≤ maxlen
  · rw [addattr_l_room n maxlen t d hfit]
    exact ⟨hfit, le_refl _⟩
  · exfalso
    apply hret
    unfold addattr_l RTA_LENGTH
    rw [if_pos (by omega)]
    exact (by decide : (-1 : Int) ≠ 0)

/-- The code after `parse_done`, when it returns 0: the records it appended fit
in the buffer, and the length field of the record at `tail` is patched. -/
theorem flower_parse_done_ok (E : Ext) (eth_type : Nat) (tail : Nat × Nat) (st : ParseState)
    (n' : nlmsghdr) (h : flower_parse_done E eth_type tail st = .ok n') :
    ∃ n6 : nlmsghdr, (st.n.attrs <+: n6.attrs ∧ st.n.nlmsg_len ≤ n6.nlmsg_len) ∧
      n6.nlmsg_len ≤ E.MAX_MSG ∧ NLMSG_ALIGN st.n.nlmsg_len + 8 ≤ n6.nlmsg_len ∧
      n' = { n6 with
        attrs := set_rta_len n6.attrs tail.1 ((n6.nlmsg_len - tail.2) % 2 ^ 16) } := by
  unfold flower_parse_done at h
  dsimp only at h
  split at h
  · cases h
  · rename_i hret
    have f1 := addattr_l_ret_zero _ _ _ _ hret
    rw [u32_mem_length] at f1
    have f8 : NLMSG_ALIGN (4 + 4) = 8 := by decide
    rw [f8] at f1
    split at h
    · cases h
    · rename_i n4 h4
      split at h
      · cases h
      · rename_i n6 h6
        cases h
        have g4 : ((addattr32 E.le st.n E.MAX_MSG .TCA_FLOWER_FLAGS st.flags).2.attrs
              <+: n4.attrs ∧
            (addattr32 E.le st.n E.MAX_MSG .TCA_FLOWER_FLAGS st.flags).2.nlmsg_len
              ≤ n4.nlmsg_len) ∧ n4.nlmsg_len ≤ E.MAX_MSG := by
          split at h4
          · split at h4
            · cases h4
            · rename_i hret2
              split at h4
              · cases h4
              · rename_i hret3
                cases h4
                have f2 := addattr_l_ret_zero _ _ _ _ hret2
                have f3 := addattr_l_ret_zero _ _ _ _ hret3
                exact ⟨grows_trans _ _ _ f2.1 f3.1, f3.2.1⟩
          · cases h4
            exact ⟨grows_refl _, f1.2.1⟩
        have g6 : (n4.attrs <+: n6.attrs ∧ n4.nlmsg_len ≤ n6.nlmsg_len) ∧
            n6.nlmsg_len ≤ E.MAX_MSG := by
          split at h6
          · split at h6
            · cases h6
            · rename_i hret5
              cases h6
              have f5 := addattr_l_ret_zero _ _ _ _ hret5
              exact ⟨f5.1, f5.2.1⟩
          · cases h6
            exact ⟨grows_refl _, g4.2⟩
        refine ⟨n6, grows_trans _ _ _ f1.1 (grows_trans _ _ _ g4.1 g6.1), g6.2, ?_, rfl⟩
        have a := g4.1.2
        have b := g6.1.2
        have c := f1.2.2
        exact le_trans c (le_trans a b)

/-- C29 (options nest balance): when `flower_parse_opt` accepts an argument
list, the message holds the records it had, then the `TCA_OPTIONS` record, then
everything the call appended; the length field `L` of the `TCA_OPTIONS` record
is the number of bytes from its start (the aligned end of the message on
entry) to the end of the message, so the message length is that aligned offset
plus `L`. The buffer size is below `2 ^ 16`, the range of the length field, and
`parse_action` only appends to the message. -/
theorem C29_options_nest_balance (E : Ext) (handle : Option String) (argv : List String)
    (n n' : nlmsghdr) (hmax : E.MAX_MSG < 2 ^ 16)
    (hact : ∀ (args : List String) (t : AttrId) (m m' : nlmsghdr) (k : Nat),
      E.parse_action args t m = some (k, m') →
        m.attrs <+: m'.attrs ∧ m.nlmsg_len ≤ m'.nlmsg_len)
    (h : flower_parse_opt E handle argv n = .ok n') :
    ∃ (L : Nat) (rest : List rtattr),
      n'.attrs = n.attrs ++ { rta_len := L, rta_type := .TCA_OPTIONS, data := [] } :: rest ∧
      L = n'.nlmsg_len - NLMSG_ALIGN n.nlmsg_len ∧
      n'.nlmsg_len = NLMSG_ALIGN n.nlmsg_len + L := by
  unfold flower_parse_opt at h
  dsimp only at h
  split at h
  · cases h
  · rename_i n1 hb
    split at h
    · cases h
    · rename_i st hargs
      obtain ⟨n6, g6, b6, c6, rfl⟩ := flower_parse_done_ok E _ _ st n' h
      have gargs := flower_parse_args_grows E _ hact _ _ _ _ hargs
      simp only [initial_state] at gargs
      have hn1 : ∃ n0 : nlmsghdr, n0.attrs = n.attrs ∧ n0.nlmsg_len = n.nlmsg_len ∧
          n1 = (addattr_l n0 E.MAX_MSG .TCA_OPTIONS []).2 := by
        unfold flower_parse_begin at hb
        dsimp only at hb
        split at hb
        · cases hb
        · rename_i n0 h0
          cases hb
          split at h0
          · cases h0
            exact ⟨_, by rfl, by rfl, rfl⟩
          · split at h0
            · cases h0
            · cases h0
              exact ⟨_, by rfl, by rfl, rfl⟩
      obtain ⟨n0, ha0, hl0, rfl⟩ := hn1
      have hge := addattr_l_grows n0 n0 E.MAX_MSG .TCA_OPTIONS [] (grows_refl n0)
      have hlen : NLMSG_ALIGN n.nlmsg_len + 8 ≤ n6.nlmsg_len := by
        have := NLMSG_ALIGN_mono _ _ (le_trans hge.2 gargs.2)
        rw [hl0] at this
        omega
      have hroom : NLMSG_ALIGN n0.nlmsg_len + NLMSG_ALIGN (4 + ([] : List Nat).length)
          ≤ E.MAX_MSG := by
        rw [hl0]
        have : NLMSG_ALIGN (4 + ([] : List Nat).length) = 4 := by decide
        rw [this]
        omega
      rw [addattr_l_room n0 E.MAX_MSG .TCA_OPTIONS [] hroom] at gargs
      dsimp only at gargs
      obtain ⟨rest, hrest⟩ := gargs.1.trans g6.1
      rw [ha0] at hrest
      simp only [List.append_assoc, List.singleton_append, List.length_nil,
        Nat.add_zero] at hrest
      refine ⟨n6.nlmsg_len - NLMSG_ALIGN n.nlmsg_len, rest, ?_, rfl, by dsimp only; omega⟩
      dsimp only
      rw [← hrest, set_rta_len_append, Nat.mod_eq_of_lt (by omega)]

/-- C29 witness: the example helpers on a little-endian host, an empty request
with an IPv4 filter and the arguments of scenario 2; the `TCA_OPTIONS` record
says 60 bytes and the message ends 60 bytes after its start. -/
theorem C29_options_nest_balance_witness :
    (demoExt true).MAX_MSG < 2 ^ 16 ∧
    flower_parse_opt (demoExt true) none
      ["dst_ip", "10.0.0.0/24", "ip_proto", "tcp", "dst_port", "80-443"]
      (empty_msg (htons true ETH_P_IP))
      = .ok { empty_msg (htons true ETH_P_IP) with
        nlmsg_len := NLMSG_ALIGN (empty_msg (htons true ETH_P_IP)).nlmsg_len + 60
        attrs := (empty_msg (htons true ETH_P_IP)).attrs ++
          [{ rta_len := 60, rta_type := .TCA_OPTIONS, data := [] },
           { rta_len := 8, rta_type := .TCA_FLOWER_KEY_IPV4_DST, data := [10, 0, 0, 0] },
           { rta_len := 8, rta_type := .TCA_FLOWER_KEY_IPV4_DST_MASK,
             data := [255, 255, 255, 0] },
           { rta_len := 5, rta_type := .TCA_FLOWER_KEY_IP_PROTO, data := [6] },
           { rta_len := 6, rta_type := .TCA_FLOWER_KEY_PORT_DST_MIN, data := [0, 80] },
           { rta_len := 6, rta_type := .TCA_FLOWER_KEY_PORT_DST_MAX, data := [1, 187] },
           { rta_len := 8, rta_type := .TCA_FLOWER_FLAGS,
             data := u32_mem (demoExt true).le 0 },
           { rta_len := 6, rta_type := .TCA_FLOWER_KEY_ETH_TYPE, data := [8, 0] }] } ∧
    ∃ (L : Nat) (rest : List rtattr),
      ((empty_msg (htons true ETH_P_IP)).attrs ++
          [{ rta_len := 60, rta_type := .TCA_OPTIONS, data := [] },
           { rta_len := 8, rta_type := .TCA_FLOWER_KEY_IPV4_DST, data := [10, 0, 0, 0] },
           { rta_len := 8, rta_type := .TCA_FLOWER_KEY_IPV4_DST_MASK,
             data := [255, 255, 255, 0] },
           { rta_len := 5, rta_type := .TCA_FLOWER_KEY_IP_PROTO, data := [6] },
           { rta_len := 6, rta_type := .TCA_FLOWER_KEY_PORT_DST_MIN, data := [0, 80] },
           { rta_len := 6, rta_type := .TCA_FLOWER_KEY_PORT_DST_MAX, data := [1, 187] },
           { rta_len := 8, rta_type := .TCA_FLOWER_FLAGS,
             data := u32_mem (demoExt true).le 0 },
           { rta_len := 6, rta_type := .TCA_FLOWER_KEY_ETH_TYPE, data := [8, 0] }])
        = (empty_msg (htons true ETH_P_IP)).attrs ++
          { rta_len := L, rta_type := .TCA_OPTIONS, data := [] } :: rest ∧
      L = NLMSG_ALIGN (empty_msg (htons true ETH_P_IP)).nlmsg_len + 60
        - NLMSG_ALIGN (empty_msg (htons true ETH_P_IP)).nlmsg_len ∧
      NLMSG_ALIGN (empty_msg (htons true ETH_P_IP)).nlmsg_len + 60
        = NLMSG_ALIGN (empty_msg (htons true ETH_P_IP)).nlmsg_len + L :=
  ⟨by decide,
   scenario2_ipv4 (demoExt true) (empty_msg (htons true ETH_P_IP)) (by decide) (by decide)
    (by decide) (by decide) (by decide) (by decide) (by decide) (by decide) (by decide),
   C29_options_nest_balance (demoExt true) none
    ["dst_ip", "10.0.0.0/24", "ip_proto", "tcp", "dst_port", "80-443"]
    (empty_msg (htons true ETH_P_IP)) _ (by decide)
    (fun _ _ _ _ _ h => by simp [demoExt] at h)
    (scenario2_ipv4 (demoExt true) (empty_msg (htons true ETH_P_IP)) (by decide) (by decide)
      (by decide) (by decide) (by decide) (by decide) (by decide) (by decide) (by decide))⟩

end Flower
